import Mathlib

/-!
# CloudViewer (rtabmap guilib): a shallow embedding

The 3D viewer widget of `guilib/src/CloudViewer.cpp` as a state record and one
state transformer per member function.  Scalars (`float`, `double`) are exact
rationals, except in `addGrid`, whose loop is steered by a `float` counter: there the
arithmetic is that of IEEE 754 single precision (type `F32`), rounding included;
`unsigned int` values are naturals; `std::set<std::string>` is a list
of ids (insertion keeps it duplicate free; no modelled loop depends on the order of
iteration); `QMap<std::string, Transform>` is an association list.  The code is read
with `PCL_VERSION >= 1.7.2` and without `_WIN32`.  A call that does not return (a
failed `UASSERT`, a loop without end) yields `none`.  The free function
`rotatePointAroundAxe`, which takes a square root, a cosine and a sine, has scalars of
any field and is studied over the reals.
-/

set_option linter.unusedVariables false

namespace Rtabmap

/-! ## Containers -/

/-- Insertion into a `std::set<std::string>`: nothing happens when the key is there. -/
def setInsert (id : String) (s : List String) : List String :=
  if id ∈ s then s else id :: s

/-- Erasure of a key from a `std::set<std::string>`. -/
def setErase (id : String) (s : List String) : List String :=
  s.filter (fun x => decide (x ≠ id))

/-- Keys of an association list (`QMap::keys`, `std::map` iteration). -/
def mapKeys {β : Type} (m : List (String × β)) : List String :=
  m.map Prod.fst

/-- Lookup in an association list (`QMap::find`, `std::map::find`). -/
def mapFind {β : Type} (id : String) : List (String × β) → Option β
  | [] => none
  | (k, v) :: m => if k = id then some v else mapFind id m

/-- Removal of a key (`QMap::remove`, `std::map::erase`). -/
def mapRemove {β : Type} (id : String) (m : List (String × β)) : List (String × β) :=
  m.filter (fun kv => decide (kv.1 ≠ id))

/-- The insertion `QMap::insert`, which replaces the value of a key that is there. -/
def mapInsert {β : Type} (id : String) (v : β) (m : List (String × β)) : List (String × β) :=
  (id, v) :: mapRemove id m

/-- Update in place of the value stored under a key, when the key is there. -/
def mapUpdate {β : Type} (id : String) (f : β → β) (m : List (String × β)) : List (String × β) :=
  m.map (fun kv => if kv.1 = id then (kv.1, f kv.2) else kv)

/-! ## Geometry -/

/-- A point or vector of three scalars (`Eigen::Vector3f`, `pcl::PointXYZ`, `QVector3D`). -/
structure Vec3 where
  x : ℚ
  y : ℚ
  z : ℚ
  deriving DecidableEq

namespace Vec3

/-- Componentwise sum. -/
def add (a b : Vec3) : Vec3 := ⟨a.x + b.x, a.y + b.y, a.z + b.z⟩

/-- Componentwise difference. -/
def sub (a b : Vec3) : Vec3 := ⟨a.x - b.x, a.y - b.y, a.z - b.z⟩

/-- Cross product (`Eigen::Vector3f::cross`). -/
def cross (a b : Vec3) : Vec3 :=
  ⟨a.y * b.z - a.z * b.y, a.z * b.x - a.x * b.z, a.x * b.y - a.y * b.x⟩

end Vec3

/-- Modelled from the spec: `rtabmap::Transform` lives in the core library, outside
`src/`; the spec speaks of coordinate frames that are composed.  It is the 3x4
row-major matrix `[R | t]` as CloudViewer.cpp indexes it (`[3]`, `[7]`, `[11]` are
`x()`, `y()`, `z()`); the default-constructed value is the all-zero (null) matrix. -/
structure Transform where
  r11 : ℚ
  r12 : ℚ
  r13 : ℚ
  o14 : ℚ
  r21 : ℚ
  r22 : ℚ
  r23 : ℚ
  o24 : ℚ
  r31 : ℚ
  r32 : ℚ
  r33 : ℚ
  o34 : ℚ
  deriving DecidableEq

namespace Transform

/-- Modelled from the spec: the default-constructed `Transform()` of the core library,
all entries zero. -/
def null : Transform := ⟨0, 0, 0, 0, 0, 0, 0, 0, 0, 0, 0, 0⟩

/-- Modelled from the spec: the identity frame `Transform::getIdentity()`. -/
def getIdentity : Transform := ⟨1, 0, 0, 0, 0, 1, 0, 0, 0, 0, 1, 0⟩

/-- Modelled from the spec: the test `Transform::isNull()`, every entry is zero. -/
def isNull (t : Transform) : Bool := decide (t = null)

/-- Translation part `(x(), y(), z())`. -/
def translation (t : Transform) : Vec3 := ⟨t.o14, t.o24, t.o34⟩

/-- Modelled from the spec: the constructor `Transform(x, y, z, 0, 0, 0)` of the core
library, a pure translation. -/
def ofTranslation (x y z : ℚ) : Transform := ⟨1, 0, 0, x, 0, 1, 0, y, 0, 0, 1, z⟩

/-- Modelled from the spec: the composition `a * b` of two frames (`operator*` of the
core library), the product of the affine matrices. -/
def mul (a b : Transform) : Transform :=
  ⟨a.r11 * b.r11 + a.r12 * b.r21 + a.r13 * b.r31,
   a.r11 * b.r12 + a.r12 * b.r22 + a.r13 * b.r32,
   a.r11 * b.r13 + a.r12 * b.r23 + a.r13 * b.r33,
   a.r11 * b.o14 + a.r12 * b.o24 + a.r13 * b.o34 + a.o14,
   a.r21 * b.r11 + a.r22 * b.r21 + a.r23 * b.r31,
   a.r21 * b.r12 + a.r22 * b.r22 + a.r23 * b.r32,
   a.r21 * b.r13 + a.r22 * b.r23 + a.r23 * b.r33,
   a.r21 * b.o14 + a.r22 * b.o24 + a.r23 * b.o34 + a.o24,
   a.r31 * b.r11 + a.r32 * b.r21 + a.r33 * b.r31,
   a.r31 * b.r12 + a.r32 * b.r22 + a.r33 * b.r32,
   a.r31 * b.r13 + a.r32 * b.r23 + a.r33 * b.r33,
   a.r31 * b.o14 + a.r32 * b.o24 + a.r33 * b.o34 + a.o34⟩

/-- Determinant of the linear part. -/
def det (t : Transform) : ℚ :=
  t.r11 * (t.r22 * t.r33 - t.r23 * t.r32) - t.r12 * (t.r21 * t.r33 - t.r23 * t.r31)
    + t.r13 * (t.r21 * t.r32 - t.r22 * t.r31)

/-- Modelled from the spec: the inverse frame `Transform::inverse()` of the core
library (inverse of the 4x4 affine matrix).  Where the linear part is singular the
library result is not a number; the quotient by zero below is then zero. -/
def inverse (t : Transform) : Transform :=
  let d := t.det
  let i11 := (t.r22 * t.r33 - t.r23 * t.r32) / d
  let i12 := (t.r13 * t.r32 - t.r12 * t.r33) / d
  let i13 := (t.r12 * t.r23 - t.r13 * t.r22) / d
  let i21 := (t.r23 * t.r31 - t.r21 * t.r33) / d
  let i22 := (t.r11 * t.r33 - t.r13 * t.r31) / d
  let i23 := (t.r13 * t.r21 - t.r11 * t.r23) / d
  let i31 := (t.r21 * t.r32 - t.r22 * t.r31) / d
  let i32 := (t.r12 * t.r31 - t.r11 * t.r32) / d
  let i33 := (t.r11 * t.r22 - t.r12 * t.r21) / d
  ⟨i11, i12, i13, -(i11 * t.o14 + i12 * t.o24 + i13 * t.o34),
   i21, i22, i23, -(i21 * t.o14 + i22 * t.o24 + i23 * t.o34),
   i31, i32, i33, -(i31 * t.o14 + i32 * t.o24 + i33 * t.o34)⟩

/-- Image of a point under the transform (`pcl::transformPoint`). -/
def apply (t : Transform) (p : Vec3) : Vec3 :=
  ⟨t.r11 * p.x + t.r12 * p.y + t.r13 * p.z + t.o14,
   t.r21 * p.x + t.r22 * p.y + t.r23 * p.z + t.o24,
   t.r31 * p.x + t.r32 * p.y + t.r33 * p.z + t.o34⟩

end Transform

/-- A colour `QColor`: the invalid colour, or red, green and blue in `0..255`. -/
inductive QColor where
  | invalid : QColor
  | rgb (r g b : Nat) : QColor
  deriving DecidableEq

namespace QColor

/-- The colour `Qt::gray`. -/
def gray : QColor := rgb 160 160 164

/-- The colour `Qt::black`. -/
def black : QColor := rgb 0 0 0

/-- The test `QColor::isValid()`. -/
def isValid : QColor → Bool
  | invalid => false
  | rgb _ _ _ => true

/-- Components `(red(), green(), blue())`; all zero for the invalid colour. -/
def components : QColor → Nat × Nat × Nat
  | invalid => (0, 0, 0)
  | rgb r g b => (r, g, b)

/-- Components `(redF(), greenF(), blueF())` in `[0, 1]`. -/
def componentsF (c : QColor) : Vec3 :=
  ⟨(c.components.1 : ℚ) / 255, (c.components.2.1 : ℚ) / 255, (c.components.2.2 : ℚ) / 255⟩

end QColor

/-! ## Single precision

The C++ type `float` as far as `addGrid` computes with it: conversion from `int`,
negation, product, sum and comparison, rounded to nearest with ties to even. -/

/-- A value of the C++ type `float` (IEEE 754 single precision).  A finite value is held
as its count of units of `2^-149`, the smallest positive `float`, of which every finite
`float` is a whole number.  The sign of a zero is not kept: no operation used here tells
`-0` from `0`. -/
inductive F32 where
  | nan
  | negInf
  | posInf
  | fin (units : Int)
  deriving DecidableEq

namespace F32

/-- Position of the leading bit of `n`, counted down by halving at most `fuel` times. -/
def log2Aux : Nat → Nat → Nat
  | 0, _ => 0
  | fuel + 1, n => if n < 2 then 0 else log2Aux fuel (n / 2) + 1

/-- Position of the leading bit of `n` (0 for `n = 0`). -/
def log2 (n : Nat) : Nat := log2Aux n n

/-- Rounding of the magnitude `n * 2^-shift` units to what a `float` holds: at most 24
significant bits and no bit below one unit, to nearest, a tie to the even neighbour.
The result is a number of units. -/
def roundNat (n shift : Nat) : Nat :=
  let drop := max (log2 n - 23) shift
  let q := n / 2 ^ drop
  let r := n % 2 ^ drop
  let q1 := if 2 * r < 2 ^ drop then q else if 2 ^ drop < 2 * r then q + 1
            else if q % 2 = 0 then q else q + 1
  q1 * 2 ^ (drop - shift)

/-- Rounding of the exact value `z * 2^-shift` units to a `float`; a result of magnitude
`2^128` (`2^277` units) or more is infinite. -/
def round (z : Int) (shift : Nat) : F32 :=
  if 2 ^ 277 ≤ roundNat z.natAbs shift then (if z < 0 then negInf else posInf)
  else fin (z.sign * (roundNat z.natAbs shift : Int))

/-- The conversion `float(n)` of an `int`. -/
def ofInt (n : Int) : F32 := round (n * 2 ^ 149) 0

/-- The `float` nearest to a scalar of the model: what a `float` variable holds when the
scalar is stored in it.  The scalar is cut after two bits below the unit, with a third
bit that records whether anything was cut off, and rounded from there. -/
def ofRat (q : ℚ) : F32 :=
  let t := q.num.natAbs * 2 ^ 151 / q.den
  let sticky : Nat := if q.num.natAbs * 2 ^ 151 % q.den = 0 then 0 else 1
  round (q.num.sign * ((2 * t + sticky : Nat) : Int)) 3

/-- The value of a finite `float` as a scalar of the model.  An infinite or undefined
coordinate has no scalar; it stands as 0, and arises in `addGrid` only when `max`
overflows. -/
def toRat : F32 → ℚ
  | fin u => (u : ℚ) / 2 ^ 149
  | _ => 0

/-- Unary minus. -/
def neg : F32 → F32
  | nan => nan
  | negInf => posInf
  | posInf => negInf
  | fin u => fin (-u)

/-- The product `x * y`. -/
def mul : F32 → F32 → F32
  | fin a, fin b => round (a * b) 149
  | fin a, posInf => if a = 0 then nan else if 0 < a then posInf else negInf
  | fin a, negInf => if a = 0 then nan else if 0 < a then negInf else posInf
  | posInf, fin b => if b = 0 then nan else if 0 < b then posInf else negInf
  | negInf, fin b => if b = 0 then nan else if 0 < b then negInf else posInf
  | posInf, posInf => posInf
  | posInf, negInf => negInf
  | negInf, posInf => negInf
  | negInf, negInf => posInf
  | nan, _ => nan
  | fin _, nan => nan
  | posInf, nan => nan
  | negInf, nan => nan

/-- The sum `x + y`. -/
def add : F32 → F32 → F32
  | fin a, fin b => round (a + b) 0
  | fin _, posInf => posInf
  | fin _, negInf => negInf
  | posInf, fin _ => posInf
  | negInf, fin _ => negInf
  | posInf, posInf => posInf
  | negInf, negInf => negInf
  | posInf, negInf => nan
  | negInf, posInf => nan
  | nan, _ => nan
  | fin _, nan => nan
  | posInf, nan => nan
  | negInf, nan => nan

/-- The comparison `x <= y`, false as soon as one side is undefined. -/
def le : F32 → F32 → Bool
  | fin a, fin b => decide (a ≤ b)
  | negInf, fin _ => true
  | negInf, negInf => true
  | negInf, posInf => true
  | fin _, posInf => true
  | posInf, posInf => true
  | fin _, negInf => false
  | posInf, fin _ => false
  | posInf, negInf => false
  | nan, _ => false
  | fin _, nan => false
  | posInf, nan => false
  | negInf, nan => false

/-- The magnitude is left as it is by rounding: it has at most 24 significant bits. -/
def Exact (n : Nat) : Prop := roundNat n 0 = n

/-- The number of units is that of a `float`: at most 24 significant bits, and below
`2^128`. -/
def Rep (u : Int) : Prop := Exact u.natAbs ∧ u.natAbs < 2 ^ 277

end F32

/-! ## The renderer

`pcl::visualization::PCLVisualizer` is a third-party library.  Its state is kept as
far as CloudViewer.cpp drives it: the camera, the cloud actor map, the shape actor
map, the coordinate actor map and the background.  Of the data handed to it (clouds,
meshes) only one bit is kept, `renderable`: whether the renderer accepts the data
under a free id. -/

/-- Camera of the renderer (`pcl::visualization::Camera`). -/
structure Camera where
  pos : Vec3
  focal : Vec3
  view : Vec3
  deriving DecidableEq

/-- Entry of the cloud actor map: the properties CloudViewer.cpp reads or writes. -/
structure CloudActor where
  colorHandlers : Nat
  colorHandlerIndex : Nat
  pose : Transform
  opacity : ℚ
  pointSize : ℚ
  visible : Bool
  lighting : Bool
  backfaceCulling : Bool
  frontfaceCulling : Bool
  deriving DecidableEq

/-- Entry of the shape actor map. -/
inductive Shape where
  | polyline (points : List Vec3) (indices : List Nat) (color : Vec3) (pose : Transform) : Shape
  | text3D (text : String) (position : Vec3) (scale : ℚ) (color : Vec3) : Shape
  | line (p1 p2 : Vec3) (color : Vec3) : Shape
  deriving DecidableEq

/-- Modelled from the spec: the underlying rendering library to which the widget
delegates (`_visualizer`); it is not part of `src/`. -/
structure Visualizer where
  camera : Camera
  clouds : List (String × CloudActor)
  shapes : List (String × Shape)
  coordinates : List (String × ℚ × Transform)
  background : Vec3
  deriving DecidableEq

namespace Visualizer

/-- Actor of a cloud that has just been added with one colour handler. -/
def newActor (pose : Transform) : CloudActor :=
  ⟨1, 0, pose, 1, 1, true, true, false, false⟩

/-- Modelled from the spec: renderer call `setCameraPosition`, storing position, focal
point and view-up. -/
def setCameraPosition (v : Visualizer) (x y z fx fy fz ux uy uz : ℚ) : Visualizer :=
  { v with camera := ⟨⟨x, y, z⟩, ⟨fx, fy, fz⟩, ⟨ux, uy, uz⟩⟩ }

/-- Modelled from the spec: renderer call `addPointCloud` with a colour handler.  Under
an id it holds, the handler is appended and the call succeeds; under a free id the
cloud is added when it is renderable. -/
def addPointCloud (v : Visualizer) (renderable : Bool) (pose : Transform) (id : String) :
    Visualizer × Bool :=
  if id ∈ mapKeys v.clouds then
    ({ v with clouds :=
        mapUpdate id (fun a => { a with colorHandlers := a.colorHandlers + 1 }) v.clouds }, true)
  else if renderable then
    ({ v with clouds := (id, newActor pose) :: v.clouds }, true)
  else
    (v, false)

/-- Modelled from the spec: renderer calls `addPolygonMesh` and `addTextureMesh`,
refused under an id the cloud actor map holds. -/
def addMesh (v : Visualizer) (renderable : Bool) (id : String) : Visualizer × Bool :=
  if id ∈ mapKeys v.clouds then (v, false)
  else if renderable then
    ({ v with clouds := (id, newActor Transform.getIdentity) :: v.clouds }, true)
  else
    (v, false)

/-- Modelled from the spec: renderer call `removePointCloud`; the result tells whether
the id was held. -/
def removePointCloud (v : Visualizer) (id : String) : Visualizer × Bool :=
  ({ v with clouds := mapRemove id v.clouds }, decide (id ∈ mapKeys v.clouds))

/-- Modelled from the spec: renderer call `removeAllPointClouds`. -/
def removeAllPointClouds (v : Visualizer) : Visualizer :=
  { v with clouds := [] }

/-- Modelled from the spec: renderer call `updatePointCloudPose`; the result tells
whether the id was held. -/
def updatePointCloudPose (v : Visualizer) (id : String) (pose : Transform) :
    Visualizer × Bool :=
  ({ v with clouds := mapUpdate id (fun a => { a with pose := pose }) v.clouds },
   decide (id ∈ mapKeys v.clouds))

/-- Modelled from the spec: renderer call `getColorHandlerIndex`, `-1` for an id that
is not held. -/
def getColorHandlerIndex (v : Visualizer) (id : String) : Int :=
  match mapFind id v.clouds with
  | some a => (a.colorHandlerIndex : Int)
  | none => -1

/-- Modelled from the spec: renderer call `updateColorHandlerIndex`, which ignores an
index that names no handler of the cloud. -/
def updateColorHandlerIndex (v : Visualizer) (id : String) (index : Nat) : Visualizer :=
  let f : CloudActor → CloudActor := fun a =>
    if index < a.colorHandlers then { a with colorHandlerIndex := index } else a
  { v with clouds := mapUpdate id f v.clouds }

/-- Modelled from the spec: renderer call `removeShape`.  It erases the shape of that
id; when the shape actor map has no such id, a cloud actor of that id is erased
instead (this is how the renderer removes polygon meshes). -/
def removeShape (v : Visualizer) (id : String) : Visualizer :=
  if id ∈ mapKeys v.shapes then { v with shapes := mapRemove id v.shapes }
  else { v with clouds := mapRemove id v.clouds }

/-- Modelled from the spec: renderer call `addPolylineFromPolygonMesh`, refused under
an id the shape actor map holds. -/
def addPolylineFromPolygonMesh (v : Visualizer) (points : List Vec3) (indices : List Nat)
    (id : String) : Visualizer :=
  if id ∈ mapKeys v.shapes then v
  else { v with shapes :=
           (id, Shape.polyline points indices ⟨1, 1, 1⟩ Transform.getIdentity) :: v.shapes }

/-- Modelled from the spec: renderer call `setShapeRenderingProperties` for the colour
of a polyline or line. -/
def setShapeColor (v : Visualizer) (color : Vec3) (id : String) : Visualizer :=
  let f : Shape → Shape := fun sh =>
    match sh with
    | Shape.polyline pts idx _ pose => Shape.polyline pts idx color pose
    | Shape.line p1 p2 _ => Shape.line p1 p2 color
    | Shape.text3D t p sc c => Shape.text3D t p sc c
  { v with shapes := mapUpdate id f v.shapes }

/-- Modelled from the spec: renderer call `updateShapePose`; the result tells whether
the id was held. -/
def updateShapePose (v : Visualizer) (id : String) (pose : Transform) : Visualizer × Bool :=
  let f : Shape → Shape := fun sh =>
    match sh with
    | Shape.polyline pts idx c _ => Shape.polyline pts idx c pose
    | Shape.line p1 p2 c => Shape.line p1 p2 c
    | Shape.text3D t p sc c => Shape.text3D t p sc c
  ({ v with shapes := mapUpdate id f v.shapes }, decide (id ∈ mapKeys v.shapes))

/-- Modelled from the spec: renderer call `addText3D`, refused under an id the shape
actor map holds. -/
def addText3D (v : Visualizer) (text : String) (position : Vec3) (scale : ℚ) (color : Vec3)
    (id : String) : Visualizer :=
  if id ∈ mapKeys v.shapes then v
  else { v with shapes := (id, Shape.text3D text position scale color) :: v.shapes }

/-- Modelled from the spec: renderer call `removeText3D`. -/
def removeText3D (v : Visualizer) (id : String) : Visualizer :=
  { v with shapes := mapRemove id v.shapes }

/-- Modelled from the spec: renderer call `addLine`, refused under an id the shape
actor map holds. -/
def addLine (v : Visualizer) (p1 p2 : Vec3) (color : Vec3) (id : String) : Visualizer :=
  if id ∈ mapKeys v.shapes then v
  else { v with shapes := (id, Shape.line p1 p2 color) :: v.shapes }

/-- Modelled from the spec: renderer call `addCoordinateSystem`. -/
def addCoordinateSystem (v : Visualizer) (scale : ℚ) (t : Transform) (id : String) :
    Visualizer :=
  { v with coordinates := mapInsert id (scale, t) v.coordinates }

/-- Modelled from the spec: renderer call `removeCoordinateSystem`. -/
def removeCoordinateSystem (v : Visualizer) (id : String) : Visualizer :=
  { v with coordinates := mapRemove id v.coordinates }

/-- Modelled from the spec: renderer call `updateCoordinateSystemPose`; the result
tells whether the id was held. -/
def updateCoordinateSystemPose (v : Visualizer) (id : String) (pose : Transform) :
    Visualizer × Bool :=
  ({ v with coordinates := mapUpdate id (fun st => (st.1, pose)) v.coordinates },
   decide (id ∈ mapKeys v.coordinates))

/-- Modelled from the spec: renderer call `setBackgroundColor`. -/
def setBackgroundColor (v : Visualizer) (c : Vec3) : Visualizer :=
  { v with background := c }

end Visualizer

/-! ## The widget state -/

/-- Modelled from the spec: the assertion macro `UASSERT` of the utility library, not
part of `src/`.  A failed assertion is fatal and ends the call: the call then yields
no state. -/
def UASSERT (condition : Bool) : Option Unit :=
  if condition then some () else none

/-- State of a `CloudViewer`: the renderer it owns, its members, and the checked state
of its menu actions (the actions "Lock target", "Follow" and "Free" form one
exclusive `QActionGroup`).  `errors` collects the messages of `UERROR`. -/
structure CloudViewer where
  visualizer : Visualizer
  addedClouds : List (String × Transform)
  coordinates : List String
  frustums : List String
  graphes : List String
  texts : List String
  gridLines : List String
  trajectory : List Vec3
  maxTrajectorySize : Nat
  frustumScale : ℚ
  frustumColor : QColor
  gridCellCount : Nat
  gridCellSize : ℚ
  lastPose : Transform
  lastCameraOrientation : Vec3
  lastCameraPose : Vec3
  defaultBgColor : QColor
  currentBgColor : QColor
  backfaceCulling : Bool
  frontfaceCulling : Bool
  aLockCamera : Bool
  aFollowCamera : Bool
  freeCamera : Bool
  aLockViewZ : Bool
  aShowTrajectory : Bool
  aShowFrustum : Bool
  aShowGrid : Bool
  errors : List String
  deriving DecidableEq

namespace CloudViewer

/-- The log call `UERROR(msg)`. -/
def UERROR (s : CloudViewer) (msg : String) : CloudViewer :=
  { s with errors := s.errors ++ [msg] }

/-! ### Clouds -/

/-- Source function `CloudViewer::removeAllClouds`. -/
def removeAllClouds (s : CloudViewer) : CloudViewer :=
  { s with addedClouds := [], visualizer := s.visualizer.removeAllPointClouds }

/-- Source function `CloudViewer::removeCloud`. -/
def removeCloud (s : CloudViewer) (id : String) : CloudViewer × Bool :=
  let r := s.visualizer.removePointCloud id
  ({ s with visualizer := r.1, addedClouds := mapRemove id s.addedClouds }, r.2)

/-- Source function `CloudViewer::getPose`: the result and the value left in `pose`. -/
def getPose (s : CloudViewer) (id : String) (pose : Transform) : Bool × Transform :=
  match mapFind id s.addedClouds with
  | some p => (true, p)
  | none => (false, pose)

/-- Source function `CloudViewer::updateCloudPose`. -/
def updateCloudPose (s : CloudViewer) (id : String) (pose : Transform) : CloudViewer × Bool :=
  match mapFind id s.addedClouds with
  | some p =>
    if p = pose then
      ({ s with addedClouds := mapUpdate id (fun _ => pose) s.addedClouds }, true)
    else
      let r := s.visualizer.updatePointCloudPose id pose
      if r.2 then
        ({ s with visualizer := r.1,
                  addedClouds := mapUpdate id (fun _ => pose) s.addedClouds }, true)
      else
        ({ s with visualizer := r.1 }, false)
  | none => (s, false)

/-- The colour handler index that `addCloud` hands to `updateColorHandlerIndex`, if it
calls it at all: the chain of tests on `previousColorIndex` of lines 396 to 433. -/
def addCloudColorIndex (previousColorIndex : Int) (rgb haveNormals colorValid : Bool) :
    Option Nat :=
  let p1 : Int := if rgb then previousColorIndex
    else if previousColorIndex = 5 then -1 else previousColorIndex
  let p2 : Int := if haveNormals then p1 else if p1 > 5 then -1 else p1
  if p2 ≥ 0 then some p2.toNat
  else if rgb then some 5
  else if colorValid then some 1
  else none

/-- The colour handlers `addCloud` registers after the first one: custom colour, x, y,
z, then rgb and the three normals when present, each by one `addPointCloud`. -/
def addColorHandlers (v : Visualizer) (renderable : Bool) (pose : Transform) (id : String) :
    Nat → Visualizer
  | 0 => v
  | n + 1 => addColorHandlers (v.addPointCloud renderable pose id).1 renderable pose id n

/-- Source function `CloudViewer::addCloud` on a binary cloud (lines 357 to 439). -/
def addCloud (s : CloudViewer) (id : String) (renderable : Bool) (pose : Transform)
    (rgb haveNormals : Bool) (color : QColor) : CloudViewer × Bool :=
  let previousColorIndex : Int :=
    if id ∈ mapKeys s.addedClouds then s.visualizer.getColorHandlerIndex id else -1
  let s1 := if id ∈ mapKeys s.addedClouds then (s.removeCloud id).1 else s
  let r := s1.visualizer.addPointCloud renderable pose id
  if r.2 then
    let v1 := addColorHandlers r.1 renderable pose id
      (4 + (if rgb then 1 else 0) + (if haveNormals then 3 else 0))
    let v2 := match addCloudColorIndex previousColorIndex rgb haveNormals color.isValid with
      | some j => v1.updateColorHandlerIndex id j
      | none => v1
    ({ s1 with visualizer := v2, addedClouds := mapInsert id pose s1.addedClouds }, true)
  else
    ({ s1 with visualizer := r.1 }, false)

/-- Source function `CloudViewer::addCloud` on a `PointXYZRGBNormal` cloud. -/
def addCloudXYZRGBNormal (s : CloudViewer) (id : String) (pose : Transform) (color : QColor) :
    CloudViewer × Bool :=
  s.addCloud id true pose true true color

/-- Source function `CloudViewer::addCloud` on a `PointXYZRGB` cloud. -/
def addCloudXYZRGB (s : CloudViewer) (id : String) (pose : Transform) (color : QColor) :
    CloudViewer × Bool :=
  s.addCloud id true pose true false color

/-- Source function `CloudViewer::addCloud` on a `PointNormal` cloud. -/
def addCloudNormal (s : CloudViewer) (id : String) (pose : Transform) (color : QColor) :
    CloudViewer × Bool :=
  s.addCloud id true pose false true color

/-- Source function `CloudViewer::addCloud` on a `PointXYZ` cloud. -/
def addCloudXYZ (s : CloudViewer) (id : String) (pose : Transform) (color : QColor) :
    CloudViewer × Bool :=
  s.addCloud id true pose false false color

/-- The actor properties `addCloudMesh` sets on a mesh it has just added. -/
def meshProperties (s : CloudViewer) (a : CloudActor) : CloudActor :=
  { a with lighting := false,
           backfaceCulling := s.backfaceCulling || a.backfaceCulling,
           frontfaceCulling := s.frontfaceCulling || a.frontfaceCulling }

/-- Source function `CloudViewer::addCloudMesh` (the four overloads share this body). -/
def addCloudMesh (s : CloudViewer) (id : String) (renderable : Bool) (pose : Transform) :
    CloudViewer × Bool :=
  let s1 := if id ∈ mapKeys s.addedClouds then (s.removeCloud id).1 else s
  let r := s1.visualizer.addMesh renderable id
  if r.2 then
    let v1 := { r.1 with clouds := mapUpdate id s.meshProperties r.1.clouds }
    let v2 := (v1.updatePointCloudPose id pose).1
    ({ s1 with visualizer := v2, addedClouds := mapInsert id pose s1.addedClouds }, true)
  else
    ({ s1 with visualizer := r.1 }, false)

/-- Source function `CloudViewer::addCloudTextureMesh`. -/
def addCloudTextureMesh (s : CloudViewer) (id : String) (renderable : Bool)
    (pose : Transform) : CloudViewer × Bool :=
  let s1 := if id ∈ mapKeys s.addedClouds then (s.removeCloud id).1 else s
  let r := s1.visualizer.addMesh renderable id
  if r.2 then
    let v2 := (r.1.updatePointCloudPose id pose).1
    ({ s1 with visualizer := v2, addedClouds := mapInsert id pose s1.addedClouds }, true)
  else
    ({ s1 with visualizer := r.1 }, false)

/-- Source function `CloudViewer::setCloudVisibility`. -/
def setCloudVisibility (s : CloudViewer) (id : String) (isVisible : Bool) : CloudViewer :=
  if id ∈ mapKeys s.visualizer.clouds then
    { s with visualizer :=
        { s.visualizer with
          clouds := mapUpdate id (fun a => { a with visible := isVisible }) s.visualizer.clouds } }
  else
    s.UERROR ("Cannot find actor named \"" ++ id ++ "\".")

/-- Source function `CloudViewer::setCloudOpacity`: the opacity is written when the
renderer reports another one; for an id the renderer does not hold nothing changes. -/
def setCloudOpacity (s : CloudViewer) (id : String) (opacity : ℚ) : CloudViewer :=
  let f : CloudActor → CloudActor := fun a =>
    if a.opacity ≠ opacity then { a with opacity := opacity } else a
  { s with visualizer := { s.visualizer with clouds := mapUpdate id f s.visualizer.clouds } }

/-- Source function `CloudViewer::setCloudPointSize`: the last size is compared after
truncation to `int`. -/
def setCloudPointSize (s : CloudViewer) (id : String) (size : Int) : CloudViewer :=
  let f : CloudActor → CloudActor := fun a =>
    if Int.tdiv a.pointSize.num (a.pointSize.den : Int) ≠ size
    then { a with pointSize := (size : ℚ) } else a
  { s with visualizer := { s.visualizer with clouds := mapUpdate id f s.visualizer.clouds } }

/-- Source function `CloudViewer::setBackfaceCulling`. -/
def setBackfaceCulling (s : CloudViewer) (enabled frontfaceCulling : Bool) : CloudViewer :=
  { s with backfaceCulling := enabled, frontfaceCulling := frontfaceCulling }

/-! ### Coordinate frames -/

/-- Source function `CloudViewer::removeCoordinate`. -/
def removeCoordinate (s : CloudViewer) (id : String) : CloudViewer :=
  if id = "" then s.UERROR "id should not be empty!"
  else if id ∈ s.coordinates then
    { s with visualizer := s.visualizer.removeCoordinateSystem id,
             coordinates := setErase id s.coordinates }
  else s

/-- Source function `CloudViewer::addOrUpdateCoordinate`. -/
def addOrUpdateCoordinate (s : CloudViewer) (id : String) (transform : Transform)
    (scale : ℚ) : CloudViewer :=
  if id = "" then s.UERROR "id should not be empty!"
  else
    let s1 := s.removeCoordinate id
    if !transform.isNull then
      { s1 with coordinates := setInsert id s1.coordinates,
                visualizer := s1.visualizer.addCoordinateSystem scale transform id }
    else s1

/-- Source function `CloudViewer::updateCoordinatePose`. -/
def updateCoordinatePose (s : CloudViewer) (id : String) (pose : Transform) :
    CloudViewer × Bool :=
  if id ∈ s.coordinates ∧ !pose.isNull then
    let r := s.visualizer.updateCoordinateSystemPose id pose
    ({ s with visualizer := r.1 }, r.2)
  else (s, false)

/-- Source function `CloudViewer::removeAllCoordinates`: the per-id removal over a copy
of the set, then `UASSERT(_coordinates.empty())`. -/
def removeAllCoordinates (s : CloudViewer) : Option CloudViewer := do
  let s1 := s.coordinates.foldl (fun acc id => acc.removeCoordinate id) s
  UASSERT (decide (s1.coordinates = []))
  pure s1

/-! ### Frustums -/

/-- The table `frustum_vertices` (lines 780 to 785). -/
def frustum_vertices : List ℚ :=
  [0, 0, 0,
   1, 1, 1,
   1, -1, 1,
   1, -1, -1,
   1, 1, -1]

/-- The table `frustum_indices` (lines 787 and 788). -/
def frustum_indices : List Nat :=
  [1, 2, 3, 4, 1, 0, 2, 0, 3, 0, 4]

/-- The points of a frustum: the table scaled by `0.5`, `0.4` and `0.3` times `scale`
and moved by `transform` (lines 808 to 828). -/
def frustumPoints (transform : Transform) (scale : ℚ) : List Vec3 :=
  (List.range (frustum_vertices.length / 3)).map fun i =>
    transform.apply
      ⟨frustum_vertices.getD (i * 3) 0 * (0.5 * scale),
       frustum_vertices.getD (i * 3 + 1) 0 * (0.4 * scale),
       frustum_vertices.getD (i * 3 + 2) 0 * (0.3 * scale)⟩

/-- Source function `CloudViewer::removeFrustum`. -/
def removeFrustum (s : CloudViewer) (id : String) : CloudViewer :=
  if id = "" then s.UERROR "id should not be empty!"
  else if id ∈ s.frustums then
    { s with visualizer := s.visualizer.removeShape id,
             frustums := setErase id s.frustums }
  else s

/-- Source function `CloudViewer::addOrUpdateFrustum`.  The assertion of line 809 is on
the size of the constant table (15 scalars) and holds. -/
def addOrUpdateFrustum (s : CloudViewer) (id : String) (transform : Transform)
    (scale : ℚ) (color : QColor) : CloudViewer :=
  if id = "" then s.UERROR "id should not be empty!"
  else
    let s1 := s.removeFrustum id
    if !transform.isNull then
      let c := if color.isValid then color else QColor.gray
      let v1 := s1.visualizer.addPolylineFromPolygonMesh
        (frustumPoints transform scale) frustum_indices id
      { s1 with frustums := setInsert id s1.frustums,
                visualizer := v1.setShapeColor c.componentsF id }
    else s1

/-- Source function `CloudViewer::updateFrustumPose`. -/
def updateFrustumPose (s : CloudViewer) (id : String) (pose : Transform) :
    CloudViewer × Bool :=
  if id ∈ s.frustums ∧ !pose.isNull then
    let r := s.visualizer.updateShapePose id pose
    ({ s with visualizer := r.1 }, r.2)
  else (s, false)

/-- Source function `CloudViewer::removeAllFrustums`. -/
def removeAllFrustums (s : CloudViewer) : Option CloudViewer := do
  let s1 := s.frustums.foldl (fun acc id => acc.removeFrustum id) s
  UASSERT (decide (s1.frustums = []))
  pure s1

/-! ### Graphs -/

/-- Source function `CloudViewer::removeGraph`. -/
def removeGraph (s : CloudViewer) (id : String) : CloudViewer :=
  if id = "" then s.UERROR "id should not be empty!"
  else if id ∈ s.graphes then
    let s1 := { s with visualizer := s.visualizer.removeShape id,
                       graphes := setErase id s.graphes }
    (s1.removeCloud (id ++ "_nodes")).1
  else s

/-- Source function `CloudViewer::addOrUpdateGraph`; `graph` is the list of points. -/
def addOrUpdateGraph (s : CloudViewer) (id : String) (graph : List Vec3) (color : QColor) :
    CloudViewer :=
  if id = "" then s.UERROR "id should not be empty!"
  else
    let s1 := s.removeGraph id
    if graph.length ≠ 0 then
      let v1 := s1.visualizer.addPolylineFromPolygonMesh graph (List.range graph.length) id
      let s2 := { s1 with graphes := setInsert id s1.graphes,
                          visualizer := v1.setShapeColor color.componentsF id }
      let s3 := (s2.addCloudXYZ (id ++ "_nodes") Transform.getIdentity color).1
      s3.setCloudPointSize (id ++ "_nodes") 5
    else s1

/-- Source function `CloudViewer::removeAllGraphs`. -/
def removeAllGraphs (s : CloudViewer) : Option CloudViewer := do
  let s1 := s.graphes.foldl (fun acc id => acc.removeGraph id) s
  UASSERT (decide (s1.graphes = []))
  pure s1

/-! ### Text labels -/

/-- Source function `CloudViewer::addOrUpdateText` (lines 942 to 969); line 955 calls
`removeCoordinate(id)`. -/
def addOrUpdateText (s : CloudViewer) (id : String) (text : String) (position : Transform)
    (scale : ℚ) (color : QColor) : CloudViewer :=
  if id = "" then s.UERROR "id should not be empty!"
  else
    let s1 := s.removeCoordinate id
    if !position.isNull then
      { s1 with texts := setInsert id s1.texts,
                visualizer := s1.visualizer.addText3D text position.translation scale
                  color.componentsF id }
    else s1

/-- Source function `CloudViewer::removeText`. -/
def removeText (s : CloudViewer) (id : String) : CloudViewer :=
  if id = "" then s.UERROR "id should not be empty!"
  else if id ∈ s.texts then
    { s with visualizer := s.visualizer.removeText3D id,
             texts := setErase id s.texts }
  else s

/-- Source function `CloudViewer::removeAllTexts`. -/
def removeAllTexts (s : CloudViewer) : Option CloudViewer := do
  let s1 := s.texts.foldl (fun acc id => acc.removeText id) s
  UASSERT (decide (s1.texts = []))
  pure s1

/-! ### Trajectory and frustum options -/

/-- Source function `CloudViewer::isTrajectoryShown`. -/
def isTrajectoryShown (s : CloudViewer) : Bool := s.aShowTrajectory

/-- Source function `CloudViewer::getTrajectorySize`. -/
def getTrajectorySize (s : CloudViewer) : Nat := s.maxTrajectorySize

/-- Source function `CloudViewer::setTrajectoryShown`. -/
def setTrajectoryShown (s : CloudViewer) (shown : Bool) : CloudViewer :=
  { s with aShowTrajectory := shown }

/-- Source function `CloudViewer::setTrajectorySize`. -/
def setTrajectorySize (s : CloudViewer) (value : Nat) : CloudViewer :=
  { s with maxTrajectorySize := value }

/-- Source function `CloudViewer::clearTrajectory`. -/
def clearTrajectory (s : CloudViewer) : CloudViewer :=
  { s with trajectory := [], visualizer := s.visualizer.removeShape "trajectory" }

/-- Source function `CloudViewer::isFrustumShown`. -/
def isFrustumShown (s : CloudViewer) : Bool := s.aShowFrustum

/-- Source function `CloudViewer::getFrustumScale`. -/
def getFrustumScale (s : CloudViewer) : ℚ := s.frustumScale

/-- Source function `CloudViewer::getFrustumColor`. -/
def getFrustumColor (s : CloudViewer) : QColor := s.frustumColor

/-- Source function `CloudViewer::setFrustumShown`. -/
def setFrustumShown (s : CloudViewer) (shown : Bool) : CloudViewer :=
  let s1 := if !shown then s.removeFrustum "reference_frustum" else s
  { s1 with aShowFrustum := shown }

/-- Source function `CloudViewer::setFrustumScale`. -/
def setFrustumScale (s : CloudViewer) (value : ℚ) : CloudViewer :=
  { s with frustumScale := value }

/-- Source function `CloudViewer::setFrustumColor`. -/
def setFrustumColor (s : CloudViewer) (value : QColor) : CloudViewer :=
  let value1 := if !value.isValid then QColor.gray else value
  let s1 := if "reference_frustum" ∈ s.frustums then
      { s with visualizer := s.visualizer.setShapeColor value1.componentsF "reference_frustum" }
    else s
  { s1 with frustumColor := value1 }

/-! ### Camera -/

/-- Source function `CloudViewer::getCameraPosition`: the nine values read from the
first camera of the renderer. -/
def getCameraPosition (s : CloudViewer) : Camera := s.visualizer.camera

/-- Source function `CloudViewer::setCameraPosition` (lines 1161 to 1168); the call of
line 1167 passes `focalX, focalY, focalX` as the focal point. -/
def setCameraPosition (s : CloudViewer) (x y z focalX focalY focalZ upX upY upZ : ℚ) :
    CloudViewer :=
  { s with lastCameraOrientation := ⟨0, 0, 0⟩, lastCameraPose := ⟨0, 0, 0⟩,
           visualizer := s.visualizer.setCameraPosition x y z focalX focalY focalX upX upY upZ }

/-- Source function `CloudViewer::resetCamera`. -/
def resetCamera (s : CloudViewer) : CloudViewer :=
  let s1 := { s with lastCameraOrientation := ⟨0, 0, 0⟩, lastCameraPose := ⟨0, 0, 0⟩ }
  let p := s1.lastPose
  if (s1.aFollowCamera || s1.aLockCamera) && !p.isNull then
    let v := s1.visualizer
    if s1.aLockViewZ then
      { s1 with visualizer := v.setCameraPosition (p.o14 - 1) p.o24 p.o34 p.o14 p.o24 p.o34 0 0 1 }
    else
      let v1 := v.setCameraPosition (p.o14 - 1) p.o24 p.o34 p.o14 p.o24 p.o34 p.r31 p.r32 p.r33
      { s1 with visualizer := v1 }
  else
    { s1 with visualizer := s1.visualizer.setCameraPosition (-1) 0 0 0 0 0 0 0 1 }

/-- Source function `CloudViewer::getTargetPose`. -/
def getTargetPose (s : CloudViewer) : Transform :=
  if s.lastPose.isNull then Transform.getIdentity else s.lastPose

/-- The loop of lines 1188 to 1191: the first point is erased while the trajectory is
longer than `maxTrajectorySize`. -/
def trimTrajectory (maxTrajectorySize : Nat) : List Vec3 → List Vec3
  | [] => []
  | p :: tr =>
    if (p :: tr).length > maxTrajectorySize then trimTrajectory maxTrajectorySize tr
    else p :: tr

/-- Lock-target branch of `updateCameraTargetPosition` (lines 1218 to 1228). -/
def lockTargetCamera (cam : Camera) (pos : Vec3) (lastPose : Transform) : Camera :=
  let diff := pos.sub lastPose.translation
  { cam with pos := cam.pos.add diff, focal := cam.focal.add diff }

/-- Follow branch of `updateCameraTargetPosition` (lines 1229 to 1266); `normalized`
is `Eigen::Vector3f::normalized`. -/
def followCamera (normalized : Vec3 → Vec3) (cam : Camera) (pose lastPose : Transform)
    (lockViewZ : Bool) : Camera :=
  let vPosToFocal := normalized (cam.focal.sub cam.pos)
  let zAxis := cam.view
  let yAxis := zAxis.cross vPosToFocal
  let xAxis := yAxis.cross zAxis
  let PR : Transform := ⟨xAxis.x, xAxis.y, xAxis.z, 0,
                         yAxis.x, yAxis.y, yAxis.z, 0,
                         zAxis.x, zAxis.y, zAxis.z, 0⟩
  let P : Transform := ⟨PR.r11, PR.r12, PR.r13, cam.pos.x,
                        PR.r21, PR.r22, PR.r23, cam.pos.y,
                        PR.r31, PR.r32, PR.r33, cam.pos.z⟩
  let F : Transform := ⟨PR.r11, PR.r12, PR.r13, cam.focal.x,
                        PR.r21, PR.r22, PR.r23, cam.focal.y,
                        PR.r31, PR.r32, PR.r33, cam.focal.z⟩
  let N := pose
  let O := lastPose
  let O2N := O.inverse.mul N
  let F2O := F.inverse.mul O
  let T := (F2O.mul O2N).mul F2O.inverse
  let Fp := F.mul T
  let P2F := P.inverse.mul F
  let Pp := ((P.mul P2F).mul T).mul P2F.inverse
  { pos := Pp.translation,
    focal := Fp.translation,
    view := if lockViewZ then ⟨0, 0, 1⟩ else ⟨Fp.r31, Fp.r32, Fp.r33⟩ }

/-- Lines 1174 to 1206 of `updateCameraTargetPosition`: the position is appended to the
trajectory, the trajectory is trimmed and, when shown, drawn again. -/
def appendTrajectory (s : CloudViewer) (pos : Vec3) : CloudViewer :=
  let tr1 := s.trajectory ++ [pos]
  let tr2 := if s.maxTrajectorySize > 0 then trimTrajectory s.maxTrajectorySize tr1 else tr1
  let v1 := (s.visualizer.removeShape "trajectory").addPolylineFromPolygonMesh tr2
    (List.range tr2.length) "trajectory"
  { s with trajectory := tr2, visualizer := if s.aShowTrajectory then v1 else s.visualizer }

/-- Lines 1215 to 1266 of `updateCameraTargetPosition`: the camera after the move of the
target, by the mode of the camera. -/
def targetCamera (normalized : Vec3 → Vec3) (s : CloudViewer) (pose : Transform) : Camera :=
  let cam := s.visualizer.camera
  if s.aLockCamera then lockTargetCamera cam pose.translation s.lastPose
  else if s.aFollowCamera then followCamera normalized cam pose s.lastPose s.aLockViewZ
  else cam

/-- Lines 1268 to 1287 of `updateCameraTargetPosition`: the "reference" frame and the
"reference_frustum" are moved to the target. -/
def moveReference (s : CloudViewer) (pose : Transform) : CloudViewer :=
  let s4 := if "reference" ∈ s.coordinates then (s.updateCoordinatePose "reference" pose).1
    else s.addOrUpdateCoordinate "reference" pose 0.2
  if s4.aShowFrustum then
    s4.addOrUpdateFrustum "reference_frustum" pose s4.frustumScale s4.frustumColor
  else s4

/-- The assignments to `_lastPose` (lines 1212 and 1298). -/
def setLastPose (s : CloudViewer) (pose : Transform) : CloudViewer :=
  { s with lastPose := pose }

/-- Lines 1289 to 1293: position, focal point and view-up are written to the active
camera of the renderer. -/
def setActiveCamera (s : CloudViewer) (cam : Camera) : CloudViewer :=
  { s with visualizer := { s.visualizer with camera := cam } }

/-- Source function `CloudViewer::updateCameraTargetPosition` (lines 1170 to 1299). -/
def updateCameraTargetPosition (normalized : Vec3 → Vec3) (s : CloudViewer)
    (pose : Transform) : CloudViewer :=
  let s9 :=
    if !pose.isNull then
      let s2 := s.appendTrajectory pose.translation
      if pose ≠ s2.lastPose ∨ s2.lastPose.isNull then
        let s3 := if s2.lastPose.isNull then s2.setLastPose Transform.getIdentity else s2
        (s3.moveReference pose).setActiveCamera (s3.targetCamera normalized pose)
      else s2
    else s
  s9.setLastPose pose

/-! ### Background -/

/-- Source function `CloudViewer::getDefaultBackgroundColor`. -/
def getDefaultBackgroundColor (s : CloudViewer) : QColor := s.defaultBgColor

/-- Source function `CloudViewer::getBackgroundColor`. -/
def getBackgroundColor (s : CloudViewer) : QColor := s.currentBgColor

/-- Source function `CloudViewer::setBackgroundColor`. -/
def setBackgroundColor (s : CloudViewer) (color : QColor) : CloudViewer :=
  { s with currentBgColor := color,
           visualizer := s.visualizer.setBackgroundColor color.componentsF }

/-- Source function `CloudViewer::setDefaultBackgroundColor`. -/
def setDefaultBackgroundColor (s : CloudViewer) (color : QColor) : CloudViewer :=
  let s1 := if s.currentBgColor = s.defaultBgColor then s.setBackgroundColor color else s
  { s1 with defaultBgColor := color }

/-! ### Camera modes

"Lock target", "Follow" and "Free" belong to one exclusive `QActionGroup`: checking
one of them unchecks the other two; unchecking one leaves the others alone. -/

/-- The call `_aLockCamera->setChecked(b)`. -/
def checkLockCamera (s : CloudViewer) (b : Bool) : CloudViewer :=
  if b then { s with aLockCamera := true, aFollowCamera := false, freeCamera := false }
  else { s with aLockCamera := false }

/-- The call `_aFollowCamera->setChecked(b)`. -/
def checkFollowCamera (s : CloudViewer) (b : Bool) : CloudViewer :=
  if b then { s with aFollowCamera := true, aLockCamera := false, freeCamera := false }
  else { s with aFollowCamera := false }

/-- The call `freeCamera->setChecked(b)`, which only the menu makes. -/
def checkFreeCamera (s : CloudViewer) (b : Bool) : CloudViewer :=
  if b then { s with freeCamera := true, aLockCamera := false, aFollowCamera := false }
  else { s with freeCamera := false }

/-- Source function `CloudViewer::setCameraTargetLocked`. -/
def setCameraTargetLocked (s : CloudViewer) (enabled : Bool) : CloudViewer :=
  s.checkLockCamera enabled

/-- Source function `CloudViewer::setCameraTargetFollow`. -/
def setCameraTargetFollow (s : CloudViewer) (enabled : Bool) : CloudViewer :=
  s.checkFollowCamera enabled

/-- Source function `CloudViewer::setCameraFree`. -/
def setCameraFree (s : CloudViewer) : CloudViewer :=
  (s.checkLockCamera false).checkFollowCamera false

/-- Source function `CloudViewer::setCameraLockZ`. -/
def setCameraLockZ (s : CloudViewer) (enabled : Bool) : CloudViewer :=
  { s with lastCameraOrientation := ⟨0, 0, 0⟩, lastCameraPose := ⟨0, 0, 0⟩,
           aLockViewZ := enabled }

/-- Source function `CloudViewer::isCameraTargetLocked`. -/
def isCameraTargetLocked (s : CloudViewer) : Bool := s.aLockCamera

/-- Source function `CloudViewer::isCameraTargetFollow`. -/
def isCameraTargetFollow (s : CloudViewer) : Bool := s.aFollowCamera

/-- Source function `CloudViewer::isCameraFree`. -/
def isCameraFree (s : CloudViewer) : Bool := !s.aFollowCamera && !s.aLockCamera

/-- Source function `CloudViewer::isCameraLockZ`. -/
def isCameraLockZ (s : CloudViewer) : Bool := s.aLockViewZ

/-! ### Grid -/

/-- Source function `CloudViewer::isGridShown`. -/
def isGridShown (s : CloudViewer) : Bool := s.aShowGrid

/-- Source function `CloudViewer::getGridCellCount`. -/
def getGridCellCount (s : CloudViewer) : Nat := s.gridCellCount

/-- Source function `CloudViewer::getGridCellSize`. -/
def getGridCellSize (s : CloudViewer) : ℚ := s.gridCellSize

/-- Source function `CloudViewer::removeGrid`. -/
def removeGrid (s : CloudViewer) : CloudViewer :=
  { s with visualizer := s.gridLines.foldl (fun v name => v.removeShape name) s.visualizer,
           gridLines := [] }

/-- The conversion `int cellCount = _gridCellCount` of a 32-bit `unsigned int`. -/
def toInt32 (n : Nat) : Int :=
  if n % 2 ^ 32 < 2 ^ 31 then ((n % 2 ^ 32 : Nat) : Int) else ((n % 2 ^ 32 : Nat) : Int) - 2 ^ 32

/-- The loop of `addGrid` (lines 1484 to 1497), with its `float` counter `i`, run for at
most `fuel` tests of its condition; `none` when the fuel does not reach the exit. -/
def addGridLoop (cellSize min max : F32) :
    Nat → F32 → Nat → Visualizer × List String → Option (Visualizer × List String)
  | 0, _, _, _ => none
  | fuel + 1, i, id, (v, gridLines) =>
    if i.le max = true then
      let name1 := "line" ++ toString (id + 1)
      let v1 := v.addLine ⟨i.toRat, min.toRat, 0⟩ ⟨i.toRat, max.toRat, 0⟩ ⟨0.5, 0.5, 0.5⟩ name1
      let name2 := "line" ++ toString (id + 2)
      let v2 := v1.addLine ⟨min.toRat, i.toRat, 0⟩ ⟨max.toRat, i.toRat, 0⟩ ⟨0.5, 0.5, 0.5⟩ name2
      addGridLoop cellSize min max fuel (i.add cellSize) (id + 2) (v2, gridLines ++ [name1, name2])
    else some (v, gridLines)

/-- Number of tests of its condition after which the loop of `addGrid` has left, when it
leaves at all: `i` starts at `-max`, and a round that does not leave `i` where it is
raises it by one unit at least (`addGridLoop_fuel`). -/
def addGridFuel : F32 → Nat
  | .fin m => 2 * m.toNat + 2
  | _ => 2

/-- Source function `CloudViewer::addGrid`; no state when the loop does not end.  The
`float` variable `cellSize` holds the cell size of the state as `F32.ofRat` reads it: the
cell size itself when it is a `float`.  `min`, `max` and the counter of the loop are
computed in single precision, as the compiler does for `float` operands. -/
def addGrid (s : CloudViewer) : Option CloudViewer :=
  if s.gridLines = [] then
    let cellSize := F32.ofRat s.gridCellSize
    let cellCount := toInt32 s.gridCellCount
    let min := (F32.ofInt (Int.tdiv cellCount 2)).neg.mul cellSize
    let max := (F32.ofInt (Int.tdiv cellCount 2)).mul cellSize
    (addGridLoop cellSize min max (addGridFuel max) min 0 (s.visualizer, s.gridLines)).map
      fun r => { s with visualizer := r.1, gridLines := r.2 }
  else some s

/-- Source function `CloudViewer::setGridShown`. -/
def setGridShown (s : CloudViewer) (shown : Bool) : Option CloudViewer :=
  let s1 := { s with aShowGrid := shown }
  if shown then s1.addGrid else some s1.removeGrid

/-- Source function `CloudViewer::setGridCellCount`. -/
def setGridCellCount (s : CloudViewer) (count : Nat) : Option CloudViewer :=
  if count > 0 then
    let s1 := { s with gridCellCount := count }
    if s1.aShowGrid then s1.removeGrid.addGrid else some s1
  else
    some (s.UERROR ("Cannot set grid cell count < 1, count=" ++ toString count))

/-- Source function `CloudViewer::setGridCellSize`; the error message is kept without
the formatted value. -/
def setGridCellSize (s : CloudViewer) (size : ℚ) : Option CloudViewer :=
  if size > 0 then
    let s1 := { s with gridCellSize := size }
    if s1.aShowGrid then s1.removeGrid.addGrid else some s1
  else
    some (s.UERROR "Cannot set grid cell size <= 0")

/-! ### Construction and reset -/

/-- Source function `CloudViewer::clear`. -/
def clear (s : CloudViewer) : Option CloudViewer := do
  let s1 := s.removeAllClouds
  let s2 ← s1.removeAllGraphs
  let s3 ← s2.removeAllCoordinates
  let s4 ← s3.removeAllFrustums
  let s5 ← s4.removeAllTexts
  let s6 := s5.clearTrajectory
  let s7 := s6.addOrUpdateCoordinate "reference" Transform.getIdentity 0.2
  if s7.aShowFrustum then
    pure (s7.addOrUpdateFrustum "reference_frustum" Transform.getIdentity s7.frustumScale
      s7.frustumColor)
  else
    pure s7

/-- The members as the initialiser list of the constructor and `createMenu` set them,
with the renderer as it is created. -/
def init : CloudViewer where
  visualizer := ⟨⟨⟨0, 0, 1⟩, ⟨0, 0, 0⟩, ⟨0, 1, 0⟩⟩, [], [], [], ⟨0, 0, 0⟩⟩
  addedClouds := []
  coordinates := []
  frustums := []
  graphes := []
  texts := []
  gridLines := []
  trajectory := []
  maxTrajectorySize := 100
  frustumScale := 0.5
  frustumColor := QColor.gray
  gridCellCount := 50
  gridCellSize := 1
  lastPose := Transform.null
  lastCameraOrientation := ⟨0, 0, 0⟩
  lastCameraPose := ⟨0, 0, 0⟩
  defaultBgColor := QColor.black
  currentBgColor := QColor.black
  backfaceCulling := false
  frontfaceCulling := false
  aLockCamera := false
  aFollowCamera := true
  freeCamera := false
  aLockViewZ := true
  aShowTrajectory := true
  aShowFrustum := false
  aShowGrid := false
  errors := []

/-- Source function `CloudViewer::CloudViewer`: a freshly constructed viewer. -/
def new : CloudViewer :=
  let s1 := { init with
    visualizer := init.visualizer.setCameraPosition (-1) 0 0 0 0 0 0 0 1 }
  s1.addOrUpdateCoordinate "reference" Transform.getIdentity 0.2

/-! ### Occupancy grid map -/

end CloudViewer

/-- The image `cv::Mat` handed to `addOccupancyGridMap`: its size, channel count and
type code (`CV_8U` is 0). -/
structure Mat where
  rows : Nat
  cols : Nat
  channels : Nat
  type : Nat
  deriving DecidableEq

namespace CloudViewer

/-- Source function `CloudViewer::addOccupancyGridMap` (lines 629 to 697).  `textured`
tells whether the renderer accepts the texture mesh built from the image.  No state
when the assertion fails or when line 686 looks up a "map" actor that is not there. -/
def addOccupancyGridMap (s : CloudViewer) (map8U : Mat) (textured : Bool)
    (resolution xMin yMin opacity : ℚ) : Option (CloudViewer × Bool) := do
  UASSERT (decide (map8U.channels = 1 ∧ map8U.type = 0))
  let xSize := (map8U.cols : ℚ) * resolution
  let ySize := (map8U.rows : ℚ) * resolution
  let v1 := if "map" ∉ mapKeys s.visualizer.shapes then s.visualizer.removeShape "map"
    else s.visualizer
  if xSize > 0 ∧ ySize > 0 then
    let v2 := (v1.addMesh textured "map").1
    if "map" ∈ mapKeys v2.clouds then
      let v3 := { v2 with clouds := mapUpdate "map" (fun a => { a with lighting := false }) v2.clouds }
      pure (({ s with visualizer := v3 } : CloudViewer).setCloudOpacity "map" 0.7, true)
    else none
  else
    pure ({ s with visualizer := v1 }, true)

/-- Source function `CloudViewer::removeOccupancyGridMap`. -/
def removeOccupancyGridMap (s : CloudViewer) : CloudViewer :=
  if "map" ∉ mapKeys s.visualizer.shapes then
    { s with visualizer := s.visualizer.removeShape "map" }
  else s

end CloudViewer

/-! ## Settings store -/

/-- A value of the key-value settings store (`QVariant`). -/
inductive QVariant where
  | bool (b : Bool) : QVariant
  | uint (n : Nat) : QVariant
  | real (x : ℚ) : QVariant
  | vector3D (v : Vec3) : QVariant
  | color (c : QColor) : QVariant
  deriving DecidableEq

namespace QVariant

/-- The conversion `QVariant::toBool`. -/
def toBool : QVariant → Bool
  | bool b => b
  | uint n => decide (n ≠ 0)
  | real x => decide (x ≠ 0)
  | _ => false

/-- The conversion `QVariant::toUInt`. -/
def toUInt : QVariant → Nat
  | bool b => if b then 1 else 0
  | uint n => n
  | real x => (round x).toNat
  | _ => 0

/-- The conversions `QVariant::toFloat` and `QVariant::toDouble`. -/
def toReal : QVariant → ℚ
  | bool b => if b then 1 else 0
  | uint n => (n : ℚ)
  | real x => x
  | _ => 0

/-- The conversion `value<QVector3D>()`. -/
def toVector3D : QVariant → Vec3
  | vector3D v => v
  | _ => ⟨0, 0, 0⟩

/-- The conversion `value<QColor>()`. -/
def toColor : QVariant → QColor
  | color c => c
  | _ => QColor.invalid

end QVariant

/-- The key-value store `QSettings`: full key to value. -/
abbrev QSettings := List (String × QVariant)

namespace QSettings

/-- Full key of `key` between `beginGroup(group)` and `endGroup()`; no group is begun
for the empty group name. -/
def fullKey (group key : String) : String :=
  if group = "" then key else group ++ "/" ++ key

/-- The call `settings.setValue(key, value)` inside `group`. -/
def setValue (settings : QSettings) (group key : String) (value : QVariant) : QSettings :=
  mapInsert (fullKey group key) value settings

/-- The call `settings.value(key, defaultValue)` inside `group`. -/
def value (settings : QSettings) (group key : String) (defaultValue : QVariant) : QVariant :=
  (mapFind (fullKey group key) settings).getD defaultValue

end QSettings

namespace CloudViewer

/-- The camera pose and focal point that `saveSettings` writes (lines 251 to 269):
relative to the target unless the camera is free. -/
def savedCamera (s : CloudViewer) : Vec3 × Vec3 :=
  let cam := s.getCameraPosition
  if !s.isCameraFree then
    let T0 := s.getTargetPose
    let T := if s.isCameraTargetLocked then Transform.ofTranslation T0.o14 T0.o24 T0.o34 else T0
    let F := Transform.ofTranslation cam.focal.x cam.focal.y cam.focal.z
    let P := Transform.ofTranslation cam.pos.x cam.pos.y cam.pos.z
    let newFocal := T.inverse.mul F
    let newPose := (newFocal.mul F.inverse).mul P
    (newPose.translation, newFocal.translation)
  else (cam.pos, cam.focal)

/-- Source function `CloudViewer::saveSettings`: the store after the call. -/
def saveSettings (s : CloudViewer) (settings : QSettings) (group : String) : QSettings :=
  let st1 := settings.setValue group "camera_pose" (.vector3D s.savedCamera.1)
  let st2 := st1.setValue group "camera_focal" (.vector3D s.savedCamera.2)
  let st3 := st2.setValue group "camera_up" (.vector3D s.getCameraPosition.view)
  let st4 := st3.setValue group "grid" (.bool s.isGridShown)
  let st5 := st4.setValue group "grid_cell_count" (.uint s.getGridCellCount)
  let st6 := st5.setValue group "grid_cell_size" (.real s.getGridCellSize)
  let st7 := st6.setValue group "trajectory_shown" (.bool s.isTrajectoryShown)
  let st8 := st7.setValue group "trajectory_size" (.uint s.getTrajectorySize)
  let st9 := st8.setValue group "frustum_shown" (.bool s.isFrustumShown)
  let st10 := st9.setValue group "frustum_scale" (.real s.getFrustumScale)
  let st11 := st10.setValue group "frustum_color" (.color s.getFrustumColor)
  let st12 := st11.setValue group "camera_target_locked" (.bool s.isCameraTargetLocked)
  let st13 := st12.setValue group "camera_target_follow" (.bool s.isCameraTargetFollow)
  let st14 := st13.setValue group "camera_free" (.bool s.isCameraFree)
  let st15 := st14.setValue group "camera_lockZ" (.bool s.isCameraLockZ)
  st15.setValue group "bg_color" (.color s.getDefaultBackgroundColor)

/-- Source function `CloudViewer::loadSettings`. -/
def loadSettings (s : CloudViewer) (settings : QSettings) (group : String) :
    Option CloudViewer := do
  let cam := s.getCameraPosition
  let pose := (settings.value group "camera_pose" (.vector3D cam.pos)).toVector3D
  let focal := (settings.value group "camera_focal" (.vector3D cam.focal)).toVector3D
  let up := (settings.value group "camera_up" (.vector3D cam.view)).toVector3D
  let s1 := s.setCameraPosition pose.x pose.y pose.z focal.x focal.y focal.z up.x up.y up.z
  let s2 ← s1.setGridShown (settings.value group "grid" (.bool s1.isGridShown)).toBool
  let s3 ← s2.setGridCellCount
    (settings.value group "grid_cell_count" (.uint s2.getGridCellCount)).toUInt
  let s4 ← s3.setGridCellSize
    (settings.value group "grid_cell_size" (.real s3.getGridCellSize)).toReal
  let s5 := s4.setTrajectoryShown
    (settings.value group "trajectory_shown" (.bool s4.isTrajectoryShown)).toBool
  let s6 := s5.setTrajectorySize
    (settings.value group "trajectory_size" (.uint s5.getTrajectorySize)).toUInt
  let s7 := s6.setFrustumShown
    (settings.value group "frustum_shown" (.bool s6.isFrustumShown)).toBool
  let s8 := s7.setFrustumScale
    (settings.value group "frustum_scale" (.real s7.getFrustumScale)).toReal
  let s9 := s8.setFrustumColor
    (settings.value group "frustum_color" (.color s8.getFrustumColor)).toColor
  let s10 := s9.setCameraTargetLocked
    (settings.value group "camera_target_locked" (.bool s9.isCameraTargetLocked)).toBool
  let s11 := s10.setCameraTargetFollow
    (settings.value group "camera_target_follow" (.bool s10.isCameraTargetFollow)).toBool
  let s12 := if (settings.value group "camera_free" (.bool s11.isCameraFree)).toBool
    then s11.setCameraFree else s11
  let s13 := s12.setCameraLockZ
    (settings.value group "camera_lockZ" (.bool s12.isCameraLockZ)).toBool
  pure (s13.setDefaultBackgroundColor
    (settings.value group "bg_color" (.color s13.getDefaultBackgroundColor)).toColor)

/-! ### Menu -/

end CloudViewer

/-- The actions of the context menu built by `createMenu`. -/
inductive Action where
  | aLockCamera | aFollowCamera | freeCamera | aLockViewZ | aResetCamera
  | aShowTrajectory | aSetTrajectorySize | aClearTrajectory
  | aShowFrustum | aSetFrustumScale | aSetFrustumColor
  | aShowGrid | aSetGridCellCount | aSetGridCellSize
  | aSetBackgroundColor
  deriving DecidableEq

/-- What the user answers in the dialog an action opens: whether the dialog was
accepted, and the number or colour entered. -/
structure Dialog where
  ok : Bool
  intValue : Int
  doubleValue : ℚ
  color : QColor

namespace Dialog

/-- The value of `QInputDialog::getInt` with bounds `lo` and `hi`. -/
def getInt (d : Dialog) (lo hi : Int) : Int := max lo (min hi d.intValue)

/-- The value of `QInputDialog::getDouble` with bounds `lo` and `hi`. -/
def getDouble (d : Dialog) (lo hi : ℚ) : ℚ := max lo (min hi d.doubleValue)

end Dialog

namespace CloudViewer

/-- Source function `CloudViewer::handleAction` (lines 1734 to 1822). -/
def handleAction (s : CloudViewer) (a : Action) (d : Dialog) : Option CloudViewer :=
  match a with
  | .aSetTrajectorySize =>
    let value := d.getInt 0 10000
    some (if d.ok then { s with maxTrajectorySize := value.toNat } else s)
  | .aClearTrajectory => some s.clearTrajectory
  | .aShowFrustum => some (s.setFrustumShown s.aShowFrustum)
  | .aSetFrustumScale =>
    let value := d.getDouble 0 999
    some (if d.ok then s.setFrustumScale value else s)
  | .aSetFrustumColor =>
    some (if d.color.isValid then s.setFrustumColor d.color else s)
  | .aResetCamera => some s.resetCamera
  | .aShowGrid => if s.aShowGrid then s.addGrid else some s.removeGrid
  | .aSetGridCellCount =>
    let value := d.getInt 1 10000
    if d.ok then s.setGridCellCount value.toNat else some s
  | .aSetGridCellSize =>
    let value := d.getDouble 0.01 10
    if d.ok then s.setGridCellSize value else some s
  | .aSetBackgroundColor =>
    some (if d.color.isValid then s.setDefaultBackgroundColor d.color else s)
  | _ => some s

/-- The change of checked state when the menu triggers an action: a checkable action
toggles, a member of the exclusive group becomes the checked one. -/
def trigger (s : CloudViewer) (a : Action) : CloudViewer :=
  match a with
  | .aLockCamera => s.checkLockCamera true
  | .aFollowCamera => s.checkFollowCamera true
  | .freeCamera => s.checkFreeCamera true
  | .aLockViewZ => { s with aLockViewZ := !s.aLockViewZ }
  | .aShowTrajectory => { s with aShowTrajectory := !s.aShowTrajectory }
  | .aShowFrustum => { s with aShowFrustum := !s.aShowFrustum }
  | .aShowGrid => { s with aShowGrid := !s.aShowGrid }
  | _ => s

/-- Source function `CloudViewer::contextMenuEvent`: the menu returns the action the
user picked, if any, after triggering it. -/
def contextMenuEvent (s : CloudViewer) (a : Option Action) (d : Dialog) : Option CloudViewer :=
  match a with
  | some a => (s.trigger a).handleAction a d
  | none => some s

end CloudViewer

/-! ## Operations as a transition system -/

/-- One call of an operation of the viewer, with its arguments: the public member
functions that change the viewer, and the menu (`handleAction`, `contextMenuEvent`).
The key, mouse and wheel handlers, which only move the camera of the renderer, are not
among them. -/
inductive Op where
  | clear
  | loadSettings (settings : QSettings) (group : String)
  | updateCloudPose (id : String) (pose : Transform)
  | addCloud (id : String) (renderable : Bool) (pose : Transform) (rgb haveNormals : Bool)
      (color : QColor)
  | addCloudMesh (id : String) (renderable : Bool) (pose : Transform)
  | addCloudTextureMesh (id : String) (renderable : Bool) (pose : Transform)
  | addOccupancyGridMap (map8U : Mat) (textured : Bool) (resolution xMin yMin opacity : ℚ)
  | removeOccupancyGridMap
  | addOrUpdateCoordinate (id : String) (transform : Transform) (scale : ℚ)
  | updateCoordinatePose (id : String) (pose : Transform)
  | removeCoordinate (id : String)
  | removeAllCoordinates
  | addOrUpdateFrustum (id : String) (transform : Transform) (scale : ℚ) (color : QColor)
  | updateFrustumPose (id : String) (pose : Transform)
  | removeFrustum (id : String)
  | removeAllFrustums
  | addOrUpdateGraph (id : String) (graph : List Vec3) (color : QColor)
  | removeGraph (id : String)
  | removeAllGraphs
  | addOrUpdateText (id : String) (text : String) (position : Transform) (scale : ℚ)
      (color : QColor)
  | removeText (id : String)
  | removeAllTexts
  | setTrajectoryShown (shown : Bool)
  | setTrajectorySize (value : Nat)
  | clearTrajectory
  | setFrustumShown (shown : Bool)
  | setFrustumScale (value : ℚ)
  | setFrustumColor (value : QColor)
  | resetCamera
  | removeAllClouds
  | removeCloud (id : String)
  | setBackfaceCulling (enabled frontfaceCulling : Bool)
  | setCameraPosition (x y z focalX focalY focalZ upX upY upZ : ℚ)
  | updateCameraTargetPosition (pose : Transform)
  | setDefaultBackgroundColor (color : QColor)
  | setBackgroundColor (color : QColor)
  | setCloudVisibility (id : String) (isVisible : Bool)
  | setCloudOpacity (id : String) (opacity : ℚ)
  | setCloudPointSize (id : String) (size : Int)
  | setCameraTargetLocked (enabled : Bool)
  | setCameraTargetFollow (enabled : Bool)
  | setCameraFree
  | setCameraLockZ (enabled : Bool)
  | setGridShown (shown : Bool)
  | setGridCellCount (count : Nat)
  | setGridCellSize (size : ℚ)
  | handleAction (a : Action) (d : Dialog)
  | contextMenuEvent (a : Option Action) (d : Dialog)

/-- The state after one operation; `none` when the call does not return (a failed
assertion, a missing actor, a loop without end). -/
def step (normalized : Vec3 → Vec3) (s : CloudViewer) : Op → Option CloudViewer
  | .clear => s.clear
  | .loadSettings settings group => s.loadSettings settings group
  | .updateCloudPose id pose => some (s.updateCloudPose id pose).1
  | .addCloud id renderable pose rgb haveNormals color =>
    some (s.addCloud id renderable pose rgb haveNormals color).1
  | .addCloudMesh id renderable pose => some (s.addCloudMesh id renderable pose).1
  | .addCloudTextureMesh id renderable pose => some (s.addCloudTextureMesh id renderable pose).1
  | .addOccupancyGridMap map8U textured resolution xMin yMin opacity =>
    (s.addOccupancyGridMap map8U textured resolution xMin yMin opacity).map Prod.fst
  | .removeOccupancyGridMap => some s.removeOccupancyGridMap
  | .addOrUpdateCoordinate id transform scale => some (s.addOrUpdateCoordinate id transform scale)
  | .updateCoordinatePose id pose => some (s.updateCoordinatePose id pose).1
  | .removeCoordinate id => some (s.removeCoordinate id)
  | .removeAllCoordinates => s.removeAllCoordinates
  | .addOrUpdateFrustum id transform scale color =>
    some (s.addOrUpdateFrustum id transform scale color)
  | .updateFrustumPose id pose => some (s.updateFrustumPose id pose).1
  | .removeFrustum id => some (s.removeFrustum id)
  | .removeAllFrustums => s.removeAllFrustums
  | .addOrUpdateGraph id graph color => some (s.addOrUpdateGraph id graph color)
  | .removeGraph id => some (s.removeGraph id)
  | .removeAllGraphs => s.removeAllGraphs
  | .addOrUpdateText id text position scale color =>
    some (s.addOrUpdateText id text position scale color)
  | .removeText id => some (s.removeText id)
  | .removeAllTexts => s.removeAllTexts
  | .setTrajectoryShown shown => some (s.setTrajectoryShown shown)
  | .setTrajectorySize value => some (s.setTrajectorySize value)
  | .clearTrajectory => some s.clearTrajectory
  | .setFrustumShown shown => some (s.setFrustumShown shown)
  | .setFrustumScale value => some (s.setFrustumScale value)
  | .setFrustumColor value => some (s.setFrustumColor value)
  | .resetCamera => some s.resetCamera
  | .removeAllClouds => some s.removeAllClouds
  | .removeCloud id => some (s.removeCloud id).1
  | .setBackfaceCulling enabled frontfaceCulling =>
    some (s.setBackfaceCulling enabled frontfaceCulling)
  | .setCameraPosition x y z focalX focalY focalZ upX upY upZ =>
    some (s.setCameraPosition x y z focalX focalY focalZ upX upY upZ)
  | .updateCameraTargetPosition pose => some (s.updateCameraTargetPosition normalized pose)
  | .setDefaultBackgroundColor color => some (s.setDefaultBackgroundColor color)
  | .setBackgroundColor color => some (s.setBackgroundColor color)
  | .setCloudVisibility id isVisible => some (s.setCloudVisibility id isVisible)
  | .setCloudOpacity id opacity => some (s.setCloudOpacity id opacity)
  | .setCloudPointSize id size => some (s.setCloudPointSize id size)
  | .setCameraTargetLocked enabled => some (s.setCameraTargetLocked enabled)
  | .setCameraTargetFollow enabled => some (s.setCameraTargetFollow enabled)
  | .setCameraFree => some s.setCameraFree
  | .setCameraLockZ enabled => some (s.setCameraLockZ enabled)
  | .setGridShown shown => s.setGridShown shown
  | .setGridCellCount count => s.setGridCellCount count
  | .setGridCellSize size => s.setGridCellSize size
  | .handleAction a d => s.handleAction a d
  | .contextMenuEvent a d => s.contextMenuEvent a d

/-- States a viewer can be in: those reached from a freshly constructed viewer by
operations taken from `allowed`, each of which returns. -/
inductive Reachable (normalized : Vec3 → Vec3) (allowed : Op → Prop) : CloudViewer → Prop where
  | new : Reachable normalized allowed CloudViewer.new
  | step (s s1 : CloudViewer) (op : Op) :
      Reachable normalized allowed s → allowed op → step normalized s op = some s1 →
      Reachable normalized allowed s1

/-- The operations on clouds: `addCloud`, `addCloudMesh`, `addCloudTextureMesh`,
`addOccupancyGridMap`, `updateCloudPose`, `removeCloud`, `removeAllClouds`,
`addOrUpdateGraph`, `removeGraph` and `clear`. -/
def Op.isCloudOp : Op → Bool
  | .addCloud _ _ _ _ _ _ => true
  | .addCloudMesh _ _ _ => true
  | .addCloudTextureMesh _ _ _ => true
  | .addOccupancyGridMap _ _ _ _ _ _ => true
  | .updateCloudPose _ _ => true
  | .removeCloud _ => true
  | .removeAllClouds => true
  | .addOrUpdateGraph _ _ _ => true
  | .removeGraph _ => true
  | .clear => true
  | _ => false

/-! ## Predicates on states and the states used as concrete inputs -/

/-- No displayed-id set holds the empty id. -/
def NoEmptyId (s : CloudViewer) : Prop :=
  "" ∉ s.coordinates ∧ "" ∉ s.frustums ∧ "" ∉ s.graphes ∧ "" ∉ s.texts

/-- The options a setter guards are valid: at least one grid cell, a positive cell
size, a valid frustum colour. -/
def ValidOptions (s : CloudViewer) : Prop :=
  0 < s.gridCellCount ∧ 0 < s.gridCellSize ∧ s.frustumColor.isValid = true

/-- The invariant carried along every run: no empty id and valid options. -/
def Inv (s : CloudViewer) : Prop :=
  NoEmptyId s ∧ ValidOptions s

/-- The display options that `saveSettings` persists, as the getters return them:
grid shown, cell count, cell size, trajectory shown, trajectory size, frustum shown,
frustum scale, frustum colour, default background colour. -/
def CloudViewer.displayOptions (s : CloudViewer) :
    Bool × Nat × ℚ × Bool × Nat × Bool × ℚ × QColor × QColor :=
  (s.isGridShown, s.getGridCellCount, s.getGridCellSize, s.isTrajectoryShown,
   s.getTrajectorySize, s.isFrustumShown, s.getFrustumScale, s.getFrustumColor,
   s.getDefaultBackgroundColor)

/-- The displayed-cloud map and the renderer hold the same cloud ids, the id "map" of
the occupancy grid left aside. -/
def CloudsMirrored (s : CloudViewer) : Prop :=
  ∀ id, id ≠ "map" → (id ∈ mapKeys s.addedClouds ↔ id ∈ mapKeys s.visualizer.clouds)

/-- Every displayed graph has its polyline among the shapes of the renderer. -/
def GraphShapes (s : CloudViewer) : Prop :=
  ∀ id, id ∈ s.graphes → id ∈ mapKeys s.visualizer.shapes

/-- The invariant carried along the operations on clouds. -/
def CloudInv (s : CloudViewer) : Prop :=
  CloudsMirrored s ∧ GraphShapes s

/-- Neither the displayed-cloud map nor the renderer holds a cloud. -/
def NoClouds (s : CloudViewer) : Prop :=
  s.addedClouds = [] ∧ s.visualizer.clouds = []

/-- Text and position of a 3D text label of the renderer. -/
def Shape.label : Shape → Option (String × Vec3)
  | Shape.text3D text position _ _ => some (text, position)
  | _ => none

/-- A viewer with a free camera whose focal point is `(0, 0, 1)`: the target moved to
`(0, 0, 1)`, the camera was reset on it and then set free. -/
def cameraMovedViewer : CloudViewer :=
  ((CloudViewer.new.updateCameraTargetPosition (fun v => v)
    (Transform.ofTranslation 0 0 1)).resetCamera).setCameraFree

/-- A viewer displaying the text label "a" with text "old" at `(1, 0, 0)`. -/
def labelledViewer : CloudViewer :=
  CloudViewer.new.addOrUpdateText "a" "old" (Transform.ofTranslation 1 0 0) 1 QColor.black

/-! ## The frames of the follow branch -/

/-- The frame `PR` of the follow branch (lines 1231 to 1239): its rows are the x, y and
z axis built from the camera; `normalized` is `Eigen::Vector3f::normalized`. -/
def followRotation (normalized : Vec3 → Vec3) (cam : Camera) : Transform :=
  let vPosToFocal := normalized (cam.focal.sub cam.pos)
  let zAxis := cam.view
  let yAxis := zAxis.cross vPosToFocal
  let xAxis := yAxis.cross zAxis
  ⟨xAxis.x, xAxis.y, xAxis.z, 0,
   yAxis.x, yAxis.y, yAxis.z, 0,
   zAxis.x, zAxis.y, zAxis.z, 0⟩

/-- The position frame `P` of the follow branch (lines 1241 to 1243): the rotation `PR`
at the position of the camera. -/
def followP (normalized : Vec3 → Vec3) (cam : Camera) : Transform :=
  let PR := followRotation normalized cam
  ⟨PR.r11, PR.r12, PR.r13, cam.pos.x,
   PR.r21, PR.r22, PR.r23, cam.pos.y,
   PR.r31, PR.r32, PR.r33, cam.pos.z⟩

/-- The focal frame `F` of the follow branch (lines 1244 to 1246): the rotation `PR`
at the focal point of the camera. -/
def followF (normalized : Vec3 → Vec3) (cam : Camera) : Transform :=
  let PR := followRotation normalized cam
  ⟨PR.r11, PR.r12, PR.r13, cam.focal.x,
   PR.r21, PR.r22, PR.r23, cam.focal.y,
   PR.r31, PR.r32, PR.r33, cam.focal.z⟩

/-- The frame `Fp` of the follow branch (lines 1247 to 1252), from the frames `F`, `N`
and `O`. -/
def followFp (F N O : Transform) : Transform :=
  let O2N := O.inverse.mul N
  let F2O := F.inverse.mul O
  let T := (F2O.mul O2N).mul F2O.inverse
  F.mul T

/-- The frame `Pp` of the follow branch (lines 1247 to 1254), from the frames `P`, `F`,
`N` and `O`. -/
def followPp (P F N O : Transform) : Transform :=
  let O2N := O.inverse.mul N
  let F2O := F.inverse.mul O
  let T := (F2O.mul O2N).mul F2O.inverse
  let P2F := P.inverse.mul F
  ((P.mul P2F).mul T).mul P2F.inverse

/-- The carry-along as the specification words it: the frame `X` mapped through the
motion of the target from pose `O` to pose `N`, that is `N * O^-1 * X`. -/
def carriedFrame (N O X : Transform) : Transform :=
  (N.mul O.inverse).mul X

/-- The frame has an inverse: the determinant of its linear part is not zero. -/
def Transform.isInvertible (t : Transform) : Bool :=
  decide (t.det ≠ 0)

/-! ## The trajectory window and the lines of the grid -/

/-- The window as the specification words it: the last `k` points of a trajectory, in
their order. -/
def lastPoints (k : Nat) (tr : List Vec3) : List Vec3 :=
  tr.drop (tr.length - k)

/-- The two lines that round `k` of the loop of `addGrid` draws (lines 1486 to 1496):
the line "line(2k+1)" at `min + k * cellSize` over x and the line "line(2k+2)" at the
same place over y, each from `min` to `max`. -/
def gridRound (cellSize min max : ℚ) (k : Nat) : List (String × Vec3 × Vec3) :=
  [("line" ++ toString (2 * k + 1),
      ⟨min + k * cellSize, min, 0⟩, ⟨min + k * cellSize, max, 0⟩),
   ("line" ++ toString (2 * k + 2),
      ⟨min, min + k * cellSize, 0⟩, ⟨max, min + k * cellSize, 0⟩)]

/-- The lines of a grid of `2 * half` by `2 * half` cells of size `cellSize` centred on
the origin, as a closed list: `2 * half + 1` lines over each axis, from
`-half * cellSize` to `half * cellSize`, with their names. -/
def gridSegments (half : Nat) (cellSize : ℚ) : List (String × Vec3 × Vec3) :=
  (List.range (2 * half + 1)).flatMap
    (gridRound cellSize (-(half : ℚ) * cellSize) ((half : ℚ) * cellSize))

/-- The renderer after `addLine` for each of the given lines, in their order, in the
grey of the grid. -/
def drawSegments (v : Visualizer) (segments : List (String × Vec3 × Vec3)) : Visualizer :=
  segments.foldl (fun a g => a.addLine g.2.1 g.2.2 ⟨0.5, 0.5, 0.5⟩ g.1) v

/-- The bound `max` of the loop of `addGrid` (line 1482) for a cell count and a cell
size: `float(cellCount/2) * cellSize`. -/
def gridMax (count : Nat) (size : ℚ) : F32 :=
  (F32.ofInt (Int.tdiv (CloudViewer.toInt32 count) 2)).mul (F32.ofRat size)

/-- With this cell count and this cell size `addGrid` returns, whatever the rest of the
viewer. -/
def GridEndsAt (count : Nat) (size : ℚ) : Prop :=
  ∀ t : CloudViewer, t.gridCellCount = count → t.gridCellSize = size →
    ∃ v g, t.addGrid = some { t with visualizer := v, gridLines := g }

/-- The operations on the grid parameters: `setGridCellCount`, `setGridCellSize`,
`setGridShown`, `loadSettings` and `handleAction`. -/
def Op.isGridOp : Op → Bool
  | .setGridCellCount _ => true
  | .setGridCellSize _ => true
  | .setGridShown _ => true
  | .loadSettings _ _ => true
  | .handleAction _ _ => true
  | _ => false

/-! ## Further states used as concrete inputs -/

/-- A viewer that displays the cloud "scan", with a shown frustum and a target at
`(1, 0, 0)`. -/
def scanViewer : CloudViewer :=
  (((CloudViewer.new.addCloud "scan" true Transform.getIdentity false false QColor.invalid).1
    ).setFrustumShown true).updateCameraTargetPosition (fun v => v) (Transform.ofTranslation 1 0 0)

/-- A viewer whose displayed-cloud map records the cloud "trajectory" that the renderer
no longer holds: the cloud was added and `clearTrajectory` then removed the actor of
that name. -/
def staleCloudViewer : CloudViewer :=
  (CloudViewer.new.addCloud "trajectory" true Transform.getIdentity false false
    QColor.invalid).1.clearTrajectory

/-- A viewer in lock-target mode whose target was moved to `(1, 0, 0)`. -/
def lockedViewer : CloudViewer :=
  (CloudViewer.new.setCameraTargetLocked true).updateCameraTargetPosition (fun v => v)
    (Transform.ofTranslation 1 0 0)

/-- A viewer that displays a cloud named "g_nodes", added by `addCloud`, and no graph. -/
def nodesCloudViewer : CloudViewer :=
  (CloudViewer.new.addCloud "g_nodes" true Transform.getIdentity false false QColor.invalid).1

/-- A viewer that displays the graph "g" of two points. -/
def graphViewer : CloudViewer :=
  CloudViewer.new.addOrUpdateGraph "g" [⟨0, 0, 0⟩, ⟨1, 0, 0⟩] QColor.gray

/-- A fresh viewer after `setGridCellCount(0)` was refused. -/
def refusedCountViewer : CloudViewer :=
  CloudViewer.new.UERROR "Cannot set grid cell count < 1, count=0"

/-- A fresh viewer whose grid cell count is set to 1. -/
def oneCellViewer : CloudViewer :=
  { CloudViewer.new with gridCellCount := 1 }

/-! ## The grid through the operations -/

/-- The members that decide the lines of the grid: cell count, cell size, whether the
grid is shown, and the names of its lines. -/
def gridFields (s : CloudViewer) : Nat × ℚ × Bool × List String :=
  (s.gridCellCount, s.gridCellSize, s.aShowGrid, s.gridLines)

/-- The cell count fits the `int` that `addGrid` halves, and the grid has no line or at
least two. -/
def GridLinesInv (s : CloudViewer) : Prop :=
  s.gridCellCount < 2 ^ 31 ∧ s.gridLines.length ≠ 1

/-- The invariant of the grid: on top of `GridLinesInv`, a shown grid whose cell size is
not infinite as a `float` has at least two lines. -/
def GridInv (s : CloudViewer) : Prop :=
  GridLinesInv s
  ∧ (s.isGridShown = true → F32.ofRat s.gridCellSize ≠ F32.posInf → 2 ≤ s.gridLines.length)

/-- The operation hands the viewer no cell count of `2^31` or more: neither
`setGridCellCount` directly nor `loadSettings` through the key "grid_cell_count". -/
def Op.countBelow : Op → Bool
  | .setGridCellCount count => decide (count < 2 ^ 31)
  | .loadSettings settings group =>
    decide ((settings.value group "grid_cell_count" (.uint 0)).toUInt < 2 ^ 31)
  | _ => true

/-- A fresh viewer whose cell count was set to `2^31` while the grid is hidden. -/
def hugeCountViewer : CloudViewer :=
  { CloudViewer.new with gridCellCount := 2 ^ 31 }

/-- The viewer with cell count `2^31` after `setGridShown(true)`: the grid is shown and
has no line. -/
def shownEmptyGridViewer : CloudViewer :=
  { hugeCountViewer with aShowGrid := true }

/-- A fresh viewer whose cell count was set to 10 and whose cell size was set to 0.7
while the grid is hidden. -/
def driftViewer : CloudViewer :=
  { CloudViewer.new with gridCellCount := 10, gridCellSize := 7 / 10 }

/-- A fresh viewer whose cell count was set to `2^26` while the grid is hidden. -/
def stallCountViewer : CloudViewer :=
  { CloudViewer.new with gridCellCount := 2 ^ 26 }

/-- A fresh viewer whose cell size was set to `3e38` while the grid is hidden. -/
def hugeSizeViewer : CloudViewer :=
  { CloudViewer.new with gridCellSize := 3 * 10 ^ 38 }

/-- A fresh viewer whose cell size was set to 1.25 and whose cell count was set to
`50331648 = 3 * 2^24` while the grid is hidden. -/
def wideGridViewer : CloudViewer :=
  { CloudViewer.new with gridCellSize := 5 / 4, gridCellCount := 50331648 }

/-- A fresh viewer after `setGridShown(true)`: the grid of 50 cells of size 1 is shown. -/
def shownGridViewer : CloudViewer :=
  { CloudViewer.new with
    aShowGrid := true,
    visualizer := drawSegments CloudViewer.new.visualizer (gridSegments 25 1),
    gridLines := (gridSegments 25 1).map Prod.fst }

/-! ## The frustum wireframe, colour handlers and the occupancy grid -/

/-- The edges of the frustum pyramid as the specification lists them: the four edges of
the base 1-2-3-4 and the four edges joining the apex 0 to a corner of the base. -/
def pyramidEdges : List (Nat × Nat) :=
  [(1, 2), (2, 3), (3, 4), (4, 1), (0, 1), (0, 2), (0, 3), (0, 4)]

/-- The segments of a polyline given by its vertex indices: each index with the next. -/
def polylineSegments (indices : List Nat) : List (Nat × Nat) :=
  indices.zip indices.tail

/-- The segment joins the two ends of the edge, in either direction. -/
def sameEdge (e g : Nat × Nat) : Bool :=
  (e.1 == g.1 && e.2 == g.2) || (e.1 == g.2 && e.2 == g.1)

/-- The number of colour handlers `addCloud` registers for a cloud (lines 377 to 416):
random, custom, x, y, z, then rgb when present and the three normals when present. -/
def registeredColorHandlers (rgb haveNormals : Bool) : Nat :=
  1 + (4 + (if rgb then 1 else 0) + (if haveNormals then 3 else 0))

/-- A viewer that displays the cloud "c" with rgb and normals (nine colour handlers),
on which the ninth handler (index 8) is selected in the renderer, as the key `9` of the
interactor of the renderer does. -/
def ninthHandlerViewer : CloudViewer :=
  let s := (CloudViewer.new.addCloud "c" true Transform.getIdentity true true QColor.invalid).1
  { s with visualizer := s.visualizer.updateColorHandlerIndex "c" 8 }

/-! ## Rotation of a point about an axis

`rotatePointAroundAxe` takes a square root and the cosine and sine of the angle.  Its
scalars are those of any field `K`, and the library functions it calls are arguments:
over the reals they are the real functions, over the rationals any functions that can
be evaluated. -/

/-- A vector of three scalars of the field `K` (`Eigen::Vector3f` over exact
arithmetic). -/
structure Vector3 (K : Type) where
  x : K
  y : K
  z : K

namespace Vector3

/-- Componentwise sum. -/
def add {K : Type} [Field K] (a b : Vector3 K) : Vector3 K :=
  ⟨a.x + b.x, a.y + b.y, a.z + b.z⟩

/-- Componentwise difference. -/
def sub {K : Type} [Field K] (a b : Vector3 K) : Vector3 K :=
  ⟨a.x - b.x, a.y - b.y, a.z - b.z⟩

/-- Product of a vector and a scalar. -/
def smul {K : Type} [Field K] (a : Vector3 K) (c : K) : Vector3 K :=
  ⟨a.x * c, a.y * c, a.z * c⟩

/-- Scalar product (`Eigen::Vector3f::dot`). -/
def dot {K : Type} [Field K] (a b : Vector3 K) : K :=
  a.x * b.x + a.y * b.y + a.z * b.z

/-- Cross product (`Eigen::Vector3f::cross`). -/
def cross {K : Type} [Field K] (a b : Vector3 K) : Vector3 K :=
  ⟨a.y * b.z - a.z * b.y, a.z * b.x - a.x * b.z, a.x * b.y - a.y * b.x⟩

end Vector3

/-- Source function `rotatePointAroundAxe` (lines 1510 to 1543).  `normalized` and
`norm` are `Eigen::Vector3f::normalized` and `norm`, `cos` and `sin` the functions of
the C library.  `newFrame` has the columns `xAxis`, `yAxis`, `zAxis`. -/
def rotatePointAroundAxe {K : Type} [Field K] (normalized : Vector3 K → Vector3 K)
    (norm : Vector3 K → K) (cos sin : K → K) (point axis : Vector3 K) (angle : K) :
    Vector3 K :=
  let direction := point
  let zAxis := axis
  let dotProdZ := zAxis.dot direction
  let ptOnZaxis := zAxis.smul dotProdZ
  let direction1 := direction.sub ptOnZaxis
  let xAxis := normalized direction1
  let yAxis := zAxis.cross xAxis
  let newDirection : Vector3 K :=
    ⟨xAxis.dot direction1, yAxis.dot direction1, zAxis.dot direction1⟩
  let cosTheta := cos angle
  let sinTheta := sin angle
  let magnitude := norm newDirection
  let newDirection1 : Vector3 K := ⟨magnitude * cosTheta, magnitude * sinTheta, newDirection.z⟩
  let direction2 := ((xAxis.smul newDirection1.x).add (yAxis.smul newDirection1.y)).add
    (zAxis.smul newDirection1.z)
  direction2.add ptOnZaxis

/-- The norm `Eigen::Vector3f::norm`, given the square root of the scalars. -/
def Vector3.norm {K : Type} [Field K] (sqrt : K → K) (v : Vector3 K) : K :=
  sqrt (v.dot v)

/-- The unit vector `Eigen::Vector3f::normalized` of a vector that is not zero, given
the square root of the scalars: the vector divided by its norm. -/
def Vector3.normalized {K : Type} [Field K] (sqrt : K → K) (v : Vector3 K) : Vector3 K :=
  v.smul (Vector3.norm sqrt v)⁻¹

/-- The part of a point that is perpendicular to the axis: the point less its component
along the axis, as the specification measures the distance from the axis. -/
def Vector3.offAxis {K : Type} [Field K] (a p : Vector3 K) : Vector3 K :=
  p.sub (a.smul (a.dot p))

/-! ## Containers: membership after each update -/

theorem mem_setInsert (x id : String) (s : List String) :
    x ∈ setInsert id s ↔ x = id ∨ x ∈ s := by
  unfold setInsert
  split_ifs with h
  · constructor
    · intro hx; exact Or.inr hx
    · rintro (rfl | hx)
      · exact h
      · exact hx
  · simp

theorem mem_setErase (x id : String) (s : List String) :
    x ∈ setErase id s ↔ x ∈ s ∧ x ≠ id := by
  simp [setErase]

theorem mem_mapKeys_mapRemove {β : Type} (x id : String) (m : List (String × β)) :
    x ∈ mapKeys (mapRemove id m) ↔ x ∈ mapKeys m ∧ x ≠ id := by
  simp only [mapKeys, mapRemove, List.mem_map, List.mem_filter, decide_eq_true_eq]
  constructor
  · rintro ⟨kv, ⟨hkv, hne⟩, rfl⟩
    exact ⟨⟨kv, hkv, rfl⟩, hne⟩
  · rintro ⟨⟨kv, hkv, rfl⟩, hne⟩
    exact ⟨kv, ⟨hkv, hne⟩, rfl⟩

theorem mapKeys_mapUpdate {β : Type} (id : String) (f : β → β) (m : List (String × β)) :
    mapKeys (mapUpdate id f m) = mapKeys m := by
  induction m with
  | nil => rfl
  | cons kv m ih =>
    simp only [mapKeys, mapUpdate, List.map_cons] at ih ⊢
    rw [ih]
    by_cases h : kv.1 = id <;> simp [h]

theorem mem_mapKeys_mapInsert {β : Type} (x id : String) (v : β) (m : List (String × β)) :
    x ∈ mapKeys (mapInsert id v m) ↔ x = id ∨ x ∈ mapKeys m := by
  have h := mem_mapKeys_mapRemove x id m
  simp only [mapKeys] at h
  simp only [mapInsert, mapKeys, List.map_cons, List.mem_cons, h]
  by_cases hx : x = id <;> simp [hx]

theorem mapKeys_cons {β : Type} (k : String) (v : β) (m : List (String × β)) :
    mapKeys ((k, v) :: m) = k :: mapKeys m := rfl

theorem mapKeys_nil {β : Type} : mapKeys ([] : List (String × β)) = [] := rfl

theorem mapFind_isSome_iff {β : Type} (id : String) (m : List (String × β)) :
    (mapFind id m).isSome = true ↔ id ∈ mapKeys m := by
  induction m with
  | nil => simp [mapFind, mapKeys]
  | cons kv m ih =>
    obtain ⟨k, v⟩ := kv
    simp only [mapFind, mapKeys_cons, List.mem_cons]
    by_cases h : k = id
    · simp [h]
    · simp only [h, if_false, ih]
      constructor
      · intro hm; exact Or.inr hm
      · rintro (rfl | hm)
        · exact absurd rfl h
        · exact hm

/-! ## Claims on single operations -/

/-- C6: called with the empty string as id, each of addOrUpdateCoordinate,
removeCoordinate, addOrUpdateFrustum, removeFrustum, addOrUpdateGraph, removeGraph,
addOrUpdateText and removeText only logs the error "id should not be empty!"; the
displayed-cloud map, the coordinate, frustum, graph and text id sets and the renderer
are exactly as they were. -/
theorem empty_id_rejected (s : CloudViewer) (t : Transform) (scale : ℚ) (color : QColor)
    (graph : List Vec3) (text : String) :
    (s.addOrUpdateCoordinate "" t scale = s.UERROR "id should not be empty!"
      ∧ s.removeCoordinate "" = s.UERROR "id should not be empty!"
      ∧ s.addOrUpdateFrustum "" t scale color = s.UERROR "id should not be empty!"
      ∧ s.removeFrustum "" = s.UERROR "id should not be empty!"
      ∧ s.addOrUpdateGraph "" graph color = s.UERROR "id should not be empty!"
      ∧ s.removeGraph "" = s.UERROR "id should not be empty!"
      ∧ s.addOrUpdateText "" text t scale color = s.UERROR "id should not be empty!"
      ∧ s.removeText "" = s.UERROR "id should not be empty!")
    ∧ (s.UERROR "id should not be empty!").addedClouds = s.addedClouds
    ∧ (s.UERROR "id should not be empty!").coordinates = s.coordinates
    ∧ (s.UERROR "id should not be empty!").frustums = s.frustums
    ∧ (s.UERROR "id should not be empty!").graphes = s.graphes
    ∧ (s.UERROR "id should not be empty!").texts = s.texts
    ∧ (s.UERROR "id should not be empty!").visualizer = s.visualizer
    ∧ (s.UERROR "id should not be empty!").errors = s.errors ++ ["id should not be empty!"] := by
  refine ⟨⟨?_, ?_, ?_, ?_, ?_, ?_, ?_, ?_⟩, rfl, rfl, rfl, rfl, rfl, rfl, rfl⟩
  · simp [CloudViewer.addOrUpdateCoordinate]
  · simp [CloudViewer.removeCoordinate]
  · simp [CloudViewer.addOrUpdateFrustum]
  · simp [CloudViewer.removeFrustum]
  · simp [CloudViewer.addOrUpdateGraph]
  · simp [CloudViewer.removeGraph]
  · simp [CloudViewer.addOrUpdateText]
  · simp [CloudViewer.removeText]

theorem coordinates_removeCoordinate (s : CloudViewer) (id x : String) (h : id ≠ "") :
    x ∈ (s.removeCoordinate id).coordinates ↔ x ∈ s.coordinates ∧ x ≠ id := by
  unfold CloudViewer.removeCoordinate
  rw [if_neg h]
  split_ifs with hm
  · simp [mem_setErase]
  · constructor
    · intro hx
      exact ⟨hx, fun e => hm (e ▸ hx)⟩
    · exact fun hx => hx.1

theorem frustums_removeFrustum (s : CloudViewer) (id x : String) (h : id ≠ "") :
    x ∈ (s.removeFrustum id).frustums ↔ x ∈ s.frustums ∧ x ≠ id := by
  unfold CloudViewer.removeFrustum
  rw [if_neg h]
  split_ifs with hm
  · simp [mem_setErase]
  · constructor
    · intro hx
      exact ⟨hx, fun e => hm (e ▸ hx)⟩
    · exact fun hx => hx.1

/-- C7: for a non-empty id, after addOrUpdateCoordinate(id, t, scale) the id is in the
displayed coordinate-frame set exactly when t is not the null transform, and the
membership of every other id is unchanged; the same holds for addOrUpdateFrustum and
the displayed frustum set. -/
theorem addOrUpdate_membership (s : CloudViewer) (id : String) (t : Transform) (scale : ℚ)
    (color : QColor) (h : id ≠ "") :
    ((id ∈ (s.addOrUpdateCoordinate id t scale).coordinates ↔ t.isNull = false)
      ∧ ∀ x, x ≠ id → (x ∈ (s.addOrUpdateCoordinate id t scale).coordinates ↔ x ∈ s.coordinates))
    ∧ ((id ∈ (s.addOrUpdateFrustum id t scale color).frustums ↔ t.isNull = false)
      ∧ ∀ x, x ≠ id →
          (x ∈ (s.addOrUpdateFrustum id t scale color).frustums ↔ x ∈ s.frustums)) := by
  refine ⟨⟨?_, ?_⟩, ⟨?_, ?_⟩⟩
  · unfold CloudViewer.addOrUpdateCoordinate
    rw [if_neg h]
    cases hn : t.isNull
    · simp [mem_setInsert]
    · simp [coordinates_removeCoordinate s id id h]
  · intro x hx
    unfold CloudViewer.addOrUpdateCoordinate
    rw [if_neg h]
    cases hn : t.isNull
    · simp [mem_setInsert, coordinates_removeCoordinate s id x h, hx]
    · simp [coordinates_removeCoordinate s id x h, hx]
  · unfold CloudViewer.addOrUpdateFrustum
    rw [if_neg h]
    cases hn : t.isNull
    · simp [mem_setInsert]
    · simp [frustums_removeFrustum s id id h]
  · intro x hx
    unfold CloudViewer.addOrUpdateFrustum
    rw [if_neg h]
    cases hn : t.isNull
    · simp [mem_setInsert, frustums_removeFrustum s id x h, hx]
    · simp [frustums_removeFrustum s id x h, hx]

/-- Witness of C7 on a fresh viewer and the non-empty id "axes": with the identity
transform it enters both sets, and every other id keeps its membership. -/
theorem addOrUpdate_membership_witness :
    "axes" ≠ ""
    ∧ ((("axes" ∈ (CloudViewer.new.addOrUpdateCoordinate "axes" Transform.getIdentity 1).coordinates
          ↔ Transform.getIdentity.isNull = false)
        ∧ ∀ x, x ≠ "axes" →
            (x ∈ (CloudViewer.new.addOrUpdateCoordinate "axes" Transform.getIdentity 1).coordinates
              ↔ x ∈ CloudViewer.new.coordinates))
      ∧ (("axes" ∈
            (CloudViewer.new.addOrUpdateFrustum "axes" Transform.getIdentity 1 QColor.gray).frustums
          ↔ Transform.getIdentity.isNull = false)
        ∧ ∀ x, x ≠ "axes" →
            (x ∈ (CloudViewer.new.addOrUpdateFrustum "axes" Transform.getIdentity 1
                    QColor.gray).frustums
              ↔ x ∈ CloudViewer.new.frustums))) :=
  ⟨by decide,
   addOrUpdate_membership CloudViewer.new "axes" Transform.getIdentity 1 QColor.gray (by decide)⟩

/-! ## Trajectory -/

theorem length_trimTrajectory_le (m : Nat) (tr : List Vec3) :
    (CloudViewer.trimTrajectory m tr).length ≤ m := by
  induction tr with
  | nil => simp [CloudViewer.trimTrajectory]
  | cons p tr ih =>
    unfold CloudViewer.trimTrajectory
    split_ifs with h
    · exact ih
    · exact Nat.le_of_not_lt h

theorem trajectory_addOrUpdateCoordinate (s : CloudViewer) (id : String) (t : Transform)
    (scale : ℚ) : (s.addOrUpdateCoordinate id t scale).trajectory = s.trajectory := by
  unfold CloudViewer.addOrUpdateCoordinate CloudViewer.removeCoordinate CloudViewer.UERROR
  split_ifs <;> rfl

theorem trajectory_addOrUpdateFrustum (s : CloudViewer) (id : String) (t : Transform)
    (scale : ℚ) (c : QColor) : (s.addOrUpdateFrustum id t scale c).trajectory = s.trajectory := by
  unfold CloudViewer.addOrUpdateFrustum CloudViewer.removeFrustum CloudViewer.UERROR
  split_ifs <;> rfl

theorem trajectory_updateCoordinatePose (s : CloudViewer) (id : String) (t : Transform) :
    (s.updateCoordinatePose id t).1.trajectory = s.trajectory := by
  unfold CloudViewer.updateCoordinatePose
  split_ifs <;> rfl

theorem trajectory_moveReference (s : CloudViewer) (pose : Transform) :
    (s.moveReference pose).trajectory = s.trajectory := by
  unfold CloudViewer.moveReference
  dsimp only
  split_ifs <;>
    simp only [trajectory_addOrUpdateCoordinate, trajectory_addOrUpdateFrustum,
      trajectory_updateCoordinatePose]

theorem trajectory_updateCameraTargetPosition (normalized : Vec3 → Vec3) (s : CloudViewer)
    (pose : Transform) :
    (s.updateCameraTargetPosition normalized pose).trajectory =
      if pose.isNull then s.trajectory
      else if s.maxTrajectorySize > 0 then
        CloudViewer.trimTrajectory s.maxTrajectorySize (s.trajectory ++ [pose.translation])
      else s.trajectory ++ [pose.translation] := by
  have h1 : ∀ (a : CloudViewer) (p : Transform), (a.setLastPose p).trajectory = a.trajectory :=
    fun _ _ => rfl
  have h2 : ∀ (a : CloudViewer) (c : Camera), (a.setActiveCamera c).trajectory = a.trajectory :=
    fun _ _ => rfl
  have h3 : (s.appendTrajectory pose.translation).trajectory =
      if s.maxTrajectorySize > 0 then
        CloudViewer.trimTrajectory s.maxTrajectorySize (s.trajectory ++ [pose.translation])
      else s.trajectory ++ [pose.translation] := rfl
  unfold CloudViewer.updateCameraTargetPosition
  cases hn : pose.isNull
  · simp only [Bool.not_false, if_true, Bool.false_eq_true, if_false, h1]
    split_ifs <;> simp only [h1, h2, h3, trajectory_moveReference, if_true, if_false, *]
  · rfl

/-- C2: a non-null pose given to updateCameraTargetPosition in a state whose maximum
trajectory size m is greater than 0 leaves at most m points in the trajectory; a null
pose leaves the trajectory unchanged. -/
theorem trajectory_bounded (normalized : Vec3 → Vec3) (s : CloudViewer) (pose : Transform) :
    (pose.isNull = false → 0 < s.maxTrajectorySize →
      (s.updateCameraTargetPosition normalized pose).trajectory.length ≤ s.maxTrajectorySize)
    ∧ (pose.isNull = true →
      (s.updateCameraTargetPosition normalized pose).trajectory = s.trajectory) := by
  rw [trajectory_updateCameraTargetPosition]
  constructor
  · intro hn hm
    simp only [hn, Bool.false_eq_true, if_false, gt_iff_lt, hm, if_true]
    exact length_trimTrajectory_le _ _
  · intro hn
    simp [hn]

/-- Witness of C2 on a fresh viewer (maximum size 100): the identity pose leaves at
most 100 points, the null pose leaves the trajectory as it is. -/
theorem trajectory_bounded_witness :
    (Transform.getIdentity.isNull = false ∧ 0 < CloudViewer.new.maxTrajectorySize
      ∧ (CloudViewer.new.updateCameraTargetPosition (fun v => v)
          Transform.getIdentity).trajectory.length ≤ CloudViewer.new.maxTrajectorySize)
    ∧ (Transform.null.isNull = true
      ∧ (CloudViewer.new.updateCameraTargetPosition (fun v => v) Transform.null).trajectory
          = CloudViewer.new.trajectory) :=
  ⟨⟨by decide, by decide,
    (trajectory_bounded (fun v => v) CloudViewer.new Transform.getIdentity).1
      (by decide) (by decide)⟩,
   ⟨by decide,
    (trajectory_bounded (fun v => v) CloudViewer.new Transform.null).2 (by decide)⟩⟩

/-! ## Camera and text labels at concrete inputs -/

/-- C5 at the failing input: setCameraPosition(0, 0, 0, 1, 2, 3, 0, 0, 1) leaves the
focal point (1, 2, 1) in the renderer, not (1, 2, 3); getCameraPosition returns it. -/
theorem setCameraPosition_focal_failing_input :
    (CloudViewer.new.setCameraPosition 0 0 0 1 2 3 0 0 1).getCameraPosition
        = ⟨⟨0, 0, 0⟩, ⟨1, 2, 1⟩, ⟨0, 0, 1⟩⟩
    ∧ (CloudViewer.new.setCameraPosition 0 0 0 1 2 3 0 0 1).getCameraPosition.focal
        ≠ ⟨1, 2, 3⟩ := by
  decide

set_option maxRecDepth 4000 in
/-- C4 at the failing input: the camera of `cameraMovedViewer` is free and looks at
(0, 0, 1); saveSettings followed by loadSettings on the same store returns and leaves
the focal point (0, 0, 0). -/
theorem camera_settings_failing_input :
    cameraMovedViewer.isCameraFree = true
    ∧ cameraMovedViewer.getCameraPosition.focal = ⟨0, 0, 1⟩
    ∧ (cameraMovedViewer.loadSettings (cameraMovedViewer.saveSettings [] "") "").map
        (fun s => s.getCameraPosition.focal) = some ⟨0, 0, 0⟩ := by
  decide

/-- C8 at the failing input: on a fresh viewer, which displays the coordinate frame
"reference", addOrUpdateText("reference", ...) empties the coordinate-frame set. -/
theorem addOrUpdateText_coordinates_failing_input :
    CloudViewer.new.coordinates = ["reference"]
    ∧ (CloudViewer.new.addOrUpdateText "reference" "label" Transform.getIdentity 1
        QColor.black).coordinates = []
    ∧ (CloudViewer.new.addOrUpdateText "reference" "label" Transform.getIdentity 1
        QColor.black).texts = ["reference"] := by
  decide

/-- C9 at the failing input: "a" is a displayed label with text "old" at (1, 0, 0);
after addOrUpdateText("a", "new", (2, 0, 0), ...) the renderer still holds the text
"old" at (1, 0, 0) under "a". -/
theorem addOrUpdateText_update_failing_input :
    "a" ∈ labelledViewer.texts
    ∧ (mapFind "a" labelledViewer.visualizer.shapes).bind Shape.label
        = some ("old", ⟨1, 0, 0⟩)
    ∧ (mapFind "a" (labelledViewer.addOrUpdateText "a" "new" (Transform.ofTranslation 2 0 0) 1
        QColor.black).visualizer.shapes).bind Shape.label = some ("old", ⟨1, 0, 0⟩) := by
  decide

/-! ## The invariant under each operation -/

theorem inv_removeCoordinate (s : CloudViewer) (id : String) (h : Inv s) :
    Inv (s.removeCoordinate id) := by
  unfold CloudViewer.removeCoordinate
  split_ifs
  · exact h
  · exact ⟨⟨fun hm => h.1.1 ((mem_setErase _ _ _).1 hm).1, h.1.2⟩, h.2⟩
  · exact h

theorem inv_addOrUpdateCoordinate (s : CloudViewer) (id : String) (t : Transform) (scale : ℚ)
    (h : Inv s) : Inv (s.addOrUpdateCoordinate id t scale) := by
  have h1 := inv_removeCoordinate s id h
  unfold CloudViewer.addOrUpdateCoordinate
  split_ifs with he hn
  · exact h
  · refine ⟨⟨fun hm => ?_, h1.1.2⟩, h1.2⟩
    rcases (mem_setInsert _ _ _).1 hm with e | hm
    · exact he e.symm
    · exact h1.1.1 hm
  · exact h1

theorem inv_removeFrustum (s : CloudViewer) (id : String) (h : Inv s) :
    Inv (s.removeFrustum id) := by
  unfold CloudViewer.removeFrustum
  split_ifs
  · exact h
  · exact ⟨⟨h.1.1, fun hm => h.1.2.1 ((mem_setErase _ _ _).1 hm).1, h.1.2.2⟩, h.2⟩
  · exact h

theorem inv_addOrUpdateFrustum (s : CloudViewer) (id : String) (t : Transform) (scale : ℚ)
    (c : QColor) (h : Inv s) : Inv (s.addOrUpdateFrustum id t scale c) := by
  have h1 := inv_removeFrustum s id h
  have h2 : id ≠ "" → "" ∉ setInsert id (s.removeFrustum id).frustums := by
    intro he hm
    rcases (mem_setInsert _ _ _).1 hm with e | hm
    · exact he e.symm
    · exact h1.1.2.1 hm
  unfold CloudViewer.addOrUpdateFrustum
  dsimp only
  split_ifs with he hn hc
  · exact h
  · exact ⟨⟨h1.1.1, h2 he, h1.1.2.2⟩, h1.2⟩
  · exact ⟨⟨h1.1.1, h2 he, h1.1.2.2⟩, h1.2⟩
  · exact h1

theorem inv_removeGraph (s : CloudViewer) (id : String) (h : Inv s) :
    Inv (s.removeGraph id) := by
  unfold CloudViewer.removeGraph
  split_ifs
  · exact h
  · exact ⟨⟨h.1.1, h.1.2.1, fun hm => h.1.2.2.1 ((mem_setErase _ _ _).1 hm).1, h.1.2.2.2⟩, h.2⟩
  · exact h

theorem inv_addCloud (s : CloudViewer) (id : String) (r : Bool) (pose : Transform)
    (rgb hn : Bool) (c : QColor) (h : Inv s) : Inv (s.addCloud id r pose rgb hn c).1 := by
  unfold CloudViewer.addCloud CloudViewer.removeCloud
  dsimp only
  split_ifs <;> exact h

theorem inv_setCloudPointSize (s : CloudViewer) (id : String) (size : Int) (h : Inv s) :
    Inv (s.setCloudPointSize id size) := h

theorem inv_addOrUpdateGraph (s : CloudViewer) (id : String) (graph : List Vec3) (c : QColor)
    (h : Inv s) : Inv (s.addOrUpdateGraph id graph c) := by
  have h1 := inv_removeGraph s id h
  unfold CloudViewer.addOrUpdateGraph
  split_ifs with he hn
  · exact h
  · apply inv_setCloudPointSize
    apply inv_addCloud
    refine ⟨⟨h1.1.1, h1.1.2.1, fun hm => ?_, h1.1.2.2.2⟩, h1.2⟩
    rcases (mem_setInsert _ _ _).1 hm with e | hm
    · exact he e.symm
    · exact h1.1.2.2.1 hm
  · exact h1

theorem inv_addOrUpdateText (s : CloudViewer) (id text : String) (t : Transform) (scale : ℚ)
    (c : QColor) (h : Inv s) : Inv (s.addOrUpdateText id text t scale c) := by
  have h1 := inv_removeCoordinate s id h
  unfold CloudViewer.addOrUpdateText
  split_ifs with he hn
  · exact h
  · refine ⟨⟨h1.1.1, h1.1.2.1, h1.1.2.2.1, fun hm => ?_⟩, h1.2⟩
    rcases (mem_setInsert _ _ _).1 hm with e | hm
    · exact he e.symm
    · exact h1.1.2.2.2 hm
  · exact h1

theorem inv_removeText (s : CloudViewer) (id : String) (h : Inv s) :
    Inv (s.removeText id) := by
  unfold CloudViewer.removeText
  split_ifs
  · exact h
  · exact ⟨⟨h.1.1, h.1.2.1, h.1.2.2.1, fun hm => h.1.2.2.2 ((mem_setErase _ _ _).1 hm).1⟩, h.2⟩
  · exact h

theorem inv_foldl (f : CloudViewer → String → CloudViewer)
    (hf : ∀ s id, Inv s → Inv (f s id)) (l : List String) (s : CloudViewer) (h : Inv s) :
    Inv (l.foldl f s) := by
  induction l generalizing s with
  | nil => exact h
  | cons id l ih => exact ih _ (hf s id h)

theorem uassert_bind_eq_some {α : Type} (c : Bool) (a b : α)
    (h : (UASSERT c).bind (fun _ => some a) = some b) : c = true ∧ a = b := by
  unfold UASSERT at h
  cases c
  · simp at h
  · simpa using h

theorem inv_removeAllCoordinates (s s1 : CloudViewer) (hs : s.removeAllCoordinates = some s1)
    (h : Inv s) : Inv s1 := by
  obtain ⟨_, rfl⟩ := uassert_bind_eq_some _ _ _ hs
  exact inv_foldl _ inv_removeCoordinate _ _ h

theorem inv_removeAllFrustums (s s1 : CloudViewer) (hs : s.removeAllFrustums = some s1)
    (h : Inv s) : Inv s1 := by
  obtain ⟨_, rfl⟩ := uassert_bind_eq_some _ _ _ hs
  exact inv_foldl _ inv_removeFrustum _ _ h

theorem inv_removeAllGraphs (s s1 : CloudViewer) (hs : s.removeAllGraphs = some s1)
    (h : Inv s) : Inv s1 := by
  obtain ⟨_, rfl⟩ := uassert_bind_eq_some _ _ _ hs
  exact inv_foldl _ inv_removeGraph _ _ h

theorem inv_removeAllTexts (s s1 : CloudViewer) (hs : s.removeAllTexts = some s1)
    (h : Inv s) : Inv s1 := by
  obtain ⟨_, rfl⟩ := uassert_bind_eq_some _ _ _ hs
  exact inv_foldl _ inv_removeText _ _ h

theorem inv_clearTrajectory (s : CloudViewer) (h : Inv s) : Inv s.clearTrajectory := h

theorem inv_clear (s s1 : CloudViewer) (hs : s.clear = some s1) (h : Inv s) : Inv s1 := by
  unfold CloudViewer.clear at hs
  simp only [Option.bind_eq_bind, Option.bind_eq_some, Option.pure_def] at hs
  obtain ⟨s2, h2, s3, h3, s4, h4, s5, h5, hs⟩ := hs
  have i2 := inv_removeAllGraphs _ _ h2 (show Inv s.removeAllClouds from h)
  have i3 := inv_removeAllCoordinates _ _ h3 i2
  have i4 := inv_removeAllFrustums _ _ h4 i3
  have i5 := inv_removeAllTexts _ _ h5 i4
  have i7 := inv_addOrUpdateCoordinate _ "reference" Transform.getIdentity 0.2
    (inv_clearTrajectory _ i5)
  split_ifs at hs
  · rw [← Option.some.inj hs]
    exact inv_addOrUpdateFrustum _ _ _ _ _ i7
  · rw [← Option.some.inj hs]
    exact i7

theorem inv_setFrustumShown (s : CloudViewer) (shown : Bool) (h : Inv s) :
    Inv (s.setFrustumShown shown) := by
  have h1 := inv_removeFrustum s "reference_frustum" h
  unfold CloudViewer.setFrustumShown
  dsimp only
  split_ifs
  · exact h1
  · exact h

theorem inv_setFrustumColor (s : CloudViewer) (value : QColor) (h : Inv s) :
    Inv (s.setFrustumColor value) := by
  have hv : (if (!value.isValid) = true then QColor.gray else value).isValid = true := by
    cases value <;> rfl
  unfold CloudViewer.setFrustumColor
  dsimp only
  by_cases hc : "reference_frustum" ∈ s.frustums
  · rw [if_pos hc]
    exact ⟨h.1, h.2.1, h.2.2.1, hv⟩
  · rw [if_neg hc]
    exact ⟨h.1, h.2.1, h.2.2.1, hv⟩

theorem inv_updateCoordinatePose (s : CloudViewer) (id : String) (pose : Transform)
    (h : Inv s) : Inv (s.updateCoordinatePose id pose).1 := by
  unfold CloudViewer.updateCoordinatePose
  split_ifs <;> exact h

theorem inv_moveReference (s : CloudViewer) (pose : Transform) (h : Inv s) :
    Inv (s.moveReference pose) := by
  unfold CloudViewer.moveReference
  dsimp only
  split_ifs
  · exact inv_addOrUpdateFrustum _ _ _ _ _ (inv_updateCoordinatePose _ _ _ h)
  · exact inv_updateCoordinatePose _ _ _ h
  · exact inv_addOrUpdateFrustum _ _ _ _ _ (inv_addOrUpdateCoordinate _ _ _ _ h)
  · exact inv_addOrUpdateCoordinate _ _ _ _ h

theorem inv_setLastPose (s : CloudViewer) (pose : Transform) (h : Inv s) :
    Inv (s.setLastPose pose) := h

theorem inv_setActiveCamera (s : CloudViewer) (cam : Camera) (h : Inv s) :
    Inv (s.setActiveCamera cam) := h

theorem inv_appendTrajectory (s : CloudViewer) (pos : Vec3) (h : Inv s) :
    Inv (s.appendTrajectory pos) := h

theorem inv_updateCameraTargetPosition (normalized : Vec3 → Vec3) (s : CloudViewer)
    (pose : Transform) (h : Inv s) : Inv (s.updateCameraTargetPosition normalized pose) := by
  unfold CloudViewer.updateCameraTargetPosition
  dsimp only
  apply inv_setLastPose
  split_ifs
  · exact inv_setActiveCamera _ _ (inv_moveReference _ _
      (inv_setLastPose _ _ (inv_appendTrajectory _ _ h)))
  · exact inv_setActiveCamera _ _ (inv_moveReference _ _ (inv_appendTrajectory _ _ h))
  · exact inv_appendTrajectory _ _ h
  · exact h

theorem inv_addGrid (s s1 : CloudViewer) (hs : s.addGrid = some s1) (h : Inv s) : Inv s1 := by
  unfold CloudViewer.addGrid at hs
  dsimp only at hs
  split_ifs at hs
  · obtain ⟨r, _, rfl⟩ := Option.map_eq_some'.1 hs
    exact h
  · rw [← Option.some.inj hs]
    exact h

theorem inv_removeGrid (s : CloudViewer) (h : Inv s) : Inv s.removeGrid := h

theorem inv_setGridShown (s s1 : CloudViewer) (shown : Bool)
    (hs : s.setGridShown shown = some s1) (h : Inv s) : Inv s1 := by
  unfold CloudViewer.setGridShown at hs
  dsimp only at hs
  split_ifs at hs
  · exact inv_addGrid _ _ hs h
  · rw [← Option.some.inj hs]
    exact h

theorem inv_setGridCellCount (s s1 : CloudViewer) (count : Nat)
    (hs : s.setGridCellCount count = some s1) (h : Inv s) : Inv s1 := by
  unfold CloudViewer.setGridCellCount at hs
  dsimp only at hs
  split_ifs at hs with hc hg
  · exact inv_addGrid _ _ hs ⟨h.1, hc, h.2.2⟩
  · rw [← Option.some.inj hs]
    exact ⟨h.1, hc, h.2.2⟩
  · rw [← Option.some.inj hs]
    exact h

theorem inv_setGridCellSize (s s1 : CloudViewer) (size : ℚ)
    (hs : s.setGridCellSize size = some s1) (h : Inv s) : Inv s1 := by
  unfold CloudViewer.setGridCellSize at hs
  dsimp only at hs
  split_ifs at hs with hc hg
  · exact inv_addGrid _ _ hs ⟨h.1, h.2.1, hc, h.2.2.2⟩
  · rw [← Option.some.inj hs]
    exact ⟨h.1, h.2.1, hc, h.2.2.2⟩
  · rw [← Option.some.inj hs]
    exact h

theorem inv_setDefaultBackgroundColor (s : CloudViewer) (c : QColor) (h : Inv s) :
    Inv (s.setDefaultBackgroundColor c) := by
  unfold CloudViewer.setDefaultBackgroundColor
  dsimp only
  split_ifs <;> exact h

theorem inv_checkLockCamera (s : CloudViewer) (b : Bool) (h : Inv s) :
    Inv (s.checkLockCamera b) := by
  cases b <;> exact h

theorem inv_checkFollowCamera (s : CloudViewer) (b : Bool) (h : Inv s) :
    Inv (s.checkFollowCamera b) := by
  cases b <;> exact h

theorem inv_checkFreeCamera (s : CloudViewer) (b : Bool) (h : Inv s) :
    Inv (s.checkFreeCamera b) := by
  cases b <;> exact h

theorem inv_setCameraTargetLocked (s : CloudViewer) (b : Bool) (h : Inv s) :
    Inv (s.setCameraTargetLocked b) :=
  inv_checkLockCamera s b h

theorem inv_setCameraTargetFollow (s : CloudViewer) (b : Bool) (h : Inv s) :
    Inv (s.setCameraTargetFollow b) :=
  inv_checkFollowCamera s b h

theorem inv_setCameraFree (s : CloudViewer) (h : Inv s) : Inv s.setCameraFree :=
  inv_checkFollowCamera _ _ (inv_checkLockCamera _ _ h)

theorem inv_setCameraLockZ (s : CloudViewer) (b : Bool) (h : Inv s) :
    Inv (s.setCameraLockZ b) := h

theorem inv_setFrustumScale (s : CloudViewer) (v : ℚ) (h : Inv s) :
    Inv (s.setFrustumScale v) := h

theorem inv_setTrajectorySize (s : CloudViewer) (v : Nat) (h : Inv s) :
    Inv (s.setTrajectorySize v) := h

theorem inv_setTrajectoryShown (s : CloudViewer) (b : Bool) (h : Inv s) :
    Inv (s.setTrajectoryShown b) := h

theorem inv_loadSettings (s s1 : CloudViewer) (settings : QSettings) (group : String)
    (hs : s.loadSettings settings group = some s1) (h : Inv s) : Inv s1 := by
  unfold CloudViewer.loadSettings at hs
  simp only [Option.bind_eq_bind, Option.bind_eq_some, Option.pure_def] at hs
  obtain ⟨s2, h2, s3, h3, s4, h4, hs⟩ := hs
  have i2 := inv_setGridShown _ _ _ h2 (show Inv (s.setCameraPosition _ _ _ _ _ _ _ _ _) from h)
  have i3 := inv_setGridCellCount _ _ _ h3 i2
  have i4 := inv_setGridCellSize _ _ _ h4 i3
  rw [← Option.some.inj hs]
  apply inv_setDefaultBackgroundColor
  apply inv_setCameraLockZ
  split_ifs
  · apply inv_setCameraFree
    apply inv_setCameraTargetFollow
    apply inv_setCameraTargetLocked
    apply inv_setFrustumColor
    apply inv_setFrustumScale
    apply inv_setFrustumShown
    apply inv_setTrajectorySize
    apply inv_setTrajectoryShown
    exact i4
  · apply inv_setCameraTargetFollow
    apply inv_setCameraTargetLocked
    apply inv_setFrustumColor
    apply inv_setFrustumScale
    apply inv_setFrustumShown
    apply inv_setTrajectorySize
    apply inv_setTrajectoryShown
    exact i4

theorem inv_handleAction (s s1 : CloudViewer) (a : Action) (d : Dialog)
    (hs : s.handleAction a d = some s1) (h : Inv s) : Inv s1 := by
  unfold CloudViewer.handleAction at hs
  cases a <;> dsimp only at hs
  case aShowGrid =>
    split_ifs at hs
    · exact inv_addGrid _ _ hs h
    · rw [← Option.some.inj hs]
      exact h
  case aSetGridCellCount =>
    split_ifs at hs
    · exact inv_setGridCellCount _ _ _ hs h
    · rw [← Option.some.inj hs]
      exact h
  case aSetGridCellSize =>
    split_ifs at hs
    · exact inv_setGridCellSize _ _ _ hs h
    · rw [← Option.some.inj hs]
      exact h
  case aShowFrustum =>
    rw [← Option.some.inj hs]
    exact inv_setFrustumShown _ _ h
  case aSetFrustumColor =>
    rw [← Option.some.inj hs]
    split_ifs
    · exact inv_setFrustumColor _ _ h
    · exact h
  case aSetBackgroundColor =>
    rw [← Option.some.inj hs]
    split_ifs
    · exact inv_setDefaultBackgroundColor _ _ h
    · exact h
  case aResetCamera =>
    rw [← Option.some.inj hs]
    unfold CloudViewer.resetCamera
    dsimp only
    split_ifs <;> exact h
  all_goals
    rw [← Option.some.inj hs]
    first
      | exact h
      | (split_ifs <;> exact h)

theorem inv_trigger (s : CloudViewer) (a : Action) (h : Inv s) : Inv (s.trigger a) := by
  cases a <;> exact h

theorem inv_contextMenuEvent (s s1 : CloudViewer) (a : Option Action) (d : Dialog)
    (hs : s.contextMenuEvent a d = some s1) (h : Inv s) : Inv s1 := by
  cases a with
  | none =>
    rw [← Option.some.inj hs]
    exact h
  | some a => exact inv_handleAction _ _ _ _ hs (inv_trigger _ _ h)

theorem inv_addOccupancyGridMap (s : CloudViewer) (r : CloudViewer × Bool) (m : Mat)
    (textured : Bool) (res xMin yMin opacity : ℚ)
    (hs : s.addOccupancyGridMap m textured res xMin yMin opacity = some r) (h : Inv s) :
    Inv r.1 := by
  unfold CloudViewer.addOccupancyGridMap at hs
  simp only [Option.bind_eq_bind, Option.bind_eq_some, Option.pure_def] at hs
  obtain ⟨_, _, hs⟩ := hs
  split_ifs at hs <;>
    (rw [← Option.some.inj hs]
     exact h)

theorem inv_addCloudMesh (s : CloudViewer) (id : String) (r : Bool) (pose : Transform)
    (h : Inv s) : Inv (s.addCloudMesh id r pose).1 ∧ Inv (s.addCloudTextureMesh id r pose).1 := by
  unfold CloudViewer.addCloudMesh CloudViewer.addCloudTextureMesh CloudViewer.removeCloud
  dsimp only
  constructor <;> split_ifs <;> exact h

theorem inv_updateCloudPose (s : CloudViewer) (id : String) (pose : Transform) (h : Inv s) :
    Inv (s.updateCloudPose id pose).1 := by
  unfold CloudViewer.updateCloudPose
  split
  · dsimp only
    split_ifs <;> exact h
  · exact h

theorem inv_misc (s : CloudViewer) (id : String) (pose : Transform) (b : Bool) (h : Inv s) :
    Inv (s.updateFrustumPose id pose).1 ∧ Inv s.resetCamera ∧ Inv (s.setCloudVisibility id b)
      ∧ Inv s.removeOccupancyGridMap := by
  unfold CloudViewer.updateFrustumPose CloudViewer.resetCamera CloudViewer.setCloudVisibility
    CloudViewer.removeOccupancyGridMap
  dsimp only
  refine ⟨?_, ?_, ?_, ?_⟩ <;> split_ifs <;> exact h

theorem inv_new : Inv CloudViewer.new := by
  refine ⟨⟨?_, ?_, ?_, ?_⟩, ?_, ?_, ?_⟩ <;> decide

/-- One returning operation keeps the invariant. -/
theorem inv_step (normalized : Vec3 → Vec3) (s s1 : CloudViewer) (op : Op)
    (hs : step normalized s op = some s1) (h : Inv s) : Inv s1 := by
  cases op <;> simp only [step] at hs
  case clear => exact inv_clear _ _ hs h
  case loadSettings => exact inv_loadSettings _ _ _ _ hs h
  case addOccupancyGridMap =>
    obtain ⟨r, hr, rfl⟩ := Option.map_eq_some'.1 hs
    exact inv_addOccupancyGridMap _ _ _ _ _ _ _ _ hr h
  case removeAllCoordinates => exact inv_removeAllCoordinates _ _ hs h
  case removeAllFrustums => exact inv_removeAllFrustums _ _ hs h
  case removeAllGraphs => exact inv_removeAllGraphs _ _ hs h
  case removeAllTexts => exact inv_removeAllTexts _ _ hs h
  case setGridShown => exact inv_setGridShown _ _ _ hs h
  case setGridCellCount => exact inv_setGridCellCount _ _ _ hs h
  case setGridCellSize => exact inv_setGridCellSize _ _ _ hs h
  case handleAction => exact inv_handleAction _ _ _ _ hs h
  case contextMenuEvent => exact inv_contextMenuEvent _ _ _ _ hs h
  case updateCloudPose => rw [← Option.some.inj hs]; exact inv_updateCloudPose _ _ _ h
  case addCloud => rw [← Option.some.inj hs]; exact inv_addCloud _ _ _ _ _ _ _ h
  case addCloudMesh => rw [← Option.some.inj hs]; exact (inv_addCloudMesh _ _ _ _ h).1
  case addCloudTextureMesh => rw [← Option.some.inj hs]; exact (inv_addCloudMesh _ _ _ _ h).2
  case removeOccupancyGridMap =>
    rw [← Option.some.inj hs]; exact (inv_misc _ "" Transform.null true h).2.2.2
  case addOrUpdateCoordinate =>
    rw [← Option.some.inj hs]; exact inv_addOrUpdateCoordinate _ _ _ _ h
  case updateCoordinatePose => rw [← Option.some.inj hs]; exact inv_updateCoordinatePose _ _ _ h
  case removeCoordinate => rw [← Option.some.inj hs]; exact inv_removeCoordinate _ _ h
  case addOrUpdateFrustum => rw [← Option.some.inj hs]; exact inv_addOrUpdateFrustum _ _ _ _ _ h
  case updateFrustumPose => rw [← Option.some.inj hs]; exact (inv_misc _ _ _ true h).1
  case removeFrustum => rw [← Option.some.inj hs]; exact inv_removeFrustum _ _ h
  case addOrUpdateGraph => rw [← Option.some.inj hs]; exact inv_addOrUpdateGraph _ _ _ _ h
  case removeGraph => rw [← Option.some.inj hs]; exact inv_removeGraph _ _ h
  case addOrUpdateText => rw [← Option.some.inj hs]; exact inv_addOrUpdateText _ _ _ _ _ _ h
  case removeText => rw [← Option.some.inj hs]; exact inv_removeText _ _ h
  case setTrajectoryShown => rw [← Option.some.inj hs]; exact h
  case setTrajectorySize => rw [← Option.some.inj hs]; exact h
  case clearTrajectory => rw [← Option.some.inj hs]; exact h
  case setFrustumShown => rw [← Option.some.inj hs]; exact inv_setFrustumShown _ _ h
  case setFrustumScale => rw [← Option.some.inj hs]; exact h
  case setFrustumColor => rw [← Option.some.inj hs]; exact inv_setFrustumColor _ _ h
  case resetCamera => rw [← Option.some.inj hs]; exact (inv_misc _ "" Transform.null true h).2.1
  case removeAllClouds => rw [← Option.some.inj hs]; exact h
  case removeCloud => rw [← Option.some.inj hs]; exact h
  case setBackfaceCulling => rw [← Option.some.inj hs]; exact h
  case setCameraPosition => rw [← Option.some.inj hs]; exact h
  case updateCameraTargetPosition =>
    rw [← Option.some.inj hs]; exact inv_updateCameraTargetPosition _ _ _ h
  case setDefaultBackgroundColor =>
    rw [← Option.some.inj hs]; exact inv_setDefaultBackgroundColor _ _ h
  case setBackgroundColor => rw [← Option.some.inj hs]; exact h
  case setCloudVisibility =>
    rw [← Option.some.inj hs]; exact (inv_misc _ _ Transform.null _ h).2.2.1
  case setCloudOpacity => rw [← Option.some.inj hs]; exact h
  case setCloudPointSize => rw [← Option.some.inj hs]; exact h
  case setCameraTargetLocked => rw [← Option.some.inj hs]; exact inv_checkLockCamera _ _ h
  case setCameraTargetFollow => rw [← Option.some.inj hs]; exact inv_checkFollowCamera _ _ h
  case setCameraFree => rw [← Option.some.inj hs]; exact inv_setCameraFree _ h
  case setCameraLockZ => rw [← Option.some.inj hs]; exact h

/-- Every reachable state satisfies the invariant, whatever operations are allowed. -/
theorem reachable_inv (normalized : Vec3 → Vec3) (allowed : Op → Prop) (s : CloudViewer)
    (hr : Reachable normalized allowed s) : Inv s := by
  induction hr with
  | new => exact inv_new
  | step s s1 op _ _ hs ih => exact inv_step normalized s s1 op hs ih

/-! ## The remove-all operations -/

theorem graphes_removeGraph (s : CloudViewer) (id x : String) (h : id ≠ "") :
    x ∈ (s.removeGraph id).graphes ↔ x ∈ s.graphes ∧ x ≠ id := by
  unfold CloudViewer.removeGraph
  rw [if_neg h]
  split_ifs with hm
  · show x ∈ setErase id s.graphes ↔ _
    exact mem_setErase _ _ _
  · constructor
    · intro hx
      exact ⟨hx, fun e => hm (e ▸ hx)⟩
    · exact fun hx => hx.1

theorem texts_removeText (s : CloudViewer) (id x : String) (h : id ≠ "") :
    x ∈ (s.removeText id).texts ↔ x ∈ s.texts ∧ x ≠ id := by
  unfold CloudViewer.removeText
  rw [if_neg h]
  split_ifs with hm
  · simp [mem_setErase]
  · constructor
    · intro hx
      exact ⟨hx, fun e => hm (e ▸ hx)⟩
    · exact fun hx => hx.1

/-- A per-id removal folded over a list of non-empty ids removes exactly these ids. -/
theorem mem_foldl_remove (f : CloudViewer → String → CloudViewer)
    (field : CloudViewer → List String)
    (hf : ∀ s id x, id ≠ "" → (x ∈ field (f s id) ↔ x ∈ field s ∧ x ≠ id))
    (l : List String) (hl : "" ∉ l) (s : CloudViewer) (x : String) :
    x ∈ field (l.foldl f s) ↔ x ∈ field s ∧ x ∉ l := by
  induction l generalizing s with
  | nil => simp
  | cons id l ih =>
    have hid : id ≠ "" := fun e => hl (e ▸ List.mem_cons_self _ _)
    have hl1 : "" ∉ l := fun hm => hl (List.mem_cons_of_mem _ hm)
    rw [List.foldl_cons, ih hl1, hf s id x hid, List.mem_cons, not_or]
    tauto

theorem foldl_remove_nil (f : CloudViewer → String → CloudViewer)
    (field : CloudViewer → List String)
    (hf : ∀ s id x, id ≠ "" → (x ∈ field (f s id) ↔ x ∈ field s ∧ x ≠ id))
    (s : CloudViewer) (h : "" ∉ field s) : field ((field s).foldl f s) = [] := by
  apply List.eq_nil_iff_forall_not_mem.2
  intro x hx
  exact ((mem_foldl_remove f field hf (field s) h s x).1 hx).2
    ((mem_foldl_remove f field hf (field s) h s x).1 hx).1

theorem uassert_bind_some {α : Type} (c : Bool) (a : α) (h : c = true) :
    (UASSERT c).bind (fun _ => some a) = some a := by
  subst h
  rfl

/-- C10: in every state reachable from a freshly constructed viewer through the
operations of the viewer, no displayed-id set contains the empty id, and each of
removeAllCoordinates, removeAllFrustums, removeAllGraphs and removeAllTexts returns
(its final UASSERT is satisfied) with its id set empty. -/
theorem removeAll_assertions_hold (normalized : Vec3 → Vec3) (s : CloudViewer)
    (hr : Reachable normalized (fun _ => True) s) :
    NoEmptyId s
    ∧ (∃ s1, s.removeAllCoordinates = some s1 ∧ s1.coordinates = [])
    ∧ (∃ s1, s.removeAllFrustums = some s1 ∧ s1.frustums = [])
    ∧ (∃ s1, s.removeAllGraphs = some s1 ∧ s1.graphes = [])
    ∧ (∃ s1, s.removeAllTexts = some s1 ∧ s1.texts = []) := by
  have h := (reachable_inv normalized _ s hr).1
  have hc := foldl_remove_nil (fun a id => a.removeCoordinate id) (fun a => a.coordinates)
    (fun a id x hid => coordinates_removeCoordinate a id x hid) s h.1
  have hf := foldl_remove_nil (fun a id => a.removeFrustum id) (fun a => a.frustums)
    (fun a id x hid => frustums_removeFrustum a id x hid) s h.2.1
  have hg := foldl_remove_nil (fun a id => a.removeGraph id) (fun a => a.graphes)
    (fun a id x hid => graphes_removeGraph a id x hid) s h.2.2.1
  have ht := foldl_remove_nil (fun a id => a.removeText id) (fun a => a.texts)
    (fun a id x hid => texts_removeText a id x hid) s h.2.2.2
  refine ⟨h, ⟨_, uassert_bind_some _ _ ?_, hc⟩, ⟨_, uassert_bind_some _ _ ?_, hf⟩,
    ⟨_, uassert_bind_some _ _ ?_, hg⟩, ⟨_, uassert_bind_some _ _ ?_, ht⟩⟩
  · exact decide_eq_true hc
  · exact decide_eq_true hf
  · exact decide_eq_true hg
  · exact decide_eq_true ht

/-- Witness of C10 on the state reached by displaying the coordinate frame "axes" on a
fresh viewer. -/
theorem removeAll_assertions_hold_witness :
    Reachable (fun v => v) (fun _ => True)
        (CloudViewer.new.addOrUpdateCoordinate "axes" Transform.getIdentity 1)
    ∧ (NoEmptyId (CloudViewer.new.addOrUpdateCoordinate "axes" Transform.getIdentity 1)
      ∧ (∃ s1, (CloudViewer.new.addOrUpdateCoordinate "axes" Transform.getIdentity
            1).removeAllCoordinates = some s1 ∧ s1.coordinates = [])
      ∧ (∃ s1, (CloudViewer.new.addOrUpdateCoordinate "axes" Transform.getIdentity
            1).removeAllFrustums = some s1 ∧ s1.frustums = [])
      ∧ (∃ s1, (CloudViewer.new.addOrUpdateCoordinate "axes" Transform.getIdentity
            1).removeAllGraphs = some s1 ∧ s1.graphes = [])
      ∧ (∃ s1, (CloudViewer.new.addOrUpdateCoordinate "axes" Transform.getIdentity
            1).removeAllTexts = some s1 ∧ s1.texts = [])) :=
  ⟨Reachable.step _ _ (Op.addOrUpdateCoordinate "axes" Transform.getIdentity 1) Reachable.new
      trivial rfl,
   removeAll_assertions_hold (fun v => v) _
    (Reachable.step _ _ (Op.addOrUpdateCoordinate "axes" Transform.getIdentity 1) Reachable.new
      trivial rfl)⟩

/-! ## Single precision: rounding -/

namespace F32

theorem log2Aux_eq : ∀ (fuel n : Nat), n ≤ fuel → log2Aux fuel n = Nat.log 2 n
  | 0, n, h => by
    have h0 : n = 0 := by omega
    subst h0
    simp [log2Aux]
  | fuel + 1, n, h => by
    unfold log2Aux
    split_ifs with h2
    · exact (Nat.log_of_lt h2).symm
    · have h3 : Nat.log 2 n = Nat.log 2 (n / 2) + 1 :=
        Nat.log_of_one_lt_of_le (by norm_num) (by omega)
      rw [log2Aux_eq fuel (n / 2) (by omega), h3]

theorem log2_eq (n : Nat) : log2 n = Nat.log 2 n := log2Aux_eq n n le_rfl

theorem roundNat_cases (n s : Nat) :
    (roundNat n s = n / 2 ^ (max (log2 n - 23) s) * 2 ^ (max (log2 n - 23) s - s)
       ∧ 2 * (n % 2 ^ max (log2 n - 23) s) ≤ 2 ^ max (log2 n - 23) s)
    ∨ (roundNat n s = (n / 2 ^ max (log2 n - 23) s + 1) * 2 ^ (max (log2 n - 23) s - s)
       ∧ 2 ^ max (log2 n - 23) s ≤ 2 * (n % 2 ^ max (log2 n - 23) s)) := by
  unfold roundNat
  dsimp only
  split_ifs with h1 h2 h3
  · exact Or.inl ⟨rfl, h1.le⟩
  · exact Or.inr ⟨rfl, h2.le⟩
  · exact Or.inl ⟨rfl, by omega⟩
  · exact Or.inr ⟨rfl, by omega⟩

theorem lt_pow_drop (n s : Nat) : n < 2 ^ (max (log2 n - 23) s + 24) := by
  have h1 : n < 2 ^ (Nat.log 2 n + 1) := Nat.lt_pow_succ_log_self (by norm_num) n
  have h2 : Nat.log 2 n + 1 ≤ max (log2 n - 23) s + 24 := by
    rw [log2_eq]
    have h3 := le_max_left (Nat.log 2 n - 23) s
    omega
  exact lt_of_lt_of_le h1 (Nat.pow_le_pow_right (by norm_num) h2)

theorem div_drop_lt (n s : Nat) : n / 2 ^ max (log2 n - 23) s < 2 ^ 24 := by
  apply Nat.div_lt_of_lt_mul
  rw [← pow_add]
  exact lt_pow_drop n s

/-- The rounded value has at most 24 significant bits. -/
theorem roundNat_eq_mul (n s : Nat) :
    ∃ k, k ≤ 2 ^ 24 ∧ roundNat n s = k * 2 ^ (max (log2 n - 23) s - s) := by
  have h := div_drop_lt n s
  rcases roundNat_cases n s with ⟨e, _⟩ | ⟨e, _⟩
  · exact ⟨_, h.le, e⟩
  · exact ⟨_, h, e⟩

theorem drop_dvd (k t : Nat) (hk : k ≤ 2 ^ 24) :
    2 ^ (log2 (k * 2 ^ t) - 23) ∣ k * 2 ^ t := by
  rw [log2_eq]
  rcases Nat.eq_zero_or_pos k with h0 | h0
  · subst h0
    simp
  rcases Nat.lt_or_ge k (2 ^ 24) with h1 | h1
  · have hn : k * 2 ^ t ≠ 0 := Nat.mul_ne_zero (by omega) (by positivity)
    have h2 : k * 2 ^ t < 2 ^ (24 + t) := by
      rw [pow_add]
      exact Nat.mul_lt_mul_of_pos_right h1 (by positivity)
    have h3 := Nat.log_lt_of_lt_pow hn h2
    exact Dvd.dvd.mul_left (pow_dvd_pow 2 (by omega)) k
  · have hk2 : k = 2 ^ 24 := le_antisymm hk h1
    subst hk2
    rw [← pow_add, Nat.log_pow (by norm_num)]
    exact pow_dvd_pow 2 (by omega)

/-- A number of at most 24 significant bits is left as it is. -/
theorem roundNat_exact (k t : Nat) (hk : k ≤ 2 ^ 24) :
    roundNat (k * 2 ^ t) 0 = k * 2 ^ t := by
  have hd := drop_dvd k t hk
  have hm : max (log2 (k * 2 ^ t) - 23) 0 = log2 (k * 2 ^ t) - 23 := Nat.max_zero _
  rcases roundNat_cases (k * 2 ^ t) 0 with ⟨h, _⟩ | ⟨_, h2⟩
  · rw [h, hm, Nat.sub_zero, Nat.div_mul_cancel hd]
  · rw [hm, Nat.mod_eq_zero_of_dvd hd] at h2
    have h3 : 0 < 2 ^ (log2 (k * 2 ^ t) - 23) := by positivity
    omega

/-- Rounding is idempotent. -/
theorem roundNat_roundNat (n s : Nat) : roundNat (roundNat n s) 0 = roundNat n s := by
  obtain ⟨k, hk, e⟩ := roundNat_eq_mul n s
  rw [e]
  exact roundNat_exact k _ hk

theorem log2_mul_pow (n k : Nat) (hn : n ≠ 0) : log2 (n * 2 ^ k) = log2 n + k := by
  rw [log2_eq, log2_eq]
  induction k with
  | zero => simp
  | succ k ih =>
    rw [pow_succ, ← mul_assoc, Nat.log_mul_base (by norm_num) (Nat.mul_ne_zero hn (by positivity)),
      ih]
    omega

theorem roundNat_zero (s : Nat) : roundNat 0 s = 0 := by
  simp [roundNat]

/-- Rounding does not depend on the unit in which the number is given. -/
theorem roundNat_mul_pow (n s k : Nat) : roundNat (n * 2 ^ k) (s + k) = roundNat n s := by
  rcases Nat.eq_zero_or_pos n with h0 | h0
  · subst h0
    simp [roundNat_zero]
  have hd : max (log2 (n * 2 ^ k) - 23) (s + k) = max (log2 n - 23) s + k := by
    rw [log2_mul_pow n k (by omega)]
    generalize log2 n = l
    rcases Nat.lt_or_ge s (l - 23) with h | h
    · rw [max_eq_left h.le, max_eq_left (show s + k ≤ l + k - 23 from by omega)]
      omega
    · rw [max_eq_right h, max_eq_right (show l + k - 23 ≤ s + k from by omega)]
  have hp : 0 < 2 ^ k := by positivity
  unfold roundNat
  dsimp only
  rw [hd, pow_add, Nat.mul_div_mul_right _ _ hp, Nat.mul_mod_mul_right,
    show max (log2 n - 23) s + k - (s + k) = max (log2 n - 23) s - s from by omega]
  have c1 : (2 * (n % 2 ^ max (log2 n - 23) s * 2 ^ k) < 2 ^ max (log2 n - 23) s * 2 ^ k)
      ↔ (2 * (n % 2 ^ max (log2 n - 23) s) < 2 ^ max (log2 n - 23) s) := by
    rw [← mul_assoc]
    exact Nat.mul_lt_mul_right hp
  have c2 : (2 ^ max (log2 n - 23) s * 2 ^ k < 2 * (n % 2 ^ max (log2 n - 23) s * 2 ^ k))
      ↔ (2 ^ max (log2 n - 23) s < 2 * (n % 2 ^ max (log2 n - 23) s)) := by
    rw [← mul_assoc]
    exact Nat.mul_lt_mul_right hp
  simp only [c1, c2]

/-- The rounding error is at most half the kept unit. -/
theorem roundNat_error (n : Nat) :
    2 * n ≤ 2 * roundNat n 0 + 2 ^ (log2 n - 23)
    ∧ 2 * roundNat n 0 ≤ 2 * n + 2 ^ (log2 n - 23) := by
  have hm : max (log2 n - 23) 0 = log2 n - 23 := Nat.max_zero _
  have hdm := Nat.div_add_mod n (2 ^ (log2 n - 23))
  have hlt : n % 2 ^ (log2 n - 23) < 2 ^ (log2 n - 23) := Nat.mod_lt _ (by positivity)
  rcases roundNat_cases n 0 with ⟨e, h⟩ | ⟨e, h⟩
  · rw [hm] at e h
    rw [e, Nat.sub_zero]
    generalize n / 2 ^ (log2 n - 23) = q at *
    generalize n % 2 ^ (log2 n - 23) = r at *
    generalize 2 ^ (log2 n - 23) = p at *
    have e2 : p * q = q * p := Nat.mul_comm _ _
    constructor <;> omega
  · rw [hm] at e h
    rw [e, Nat.sub_zero, Nat.add_mul, Nat.one_mul]
    generalize n / 2 ^ (log2 n - 23) = q at *
    generalize n % 2 ^ (log2 n - 23) = r at *
    generalize 2 ^ (log2 n - 23) = p at *
    have e2 : p * q = q * p := Nat.mul_comm _ _
    constructor <;> omega

theorem Exact.dvd {m : Nat} (h : Exact m) : 2 ^ (log2 m - 23) ∣ m := by
  obtain ⟨k, _, e⟩ := roundNat_eq_mul m 0
  rw [Nat.max_zero, Nat.sub_zero] at e
  exact Dvd.intro_left k (h.symm.trans e).symm

theorem log2_mono {m n : Nat} (h : m ≤ n) : log2 m ≤ log2 n := by
  rw [log2_eq, log2_eq]
  exact Nat.log_mono_right h

theorem pow_log2_le {n : Nat} (h : n ≠ 0) : 2 ^ log2 n ≤ n := by
  rw [log2_eq]
  exact Nat.pow_log_le_self 2 h

theorem lt_pow_log2 (n : Nat) : n < 2 ^ (log2 n + 1) := by
  rw [log2_eq]
  exact Nat.lt_pow_succ_log_self (by norm_num) n

/-- Rounding does not go below an exact number that the argument is not below. -/
theorem le_roundNat {m n : Nat} (hm : Exact m) (h : m ≤ n) : m ≤ roundNat n 0 := by
  rcases Nat.eq_zero_or_pos m with h0 | h0
  · omega
  have hn : n ≠ 0 := by omega
  -- the floor of `n` at its unit is not below `m`
  have hfl : n / 2 ^ (log2 n - 23) * 2 ^ (log2 n - 23) ≤ roundNat n 0 := by
    rcases roundNat_cases n 0 with ⟨e, _⟩ | ⟨e, _⟩
    · rw [e, Nat.max_zero, Nat.sub_zero]
    · rw [e, Nat.max_zero, Nat.sub_zero]
      exact Nat.mul_le_mul_right _ (Nat.le_succ _)
  refine le_trans ?_ hfl
  have hL := log2_mono h
  rcases Nat.lt_or_ge (log2 m) (log2 n) with hlt | hge
  · -- `m < 2 ^ log2 n`, which the floor of `n` reaches
    have h1 : m < 2 ^ log2 n :=
      lt_of_lt_of_le (lt_pow_log2 m) (Nat.pow_le_pow_right (by norm_num) hlt)
    have h2 : 2 ^ (log2 n - 23) ∣ 2 ^ log2 n := pow_dvd_pow 2 (Nat.sub_le _ _)
    have h3 : 2 ^ log2 n / 2 ^ (log2 n - 23) ≤ n / 2 ^ (log2 n - 23) :=
      Nat.div_le_div_right (pow_log2_le hn)
    have h4 := Nat.mul_le_mul_right (2 ^ (log2 n - 23)) h3
    rw [Nat.div_mul_cancel h2] at h4
    omega
  · have hL2 : log2 m = log2 n := le_antisymm hL hge
    have hd := hm.dvd
    rw [hL2] at hd
    have h3 : m / 2 ^ (log2 n - 23) ≤ n / 2 ^ (log2 n - 23) := Nat.div_le_div_right h
    have h4 := Nat.mul_le_mul_right (2 ^ (log2 n - 23)) h3
    rw [Nat.div_mul_cancel hd] at h4
    exact h4

/-- Rounding does not go above an exact number that the argument is not above. -/
theorem roundNat_le {m n : Nat} (hm : Exact m) (h : n ≤ m) : roundNat n 0 ≤ m := by
  have hp : 0 < 2 ^ (log2 n - 23) := by positivity
  have hdm := Nat.div_add_mod n (2 ^ (log2 n - 23))
  rcases roundNat_cases n 0 with ⟨e, h1⟩ | ⟨e, h1⟩
  · rw [e, Nat.max_zero, Nat.sub_zero]
    exact le_trans (Nat.div_mul_le_self _ _) h
  · rw [Nat.max_zero] at e h1
    rw [e, Nat.sub_zero]
    have hr : 0 < n % 2 ^ (log2 n - 23) := by omega
    have hL := log2_mono h
    rcases Nat.lt_or_ge (log2 n) (log2 m) with hlt | hge
    · -- the next power of two is not above `m`
      have hm0 : m ≠ 0 := by
        intro h0
        subst h0
        have : log2 0 = 0 := by simp [log2, log2Aux]
        omega
      have h2 : 2 ^ (log2 n + 1) ≤ m :=
        le_trans (Nat.pow_le_pow_right (by norm_num) hlt) (pow_log2_le hm0)
      have h23 : 23 ≤ log2 n := by
        by_contra hc
        have h0 : log2 n - 23 = 0 := by omega
        rw [h0, pow_zero, Nat.mod_one] at hr
        omega
      have h3 : (n / 2 ^ (log2 n - 23) + 1) * 2 ^ (log2 n - 23) ≤ 2 ^ 24 * 2 ^ (log2 n - 23) :=
        Nat.mul_le_mul_right _ (by
          have := div_drop_lt n 0
          rw [Nat.max_zero] at this
          omega)
      rw [← pow_add, show 24 + (log2 n - 23) = log2 n + 1 from by omega] at h3
      exact le_trans h3 h2
    · have hL2 : log2 m = log2 n := le_antisymm hge hL
      have hd := hm.dvd
      rw [hL2] at hd
      obtain ⟨j, hj⟩ := hd
      -- `m = 2^d * j` is above `q * 2^d`, hence at least `(q + 1) * 2^d`
      have h5 : n / 2 ^ (log2 n - 23) < j := by
        by_contra hc
        have h6 : j ≤ n / 2 ^ (log2 n - 23) := by omega
        have h7 := Nat.mul_le_mul_left (2 ^ (log2 n - 23)) h6
        omega
      have h8 := Nat.mul_le_mul_right (2 ^ (log2 n - 23)) (Nat.succ_le_of_lt h5)
      rw [hj, Nat.mul_comm (2 ^ (log2 n - 23)) j]
      exact h8

theorem natAbs_sign_mul_roundNat (z : Int) (s : Nat) :
    (z.sign * (roundNat z.natAbs s : Int)).natAbs = roundNat z.natAbs s := by
  rcases eq_or_ne z 0 with h | h
  · subst h
    simp [roundNat_zero]
  · rw [Int.natAbs_mul, Int.natAbs_sign_of_nonzero h, Int.natAbs_ofNat, Nat.one_mul]

theorem round_eq_fin {z : Int} {s : Nat} {u : Int} (h : round z s = fin u) :
    u = z.sign * (roundNat z.natAbs s : Int) ∧ roundNat z.natAbs s < 2 ^ 277 := by
  unfold round at h
  split_ifs at h with h1 h2
  · exact ⟨(fin.inj h).symm, by omega⟩

theorem rep_of_round {z : Int} {s : Nat} {u : Int} (h : round z s = fin u) : Rep u := by
  obtain ⟨e, hlt⟩ := round_eq_fin h
  unfold Rep Exact
  rw [e, natAbs_sign_mul_roundNat]
  exact ⟨roundNat_roundNat _ _, hlt⟩

theorem round_of_rep {u : Int} (h : Rep u) : round u 0 = fin u := by
  unfold round
  have e : roundNat u.natAbs 0 = u.natAbs := h.1
  rw [e, if_neg (by have := h.2; omega), Int.sign_mul_natAbs]

theorem round_neg (z : Int) (s : Nat) : round (-z) s = (round z s).neg := by
  unfold round
  rw [Int.natAbs_neg]
  by_cases h : 2 ^ 277 ≤ roundNat z.natAbs s
  · rw [if_pos h, if_pos h]
    rcases lt_trichotomy z 0 with hz | hz | hz
    · rw [if_neg (by omega), if_pos hz]
      rfl
    · subst hz
      rw [Int.natAbs_zero, roundNat_zero] at h
      have hp : 0 < 2 ^ 277 := by positivity
      omega
    · rw [if_pos (by omega), if_neg (by omega)]
      rfl
  · rw [if_neg h, if_neg h, Int.sign_neg, neg_mul]
    rfl

theorem round_mul_pow (z : Int) (s k : Nat) : round (z * 2 ^ k) (s + k) = round z s := by
  have h1 : (z * 2 ^ k).natAbs = z.natAbs * 2 ^ k := by
    rw [Int.natAbs_mul, Int.natAbs_pow]
    rfl
  have hp : (0 : Int) < 2 ^ k := by positivity
  have h2 : (z * 2 ^ k).sign = z.sign := by
    rw [Int.sign_mul, Int.sign_eq_one_of_pos hp, mul_one]
  have h3 : (z * 2 ^ k < 0) ↔ z < 0 := by
    constructor
    · intro h
      by_contra hc
      have : 0 ≤ z * 2 ^ k := mul_nonneg (by omega) hp.le
      omega
    · intro h
      exact mul_neg_of_neg_of_pos h hp
  unfold round
  rw [h1, h2, roundNat_mul_pow]
  simp only [h3]

theorem mul_neg_arg (x y : F32) : x.neg.mul y = (x.mul y).neg := by
  cases x with
  | nan => cases y <;> rfl
  | negInf =>
    cases y with
    | fin b =>
      show mul posInf (fin b) = (mul negInf (fin b)).neg
      simp only [mul]
      split_ifs <;> rfl
    | nan => rfl
    | negInf => rfl
    | posInf => rfl
  | posInf =>
    cases y with
    | fin b =>
      show mul negInf (fin b) = (mul posInf (fin b)).neg
      simp only [mul]
      split_ifs <;> rfl
    | nan => rfl
    | negInf => rfl
    | posInf => rfl
  | fin a =>
    cases y with
    | fin b =>
      show round (-a * b) 149 = (round (a * b) 149).neg
      rw [neg_mul, round_neg]
    | nan => rfl
    | negInf =>
      show mul (fin (-a)) negInf = (mul (fin a) negInf).neg
      simp only [mul]
      split_ifs <;> first | rfl | omega
    | posInf =>
      show mul (fin (-a)) posInf = (mul (fin a) posInf).neg
      simp only [mul]
      split_ifs <;> first | rfl | omega

/-- Adding a value that is not negative to a `float` does not give less. -/
theorem add_fin_mono (a c : Int) (ha : Rep a) (hc : 0 ≤ c) :
    add (fin a) (fin c) = posInf ∨ ∃ b, add (fin a) (fin c) = fin b ∧ a ≤ b ∧ Rep b := by
  show round (a + c) 0 = posInf ∨ ∃ b, round (a + c) 0 = fin b ∧ a ≤ b ∧ Rep b
  rcases lt_or_le (a + c) 0 with hz | hz
  · -- the sum is negative, and not larger in magnitude than `a`
    have h1 : (a + c).natAbs ≤ a.natAbs := by omega
    have h2 := roundNat_le ha.1 h1
    have h3 : round (a + c) 0 = fin (-(roundNat (a + c).natAbs 0 : Int)) := by
      unfold round
      rw [if_neg (by have := ha.2; omega), Int.sign_eq_neg_one_of_neg hz]
      simp
    exact Or.inr ⟨_, h3, by omega, rep_of_round h3⟩
  · by_cases h : 2 ^ 277 ≤ roundNat (a + c).natAbs 0
    · left
      unfold round
      rw [if_pos h, if_neg (by omega)]
    · right
      have h3 : round (a + c) 0 = fin ((a + c).sign * (roundNat (a + c).natAbs 0 : Int)) := by
        unfold round
        rw [if_neg h]
      refine ⟨_, h3, ?_, rep_of_round h3⟩
      rcases eq_or_lt_of_le hz with h0 | h0
      · rw [← h0]
        simp
        omega
      · rw [Int.sign_eq_one_of_pos h0, one_mul]
        rcases lt_or_le a 0 with hn | hn
        · omega
        · have h1 : a.natAbs ≤ (a + c).natAbs := by omega
          have h2 := le_roundNat ha.1 h1
          omega

/-- Where the step exceeds half the spacing of the `float`s up to `m + c`, adding it to
a `float` between `-m` and `m` gives more. -/
theorem add_fin_progress (a c m : Int) (hc : 0 < c) (hm : Rep m) (h1 : -m ≤ a) (h2 : a ≤ m)
    (H : 2 ^ log2 (m + c).natAbs < c.natAbs * 2 ^ 24) :
    add (fin a) (fin c) = posInf ∨ ∃ b, add (fin a) (fin c) = fin b ∧ a < b ∧ Rep b := by
  show round (a + c) 0 = posInf ∨ ∃ b, round (a + c) 0 = fin b ∧ a < b ∧ Rep b
  have herr := roundNat_error (a + c).natAbs
  have hle : (a + c).natAbs ≤ (m + c).natAbs := by omega
  have hsmall : 2 ^ (log2 (a + c).natAbs - 23) < 2 * c.natAbs := by
    rcases Nat.lt_or_ge (log2 (a + c).natAbs) 23 with h | h
    · rw [show log2 (a + c).natAbs - 23 = 0 from by omega]
      omega
    · have h3 : 2 ^ log2 (a + c).natAbs ≤ 2 ^ log2 (m + c).natAbs :=
        Nat.pow_le_pow_right (by norm_num) (log2_mono hle)
      have h4 : 2 ^ log2 (a + c).natAbs = 2 ^ (log2 (a + c).natAbs - 23) * 2 ^ 23 := by
        rw [← pow_add]
        congr 1
        omega
      omega
  rcases lt_or_le (a + c) 0 with hz | hz
  · have h5 : (a + c).natAbs ≤ m.natAbs := by omega
    have h6 := roundNat_le hm.1 h5
    have h3 : round (a + c) 0 = fin (-(roundNat (a + c).natAbs 0 : Int)) := by
      unfold round
      rw [if_neg (by have := hm.2; omega), Int.sign_eq_neg_one_of_neg hz]
      simp
    exact Or.inr ⟨_, h3, by omega, rep_of_round h3⟩
  · by_cases h : 2 ^ 277 ≤ roundNat (a + c).natAbs 0
    · left
      unfold round
      rw [if_pos h, if_neg (by omega)]
    · right
      have h3 : round (a + c) 0 = fin ((a + c).sign * (roundNat (a + c).natAbs 0 : Int)) := by
        unfold round
        rw [if_neg h]
      refine ⟨_, h3, ?_, rep_of_round h3⟩
      rcases eq_or_lt_of_le hz with h0 | h0
      · rw [← h0]
        simp
        omega
      · rw [Int.sign_eq_one_of_pos h0, one_mul]
        omega

end F32

namespace F32

theorem rep_mul_pow (k t : Nat) (hk : k ≤ 2 ^ 24) (h : k * 2 ^ t < 2 ^ 277) :
    Rep ((k * 2 ^ t : Nat) : Int) := by
  unfold Rep
  rw [Int.natAbs_ofNat]
  exact ⟨roundNat_exact k t hk, h⟩

theorem round_nonneg (z : Int) (s : Nat) (hz : 0 ≤ z) :
    round z s = posInf ∨ ∃ c, round z s = fin c ∧ 0 ≤ c ∧ Rep c := by
  by_cases h : 2 ^ 277 ≤ roundNat z.natAbs s
  · left
    unfold round
    rw [if_pos h, if_neg (by omega)]
  · right
    have h3 : round z s = fin (z.sign * (roundNat z.natAbs s : Int)) := by
      unfold round
      rw [if_neg h]
    exact ⟨_, h3, mul_nonneg (Int.sign_nonneg.2 hz) (Int.ofNat_nonneg _), rep_of_round h3⟩

/-- The conversion of an `int` of at most 24 bits is exact. -/
theorem ofInt_of_le (h : Nat) (hh : h ≤ 2 ^ 24) : ofInt (h : Int) = fin ((h : Int) * 2 ^ 149) := by
  have e : (h : Int) * 2 ^ 149 = ((h * 2 ^ 149 : Nat) : Int) := by
    push_cast
    rfl
  unfold ofInt
  rw [e]
  apply round_of_rep
  apply rep_mul_pow h 149 hh
  have h1 : h * 2 ^ 149 ≤ 2 ^ 24 * 2 ^ 149 := Nat.mul_le_mul_right _ hh
  have h2 : (2 : Nat) ^ 24 * 2 ^ 149 < 2 ^ 277 := by
    rw [← pow_add]
    exact Nat.pow_lt_pow_right (show 1 < 2 from by decide) (show 24 + 149 < 277 from by decide)
  omega

/-- The conversion of an `int` is finite and keeps the sign. -/
theorem ofInt_fin (n : Int) (hn : n.natAbs ≤ 2 ^ 31) :
    ∃ x, ofInt n = fin x ∧ (0 ≤ n → 0 ≤ x) := by
  have h1 : (n * 2 ^ 149).natAbs = n.natAbs * 2 ^ 149 := by
    rw [Int.natAbs_mul, Int.natAbs_pow]
    rfl
  have h2 : n.natAbs * 2 ^ 149 ≤ 1 * 2 ^ 180 := by
    have h3 : n.natAbs * 2 ^ 149 ≤ 2 ^ 31 * 2 ^ 149 := Nat.mul_le_mul_right _ hn
    rw [← pow_add] at h3
    rw [Nat.one_mul]
    exact h3
  have h4 := roundNat_le (roundNat_exact 1 180 (by norm_num)) h2
  have h5 : (1 : Nat) * 2 ^ 180 < 2 ^ 277 := by
    rw [Nat.one_mul]
    exact Nat.pow_lt_pow_right (show 1 < 2 from by decide) (show 180 < 277 from by decide)
  have h6 : ofInt n = fin ((n * 2 ^ 149).sign * (roundNat (n * 2 ^ 149).natAbs 0 : Int)) := by
    unfold ofInt round
    rw [if_neg (by rw [h1]; omega)]
  refine ⟨_, h6, fun h0 => ?_⟩
  exact mul_nonneg (Int.sign_nonneg.2 (mul_nonneg h0 (by positivity))) (Int.ofNat_nonneg _)

theorem mul_ofInt (h : Nat) (hh : h ≤ 2 ^ 24) (c : Int) :
    (ofInt (h : Int)).mul (fin c) = round ((h : Int) * c) 0 := by
  rw [ofInt_of_le h hh]
  show round ((h : Int) * 2 ^ 149 * c) 149 = _
  rw [show (h : Int) * 2 ^ 149 * c = (h : Int) * c * 2 ^ 149 from by ring]
  exact round_mul_pow ((h : Int) * c) 0 149

theorem rep_of_mul_fin {x : F32} {c m : Int} (h : x.mul (fin c) = fin m) : Rep m := by
  cases x with
  | nan => exact F32.noConfusion h
  | negInf =>
    simp only [mul] at h
    split_ifs at h
  | posInf =>
    simp only [mul] at h
    split_ifs at h
  | fin a => exact rep_of_round h

theorem ofRat_nonneg (q : ℚ) (hq : 0 ≤ q) :
    ofRat q = posInf ∨ ∃ c, ofRat q = fin c ∧ 0 ≤ c ∧ Rep c := by
  unfold ofRat
  dsimp only
  apply round_nonneg
  exact mul_nonneg (Int.sign_nonneg.2 (Rat.num_nonneg.2 hq)) (Int.ofNat_nonneg _)

/-- A whole number of units is stored in a `float` by rounding it. -/
theorem ofRat_units (c : Nat) : ofRat ((c : ℚ) / 2 ^ 149) = round c 0 := by
  have hq : (0 : ℚ) ≤ (c : ℚ) / 2 ^ 149 := by positivity
  have hnum := Rat.num_nonneg.2 hq
  have hden : (0 : ℚ) < (((c : ℚ) / 2 ^ 149).den : ℚ) := by
    exact_mod_cast ((c : ℚ) / 2 ^ 149).den_pos
  have e1 := Rat.num_div_den ((c : ℚ) / 2 ^ 149)
  have e2 : ((((c : ℚ) / 2 ^ 149).num.natAbs : Nat) : ℚ) * 2 ^ 149
      = (c : ℚ) * (((c : ℚ) / 2 ^ 149).den : ℚ) := by
    have e3 : ((((c : ℚ) / 2 ^ 149).num.natAbs : Nat) : ℚ) = ((((c : ℚ) / 2 ^ 149).num : Int) : ℚ) := by
      rw [Nat.cast_natAbs, abs_of_nonneg hnum]
    rw [e3]
    have e4 := e1
    rw [div_eq_div_iff (ne_of_gt hden) (by positivity)] at e4
    linarith
  have e5 : ((c : ℚ) / 2 ^ 149).num.natAbs * 2 ^ 149 = c * ((c : ℚ) / 2 ^ 149).den := by
    exact_mod_cast e2
  have e6 : ((c : ℚ) / 2 ^ 149).num.natAbs * 2 ^ 151 = (4 * c) * ((c : ℚ) / 2 ^ 149).den := by
    rw [show (2 : Nat) ^ 151 = 2 ^ 149 * 4 from by rw [show 151 = 149 + 2 from rfl, pow_add]; rfl,
      ← Nat.mul_assoc, e5]
    ring
  have hd0 : 0 < ((c : ℚ) / 2 ^ 149).den := ((c : ℚ) / 2 ^ 149).den_pos
  unfold ofRat
  dsimp only
  rw [e6, Nat.mul_div_cancel _ hd0, Nat.mul_mod_left, if_pos rfl]
  have e7 : ((c : ℚ) / 2 ^ 149).num.sign * ((2 * (4 * c) + 0 : Nat) : Int) = (c : Int) * 2 ^ 3 := by
    rcases Nat.eq_zero_or_pos c with h0 | h0
    · subst h0
      simp
    · have hpos : 0 < ((c : ℚ) / 2 ^ 149).num := by
        apply Rat.num_pos.2
        positivity
      rw [Int.sign_eq_one_of_pos hpos]
      push_cast
      ring
  rw [e7]
  exact round_mul_pow (c : Int) 0 3

/-- A positive `float` stored in a `float` is read back as it is. -/
theorem ofRat_of_rep (c : Nat) (h : Rep (c : Int)) : ofRat ((c : ℚ) / 2 ^ 149) = fin (c : Int) := by
  rw [ofRat_units]
  exact round_of_rep h

end F32

/-! ## The grid loop -/

theorem addGridLoop_exit (cellSize min max : F32) (fuel : Nat) (i : F32) (id : Nat)
    (st : Visualizer × List String) (h : i.le max = false) :
    CloudViewer.addGridLoop cellSize min max (fuel + 1) i id st = some st := by
  obtain ⟨v, g⟩ := st
  unfold CloudViewer.addGridLoop
  rw [if_neg (by rw [h]; exact Bool.false_ne_true)]

/-- A round that leaves the counter where it is repeats for ever: the loop does not
leave, whatever the fuel. -/
theorem addGridLoop_stall (cellSize min max i : F32) (h1 : i.le max = true)
    (h2 : i.add cellSize = i) :
    ∀ (fuel id : Nat) (st : Visualizer × List String),
      CloudViewer.addGridLoop cellSize min max fuel i id st = none := by
  intro fuel
  induction fuel with
  | zero =>
    intro id st
    unfold CloudViewer.addGridLoop
    rfl
  | succ fuel ih =>
    intro id st
    obtain ⟨v, g⟩ := st
    unfold CloudViewer.addGridLoop
    rw [if_pos h1]
    dsimp only
    rw [h2]
    exact ih _ _

/-- The loop only appends to the list of line names. -/
theorem addGridLoop_length (cellSize min max : F32) :
    ∀ (fuel : Nat) (i : F32) (id : Nat) (v : Visualizer) (g : List String)
      (r : Visualizer × List String),
      CloudViewer.addGridLoop cellSize min max fuel i id (v, g) = some r →
      g.length ≤ r.2.length := by
  intro fuel
  induction fuel with
  | zero =>
    intro i id v g r h
    unfold CloudViewer.addGridLoop at h
    exact Option.noConfusion h
  | succ fuel ih =>
    intro i id v g r h
    unfold CloudViewer.addGridLoop at h
    split_ifs at h with hi
    · have h1 := ih _ _ _ _ _ h
      rw [List.length_append] at h1
      exact le_trans (Nat.le_add_right _ _) h1
    · rw [← Option.some.inj h]

/-- A loop that is entered leaves two lines at least. -/
theorem addGridLoop_two_lines (cellSize min max : F32) (fuel : Nat) (i : F32) (id : Nat)
    (v : Visualizer) (g : List String) (r : Visualizer × List String)
    (hi : i.le max = true)
    (h : CloudViewer.addGridLoop cellSize min max fuel i id (v, g) = some r) :
    g.length + 2 ≤ r.2.length := by
  cases fuel with
  | zero =>
    unfold CloudViewer.addGridLoop at h
    exact Option.noConfusion h
  | succ fuel =>
    unfold CloudViewer.addGridLoop at h
    rw [if_pos hi] at h
    have h1 := addGridLoop_length _ _ _ _ _ _ _ _ _ h
    rw [List.length_append] at h1
    exact h1

/-- With a step of zero or more, a loop that leaves has left after `max - i + 2` tests
of its condition. -/
theorem addGridLoop_fuel_fin (c m : Int) (hc : 0 ≤ c) (min : F32) :
    ∀ (fuel : Nat) (a : Int) (id : Nat) (st r : Visualizer × List String), F32.Rep a →
      CloudViewer.addGridLoop (.fin c) min (.fin m) fuel (.fin a) id st = some r →
      ∀ g, (m - a + 1).toNat + 1 ≤ g →
        CloudViewer.addGridLoop (.fin c) min (.fin m) g (.fin a) id st = some r := by
  intro fuel
  induction fuel with
  | zero =>
    intro a id st r _ h
    unfold CloudViewer.addGridLoop at h
    exact Option.noConfusion h
  | succ fuel ih =>
    intro a id st r ha h g hg
    obtain ⟨v, gl⟩ := st
    obtain ⟨g, rfl⟩ : ∃ f, g = f + 1 := ⟨g - 1, by omega⟩
    by_cases hle : (F32.fin a).le (.fin m) = true
    · have ham : a ≤ m := of_decide_eq_true hle
      have hstall := addGridLoop_stall (.fin c) min (.fin m) (.fin a) hle
      unfold CloudViewer.addGridLoop at h ⊢
      rw [if_pos hle] at h ⊢
      dsimp only at h ⊢
      rcases F32.add_fin_mono a c ha hc with e | ⟨b, e, hab, hb⟩
      · rw [e] at h ⊢
        obtain ⟨g, rfl⟩ : ∃ f, g = f + 1 := ⟨g - 1, by omega⟩
        cases fuel with
        | zero =>
          unfold CloudViewer.addGridLoop at h
          exact Option.noConfusion h
        | succ fuel =>
          rw [addGridLoop_exit (.fin c) min (.fin m) _ .posInf _ _ rfl] at h ⊢
          exact h
      · rcases eq_or_lt_of_le hab with hEq | hlt
        · subst hEq
          rw [e, hstall e] at h
          exact Option.noConfusion h
        · rw [e] at h ⊢
          exact ih b _ _ _ hb h g (by omega)
    · have hle2 : (F32.fin a).le (.fin m) = false := by
        cases hx : (F32.fin a).le (.fin m)
        · rfl
        · exact absurd hx hle
      cases fuel with
      | zero =>
        rw [addGridLoop_exit _ _ _ _ _ _ _ hle2] at h ⊢
        exact h
      | succ fuel =>
        rw [addGridLoop_exit _ _ _ _ _ _ _ hle2] at h ⊢
        exact h

/-- Where the step exceeds half the spacing of the `float`s up to `max + step`, the loop
leaves. -/
theorem addGridLoop_ends (c m : Int) (hc : 0 < c) (hm : F32.Rep m) (min : F32)
    (H : 2 ^ F32.log2 (m + c).natAbs < c.natAbs * 2 ^ 24) :
    ∀ (fuel : Nat) (a : Int) (id : Nat) (st : Visualizer × List String), -m ≤ a →
      (m - a + 1).toNat + 1 ≤ fuel →
      ∃ r, CloudViewer.addGridLoop (.fin c) min (.fin m) fuel (.fin a) id st = some r := by
  intro fuel
  induction fuel with
  | zero =>
    intro a id st _ hf
    omega
  | succ fuel ih =>
    intro a id st ha hf
    obtain ⟨v, gl⟩ := st
    by_cases hle : (F32.fin a).le (.fin m) = true
    · have ham : a ≤ m := of_decide_eq_true hle
      unfold CloudViewer.addGridLoop
      rw [if_pos hle]
      dsimp only
      rcases F32.add_fin_progress a c m hc hm ha ham H with e | ⟨b, e, hab, hb⟩
      · rw [e]
        obtain ⟨fuel, rfl⟩ : ∃ f, fuel = f + 1 := ⟨fuel - 1, by omega⟩
        exact ⟨_, addGridLoop_exit (.fin c) min (.fin m) _ .posInf _ _ rfl⟩
      · rw [e]
        exact ih b _ _ (by omega) (by omega)
    · have hle2 : (F32.fin a).le (.fin m) = false := by
        cases hx : (F32.fin a).le (.fin m)
        · rfl
        · exact absurd hx hle
      exact ⟨_, addGridLoop_exit _ _ _ _ _ _ _ hle2⟩

/-- What `addGrid` returns, when it returns, is the viewer with another renderer and
other grid lines. -/
theorem addGrid_eq_some (s s1 : CloudViewer) (h : s.addGrid = some s1) :
    ∃ v g, s1 = { s with visualizer := v, gridLines := g } := by
  unfold CloudViewer.addGrid at h
  dsimp only at h
  split_ifs at h with hg
  · obtain ⟨r, _, hr⟩ := Option.map_eq_some'.1 h
    exact ⟨r.1, r.2, hr.symm⟩
  · exact ⟨s.visualizer, s.gridLines, (Option.some.inj h).symm⟩

/-- The loop of `addGrid` leaves, and `addGrid` returns, where the cell size is a
positive `float`, `max` is finite and the cell size exceeds half the spacing of the
`float`s up to `max + cellSize`. -/
theorem addGrid_ends (s : CloudViewer) (c m : Int) (hc : 0 < c)
    (hC : F32.ofRat s.gridCellSize = .fin c)
    (hM : gridMax s.gridCellCount s.gridCellSize = .fin m)
    (H : 2 ^ F32.log2 (m + c).natAbs < c.natAbs * 2 ^ 24) :
    ∃ v g, s.addGrid = some { s with visualizer := v, gridLines := g } := by
  unfold gridMax at hM
  rw [hC] at hM
  have hm := F32.rep_of_mul_fin hM
  unfold CloudViewer.addGrid
  dsimp only
  split_ifs with hg
  · rw [F32.mul_neg_arg, hC, hM]
    show ∃ v g, Option.map _ (CloudViewer.addGridLoop (.fin c) (.fin (-m)) (.fin m)
      (2 * m.toNat + 2) (.fin (-m)) 0 (s.visualizer, s.gridLines)) = _
    rcases lt_or_le m 0 with h0 | h0
    · rw [addGridLoop_exit (.fin c) (.fin (-m)) (.fin m) _ (.fin (-m)) _ _
        (decide_eq_false (show ¬ (-m ≤ m) from by omega))]
      exact ⟨_, _, rfl⟩
    · obtain ⟨r, hr⟩ := addGridLoop_ends c m hc hm (.fin (-m)) H (2 * m.toNat + 2) (-m) 0
        (s.visualizer, s.gridLines) le_rfl (by omega)
      rw [hr]
      exact ⟨r.1, r.2, rfl⟩
  · exact ⟨s.visualizer, s.gridLines, rfl⟩

theorem toInt32_of_lt (n : Nat) (h : n < 2 ^ 31) : CloudViewer.toInt32 n = (n : Int) := by
  unfold CloudViewer.toInt32
  have h1 : n % 2 ^ 32 = n := Nat.mod_eq_of_lt (by omega)
  rw [h1, if_pos h]

/-- For a cell count of at most `2^25 - 3`, the bound `max` is the rounded product of
half the count and the cell size. -/
theorem gridMax_of_count (count : Nat) (size : ℚ) (c : Int) (hn : count ≤ 2 ^ 25 - 3)
    (hC : F32.ofRat size = .fin c) :
    gridMax count size = F32.round (((count / 2 : Nat) : Int) * c) 0 := by
  have h31 : count < 2 ^ 31 := by omega
  have hdiv : Int.tdiv (CloudViewer.toInt32 count) 2 = ((count / 2 : Nat) : Int) := by
    rw [toInt32_of_lt _ h31]
    rfl
  unfold gridMax
  rw [hC, hdiv]
  exact F32.mul_ofInt _ (by omega) c

/-- The loop of `addGrid` leaves for every cell count of at most `2^25 - 3`, where the
cell size is a positive `float` and `max` is finite. -/
theorem addGrid_ends_of_count (s : CloudViewer) (c m : Int) (hn : s.gridCellCount ≤ 2 ^ 25 - 3)
    (hc : 0 < c) (hC : F32.ofRat s.gridCellSize = .fin c)
    (hM : gridMax s.gridCellCount s.gridCellSize = .fin m) :
    ∃ v g, s.addGrid = some { s with visualizer := v, gridLines := g } := by
  apply addGrid_ends s c m hc hC hM
  have hM2 := hM
  rw [gridMax_of_count _ _ c hn hC] at hM2
  obtain ⟨e, _⟩ := F32.round_eq_fin hM2
  -- `m` is the rounded product `x` of half the count `h` and `c`
  obtain ⟨cn, rfl⟩ : ∃ cn : Nat, c = (cn : Int) := ⟨c.toNat, by omega⟩
  have hx : (((s.gridCellCount / 2 : Nat) : Int) * (cn : Int)).natAbs
      = s.gridCellCount / 2 * cn := by
    rw [Int.natAbs_mul, Int.natAbs_ofNat, Int.natAbs_ofNat]
  have hsgn : 0 ≤ (((s.gridCellCount / 2 : Nat) : Int) * (cn : Int)).sign :=
    Int.sign_nonneg.2 (mul_nonneg (Int.ofNat_nonneg _) (Int.ofNat_nonneg _))
  rw [hx] at e
  have herr := (F32.roundNat_error (s.gridCellCount / 2 * cn)).2
  have hub : s.gridCellCount / 2 * cn ≤ (2 ^ 24 - 2) * cn :=
    Nat.mul_le_mul_right _ (by omega)
  have hpow : 2 ^ (F32.log2 (s.gridCellCount / 2 * cn) - 23) * 2 ^ 23
      ≤ s.gridCellCount / 2 * cn ∨ F32.log2 (s.gridCellCount / 2 * cn) - 23 = 0 := by
    rcases Nat.lt_or_ge (F32.log2 (s.gridCellCount / 2 * cn)) 23 with h | h
    · right
      omega
    · left
      rw [← pow_add, show F32.log2 (s.gridCellCount / 2 * cn) - 23 + 23
        = F32.log2 (s.gridCellCount / 2 * cn) from by omega]
      apply F32.pow_log2_le
      intro h0
      rw [h0] at h
      have : F32.log2 0 = 0 := by simp [F32.log2, F32.log2Aux]
      omega
  have hmn : m.natAbs ≤ F32.roundNat (s.gridCellCount / 2 * cn) 0 := by
    rw [e, Int.natAbs_mul, Int.natAbs_ofNat]
    have h1 : (((s.gridCellCount / 2 : Nat) : Int) * (cn : Int)).sign.natAbs ≤ 1 := by
      rw [Int.natAbs_sign]
      split_ifs <;> omega
    calc _ ≤ 1 * F32.roundNat (s.gridCellCount / 2 * cn) 0 := Nat.mul_le_mul_right _ h1
      _ = _ := Nat.one_mul _
  have hsum : ((m : Int) + (cn : Int)).natAbs ≤ m.natAbs + cn := by omega
  have hlt : m.natAbs + cn < cn * 2 ^ 24 := by
    generalize F32.roundNat (s.gridCellCount / 2 * cn) 0 = rd at *
    generalize s.gridCellCount / 2 * cn = x at *
    rcases hpow with hp | hp
    · generalize 2 ^ (F32.log2 x - 23) = p at *
      omega
    · rw [hp, pow_zero] at herr
      omega
  rw [Int.natAbs_ofNat]
  rcases Nat.eq_zero_or_pos ((m : Int) + (cn : Int)).natAbs with h0 | h0
  · rw [h0]
    have : F32.log2 0 = 0 := by simp [F32.log2, F32.log2Aux]
    rw [this, pow_zero]
    omega
  · exact lt_of_le_of_lt (F32.pow_log2_le (by omega)) (lt_of_le_of_lt hsum hlt)

theorem addGridLoop_of_exit (cellSize min max i : F32) (h : i.le max = false) (fuel id : Nat)
    (st r : Visualizer × List String)
    (hl : CloudViewer.addGridLoop cellSize min max fuel i id st = some r) (g : Nat) :
    CloudViewer.addGridLoop cellSize min max (g + 1) i id st = some r := by
  cases fuel with
  | zero =>
    unfold CloudViewer.addGridLoop at hl
    exact Option.noConfusion hl
  | succ fuel =>
    rw [addGridLoop_exit _ _ _ _ _ _ _ h] at hl ⊢
    exact hl

theorem mul_posInf_ne_fin (x : F32) (m : Int) : x.mul .posInf ≠ .fin m := by
  intro h
  cases x with
  | nan => exact F32.noConfusion h
  | negInf => exact F32.noConfusion h
  | posInf => exact F32.noConfusion h
  | fin a =>
    simp only [F32.mul] at h
    split_ifs at h

/-- The fuel that `addGrid` gives its loop is enough: for a cell size that is not
negative, a loop that leaves with some fuel leaves with the fuel of `addGrid`, with the
same result.  So `addGrid` yields no state only where the loop does not end. -/
theorem addGridLoop_fuel (count : Nat) (size : ℚ) (hs : 0 ≤ size) (fuel id : Nat)
    (st r : Visualizer × List String)
    (h : CloudViewer.addGridLoop (F32.ofRat size) (gridMax count size).neg (gridMax count size)
      fuel (gridMax count size).neg id st = some r) :
    CloudViewer.addGridLoop (F32.ofRat size) (gridMax count size).neg (gridMax count size)
      (CloudViewer.addGridFuel (gridMax count size)) (gridMax count size).neg id st = some r := by
  have hmax : ∀ m, gridMax count size = .fin m → F32.Rep m ∧ ∃ c, F32.ofRat size = .fin c := by
    intro m hm
    unfold gridMax at hm
    rcases F32.ofRat_nonneg size hs with e | ⟨c, e, _, _⟩
    · rw [e] at hm
      exact absurd hm (mul_posInf_ne_fin _ _)
    · rw [e] at hm
      exact ⟨F32.rep_of_mul_fin hm, c, e⟩
  generalize gridMax count size = M at *
  cases M with
  | nan =>
    refine addGridLoop_of_exit _ _ _ _ ?_ _ _ _ _ h _
    rfl
  | negInf =>
    refine addGridLoop_of_exit _ _ _ _ ?_ _ _ _ _ h _
    rfl
  | posInf =>
    rcases F32.ofRat_nonneg size hs with e | ⟨c, e, _, _⟩
    · rw [e] at h ⊢
      cases fuel with
      | zero =>
        unfold CloudViewer.addGridLoop at h
        exact Option.noConfusion h
      | succ fuel =>
        obtain ⟨v, gl⟩ := st
        unfold CloudViewer.addGridLoop at h
        rw [if_pos (show (F32.neg .posInf).le .posInf = true from rfl)] at h
        dsimp only at h
        show CloudViewer.addGridLoop .posInf (F32.neg .posInf) .posInf 2 (F32.neg .posInf) id
          (v, gl) = some r
        unfold CloudViewer.addGridLoop
        rw [if_pos (show (F32.neg .posInf).le .posInf = true from rfl)]
        dsimp only
        refine addGridLoop_of_exit _ _ _ _ ?_ _ _ _ _ h _
        rfl
    · rw [e] at h
      rw [addGridLoop_stall (.fin c) (F32.neg .posInf) .posInf (F32.neg .posInf) rfl rfl] at h
      exact Option.noConfusion h
  | fin m =>
    obtain ⟨hm, c, e⟩ := hmax m rfl
    rw [e] at h ⊢
    have hc : 0 ≤ c := by
      rcases F32.ofRat_nonneg size hs with e1 | ⟨c1, e1, h1, _⟩
      · rw [e1] at e
        exact F32.noConfusion e
      · rw [e1] at e
        rw [← F32.fin.inj e]
        exact h1
    have hmn : F32.Rep (-m) := by
      unfold F32.Rep at hm ⊢
      rw [Int.natAbs_neg]
      exact hm
    exact addGridLoop_fuel_fin c m hc _ fuel (-m) id st r hmn h _
      (show (m - -m + 1).toNat + 1 ≤ 2 * m.toNat + 2 from by omega)

/-- `addGrid` yields no state only where its loop does not end: when it yields none on a
viewer without grid lines whose cell size is not negative, no fuel lets the loop leave. -/
theorem addGrid_none (s : CloudViewer) (hs : 0 ≤ s.gridCellSize) (hg : s.gridLines = [])
    (h : s.addGrid = none) (fuel : Nat) :
    CloudViewer.addGridLoop (F32.ofRat s.gridCellSize)
      (gridMax s.gridCellCount s.gridCellSize).neg (gridMax s.gridCellCount s.gridCellSize) fuel
      (gridMax s.gridCellCount s.gridCellSize).neg 0 (s.visualizer, s.gridLines) = none := by
  cases hl : CloudViewer.addGridLoop (F32.ofRat s.gridCellSize)
      (gridMax s.gridCellCount s.gridCellSize).neg (gridMax s.gridCellCount s.gridCellSize) fuel
      (gridMax s.gridCellCount s.gridCellSize).neg 0 (s.visualizer, s.gridLines) with
  | none => rfl
  | some r =>
    have h2 := addGridLoop_fuel _ _ hs _ _ _ _ hl
    unfold CloudViewer.addGrid at h
    rw [if_pos hg] at h
    dsimp only at h
    rw [F32.mul_neg_arg] at h
    have h3 : Option.map (fun r : Visualizer × List String =>
        ({ s with visualizer := r.1, gridLines := r.2 } : CloudViewer))
        (CloudViewer.addGridLoop (F32.ofRat s.gridCellSize)
          (gridMax s.gridCellCount s.gridCellSize).neg (gridMax s.gridCellCount s.gridCellSize)
          (CloudViewer.addGridFuel (gridMax s.gridCellCount s.gridCellSize))
          (gridMax s.gridCellCount s.gridCellSize).neg 0 (s.visualizer, s.gridLines)) = none := h
    rw [h2] at h3
    exact Option.noConfusion h3

/-- An `addGrid` that returns on a viewer without grid lines has entered its loop, and
leaves two lines at least, where the cell count is below `2^31` and the cell size is
positive and not infinite as a `float`. -/
theorem addGrid_two_lines (s s1 : CloudViewer) (hs : s.addGrid = some s1)
    (hi : 0 < s.gridCellSize) (hf : F32.ofRat s.gridCellSize ≠ .posInf)
    (hn : s.gridCellCount < 2 ^ 31) (hg : s.gridLines = []) :
    2 ≤ s1.gridLines.length := by
  have hdiv : Int.tdiv (CloudViewer.toInt32 s.gridCellCount) 2
      = ((s.gridCellCount / 2 : Nat) : Int) := by
    rw [toInt32_of_lt _ hn]
    rfl
  obtain ⟨x, hx, hx0⟩ := F32.ofInt_fin ((s.gridCellCount / 2 : Nat) : Int)
    (by rw [Int.natAbs_ofNat]; omega)
  have hx1 := hx0 (Int.ofNat_nonneg _)
  obtain ⟨c, hc, hc0, _⟩ : ∃ c, F32.ofRat s.gridCellSize = .fin c ∧ 0 ≤ c ∧ F32.Rep c := by
    rcases F32.ofRat_nonneg _ hi.le with e | e
    · exact absurd e hf
    · exact e
  unfold CloudViewer.addGrid at hs
  rw [if_pos hg] at hs
  dsimp only at hs
  rw [F32.mul_neg_arg, hdiv, hx, hc] at hs
  obtain ⟨r, hr, rfl⟩ := Option.map_eq_some'.1 hs
  have hle : ((F32.fin x).mul (.fin c)).neg.le ((F32.fin x).mul (.fin c)) = true := by
    show (F32.round (x * c) 149).neg.le (F32.round (x * c) 149) = true
    rcases F32.round_nonneg (x * c) 149 (mul_nonneg hx1 hc0) with e | ⟨m, e, hm, _⟩
    · rw [e]
      rfl
    · rw [e]
      exact decide_eq_true (show -m ≤ m from by omega)
  have h2 := addGridLoop_two_lines _ _ _ _ _ _ _ _ _ hle hr
  exact le_trans (Nat.le_add_left _ _) h2

/-! ## Settings store: what `saveSettings` wrote is read back -/

theorem fullKey_inj (group k1 k2 : String) (h : QSettings.fullKey group k1 = QSettings.fullKey group k2) :
    k1 = k2 := by
  unfold QSettings.fullKey at h
  split_ifs at h
  · exact h
  · have h1 := congrArg String.data h
    simp only [String.data_append] at h1
    exact String.ext (List.append_cancel_left h1)

theorem mapFind_mapRemove {β : Type} (k k1 : String) (m : List (String × β)) :
    mapFind k1 (mapRemove k m) = if k = k1 then none else mapFind k1 m := by
  induction m with
  | nil => simp [mapRemove, mapFind]
  | cons kv m ih =>
    obtain ⟨a, b⟩ := kv
    simp only [mapRemove] at ih
    by_cases ha : a = k
    · subst ha
      simp only [mapRemove, List.filter, ne_eq, not_true_eq_false, decide_False, mapFind]
      rw [ih]
      by_cases h1 : a = k1
      · simp [h1]
      · simp [h1]
    · simp only [mapRemove, List.filter, ne_eq, ha, not_false_eq_true, decide_True, mapFind]
      rw [ih]
      by_cases h1 : a = k1
      · subst h1
        simp [Ne.symm ha]
      · simp [h1]

theorem value_setValue (settings : QSettings) (group k k1 : String) (v d : QVariant) :
    (settings.setValue group k v).value group k1 d =
      if k = k1 then v else settings.value group k1 d := by
  unfold QSettings.setValue QSettings.value mapInsert
  by_cases h : k = k1
  · subst h
    simp [mapFind]
  · have hk : QSettings.fullKey group k ≠ QSettings.fullKey group k1 :=
      fun e => h (fullKey_inj group k k1 e)
    simp [mapFind, hk, h, mapFind_mapRemove]

theorem value_saveSettings (s : CloudViewer) (settings : QSettings) (group : String)
    (d : QVariant) :
    (s.saveSettings settings group).value group "grid" d = .bool s.isGridShown
    ∧ (s.saveSettings settings group).value group "grid_cell_count" d = .uint s.getGridCellCount
    ∧ (s.saveSettings settings group).value group "grid_cell_size" d = .real s.getGridCellSize
    ∧ (s.saveSettings settings group).value group "trajectory_shown" d
        = .bool s.isTrajectoryShown
    ∧ (s.saveSettings settings group).value group "trajectory_size" d
        = .uint s.getTrajectorySize
    ∧ (s.saveSettings settings group).value group "frustum_shown" d = .bool s.isFrustumShown
    ∧ (s.saveSettings settings group).value group "frustum_scale" d = .real s.getFrustumScale
    ∧ (s.saveSettings settings group).value group "frustum_color" d = .color s.getFrustumColor
    ∧ (s.saveSettings settings group).value group "bg_color" d
        = .color s.getDefaultBackgroundColor := by
  unfold CloudViewer.saveSettings
  simp only [value_setValue]
  refine ⟨?_, ?_, ?_, ?_, ?_, ?_, ?_, ?_, ?_⟩ <;> simp

/-! ## Display options through `loadSettings` -/

theorem displayOptions_setFrustumShown (s : CloudViewer) (b : Bool) :
    (s.setFrustumShown b).displayOptions =
      (s.displayOptions.1, s.displayOptions.2.1, s.displayOptions.2.2.1,
       s.displayOptions.2.2.2.1, s.displayOptions.2.2.2.2.1, b,
       s.displayOptions.2.2.2.2.2.2.1, s.displayOptions.2.2.2.2.2.2.2.1,
       s.displayOptions.2.2.2.2.2.2.2.2) := by
  unfold CloudViewer.setFrustumShown CloudViewer.removeFrustum
  dsimp only
  split_ifs <;> rfl

theorem displayOptions_setFrustumColor (s : CloudViewer) (c : QColor) :
    (s.setFrustumColor c).displayOptions =
      (s.displayOptions.1, s.displayOptions.2.1, s.displayOptions.2.2.1,
       s.displayOptions.2.2.2.1, s.displayOptions.2.2.2.2.1, s.displayOptions.2.2.2.2.2.1,
       s.displayOptions.2.2.2.2.2.2.1, (if (!c.isValid) = true then QColor.gray else c),
       s.displayOptions.2.2.2.2.2.2.2.2) := by
  unfold CloudViewer.setFrustumColor
  dsimp only
  by_cases hc : "reference_frustum" ∈ s.frustums
  · rw [if_pos hc]
    rfl
  · rw [if_neg hc]
    rfl

theorem displayOptions_cameraModes (s : CloudViewer) (b : Bool) :
    (s.setCameraTargetLocked b).displayOptions = s.displayOptions
    ∧ (s.setCameraTargetFollow b).displayOptions = s.displayOptions
    ∧ s.setCameraFree.displayOptions = s.displayOptions
    ∧ (s.setCameraLockZ b).displayOptions = s.displayOptions := by
  cases b <;> exact ⟨rfl, rfl, rfl, rfl⟩

theorem displayOptions_setDefaultBackgroundColor (s : CloudViewer) (c : QColor) :
    (s.setDefaultBackgroundColor c).displayOptions =
      (s.displayOptions.1, s.displayOptions.2.1, s.displayOptions.2.2.1,
       s.displayOptions.2.2.2.1, s.displayOptions.2.2.2.2.1, s.displayOptions.2.2.2.2.2.1,
       s.displayOptions.2.2.2.2.2.2.1, s.displayOptions.2.2.2.2.2.2.2.1, c) := by
  unfold CloudViewer.setDefaultBackgroundColor
  dsimp only
  split_ifs <;> rfl

theorem displayOptions_trajectory (s : CloudViewer) (b : Bool) (n : Nat) (q : ℚ) :
    (s.setTrajectoryShown b).displayOptions =
      (s.displayOptions.1, s.displayOptions.2.1, s.displayOptions.2.2.1, b,
       s.displayOptions.2.2.2.2.1, s.displayOptions.2.2.2.2.2.1,
       s.displayOptions.2.2.2.2.2.2.1, s.displayOptions.2.2.2.2.2.2.2.1,
       s.displayOptions.2.2.2.2.2.2.2.2)
    ∧ (s.setTrajectorySize n).displayOptions =
      (s.displayOptions.1, s.displayOptions.2.1, s.displayOptions.2.2.1,
       s.displayOptions.2.2.2.1, n, s.displayOptions.2.2.2.2.2.1,
       s.displayOptions.2.2.2.2.2.2.1, s.displayOptions.2.2.2.2.2.2.2.1,
       s.displayOptions.2.2.2.2.2.2.2.2)
    ∧ (s.setFrustumScale q).displayOptions =
      (s.displayOptions.1, s.displayOptions.2.1, s.displayOptions.2.2.1,
       s.displayOptions.2.2.2.1, s.displayOptions.2.2.2.2.1, s.displayOptions.2.2.2.2.2.1,
       q, s.displayOptions.2.2.2.2.2.2.2.1, s.displayOptions.2.2.2.2.2.2.2.2) :=
  ⟨rfl, rfl, rfl⟩

theorem setGridShown_eq_some (s s1 : CloudViewer) (b : Bool) (h : s.setGridShown b = some s1) :
    ∃ v g, s1 = { s with aShowGrid := b, visualizer := v, gridLines := g } := by
  unfold CloudViewer.setGridShown at h
  dsimp only at h
  cases b
  · exact ⟨_, _, (Option.some.inj h).symm⟩
  · obtain ⟨v, g, e⟩ := addGrid_eq_some _ _ h
    exact ⟨v, g, e⟩

theorem setGridCellCount_eq_some (s s1 : CloudViewer) (n : Nat) (hn : 0 < n)
    (h : s.setGridCellCount n = some s1) :
    ∃ v g, s1 = { s with gridCellCount := n, visualizer := v, gridLines := g } := by
  unfold CloudViewer.setGridCellCount at h
  dsimp only at h
  rw [if_pos hn] at h
  split_ifs at h
  · obtain ⟨v, g, e⟩ := addGrid_eq_some _ _ h
    exact ⟨v, g, e⟩
  · exact ⟨_, _, (Option.some.inj h).symm⟩

theorem setGridCellSize_eq_some (s s1 : CloudViewer) (q : ℚ) (hq : 0 < q)
    (h : s.setGridCellSize q = some s1) :
    ∃ v g, s1 = { s with gridCellSize := q, visualizer := v, gridLines := g } := by
  unfold CloudViewer.setGridCellSize at h
  dsimp only at h
  rw [if_pos hq] at h
  split_ifs at h
  · obtain ⟨v, g, e⟩ := addGrid_eq_some _ _ h
    exact ⟨v, g, e⟩
  · exact ⟨_, _, (Option.some.inj h).symm⟩

theorem setGridShown_some (s : CloudViewer) (b : Bool)
    (h : b = true → GridEndsAt s.gridCellCount s.gridCellSize) :
    ∃ v g, s.setGridShown b = some { s with aShowGrid := b, visualizer := v, gridLines := g } := by
  unfold CloudViewer.setGridShown
  dsimp only
  cases b
  · exact ⟨_, _, rfl⟩
  · obtain ⟨v, g, hg⟩ := h rfl { s with aShowGrid := true } rfl rfl
    exact ⟨v, g, hg⟩

theorem setGridCellCount_some (s : CloudViewer) (n : Nat) (hn : 0 < n)
    (h : s.aShowGrid = true → GridEndsAt n s.gridCellSize) :
    ∃ v g, s.setGridCellCount n
      = some { s with gridCellCount := n, visualizer := v, gridLines := g } := by
  unfold CloudViewer.setGridCellCount
  dsimp only
  rw [if_pos hn]
  split_ifs with hshown
  · obtain ⟨v, g, hg⟩ := h hshown ({ s with gridCellCount := n } : CloudViewer).removeGrid rfl rfl
    exact ⟨v, g, hg⟩
  · exact ⟨_, _, rfl⟩

theorem setGridCellSize_some (s : CloudViewer) (q : ℚ) (hq : 0 < q)
    (h : s.aShowGrid = true → GridEndsAt s.gridCellCount q) :
    ∃ v g, s.setGridCellSize q
      = some { s with gridCellSize := q, visualizer := v, gridLines := g } := by
  unfold CloudViewer.setGridCellSize
  dsimp only
  rw [if_pos hq]
  split_ifs with hshown
  · obtain ⟨v, g, hg⟩ := h hshown ({ s with gridCellSize := q } : CloudViewer).removeGrid rfl rfl
    exact ⟨v, g, hg⟩
  · exact ⟨_, _, rfl⟩

theorem options_gridSetters (s s1 : CloudViewer) (b : Bool) (n : Nat) (q : ℚ)
    {a1 : Bool} {a2 : Nat} {a3 : ℚ} {a4 : Bool} {a5 : Nat} {a6 : Bool} {a7 : ℚ} {a8 a9 : QColor}
    (h : s.displayOptions = (a1, a2, a3, a4, a5, a6, a7, a8, a9)) :
    (s.setGridShown b = some s1 → s1.displayOptions = (b, a2, a3, a4, a5, a6, a7, a8, a9))
    ∧ (0 < n → s.setGridCellCount n = some s1 →
        s1.displayOptions = (a1, n, a3, a4, a5, a6, a7, a8, a9))
    ∧ (0 < q → s.setGridCellSize q = some s1 →
        s1.displayOptions = (a1, a2, q, a4, a5, a6, a7, a8, a9)) := by
  simp only [CloudViewer.displayOptions, Prod.mk.injEq] at h
  obtain ⟨rfl, rfl, rfl, rfl, rfl, rfl, rfl, rfl, rfl⟩ := h
  refine ⟨fun e => ?_, fun hn e => ?_, fun hq e => ?_⟩
  · obtain ⟨v, g, rfl⟩ := setGridShown_eq_some s s1 b e
    rfl
  · obtain ⟨v, g, rfl⟩ := setGridCellCount_eq_some s s1 n hn e
    rfl
  · obtain ⟨v, g, rfl⟩ := setGridCellSize_eq_some s s1 q hq e
    rfl

theorem options_setters (s : CloudViewer) (b : Bool) (n : Nat) (q : ℚ) (c : QColor)
    {a1 : Bool} {a2 : Nat} {a3 : ℚ} {a4 : Bool} {a5 : Nat} {a6 : Bool} {a7 : ℚ} {a8 a9 : QColor}
    (h : s.displayOptions = (a1, a2, a3, a4, a5, a6, a7, a8, a9)) :
    (s.setTrajectoryShown b).displayOptions = (a1, a2, a3, b, a5, a6, a7, a8, a9)
    ∧ (s.setTrajectorySize n).displayOptions = (a1, a2, a3, a4, n, a6, a7, a8, a9)
    ∧ (s.setFrustumShown b).displayOptions = (a1, a2, a3, a4, a5, b, a7, a8, a9)
    ∧ (s.setFrustumScale q).displayOptions = (a1, a2, a3, a4, a5, a6, q, a8, a9)
    ∧ (s.setFrustumColor c).displayOptions
        = (a1, a2, a3, a4, a5, a6, a7, (if (!c.isValid) = true then QColor.gray else c), a9)
    ∧ (s.setCameraTargetLocked b).displayOptions = (a1, a2, a3, a4, a5, a6, a7, a8, a9)
    ∧ (s.setCameraTargetFollow b).displayOptions = (a1, a2, a3, a4, a5, a6, a7, a8, a9)
    ∧ s.setCameraFree.displayOptions = (a1, a2, a3, a4, a5, a6, a7, a8, a9)
    ∧ (s.setCameraLockZ b).displayOptions = (a1, a2, a3, a4, a5, a6, a7, a8, a9)
    ∧ (s.setDefaultBackgroundColor c).displayOptions = (a1, a2, a3, a4, a5, a6, a7, a8, c) := by
  refine ⟨?_, ?_, ?_, ?_, ?_, ?_, ?_, ?_, ?_, ?_⟩
  · rw [(displayOptions_trajectory s b n q).1, h]
  · rw [(displayOptions_trajectory s b n q).2.1, h]
  · rw [displayOptions_setFrustumShown, h]
  · rw [(displayOptions_trajectory s b n q).2.2, h]
  · rw [displayOptions_setFrustumColor, h]
  · rw [(displayOptions_cameraModes s b).1, h]
  · rw [(displayOptions_cameraModes s b).2.1, h]
  · rw [(displayOptions_cameraModes s b).2.2.1, h]
  · rw [(displayOptions_cameraModes s b).2.2.2, h]
  · rw [displayOptions_setDefaultBackgroundColor, h]

/-- The display options after a `loadSettings` that returns, from a store that holds a
value of the written type under each key: they are the stored ones. -/
theorem loadSettings_displayOptions (s B : CloudViewer) (settings : QSettings) (group : String)
    (b1 : Bool) (n : Nat) (q : ℚ) (b2 : Bool) (m : Nat) (b3 : Bool) (sc : ℚ) (c bg : QColor)
    (hn : 0 < n) (hq : 0 < q)
    (h1 : ∀ d, settings.value group "grid" d = .bool b1)
    (h2 : ∀ d, settings.value group "grid_cell_count" d = .uint n)
    (h3 : ∀ d, settings.value group "grid_cell_size" d = .real q)
    (h4 : ∀ d, settings.value group "trajectory_shown" d = .bool b2)
    (h5 : ∀ d, settings.value group "trajectory_size" d = .uint m)
    (h6 : ∀ d, settings.value group "frustum_shown" d = .bool b3)
    (h7 : ∀ d, settings.value group "frustum_scale" d = .real sc)
    (h8 : ∀ d, settings.value group "frustum_color" d = .color c)
    (h9 : ∀ d, settings.value group "bg_color" d = .color bg)
    (hload : s.loadSettings settings group = some B) :
    B.displayOptions =
      (b1, n, q, b2, m, b3, sc, (if (!c.isValid) = true then QColor.gray else c), bg) := by
  have tb : ∀ b, (QVariant.bool b).toBool = b := fun _ => rfl
  have tu : ∀ k, (QVariant.uint k).toUInt = k := fun _ => rfl
  have tr : ∀ x, (QVariant.real x).toReal = x := fun _ => rfl
  have tc : ∀ x, (QVariant.color x).toColor = x := fun _ => rfl
  unfold CloudViewer.loadSettings at hload
  simp only [h1, h2, h3, h4, h5, h6, h7, h8, h9, tb, tu, tr, tc, Option.bind_eq_bind,
    Option.pure_def, Option.bind_eq_some] at hload
  obtain ⟨s2, e2, s3, e3, s4, e4, hload⟩ := hload
  rw [← Option.some.inj hload]
  generalize hg : s.setCameraPosition _ _ _ _ _ _ _ _ _ = s1 at e2
  have o1 : s1.displayOptions = (s.isGridShown, s.getGridCellCount, s.gridCellSize,
      s.isTrajectoryShown, s.getTrajectorySize, s.isFrustumShown, s.getFrustumScale,
      s.getFrustumColor, s.getDefaultBackgroundColor) := by
    rw [← hg]
    rfl
  have o2 := (options_gridSetters s1 s2 b1 n q o1).1 e2
  have o3 := (options_gridSetters s2 s3 b1 n q o2).2.1 hn e3
  have o4 := (options_gridSetters s3 s4 b1 n q o3).2.2 hq e4
  generalize (settings.value group "camera_target_locked" _).toBool = c1
  generalize (settings.value group "camera_target_follow" _).toBool = c2
  generalize (settings.value group "camera_free" _).toBool = c3
  generalize (settings.value group "camera_lockZ" _).toBool = c4
  have o5 := (options_setters s4 b2 m sc c o4).1
  have o6 := (options_setters _ b2 m sc c o5).2.1
  have o7 := (options_setters _ b3 m sc c o6).2.2.1
  have o8 := (options_setters _ b3 m sc c o7).2.2.2.1
  have o9 := (options_setters _ b3 m sc c o8).2.2.2.2.1
  have o10 := (options_setters _ c1 m sc c o9).2.2.2.2.2.1
  have o11 := (options_setters _ c2 m sc c o10).2.2.2.2.2.2.1
  have o12 := (options_setters _ true m sc c o11).2.2.2.2.2.2.2.1
  cases c3
  · rw [if_neg Bool.false_ne_true]
    exact (options_setters _ true m sc bg
      ((options_setters _ c4 m sc c o11).2.2.2.2.2.2.2.2.1)).2.2.2.2.2.2.2.2.2
  · rw [if_pos rfl]
    exact (options_setters _ true m sc bg
      ((options_setters _ c4 m sc c o12).2.2.2.2.2.2.2.2.1)).2.2.2.2.2.2.2.2.2

/-- `loadSettings` returns where each of the three calls of `addGrid` it may lead to
returns: the grid is to be hidden, or `addGrid` returns with the cell count and cell
size of the loading viewer, with the stored count and the cell size of the loading
viewer, and with the stored count and the stored cell size. -/
theorem loadSettings_some (s : CloudViewer) (settings : QSettings) (group : String)
    (b1 : Bool) (n : Nat) (q : ℚ) (hn : 0 < n) (hq : 0 < q)
    (h1 : ∀ d, settings.value group "grid" d = .bool b1)
    (h2 : ∀ d, settings.value group "grid_cell_count" d = .uint n)
    (h3 : ∀ d, settings.value group "grid_cell_size" d = .real q)
    (g1 : b1 = true → GridEndsAt s.gridCellCount s.gridCellSize)
    (g2 : b1 = true → GridEndsAt n s.gridCellSize)
    (g3 : b1 = true → GridEndsAt n q) :
    ∃ B, s.loadSettings settings group = some B := by
  have tb : ∀ b, (QVariant.bool b).toBool = b := fun _ => rfl
  have tu : ∀ k, (QVariant.uint k).toUInt = k := fun _ => rfl
  have tr : ∀ x, (QVariant.real x).toReal = x := fun _ => rfl
  unfold CloudViewer.loadSettings
  simp only [h1, h2, h3, tb, tu, tr, Option.bind_eq_bind, Option.pure_def]
  generalize hg : s.setCameraPosition _ _ _ _ _ _ _ _ _ = s1
  have c1 : s1.gridCellCount = s.gridCellCount ∧ s1.gridCellSize = s.gridCellSize := by
    rw [← hg]
    exact ⟨rfl, rfl⟩
  obtain ⟨v2, l2, e2⟩ := setGridShown_some s1 b1 (by rw [c1.1, c1.2]; exact g1)
  rw [e2, Option.some_bind]
  obtain ⟨v3, l3, e3⟩ := setGridCellCount_some
    ({ s1 with aShowGrid := b1, visualizer := v2, gridLines := l2 } : CloudViewer) n hn
    (by
      intro hb
      have hb1 : b1 = true := hb
      show GridEndsAt n s1.gridCellSize
      rw [c1.2]
      exact g2 hb1)
  rw [e3, Option.some_bind]
  obtain ⟨v4, l4, e4⟩ := setGridCellSize_some
    ({ s1 with aShowGrid := b1, gridCellCount := n, visualizer := v3, gridLines := l3 } :
      CloudViewer) q hq
    (by
      intro hb
      have hb1 : b1 = true := hb
      exact g3 hb1)
  rw [e4, Option.some_bind]
  exact ⟨_, rfl⟩

/-! ## Cloud ids of the renderer and of the displayed-cloud map -/

theorem addPointCloud_held (v : Visualizer) (r : Bool) (pose : Transform) (id : String)
    (hv : id ∈ mapKeys v.clouds) :
    mapKeys (v.addPointCloud r pose id).1.clouds = mapKeys v.clouds
    ∧ (v.addPointCloud r pose id).1.shapes = v.shapes
    ∧ (v.addPointCloud r pose id).2 = true := by
  unfold Visualizer.addPointCloud
  rw [if_pos hv]
  dsimp only
  exact ⟨mapKeys_mapUpdate _ _ _, rfl, rfl⟩

theorem addPointCloud_clouds (v : Visualizer) (r : Bool) (pose : Transform) (id : String) :
    ((v.addPointCloud r pose id).2 = true →
        ∀ x, x ∈ mapKeys (v.addPointCloud r pose id).1.clouds ↔ x = id ∨ x ∈ mapKeys v.clouds)
    ∧ ((v.addPointCloud r pose id).2 = false →
        (v.addPointCloud r pose id).1 = v ∧ id ∉ mapKeys v.clouds)
    ∧ (v.addPointCloud r pose id).1.shapes = v.shapes := by
  by_cases h1 : id ∈ mapKeys v.clouds
  · have h := addPointCloud_held v r pose id h1
    refine ⟨fun _ x => ?_, fun hf => ?_, h.2.1⟩
    · rw [h.1]
      constructor
      · exact Or.inr
      · rintro (rfl | hx)
        · exact h1
        · exact hx
    · rw [h.2.2] at hf
      exact absurd hf (by simp)
  · unfold Visualizer.addPointCloud
    rw [if_neg h1]
    cases r
    · exact ⟨fun h => absurd h (by simp), fun _ => ⟨rfl, h1⟩, rfl⟩
    · refine ⟨fun _ x => ?_, fun h => absurd h (by simp), rfl⟩
      show x ∈ mapKeys ((id, _) :: _) ↔ _
      rw [mapKeys_cons, List.mem_cons]

theorem addColorHandlers_clouds (r : Bool) (pose : Transform) (id : String) (n : Nat) :
    ∀ v : Visualizer, id ∈ mapKeys v.clouds →
      mapKeys (CloudViewer.addColorHandlers v r pose id n).clouds = mapKeys v.clouds
      ∧ (CloudViewer.addColorHandlers v r pose id n).shapes = v.shapes := by
  induction n with
  | zero => exact fun v _ => ⟨rfl, rfl⟩
  | succ n ih =>
    intro v hv
    unfold CloudViewer.addColorHandlers
    have h := addPointCloud_held v r pose id hv
    have h1 := ih (v.addPointCloud r pose id).1 (h.1 ▸ hv)
    exact ⟨h1.1.trans h.1, h1.2.trans h.2.1⟩

theorem addMesh_clouds (v : Visualizer) (r : Bool) (id : String) :
    ((v.addMesh r id).2 = true →
        ∀ x, x ∈ mapKeys (v.addMesh r id).1.clouds ↔ x = id ∨ x ∈ mapKeys v.clouds)
    ∧ ((v.addMesh r id).2 = false → (v.addMesh r id).1 = v)
    ∧ (v.addMesh r id).1.shapes = v.shapes := by
  unfold Visualizer.addMesh
  by_cases h1 : id ∈ mapKeys v.clouds
  · rw [if_pos h1]
    exact ⟨fun h => absurd h (by simp), fun _ => rfl, rfl⟩
  · rw [if_neg h1]
    cases r
    · exact ⟨fun h => absurd h (by simp), fun _ => rfl, rfl⟩
    · refine ⟨fun _ x => ?_, fun h => absurd h (by simp), rfl⟩
      show x ∈ mapKeys ((id, _) :: _) ↔ _
      rw [mapKeys_cons, List.mem_cons]

theorem removeShape_eq (v : Visualizer) (id : String) :
    (id ∈ mapKeys v.shapes → v.removeShape id = { v with shapes := mapRemove id v.shapes })
    ∧ (id ∉ mapKeys v.shapes → v.removeShape id = { v with clouds := mapRemove id v.clouds }) := by
  unfold Visualizer.removeShape
  exact ⟨fun h => if_pos h, fun h => if_neg h⟩

theorem cinv_removeCloud (s : CloudViewer) (id : String) (h : CloudInv s) :
    CloudInv (s.removeCloud id).1 := by
  refine ⟨fun x hx => ?_, h.2⟩
  show x ∈ mapKeys (mapRemove id s.addedClouds) ↔ x ∈ mapKeys (mapRemove id s.visualizer.clouds)
  rw [mem_mapKeys_mapRemove, mem_mapKeys_mapRemove, h.1 x hx]

theorem removeCloud_absent (s : CloudViewer) (id : String) :
    id ∉ mapKeys (s.removeCloud id).1.addedClouds
    ∧ id ∉ mapKeys (s.removeCloud id).1.visualizer.clouds := by
  constructor
  · show id ∉ mapKeys (mapRemove id s.addedClouds)
    rw [mem_mapKeys_mapRemove]
    exact fun h => h.2 rfl
  · show id ∉ mapKeys (mapRemove id s.visualizer.clouds)
    rw [mem_mapKeys_mapRemove]
    exact fun h => h.2 rfl

/-- The state in which `addCloud` and its siblings add: the former cloud of that id is
removed when the displayed-cloud map holds the id. -/
theorem cinv_replaced (s : CloudViewer) (id : String) (h : CloudInv s) :
    CloudInv (if id ∈ mapKeys s.addedClouds then (s.removeCloud id).1 else s)
    ∧ id ∉ mapKeys (if id ∈ mapKeys s.addedClouds then (s.removeCloud id).1 else s).addedClouds := by
  split_ifs with hc
  · exact ⟨cinv_removeCloud s id h, (removeCloud_absent s id).1⟩
  · exact ⟨h, hc⟩

theorem updateColorHandlerIndex_clouds (v : Visualizer) (id : String) (j : Nat) :
    mapKeys (v.updateColorHandlerIndex id j).clouds = mapKeys v.clouds
    ∧ (v.updateColorHandlerIndex id j).shapes = v.shapes := by
  unfold Visualizer.updateColorHandlerIndex
  dsimp only
  exact ⟨mapKeys_mapUpdate _ _ _, rfl⟩

theorem colorIndex_clouds (v : Visualizer) (id : String) (o : Option Nat) :
    mapKeys (match o with
      | some j => v.updateColorHandlerIndex id j
      | none => v).clouds = mapKeys v.clouds
    ∧ (match o with
      | some j => v.updateColorHandlerIndex id j
      | none => v).shapes = v.shapes := by
  cases o with
  | none => exact ⟨rfl, rfl⟩
  | some j => exact updateColorHandlerIndex_clouds v id j

theorem cinv_addCloud (s : CloudViewer) (id : String) (r : Bool) (pose : Transform)
    (rgb hn : Bool) (c : QColor) (h : CloudInv s) :
    CloudInv (s.addCloud id r pose rgb hn c).1 := by
  obtain ⟨h1, hab⟩ := cinv_replaced s id h
  unfold CloudViewer.addCloud
  dsimp only
  generalize (if id ∈ mapKeys s.addedClouds then (s.removeCloud id).1 else s) = s1 at h1 hab ⊢
  generalize (if id ∈ mapKeys s.addedClouds then s.visualizer.getColorHandlerIndex id else -1) = p
  have ha := addPointCloud_clouds s1.visualizer r pose id
  cases hr : (s1.visualizer.addPointCloud r pose id).2
  · rw [if_neg (by simp)]
    rw [(ha.2.1 hr).1]
    exact h1
  · rw [if_pos rfl]
    have hid : id ∈ mapKeys (s1.visualizer.addPointCloud r pose id).1.clouds :=
      (ha.1 hr id).2 (Or.inl rfl)
    have hk := addColorHandlers_clouds r pose id
      (4 + (if rgb = true then 1 else 0) + (if hn = true then 3 else 0)) _ hid
    have hm := colorIndex_clouds
      (CloudViewer.addColorHandlers (s1.visualizer.addPointCloud r pose id).1 r pose id
        (4 + (if rgb = true then 1 else 0) + (if hn = true then 3 else 0))) id
      (CloudViewer.addCloudColorIndex p rgb hn c.isValid)
    constructor
    · intro x hx
      show x ∈ mapKeys (mapInsert id pose s1.addedClouds) ↔ x ∈ mapKeys (Visualizer.clouds _)
      rw [mem_mapKeys_mapInsert, h1.1 x hx, hm.1, hk.1, ha.1 hr x]
    · intro x hx
      show x ∈ mapKeys (Visualizer.shapes _)
      rw [hm.2, hk.2, ha.2.2]
      exact h1.2 x hx

theorem updatePointCloudPose_clouds (v : Visualizer) (id : String) (pose : Transform) :
    mapKeys (v.updatePointCloudPose id pose).1.clouds = mapKeys v.clouds
    ∧ (v.updatePointCloudPose id pose).1.shapes = v.shapes := by
  unfold Visualizer.updatePointCloudPose
  dsimp only
  exact ⟨mapKeys_mapUpdate _ _ _, rfl⟩

theorem cinv_addCloudMesh (s : CloudViewer) (id : String) (r : Bool) (pose : Transform)
    (h : CloudInv s) : CloudInv (s.addCloudMesh id r pose).1 := by
  obtain ⟨h1, hab⟩ := cinv_replaced s id h
  unfold CloudViewer.addCloudMesh
  dsimp only
  generalize (if id ∈ mapKeys s.addedClouds then (s.removeCloud id).1 else s) = s1 at h1 hab ⊢
  have ha := addMesh_clouds s1.visualizer r id
  cases hr : (s1.visualizer.addMesh r id).2
  · rw [if_neg (by simp), ha.2.1 hr]
    exact h1
  · rw [if_pos rfl]
    have hp := updatePointCloudPose_clouds
      { (s1.visualizer.addMesh r id).1 with
        clouds := mapUpdate id s.meshProperties (s1.visualizer.addMesh r id).1.clouds } id pose
    constructor
    · intro x hx
      show x ∈ mapKeys (mapInsert id pose s1.addedClouds) ↔ x ∈ mapKeys (Visualizer.clouds _)
      rw [mem_mapKeys_mapInsert, h1.1 x hx, hp.1]
      show _ ↔ x ∈ mapKeys (mapUpdate id _ _)
      rw [mapKeys_mapUpdate, ha.1 hr x]
    · intro x hx
      show x ∈ mapKeys (Visualizer.shapes _)
      rw [hp.2]
      show x ∈ mapKeys (s1.visualizer.addMesh r id).1.shapes
      rw [ha.2.2]
      exact h1.2 x hx

theorem cinv_addCloudTextureMesh (s : CloudViewer) (id : String) (r : Bool) (pose : Transform)
    (h : CloudInv s) : CloudInv (s.addCloudTextureMesh id r pose).1 := by
  obtain ⟨h1, hab⟩ := cinv_replaced s id h
  unfold CloudViewer.addCloudTextureMesh
  dsimp only
  generalize (if id ∈ mapKeys s.addedClouds then (s.removeCloud id).1 else s) = s1 at h1 hab ⊢
  have ha := addMesh_clouds s1.visualizer r id
  cases hr : (s1.visualizer.addMesh r id).2
  · rw [if_neg (by simp), ha.2.1 hr]
    exact h1
  · rw [if_pos rfl]
    have hp := updatePointCloudPose_clouds (s1.visualizer.addMesh r id).1 id pose
    constructor
    · intro x hx
      show x ∈ mapKeys (mapInsert id pose s1.addedClouds) ↔ x ∈ mapKeys (Visualizer.clouds _)
      rw [mem_mapKeys_mapInsert, h1.1 x hx, hp.1, ha.1 hr x]
    · intro x hx
      show x ∈ mapKeys (Visualizer.shapes _)
      rw [hp.2, ha.2.2]
      exact h1.2 x hx

theorem cinv_updateCloudPose (s : CloudViewer) (id : String) (pose : Transform)
    (h : CloudInv s) : CloudInv (s.updateCloudPose id pose).1 := by
  have hp := updatePointCloudPose_clouds s.visualizer id pose
  have hk : ∀ x, x ≠ "map" →
      (x ∈ mapKeys (mapUpdate id (fun _ => pose) s.addedClouds) ↔ x ∈ mapKeys s.visualizer.clouds) := by
    intro x hx
    rw [mapKeys_mapUpdate]
    exact h.1 x hx
  unfold CloudViewer.updateCloudPose
  split
  · dsimp only
    split_ifs
    · exact ⟨hk, h.2⟩
    · refine ⟨fun x hx => ?_, fun x hx => ?_⟩
      · show _ ↔ x ∈ mapKeys (s.visualizer.updatePointCloudPose id pose).1.clouds
        rw [hp.1]
        exact hk x hx
      · show x ∈ mapKeys (s.visualizer.updatePointCloudPose id pose).1.shapes
        rw [hp.2]
        exact h.2 x hx
    · refine ⟨fun x hx => ?_, fun x hx => ?_⟩
      · show _ ↔ x ∈ mapKeys (s.visualizer.updatePointCloudPose id pose).1.clouds
        rw [hp.1]
        exact h.1 x hx
      · show x ∈ mapKeys (s.visualizer.updatePointCloudPose id pose).1.shapes
        rw [hp.2]
        exact h.2 x hx
  · exact h

theorem cinv_removeAllClouds (s : CloudViewer) (h : CloudInv s) : CloudInv s.removeAllClouds :=
  ⟨fun _ _ => Iff.rfl, h.2⟩

theorem cinv_setCloudPointSize (s : CloudViewer) (id : String) (size : Int) (h : CloudInv s) :
    CloudInv (s.setCloudPointSize id size) := by
  unfold CloudViewer.setCloudPointSize
  refine ⟨fun x hx => ?_, h.2⟩
  dsimp only
  rw [mapKeys_mapUpdate]
  exact h.1 x hx

theorem addMesh_other (v : Visualizer) (r : Bool) (id x : String) (hx : x ≠ id) :
    (x ∈ mapKeys (v.addMesh r id).1.clouds ↔ x ∈ mapKeys v.clouds)
    ∧ (v.addMesh r id).1.shapes = v.shapes := by
  have ha := addMesh_clouds v r id
  refine ⟨?_, ha.2.2⟩
  cases hr : (v.addMesh r id).2
  · rw [ha.2.1 hr]
  · rw [ha.1 hr x]
    constructor
    · rintro (e | h)
      · exact absurd e hx
      · exact h
    · exact Or.inr

theorem removeShape_other (v : Visualizer) (id x : String) (hx : x ≠ id) :
    x ∈ mapKeys (v.removeShape id).clouds ↔ x ∈ mapKeys v.clouds := by
  by_cases h : id ∈ mapKeys v.shapes
  · rw [(removeShape_eq v id).1 h]
  · rw [(removeShape_eq v id).2 h]
    show x ∈ mapKeys (mapRemove id v.clouds) ↔ _
    rw [mem_mapKeys_mapRemove]
    exact ⟨fun h => h.1, fun h => ⟨h, hx⟩⟩

theorem cinv_addOccupancyGridMap (s : CloudViewer) (r : CloudViewer × Bool) (m : Mat)
    (textured : Bool) (res xMin yMin opacity : ℚ)
    (hs : s.addOccupancyGridMap m textured res xMin yMin opacity = some r) (h : CloudInv s) :
    CloudInv r.1 := by
  unfold CloudViewer.addOccupancyGridMap at hs
  simp only [Option.bind_eq_bind, Option.bind_eq_some, Option.pure_def] at hs
  obtain ⟨_, _, hs⟩ := hs
  have h1 : ∀ x, x ≠ "map" →
      (x ∈ mapKeys (if "map" ∉ mapKeys s.visualizer.shapes then s.visualizer.removeShape "map"
          else s.visualizer).clouds ↔ x ∈ mapKeys s.visualizer.clouds) := by
    intro x hx
    by_cases hm : "map" ∉ mapKeys s.visualizer.shapes
    · rw [if_pos hm]
      exact removeShape_other _ _ _ hx
    · rw [if_neg hm]
  have h2 : (if "map" ∉ mapKeys s.visualizer.shapes then s.visualizer.removeShape "map"
      else s.visualizer).shapes = s.visualizer.shapes := by
    by_cases hm : "map" ∉ mapKeys s.visualizer.shapes
    · rw [if_pos hm, (removeShape_eq _ _).2 hm]
    · rw [if_neg hm]
  generalize (if "map" ∉ mapKeys s.visualizer.shapes then s.visualizer.removeShape "map"
      else s.visualizer) = v1 at hs h1 h2
  split_ifs at hs
  · rw [← Option.some.inj hs]
    unfold CloudViewer.setCloudOpacity
    constructor
    · intro x hx
      dsimp only
      rw [mapKeys_mapUpdate, mapKeys_mapUpdate, (addMesh_other v1 textured "map" x hx).1, h1 x hx]
      exact h.1 x hx
    · intro x hx
      dsimp only
      rw [(addMesh_other v1 textured "map" "" (by decide)).2, h2]
      exact h.2 x hx
  · rw [← Option.some.inj hs]
    constructor
    · intro x hx
      dsimp only
      rw [h1 x hx]
      exact h.1 x hx
    · intro x hx
      dsimp only
      rw [h2]
      exact h.2 x hx

theorem cinv_removeGraph (s : CloudViewer) (id : String) (h : CloudInv s) :
    CloudInv (s.removeGraph id) := by
  unfold CloudViewer.removeGraph
  split_ifs with he hg
  · exact h
  · apply cinv_removeCloud
    rw [(removeShape_eq _ _).1 (h.2 id hg)]
    refine ⟨h.1, fun x hx => ?_⟩
    dsimp only at hx ⊢
    rw [mem_setErase] at hx
    rw [mem_mapKeys_mapRemove]
    exact ⟨h.2 x hx.1, hx.2⟩
  · exact h

theorem addPolyline_shapes (v : Visualizer) (pts : List Vec3) (idx : List Nat) (id x : String)
    (c : Vec3) :
    (x ∈ mapKeys ((v.addPolylineFromPolygonMesh pts idx id).setShapeColor c id).shapes
      ↔ x = id ∨ x ∈ mapKeys v.shapes)
    ∧ ((v.addPolylineFromPolygonMesh pts idx id).setShapeColor c id).clouds = v.clouds := by
  unfold Visualizer.setShapeColor Visualizer.addPolylineFromPolygonMesh
  dsimp only
  rw [mapKeys_mapUpdate]
  split_ifs with hm
  · refine ⟨⟨Or.inr, ?_⟩, rfl⟩
    rintro (rfl | hx)
    · exact hm
    · exact hx
  · refine ⟨?_, rfl⟩
    dsimp only
    rw [mapKeys_cons, List.mem_cons]

theorem cinv_addOrUpdateGraph (s : CloudViewer) (id : String) (graph : List Vec3) (c : QColor)
    (h : CloudInv s) : CloudInv (s.addOrUpdateGraph id graph c) := by
  have h1 := cinv_removeGraph s id h
  unfold CloudViewer.addOrUpdateGraph
  split_ifs with he hn
  · exact h
  · apply cinv_setCloudPointSize
    apply cinv_addCloud
    have hp := fun x => addPolyline_shapes (s.removeGraph id).visualizer graph
      (List.range graph.length) id x c.componentsF
    refine ⟨fun x hx => ?_, fun x hx => ?_⟩
    · dsimp only
      rw [(hp x).2]
      exact h1.1 x hx
    · dsimp only at hx ⊢
      rw [(hp x).1]
      rcases (mem_setInsert _ _ _).1 hx with e | hx
      · exact Or.inl e
      · exact Or.inr (h1.2 x hx)
  · exact h1

theorem removeShape_noClouds (v : Visualizer) (id : String) (h : v.clouds = []) :
    (v.removeShape id).clouds = [] := by
  unfold Visualizer.removeShape
  split_ifs
  · exact h
  · show mapRemove id v.clouds = []
    rw [h]
    rfl

theorem noClouds_removeGraph (s : CloudViewer) (id : String) (h : NoClouds s) :
    NoClouds (s.removeGraph id) := by
  unfold CloudViewer.removeGraph
  split_ifs
  · exact h
  · constructor
    · show mapRemove _ s.addedClouds = []
      rw [h.1]
      rfl
    · show mapRemove _ (s.visualizer.removeShape id).clouds = []
      rw [removeShape_noClouds _ _ h.2]
      rfl
  · exact h

theorem noClouds_foldl (f : CloudViewer → String → CloudViewer) (P : CloudViewer → Prop)
    (hf : ∀ s id, P s → P (f s id)) (l : List String) (s : CloudViewer) (h : P s) :
    P (l.foldl f s) := by
  induction l generalizing s with
  | nil => exact h
  | cons id l ih => exact ih _ (hf s id h)

theorem noGraph_removeCoordinate (s : CloudViewer) (id : String)
    (h : NoClouds s ∧ s.graphes = []) :
    NoClouds (s.removeCoordinate id) ∧ (s.removeCoordinate id).graphes = [] := by
  unfold CloudViewer.removeCoordinate
  split_ifs <;> exact h

theorem noGraph_removeFrustum (s : CloudViewer) (id : String)
    (h : NoClouds s ∧ s.graphes = []) :
    NoClouds (s.removeFrustum id) ∧ (s.removeFrustum id).graphes = [] := by
  unfold CloudViewer.removeFrustum
  split_ifs
  · exact h
  · exact ⟨⟨h.1.1, removeShape_noClouds _ _ h.1.2⟩, h.2⟩
  · exact h

theorem noGraph_removeText (s : CloudViewer) (id : String)
    (h : NoClouds s ∧ s.graphes = []) :
    NoClouds (s.removeText id) ∧ (s.removeText id).graphes = [] := by
  unfold CloudViewer.removeText
  split_ifs <;> exact h

theorem noGraph_addOrUpdateCoordinate (s : CloudViewer) (id : String) (t : Transform) (q : ℚ)
    (h : NoClouds s ∧ s.graphes = []) :
    NoClouds (s.addOrUpdateCoordinate id t q) ∧ (s.addOrUpdateCoordinate id t q).graphes = [] := by
  have h1 := noGraph_removeCoordinate s id h
  unfold CloudViewer.addOrUpdateCoordinate
  split_ifs
  · exact h
  · exact h1
  · exact h1

theorem noGraph_addOrUpdateFrustum (s : CloudViewer) (id : String) (t : Transform) (q : ℚ)
    (c : QColor) (h : NoClouds s ∧ s.graphes = []) :
    NoClouds (s.addOrUpdateFrustum id t q c) ∧ (s.addOrUpdateFrustum id t q c).graphes = [] := by
  have h1 := noGraph_removeFrustum s id h
  have h2 := fun (col : QColor) => (addPolyline_shapes (s.removeFrustum id).visualizer
    (CloudViewer.frustumPoints t q) CloudViewer.frustum_indices id "" col.componentsF).2
  unfold CloudViewer.addOrUpdateFrustum
  dsimp only
  split_ifs
  · exact h
  · exact ⟨⟨h1.1.1, (h2 c).trans h1.1.2⟩, h1.2⟩
  · exact ⟨⟨h1.1.1, (h2 QColor.gray).trans h1.1.2⟩, h1.2⟩
  · exact h1

theorem noGraph_removeAllGraphs (s s1 : CloudViewer) (hs : s.removeAllGraphs = some s1)
    (h : NoClouds s) : NoClouds s1 ∧ s1.graphes = [] := by
  obtain ⟨hg, rfl⟩ := uassert_bind_eq_some _ _ _ hs
  exact ⟨noClouds_foldl _ NoClouds noClouds_removeGraph _ _ h, of_decide_eq_true hg⟩

theorem noGraph_removeAllOthers (s s1 : CloudViewer) (h : NoClouds s ∧ s.graphes = []) :
    (s.removeAllCoordinates = some s1 → NoClouds s1 ∧ s1.graphes = [])
    ∧ (s.removeAllFrustums = some s1 → NoClouds s1 ∧ s1.graphes = [])
    ∧ (s.removeAllTexts = some s1 → NoClouds s1 ∧ s1.graphes = []) := by
  refine ⟨fun hs => ?_, fun hs => ?_, fun hs => ?_⟩
  · obtain ⟨_, rfl⟩ := uassert_bind_eq_some _ _ _ hs
    exact noClouds_foldl _ (fun a => NoClouds a ∧ a.graphes = []) noGraph_removeCoordinate _ _ h
  · obtain ⟨_, rfl⟩ := uassert_bind_eq_some _ _ _ hs
    exact noClouds_foldl _ (fun a => NoClouds a ∧ a.graphes = []) noGraph_removeFrustum _ _ h
  · obtain ⟨_, rfl⟩ := uassert_bind_eq_some _ _ _ hs
    exact noClouds_foldl _ (fun a => NoClouds a ∧ a.graphes = []) noGraph_removeText _ _ h

theorem cinv_clear (s s1 : CloudViewer) (hs : s.clear = some s1) : CloudInv s1 := by
  unfold CloudViewer.clear at hs
  simp only [Option.bind_eq_bind, Option.bind_eq_some, Option.pure_def] at hs
  obtain ⟨s2, h2, s3, h3, s4, h4, s5, h5, hs⟩ := hs
  have i2 := noGraph_removeAllGraphs _ _ h2 ⟨rfl, rfl⟩
  have i3 := (noGraph_removeAllOthers _ _ i2).1 h3
  have i4 := (noGraph_removeAllOthers _ _ i3).2.1 h4
  have i5 := (noGraph_removeAllOthers _ _ i4).2.2 h5
  have i6 : NoClouds s5.clearTrajectory ∧ s5.clearTrajectory.graphes = [] :=
    ⟨⟨i5.1.1, removeShape_noClouds _ "trajectory" i5.1.2⟩, i5.2⟩
  have i7 := noGraph_addOrUpdateCoordinate _ "reference" Transform.getIdentity 0.2 i6
  have fin : ∀ a : CloudViewer, NoClouds a ∧ a.graphes = [] → CloudInv a := by
    intro a ha
    refine ⟨fun x _ => ?_, fun x hx => ?_⟩
    · rw [ha.1.1, ha.1.2]
      exact ⟨fun hm => absurd hm (List.not_mem_nil _), fun hm => absurd hm (List.not_mem_nil _)⟩
    · rw [ha.2] at hx
      exact absurd hx (List.not_mem_nil _)
  split_ifs at hs
  · rw [← Option.some.inj hs]
    exact fin _ (noGraph_addOrUpdateFrustum _ _ _ _ _ i7)
  · rw [← Option.some.inj hs]
    exact fin _ i7

/-! ## The displayed-cloud map and the renderer -/

theorem cinv_new : CloudInv CloudViewer.new := by
  refine ⟨fun x _ => ?_, fun x hx => ?_⟩
  · have h1 : mapKeys CloudViewer.new.addedClouds = [] := by decide
    have h2 : mapKeys CloudViewer.new.visualizer.clouds = [] := by decide
    rw [h1, h2]
  · have h1 : CloudViewer.new.graphes = [] := by decide
    rw [h1] at hx
    exact absurd hx (List.not_mem_nil _)

/-- One returning operation on clouds keeps the invariant of the clouds. -/
theorem cinv_step (normalized : Vec3 → Vec3) (s s1 : CloudViewer) (op : Op)
    (hop : op.isCloudOp = true) (hs : step normalized s op = some s1) (h : CloudInv s) :
    CloudInv s1 := by
  cases op <;> simp only [Op.isCloudOp, Bool.false_eq_true] at hop <;> simp only [step] at hs
  case clear => exact cinv_clear _ _ hs
  case updateCloudPose => rw [← Option.some.inj hs]; exact cinv_updateCloudPose _ _ _ h
  case addCloud => rw [← Option.some.inj hs]; exact cinv_addCloud _ _ _ _ _ _ _ h
  case addCloudMesh => rw [← Option.some.inj hs]; exact cinv_addCloudMesh _ _ _ _ h
  case addCloudTextureMesh =>
    rw [← Option.some.inj hs]; exact cinv_addCloudTextureMesh _ _ _ _ h
  case addOccupancyGridMap =>
    obtain ⟨r, hr, rfl⟩ := Option.map_eq_some'.1 hs
    exact cinv_addOccupancyGridMap _ _ _ _ _ _ _ _ hr h
  case addOrUpdateGraph => rw [← Option.some.inj hs]; exact cinv_addOrUpdateGraph _ _ _ _ h
  case removeGraph => rw [← Option.some.inj hs]; exact cinv_removeGraph _ _ h
  case removeAllClouds => rw [← Option.some.inj hs]; exact cinv_removeAllClouds _ h
  case removeCloud => rw [← Option.some.inj hs]; exact cinv_removeCloud _ _ h

/-- C1, as amended: in every state reachable from a freshly constructed viewer through
addCloud, addCloudMesh, addCloudTextureMesh, addOccupancyGridMap, updateCloudPose,
removeCloud, removeAllClouds, addOrUpdateGraph, removeGraph and clear, every id other
than "map" (the id of the occupancy grid) is recorded in the displayed-cloud map
exactly when the renderer holds a cloud of that id. -/
theorem addedClouds_mirror_renderer (normalized : Vec3 → Vec3) (s : CloudViewer)
    (hr : Reachable normalized (fun op => op.isCloudOp = true) s) (id : String)
    (hid : id ≠ "map") :
    id ∈ mapKeys s.addedClouds ↔ id ∈ mapKeys s.visualizer.clouds := by
  have h : CloudInv s := by
    induction hr with
    | new => exact cinv_new
    | step s s1 op _ hop hs ih => exact cinv_step normalized s s1 op hop hs ih
  exact h.1 id hid

/-- Witness of C1 as amended: after addCloud("a", ...) on a fresh viewer both the
displayed-cloud map and the renderer hold "a". -/
theorem addedClouds_mirror_renderer_witness :
    Reachable (fun v => v) (fun op => op.isCloudOp = true)
        (CloudViewer.new.addCloud "a" true Transform.getIdentity false false QColor.gray).1
    ∧ "a" ≠ "map"
    ∧ ("a" ∈ mapKeys
          (CloudViewer.new.addCloud "a" true Transform.getIdentity false false
            QColor.gray).1.addedClouds
        ↔ "a" ∈ mapKeys
          (CloudViewer.new.addCloud "a" true Transform.getIdentity false false
            QColor.gray).1.visualizer.clouds) :=
  ⟨Reachable.step _ _ (Op.addCloud "a" true Transform.getIdentity false false QColor.gray)
      Reachable.new rfl rfl,
   by decide,
   addedClouds_mirror_renderer (fun v => v) _
    (Reachable.step _ _ (Op.addCloud "a" true Transform.getIdentity false false QColor.gray)
      Reachable.new rfl rfl) "a" (by decide)⟩

/-- C1 as stated fails: addOccupancyGridMap with a 1x1 single-channel 8-bit image and
resolution 1 on a fresh viewer returns; afterwards the renderer holds the cloud "map"
and the displayed-cloud map holds no id. -/
theorem addedClouds_mirror_counterexample :
    ∃ s, Reachable (fun v => v) (fun op => op.isCloudOp = true) s
      ∧ step (fun v => v) CloudViewer.new
          (Op.addOccupancyGridMap ⟨1, 1, 1, 0⟩ true 1 0 0 1) = some s
      ∧ mapKeys s.visualizer.clouds = ["map"]
      ∧ mapKeys s.addedClouds = [] := by
  have hm : (step (fun v => v) CloudViewer.new
      (Op.addOccupancyGridMap ⟨1, 1, 1, 0⟩ true 1 0 0 1)).map
        (fun s => (mapKeys s.visualizer.clouds, mapKeys s.addedClouds)) = some (["map"], []) := by
    simp [step, CloudViewer.addOccupancyGridMap, UASSERT, CloudViewer.new, CloudViewer.init]
    decide
  cases hs : step (fun v => v) CloudViewer.new
      (Op.addOccupancyGridMap ⟨1, 1, 1, 0⟩ true 1 0 0 1) with
  | none =>
    rw [hs] at hm
    exact absurd hm (by simp)
  | some s =>
    rw [hs] at hm
    simp only [Option.map_some', Option.some.injEq, Prod.mk.injEq] at hm
    exact ⟨s, Reachable.step _ _ (Op.addOccupancyGridMap ⟨1, 1, 1, 0⟩ true 1 0 0 1)
      Reachable.new rfl hs, rfl, hm.1, hm.2⟩

/-! ## The state after `clear` -/

theorem fields_removeFrustum (s : CloudViewer) (id : String) :
    (s.removeFrustum id).coordinates = s.coordinates ∧ (s.removeFrustum id).texts = s.texts
    ∧ (s.removeFrustum id).trajectory = s.trajectory
    ∧ (s.removeFrustum id).aShowFrustum = s.aShowFrustum := by
  unfold CloudViewer.removeFrustum
  split_ifs <;> exact ⟨rfl, rfl, rfl, rfl⟩

theorem fields_removeText (s : CloudViewer) (id : String) :
    (s.removeText id).coordinates = s.coordinates ∧ (s.removeText id).frustums = s.frustums
    ∧ (s.removeText id).trajectory = s.trajectory
    ∧ (s.removeText id).aShowFrustum = s.aShowFrustum := by
  unfold CloudViewer.removeText
  split_ifs <;> exact ⟨rfl, rfl, rfl, rfl⟩

theorem fields_removeCoordinate (s : CloudViewer) (id : String) :
    (s.removeCoordinate id).frustums = s.frustums ∧ (s.removeCoordinate id).texts = s.texts
    ∧ (s.removeCoordinate id).trajectory = s.trajectory
    ∧ (s.removeCoordinate id).aShowFrustum = s.aShowFrustum := by
  unfold CloudViewer.removeCoordinate
  split_ifs <;> exact ⟨rfl, rfl, rfl, rfl⟩

theorem fields_removeGraph (s : CloudViewer) (id : String) :
    (s.removeGraph id).aShowFrustum = s.aShowFrustum := by
  unfold CloudViewer.removeGraph
  split_ifs <;> rfl

/-- On a viewer without coordinate frames, `addOrUpdateCoordinate("reference", identity)`
leaves exactly the frame "reference". -/
theorem reference_added (s : CloudViewer) (scale : ℚ) (h : s.coordinates = []) :
    (s.addOrUpdateCoordinate "reference" Transform.getIdentity scale).coordinates = ["reference"]
    ∧ (s.addOrUpdateCoordinate "reference" Transform.getIdentity scale).frustums = s.frustums
    ∧ (s.addOrUpdateCoordinate "reference" Transform.getIdentity scale).texts = s.texts
    ∧ (s.addOrUpdateCoordinate "reference" Transform.getIdentity scale).trajectory = s.trajectory
    ∧ (s.addOrUpdateCoordinate "reference" Transform.getIdentity scale).aShowFrustum
        = s.aShowFrustum := by
  have hr : s.removeCoordinate "reference" = s := by
    unfold CloudViewer.removeCoordinate
    rw [if_neg (by decide), if_neg (by rw [h]; exact List.not_mem_nil _)]
  unfold CloudViewer.addOrUpdateCoordinate
  rw [if_neg (by decide), hr]
  dsimp only
  rw [if_pos (by decide)]
  refine ⟨?_, rfl, rfl, rfl, rfl⟩
  show setInsert "reference" s.coordinates = ["reference"]
  rw [h]
  rfl

/-- On a viewer without frustums, `addOrUpdateFrustum("reference_frustum", identity)`
leaves exactly the frustum "reference_frustum". -/
theorem reference_frustum_added (s : CloudViewer) (scale : ℚ) (color : QColor)
    (h : s.frustums = []) :
    (s.addOrUpdateFrustum "reference_frustum" Transform.getIdentity scale color).frustums
        = ["reference_frustum"]
    ∧ (s.addOrUpdateFrustum "reference_frustum" Transform.getIdentity scale color).coordinates
        = s.coordinates
    ∧ (s.addOrUpdateFrustum "reference_frustum" Transform.getIdentity scale color).texts = s.texts
    ∧ (s.addOrUpdateFrustum "reference_frustum" Transform.getIdentity scale color).trajectory
        = s.trajectory := by
  have hr : s.removeFrustum "reference_frustum" = s := by
    unfold CloudViewer.removeFrustum
    rw [if_neg (by decide), if_neg (by rw [h]; exact List.not_mem_nil _)]
  unfold CloudViewer.addOrUpdateFrustum
  rw [if_neg (by decide), hr]
  dsimp only
  rw [if_pos (by decide)]
  refine ⟨?_, rfl, rfl, rfl⟩
  show setInsert "reference_frustum" s.frustums = ["reference_frustum"]
  rw [h]
  rfl

/-- What `clear` leaves, whenever it returns. -/
theorem clear_post (s s1 : CloudViewer) (hs : s.clear = some s1) :
    s1.addedClouds = [] ∧ s1.graphes = [] ∧ s1.texts = [] ∧ s1.trajectory = []
    ∧ s1.coordinates = ["reference"]
    ∧ s1.frustums = (if s.isFrustumShown then ["reference_frustum"] else []) := by
  unfold CloudViewer.clear at hs
  simp only [Option.bind_eq_bind, Option.bind_eq_some, Option.pure_def] at hs
  obtain ⟨s2, h2, s3, h3, s4, h4, s5, h5, hs⟩ := hs
  have i2 := noGraph_removeAllGraphs _ _ h2 ⟨rfl, rfl⟩
  have i3 := (noGraph_removeAllOthers _ _ i2).1 h3
  have i4 := (noGraph_removeAllOthers _ _ i3).2.1 h4
  have i5 := (noGraph_removeAllOthers _ _ i4).2.2 h5
  have i6 : NoClouds s5.clearTrajectory ∧ s5.clearTrajectory.graphes = [] :=
    ⟨⟨i5.1.1, removeShape_noClouds _ "trajectory" i5.1.2⟩, i5.2⟩
  have i7 := noGraph_addOrUpdateCoordinate _ "reference" Transform.getIdentity 0.2 i6
  -- the frustum option is the one of the start
  have a2 : s2.aShowFrustum = s.aShowFrustum := by
    obtain ⟨_, rfl⟩ := uassert_bind_eq_some _ _ _ h2
    exact noClouds_foldl _ (fun a => a.aShowFrustum = s.aShowFrustum)
      (fun a id ha => (fields_removeGraph a id).trans ha) _ _ rfl
  have c3 : s3.coordinates = [] ∧ s3.aShowFrustum = s.aShowFrustum := by
    obtain ⟨hc, rfl⟩ := uassert_bind_eq_some _ _ _ h3
    exact ⟨of_decide_eq_true hc, noClouds_foldl _ (fun a => a.aShowFrustum = s.aShowFrustum)
      (fun a id ha => (fields_removeCoordinate a id).2.2.2.trans ha) _ _ a2⟩
  have c4 : s4.frustums = [] ∧ s4.coordinates = [] ∧ s4.aShowFrustum = s.aShowFrustum := by
    obtain ⟨hc, rfl⟩ := uassert_bind_eq_some _ _ _ h4
    exact ⟨of_decide_eq_true hc,
      noClouds_foldl _ (fun a => a.coordinates = [] ∧ a.aShowFrustum = s.aShowFrustum)
        (fun a id ha => ⟨(fields_removeFrustum a id).1.trans ha.1,
          (fields_removeFrustum a id).2.2.2.trans ha.2⟩) _ _ c3⟩
  have c5 : s5.texts = [] ∧ s5.frustums = [] ∧ s5.coordinates = []
      ∧ s5.aShowFrustum = s.aShowFrustum := by
    obtain ⟨hc, rfl⟩ := uassert_bind_eq_some _ _ _ h5
    exact ⟨of_decide_eq_true hc,
      noClouds_foldl _
        (fun a => a.frustums = [] ∧ a.coordinates = [] ∧ a.aShowFrustum = s.aShowFrustum)
        (fun a id ha => ⟨(fields_removeText a id).2.1.trans ha.1,
          (fields_removeText a id).1.trans ha.2.1,
          (fields_removeText a id).2.2.2.trans ha.2.2⟩) _ _ c4⟩
  have c7 := reference_added s5.clearTrajectory 0.2 c5.2.2.1
  have hshown : (s5.clearTrajectory.addOrUpdateCoordinate "reference" Transform.getIdentity
      0.2).aShowFrustum = s.isFrustumShown := c7.2.2.2.2.trans c5.2.2.2
  rw [hshown] at hs
  cases hsh : s.isFrustumShown
  · rw [hsh] at hs
    rw [if_neg Bool.false_ne_true] at hs ⊢
    rw [← Option.some.inj hs]
    exact ⟨i7.1.1, i7.2, c7.2.2.1.trans c5.1, c7.2.2.2.1, c7.1, c7.2.1.trans c5.2.1⟩
  · rw [hsh] at hs
    rw [if_pos rfl] at hs ⊢
    rw [← Option.some.inj hs]
    have c8 := reference_frustum_added
      (s5.clearTrajectory.addOrUpdateCoordinate "reference" Transform.getIdentity 0.2)
      (s5.clearTrajectory.addOrUpdateCoordinate "reference" Transform.getIdentity 0.2).frustumScale
      (s5.clearTrajectory.addOrUpdateCoordinate "reference" Transform.getIdentity 0.2).frustumColor
      (c7.2.1.trans c5.2.1)
    have i8 := noGraph_addOrUpdateFrustum _ "reference_frustum" Transform.getIdentity
      (s5.clearTrajectory.addOrUpdateCoordinate "reference" Transform.getIdentity 0.2).frustumScale
      (s5.clearTrajectory.addOrUpdateCoordinate "reference" Transform.getIdentity 0.2).frustumColor
      i7
    exact ⟨i8.1.1, i8.2, c8.2.2.1.trans (c7.2.2.1.trans c5.1), c8.2.2.2.trans c7.2.2.2.1,
      c8.2.1.trans c7.1, c8.1⟩

/-- In a state without the empty id, `clear` returns. -/
theorem clear_some (s : CloudViewer) (h : Inv s) : ∃ s1, s.clear = some s1 := by
  have e2 : ∃ s2, s.removeAllClouds.removeAllGraphs = some s2 :=
    ⟨_, uassert_bind_some _ _ (decide_eq_true
      (foldl_remove_nil (fun a id => a.removeGraph id) (fun a => a.graphes)
        (fun a id x hid => graphes_removeGraph a id x hid) s.removeAllClouds h.1.2.2.1))⟩
  obtain ⟨s2, h2⟩ := e2
  have i2 := inv_removeAllGraphs _ _ h2 (show Inv s.removeAllClouds from h)
  have e3 : ∃ s3, s2.removeAllCoordinates = some s3 :=
    ⟨_, uassert_bind_some _ _ (decide_eq_true
      (foldl_remove_nil (fun a id => a.removeCoordinate id) (fun a => a.coordinates)
        (fun a id x hid => coordinates_removeCoordinate a id x hid) s2 i2.1.1))⟩
  obtain ⟨s3, h3⟩ := e3
  have i3 := inv_removeAllCoordinates _ _ h3 i2
  have e4 : ∃ s4, s3.removeAllFrustums = some s4 :=
    ⟨_, uassert_bind_some _ _ (decide_eq_true
      (foldl_remove_nil (fun a id => a.removeFrustum id) (fun a => a.frustums)
        (fun a id x hid => frustums_removeFrustum a id x hid) s3 i3.1.2.1))⟩
  obtain ⟨s4, h4⟩ := e4
  have i4 := inv_removeAllFrustums _ _ h4 i3
  have e5 : ∃ s5, s4.removeAllTexts = some s5 :=
    ⟨_, uassert_bind_some _ _ (decide_eq_true
      (foldl_remove_nil (fun a id => a.removeText id) (fun a => a.texts)
        (fun a id x hid => texts_removeText a id x hid) s4 i4.1.2.2.2))⟩
  obtain ⟨s5, h5⟩ := e5
  unfold CloudViewer.clear
  simp only [Option.bind_eq_bind, Option.pure_def]
  rw [h2, Option.some_bind, h3, Option.some_bind, h4, Option.some_bind, h5, Option.some_bind]
  split_ifs
  · exact ⟨_, rfl⟩
  · exact ⟨_, rfl⟩

/-- C11: whenever clear() returns, the displayed-cloud map, the graph set and the text
set are empty, the trajectory has no points, the coordinate-frame set is exactly
{"reference"}, and the frustum set is exactly {"reference_frustum"} when the frustum is
shown and empty otherwise; and clear() returns in every state reachable from a freshly
constructed viewer. -/
theorem clear_postcondition (normalized : Vec3 → Vec3) (s : CloudViewer) :
    (∀ s1, s.clear = some s1 →
      s1.addedClouds = [] ∧ s1.graphes = [] ∧ s1.texts = [] ∧ s1.trajectory = []
      ∧ s1.coordinates = ["reference"]
      ∧ s1.frustums = (if s.isFrustumShown then ["reference_frustum"] else []))
    ∧ (Reachable normalized (fun _ => True) s → ∃ s1, s.clear = some s1) :=
  ⟨fun s1 h1 => clear_post s s1 h1,
   fun hr => clear_some s (reachable_inv normalized _ s hr)⟩

/-- Witness of C11 on a viewer that displays a cloud, a shown frustum and a trajectory:
the viewer is reachable, clear() returns on it, and leaves the state described. -/
theorem clear_postcondition_witness :
    Reachable (fun v => v) (fun _ => True) scanViewer
    ∧ (∃ s1, scanViewer.clear = some s1)
    ∧ (∀ s1, scanViewer.clear = some s1 →
      s1.addedClouds = [] ∧ s1.graphes = [] ∧ s1.texts = [] ∧ s1.trajectory = []
      ∧ s1.coordinates = ["reference"]
      ∧ s1.frustums = (if scanViewer.isFrustumShown then ["reference_frustum"] else [])) :=
  ⟨Reachable.step _ _ (Op.updateCameraTargetPosition (Transform.ofTranslation 1 0 0))
      (Reachable.step _ _ (Op.setFrustumShown true)
        (Reachable.step _ _
          (Op.addCloud "scan" true Transform.getIdentity false false QColor.invalid)
          Reachable.new trivial rfl) trivial rfl) trivial rfl,
   (clear_postcondition (fun v => v) scanViewer).2
    (Reachable.step _ _ (Op.updateCameraTargetPosition (Transform.ofTranslation 1 0 0))
      (Reachable.step _ _ (Op.setFrustumShown true)
        (Reachable.step _ _
          (Op.addCloud "scan" true Transform.getIdentity false false QColor.invalid)
          Reachable.new trivial rfl) trivial rfl) trivial rfl),
   (clear_postcondition (fun v => v) scanViewer).1⟩

/-! ## Recorded poses of the clouds -/

theorem mapFind_mapInsert_self {β : Type} (id : String) (v : β) (m : List (String × β)) :
    mapFind id (mapInsert id v m) = some v := by
  simp [mapInsert, mapFind]

theorem mapFind_eq_none {β : Type} (id : String) (m : List (String × β))
    (h : id ∉ mapKeys m) : mapFind id m = none := by
  cases hf : mapFind id m with
  | none => rfl
  | some v =>
    exact absurd ((mapFind_isSome_iff id m).1 (by rw [hf]; rfl)) h

theorem mapFind_mapUpdate {β : Type} (x id : String) (f : β → β) (m : List (String × β)) :
    mapFind x (mapUpdate id f m) = if x = id then (mapFind x m).map f else mapFind x m := by
  induction m with
  | nil => simp [mapUpdate, mapFind]
  | cons kv m ih =>
    obtain ⟨k, v⟩ := kv
    rw [show mapUpdate id f ((k, v) :: m)
      = (if k = id then (k, f v) else (k, v)) :: mapUpdate id f m from rfl]
    by_cases hk : k = id
    · rw [if_pos hk]
      simp only [mapFind]
      rw [ih]
      by_cases hx : x = id
      · have hkx : k = x := hk.trans hx.symm
        simp [hx, hkx]
      · have hkx : ¬ k = x := fun e => hx (e.symm.trans hk)
        simp [hx, hkx]
    · rw [if_neg hk]
      simp only [mapFind]
      rw [ih]
      by_cases hx : x = id
      · have hkx : ¬ k = x := fun e => hk (e.trans hx)
        simp [hx, hk]
      · by_cases hkx : k = x <;> simp [hx, hkx]

theorem getPose_of_recorded (s : CloudViewer) (id : String) (pose out : Transform)
    (h : mapFind id s.addedClouds = some pose) : s.getPose id out = (true, pose) := by
  unfold CloudViewer.getPose
  rw [h]

/-- C12: the pose recorded for a cloud is the one it was added with: whenever addCloud
or addCloudMesh returns true, getPose(id, out) returns true and sets out to the pose of
the call; for an id that is not in the displayed-cloud map, getPose returns false and
leaves out unchanged. -/
theorem getPose_after_add (s : CloudViewer) (id : String) (renderable : Bool)
    (pose out : Transform) (rgb haveNormals : Bool) (color : QColor) :
    ((s.addCloud id renderable pose rgb haveNormals color).2 = true →
      (s.addCloud id renderable pose rgb haveNormals color).1.getPose id out = (true, pose))
    ∧ ((s.addCloudMesh id renderable pose).2 = true →
      (s.addCloudMesh id renderable pose).1.getPose id out = (true, pose))
    ∧ (id ∉ mapKeys s.addedClouds → s.getPose id out = (false, out)) := by
  refine ⟨?_, ?_, ?_⟩
  · unfold CloudViewer.addCloud
    dsimp only
    split_ifs with h1 h2
    all_goals first
      | (intro _; exact getPose_of_recorded _ _ _ _ (mapFind_mapInsert_self _ _ _))
      | (intro hf; exact hf.elim)
  · unfold CloudViewer.addCloudMesh
    dsimp only
    split_ifs with h1 h2
    all_goals first
      | (intro _; exact getPose_of_recorded _ _ _ _ (mapFind_mapInsert_self _ _ _))
      | (intro hf; exact hf.elim)
  · intro h
    unfold CloudViewer.getPose
    rw [mapFind_eq_none id _ h]

/-- Witness of C12: on a fresh viewer the cloud "scan" is added at `(1, 2, 3)` and read
back, while "other" is not displayed. -/
theorem getPose_after_add_witness :
    (CloudViewer.new.addCloud "scan" true (Transform.ofTranslation 1 2 3) true false
        QColor.invalid).2 = true
    ∧ (CloudViewer.new.addCloud "scan" true (Transform.ofTranslation 1 2 3) true false
        QColor.invalid).1.getPose "scan" Transform.null = (true, Transform.ofTranslation 1 2 3)
    ∧ (CloudViewer.new.addCloudMesh "scan" true (Transform.ofTranslation 1 2 3)).2 = true
    ∧ (CloudViewer.new.addCloudMesh "scan" true (Transform.ofTranslation 1 2 3)).1.getPose
        "scan" Transform.null = (true, Transform.ofTranslation 1 2 3)
    ∧ "other" ∉ mapKeys CloudViewer.new.addedClouds
    ∧ CloudViewer.new.getPose "other" Transform.getIdentity = (false, Transform.getIdentity) :=
  ⟨rfl,
   (getPose_after_add CloudViewer.new "scan" true (Transform.ofTranslation 1 2 3)
      Transform.null true false QColor.invalid).1 rfl,
   rfl,
   (getPose_after_add CloudViewer.new "scan" true (Transform.ofTranslation 1 2 3)
      Transform.null true false QColor.invalid).2.1 rfl,
   by decide,
   (getPose_after_add CloudViewer.new "other" true Transform.getIdentity
      Transform.getIdentity true false QColor.invalid).2.2 (by decide)⟩

/-- C13: updateCloudPose on an id that is not a displayed cloud returns false and
changes nothing; whenever it returns true, the pose recorded for the id is the new one
and the pose recorded for every other id is unchanged; when the renderer refuses the
update of a pose different from the recorded one, the call returns false and the
recorded poses are unchanged. -/
theorem updateCloudPose_contract (s : CloudViewer) (id : String) (pose : Transform) :
    (id ∉ mapKeys s.addedClouds → s.updateCloudPose id pose = (s, false))
    ∧ ((s.updateCloudPose id pose).2 = true →
        (∀ out, (s.updateCloudPose id pose).1.getPose id out = (true, pose))
        ∧ ∀ x out, x ≠ id → (s.updateCloudPose id pose).1.getPose x out = s.getPose x out)
    ∧ (∀ p, mapFind id s.addedClouds = some p → p ≠ pose →
        (s.visualizer.updatePointCloudPose id pose).2 = false →
        (s.updateCloudPose id pose).2 = false
        ∧ (s.updateCloudPose id pose).1.addedClouds = s.addedClouds) := by
  have upd : ∀ p, mapFind id s.addedClouds = some p →
      (∀ out, ({ s with addedClouds := mapUpdate id (fun _ => pose) s.addedClouds }
          : CloudViewer).getPose id out = (true, pose))
      ∧ ∀ x out (v : Visualizer), x ≠ id →
        ({ s with visualizer := v, addedClouds := mapUpdate id (fun _ => pose) s.addedClouds }
          : CloudViewer).getPose x out = s.getPose x out := by
    intro p hp
    constructor
    · intro out
      apply getPose_of_recorded
      show mapFind id (mapUpdate id (fun _ => pose) s.addedClouds) = some pose
      rw [mapFind_mapUpdate, if_pos rfl, hp]
      rfl
    · intro x out v hx
      unfold CloudViewer.getPose
      show (match mapFind x (mapUpdate id (fun _ => pose) s.addedClouds) with
        | some p => (true, p) | none => (false, out)) = _
      rw [mapFind_mapUpdate, if_neg hx]
  refine ⟨?_, ?_, ?_⟩
  · intro h
    unfold CloudViewer.updateCloudPose
    rw [mapFind_eq_none id _ h]
  · cases hp : mapFind id s.addedClouds with
    | none =>
      unfold CloudViewer.updateCloudPose
      rw [hp]
      intro hf
      exact absurd hf Bool.false_ne_true
    | some p =>
      unfold CloudViewer.updateCloudPose
      rw [hp]
      dsimp only
      split_ifs with h1 h2
      · intro _
        exact ⟨(upd p hp).1, fun x out hx => (upd p hp).2 x out s.visualizer hx⟩
      · intro _
        exact ⟨(upd p hp).1, fun x out hx => (upd p hp).2 x out _ hx⟩
      · intro hf
        exact hf.elim
  · intro p hp hne hr
    unfold CloudViewer.updateCloudPose
    rw [hp]
    dsimp only
    rw [if_neg hne, if_neg (by rw [hr]; exact Bool.false_ne_true)]
    exact ⟨rfl, rfl⟩
/-- Witness of C13: an id that is not displayed, an update the renderer accepts, and an
update the renderer refuses because it no longer holds the cloud. -/
theorem updateCloudPose_contract_witness :
    ("other" ∉ mapKeys scanViewer.addedClouds
      ∧ scanViewer.updateCloudPose "other" (Transform.ofTranslation 1 0 0) = (scanViewer, false))
    ∧ ((scanViewer.updateCloudPose "scan" (Transform.ofTranslation 1 0 0)).2 = true
      ∧ (∀ out, (scanViewer.updateCloudPose "scan" (Transform.ofTranslation 1 0 0)).1.getPose
          "scan" out = (true, Transform.ofTranslation 1 0 0))
      ∧ ∀ x out, x ≠ "scan" →
          (scanViewer.updateCloudPose "scan" (Transform.ofTranslation 1 0 0)).1.getPose x out
            = scanViewer.getPose x out)
    ∧ (mapFind "trajectory" staleCloudViewer.addedClouds = some Transform.getIdentity
      ∧ Transform.getIdentity ≠ Transform.ofTranslation 1 0 0
      ∧ (staleCloudViewer.visualizer.updatePointCloudPose "trajectory"
          (Transform.ofTranslation 1 0 0)).2 = false
      ∧ (staleCloudViewer.updateCloudPose "trajectory" (Transform.ofTranslation 1 0 0)).2 = false
      ∧ (staleCloudViewer.updateCloudPose "trajectory" (Transform.ofTranslation 1 0 0)).1.addedClouds
          = staleCloudViewer.addedClouds) :=
  ⟨⟨by decide,
    (updateCloudPose_contract scanViewer "other" (Transform.ofTranslation 1 0 0)).1 (by decide)⟩,
   ⟨rfl,
    (updateCloudPose_contract scanViewer "scan" (Transform.ofTranslation 1 0 0)).2.1 rfl⟩,
   ⟨rfl, by decide, rfl,
    (updateCloudPose_contract staleCloudViewer "trajectory" (Transform.ofTranslation 1 0 0)).2.2
      Transform.getIdentity rfl (by decide) rfl⟩⟩

/-! ## The camera after a move of the target -/

theorem camera_removeShape (v : Visualizer) (id : String) :
    (v.removeShape id).camera = v.camera := by
  unfold Visualizer.removeShape
  split_ifs <;> rfl

theorem camera_addPolyline (v : Visualizer) (pts : List Vec3) (idx : List Nat) (id : String) :
    (v.addPolylineFromPolygonMesh pts idx id).camera = v.camera := by
  unfold Visualizer.addPolylineFromPolygonMesh
  split_ifs <;> rfl

theorem camera_appendTrajectory (s : CloudViewer) (pos : Vec3) :
    (s.appendTrajectory pos).visualizer.camera = s.visualizer.camera := by
  unfold CloudViewer.appendTrajectory
  dsimp only
  split_ifs <;> first
    | rfl
    | rw [camera_addPolyline, camera_removeShape]

/-- The camera `updateCameraTargetPosition` writes for a non-null pose that differs from
the last one: by the mode, the camera of the lock-target branch or of the follow branch
taken at the previous target pose (the identity when there was none). -/
theorem camera_updateCameraTargetPosition (normalized : Vec3 → Vec3) (s : CloudViewer)
    (pose : Transform) (hn : pose.isNull = false) (hne : pose ≠ s.lastPose) :
    (s.updateCameraTargetPosition normalized pose).visualizer.camera =
      if s.aLockCamera then
        CloudViewer.lockTargetCamera s.visualizer.camera pose.translation s.getTargetPose
      else if s.aFollowCamera then
        CloudViewer.followCamera normalized s.visualizer.camera pose s.getTargetPose s.aLockViewZ
      else s.visualizer.camera := by
  have hc := camera_appendTrajectory s pose.translation
  have hl : (s.appendTrajectory pose.translation).lastPose = s.lastPose := rfl
  have h1 : (s.appendTrajectory pose.translation).aLockCamera = s.aLockCamera := rfl
  have h2 : (s.appendTrajectory pose.translation).aFollowCamera = s.aFollowCamera := rfl
  have h3 : (s.appendTrajectory pose.translation).aLockViewZ = s.aLockViewZ := rfl
  unfold CloudViewer.updateCameraTargetPosition
  simp only [hn, Bool.not_false, if_true]
  rw [if_pos (Or.inl (by rw [hl]; exact hne))]
  show CloudViewer.targetCamera normalized _ pose = _
  unfold CloudViewer.targetCamera CloudViewer.getTargetPose
  rw [hl]
  cases hnull : s.lastPose.isNull
  · simp only [Bool.false_eq_true, if_false, hc, hl, h1, h2, h3]
  · simp only [if_true]
    show (if s.aLockCamera then
        CloudViewer.lockTargetCamera (s.appendTrajectory pose.translation).visualizer.camera
          pose.translation Transform.getIdentity
      else if s.aFollowCamera then
        CloudViewer.followCamera normalized (s.appendTrajectory pose.translation).visualizer.camera
          pose Transform.getIdentity s.aLockViewZ
      else (s.appendTrajectory pose.translation).visualizer.camera) = _
    rw [hc]

/-- C15: with lock-target checked, updateCameraTargetPosition(N) for a non-null pose N
that differs from the previous pose adds the difference of the translations of N and
of the previous target pose (zero translation when there was none) to the camera
position and to the focal point; the vector from position to focal point and the view-up
vector are unchanged. -/
theorem lockTarget_translates_camera (normalized : Vec3 → Vec3) (s : CloudViewer)
    (N : Transform) (hlock : s.isCameraTargetLocked = true) (hN : N.isNull = false)
    (hNO : N ≠ s.lastPose) :
    (s.updateCameraTargetPosition normalized N).getCameraPosition.pos
        = s.getCameraPosition.pos.add (N.translation.sub s.getTargetPose.translation)
    ∧ (s.updateCameraTargetPosition normalized N).getCameraPosition.focal
        = s.getCameraPosition.focal.add (N.translation.sub s.getTargetPose.translation)
    ∧ (s.updateCameraTargetPosition normalized N).getCameraPosition.focal.sub
          (s.updateCameraTargetPosition normalized N).getCameraPosition.pos
        = s.getCameraPosition.focal.sub s.getCameraPosition.pos
    ∧ (s.updateCameraTargetPosition normalized N).getCameraPosition.view
        = s.getCameraPosition.view
    ∧ (s.lastPose.isNull = true → s.getTargetPose.translation = ⟨0, 0, 0⟩)
    ∧ (s.lastPose.isNull = false → s.getTargetPose = s.lastPose) := by
  have hl : s.aLockCamera = true := hlock
  have hc := camera_updateCameraTargetPosition normalized s N hN hNO
  rw [hl, if_pos rfl] at hc
  unfold CloudViewer.getCameraPosition
  rw [hc]
  unfold CloudViewer.lockTargetCamera
  refine ⟨rfl, rfl, ?_, rfl, ?_, ?_⟩
  · simp only [Vec3.sub, Vec3.add, Vec3.mk.injEq]
    refine ⟨?_, ?_, ?_⟩ <;> ring
  · intro hnull
    unfold CloudViewer.getTargetPose
    rw [hnull, if_pos rfl]
    rfl
  · intro hnull
    unfold CloudViewer.getTargetPose
    rw [hnull, if_neg Bool.false_ne_true]
/-- Witness of C15 on a viewer in lock-target mode with the target at `(1, 0, 0)`, the
target going to `(1, 2, 3)`. -/
theorem lockTarget_translates_camera_witness :
    lockedViewer.isCameraTargetLocked = true ∧ (Transform.ofTranslation 1 2 3).isNull = false
    ∧ Transform.ofTranslation 1 2 3 ≠ lockedViewer.lastPose
    ∧ (lockedViewer.updateCameraTargetPosition (fun v => v)
          (Transform.ofTranslation 1 2 3)).getCameraPosition.pos
        = lockedViewer.getCameraPosition.pos.add
            ((Transform.ofTranslation 1 2 3).translation.sub lockedViewer.getTargetPose.translation)
    ∧ (lockedViewer.updateCameraTargetPosition (fun v => v)
          (Transform.ofTranslation 1 2 3)).getCameraPosition.focal
        = lockedViewer.getCameraPosition.focal.add
            ((Transform.ofTranslation 1 2 3).translation.sub lockedViewer.getTargetPose.translation)
    ∧ (lockedViewer.updateCameraTargetPosition (fun v => v)
          (Transform.ofTranslation 1 2 3)).getCameraPosition.focal.sub
          (lockedViewer.updateCameraTargetPosition (fun v => v)
            (Transform.ofTranslation 1 2 3)).getCameraPosition.pos
        = lockedViewer.getCameraPosition.focal.sub lockedViewer.getCameraPosition.pos
    ∧ (lockedViewer.updateCameraTargetPosition (fun v => v)
          (Transform.ofTranslation 1 2 3)).getCameraPosition.view
        = lockedViewer.getCameraPosition.view
    ∧ (lockedViewer.lastPose.isNull = true →
        lockedViewer.getTargetPose.translation = ⟨0, 0, 0⟩)
    ∧ (lockedViewer.lastPose.isNull = false → lockedViewer.getTargetPose = lockedViewer.lastPose) :=
  ⟨rfl, by decide, by decide,
   lockTarget_translates_camera (fun v => v) lockedViewer (Transform.ofTranslation 1 2 3) rfl
    (by decide) (by decide)⟩
/-! ## Frames: composition and inverse -/

theorem Transform.mul_assoc (a b c : Transform) : (a.mul b).mul c = a.mul (b.mul c) := by
  simp only [Transform.mul, Transform.mk.injEq]
  refine ⟨?_, ?_, ?_, ?_, ?_, ?_, ?_, ?_, ?_, ?_, ?_, ?_⟩ <;> ring

theorem Transform.identity_mul (a : Transform) : Transform.getIdentity.mul a = a := by
  cases a
  simp [Transform.mul, Transform.getIdentity]

theorem Transform.mul_identity (a : Transform) : a.mul Transform.getIdentity = a := by
  cases a
  simp [Transform.mul, Transform.getIdentity]

theorem Transform.inverse_mul_self (a : Transform) (h : a.det ≠ 0) :
    a.inverse.mul a = Transform.getIdentity := by
  obtain ⟨r11, r12, r13, o14, r21, r22, r23, o24, r31, r32, r33, o34⟩ := a
  simp only [Transform.det] at h
  simp only [Transform.inverse, Transform.mul, Transform.getIdentity, Transform.det,
    Transform.mk.injEq]
  refine ⟨?_, ?_, ?_, ?_, ?_, ?_, ?_, ?_, ?_, ?_, ?_, ?_⟩ <;> field_simp <;> ring

theorem Transform.mul_inverse_self (a : Transform) (h : a.det ≠ 0) :
    a.mul a.inverse = Transform.getIdentity := by
  obtain ⟨r11, r12, r13, o14, r21, r22, r23, o24, r31, r32, r33, o34⟩ := a
  simp only [Transform.det] at h
  simp only [Transform.inverse, Transform.mul, Transform.getIdentity, Transform.det,
    Transform.mk.injEq]
  refine ⟨?_, ?_, ?_, ?_, ?_, ?_, ?_, ?_, ?_, ?_, ?_, ?_⟩ <;> field_simp <;> ring

theorem Transform.det_mul (a b : Transform) : (a.mul b).det = a.det * b.det := by
  simp only [Transform.mul, Transform.det]
  ring

theorem Transform.det_inverse_ne (a : Transform) (h : a.det ≠ 0) : a.inverse.det ≠ 0 := by
  have h1 := Transform.det_mul a.inverse a
  rw [Transform.inverse_mul_self a h] at h1
  intro h0
  rw [h0, zero_mul] at h1
  have : Transform.getIdentity.det = 1 := by
    simp [Transform.det, Transform.getIdentity]
  rw [this] at h1
  exact one_ne_zero h1

/-- A right inverse of an invertible frame is its inverse. -/
theorem Transform.inverse_unique (a b : Transform) (h : a.det ≠ 0)
    (hab : a.mul b = Transform.getIdentity) : a.inverse = b := by
  calc a.inverse = a.inverse.mul Transform.getIdentity := (Transform.mul_identity _).symm
    _ = a.inverse.mul (a.mul b) := by rw [hab]
    _ = (a.inverse.mul a).mul b := (Transform.mul_assoc _ _ _).symm
    _ = b := by rw [Transform.inverse_mul_self a h, Transform.identity_mul]

/-- The inverse of `A^-1 * B` is `B^-1 * A`. -/
theorem Transform.inverse_inverse_mul (a b : Transform) (ha : a.det ≠ 0) (hb : b.det ≠ 0) :
    (a.inverse.mul b).inverse = b.inverse.mul a := by
  apply Transform.inverse_unique
  · rw [Transform.det_mul]
    exact mul_ne_zero (Transform.det_inverse_ne a ha) hb
  · rw [Transform.mul_assoc, ← Transform.mul_assoc b, Transform.mul_inverse_self b hb,
      Transform.identity_mul, Transform.inverse_mul_self a ha]

theorem Transform.translation_mul (a b : Transform) :
    (a.mul b).translation = a.apply b.translation := rfl

theorem followFp_eq (F N O : Transform) (hF : F.det ≠ 0) (hO : O.det ≠ 0) :
    followFp F N O = carriedFrame N O F := by
  unfold followFp carriedFrame
  dsimp only
  rw [Transform.inverse_inverse_mul F O hF hO]
  simp only [Transform.mul_assoc]
  rw [← Transform.mul_assoc F F.inverse, Transform.mul_inverse_self F hF, Transform.identity_mul,
    ← Transform.mul_assoc O O.inverse, Transform.mul_inverse_self O hO, Transform.identity_mul]

theorem followPp_eq (P F N O : Transform) (hP : P.det ≠ 0) (hF : F.det ≠ 0) (hO : O.det ≠ 0) :
    followPp P F N O = carriedFrame N O P := by
  have h := followFp_eq F N O hF hO
  unfold followFp carriedFrame at h
  dsimp only at h
  unfold followPp carriedFrame
  dsimp only
  generalize ((F.inverse.mul O).mul (O.inverse.mul N)).mul (F.inverse.mul O).inverse = T at h ⊢
  have e1 : P.mul (P.inverse.mul F) = F := by
    rw [← Transform.mul_assoc, Transform.mul_inverse_self P hP, Transform.identity_mul]
  rw [Transform.inverse_inverse_mul P F hP hF, e1, h, Transform.mul_assoc (N.mul O.inverse) F,
    ← Transform.mul_assoc F F.inverse P, Transform.mul_inverse_self F hF, Transform.identity_mul]

theorem followCamera_eq (normalized : Vec3 → Vec3) (cam : Camera) (pose lastPose : Transform)
    (lockViewZ : Bool) :
    CloudViewer.followCamera normalized cam pose lastPose lockViewZ =
      { pos := (followPp (followP normalized cam) (followF normalized cam) pose
                  lastPose).translation,
        focal := (followFp (followF normalized cam) pose lastPose).translation,
        view := if lockViewZ then ⟨0, 0, 1⟩
          else ⟨(followFp (followF normalized cam) pose lastPose).r31,
                (followFp (followF normalized cam) pose lastPose).r32,
                (followFp (followF normalized cam) pose lastPose).r33⟩ } := rfl
/-- C14: in follow mode (follow checked, lock-target unchecked), for a new non-null
target pose N different from the previous one, an invertible previous target pose O
(the identity when there was none) and a camera whose position frame P and focal frame
F built by the code are invertible, the frames that updateCameraTargetPosition(N)
computes are Fp = N * O^-1 * F and Pp = N * O^-1 * P, and the new focal point and the
new camera position are the old ones mapped through the motion N * O^-1 of the target. -/
theorem follow_carries_camera (normalized : Vec3 → Vec3) (s : CloudViewer) (N : Transform)
    (hfollow : s.isCameraTargetFollow = true) (hlock : s.isCameraTargetLocked = false)
    (hN : N.isNull = false) (hNO : N ≠ s.lastPose)
    (hO : s.getTargetPose.isInvertible = true)
    (hP : (followP normalized s.getCameraPosition).isInvertible = true)
    (hF : (followF normalized s.getCameraPosition).isInvertible = true) :
    followFp (followF normalized s.getCameraPosition) N s.getTargetPose
        = carriedFrame N s.getTargetPose (followF normalized s.getCameraPosition)
    ∧ followPp (followP normalized s.getCameraPosition) (followF normalized s.getCameraPosition)
          N s.getTargetPose
        = carriedFrame N s.getTargetPose (followP normalized s.getCameraPosition)
    ∧ (s.updateCameraTargetPosition normalized N).getCameraPosition.focal
        = (followFp (followF normalized s.getCameraPosition) N s.getTargetPose).translation
    ∧ (s.updateCameraTargetPosition normalized N).getCameraPosition.pos
        = (followPp (followP normalized s.getCameraPosition)
            (followF normalized s.getCameraPosition) N s.getTargetPose).translation
    ∧ (s.updateCameraTargetPosition normalized N).getCameraPosition.focal
        = (N.mul s.getTargetPose.inverse).apply s.getCameraPosition.focal
    ∧ (s.updateCameraTargetPosition normalized N).getCameraPosition.pos
        = (N.mul s.getTargetPose.inverse).apply s.getCameraPosition.pos := by
  have dO : s.getTargetPose.det ≠ 0 := of_decide_eq_true hO
  have dP : (followP normalized s.getCameraPosition).det ≠ 0 := of_decide_eq_true hP
  have dF : (followF normalized s.getCameraPosition).det ≠ 0 := of_decide_eq_true hF
  have eF := followFp_eq (followF normalized s.getCameraPosition) N s.getTargetPose dF dO
  have eP := followPp_eq (followP normalized s.getCameraPosition)
    (followF normalized s.getCameraPosition) N s.getTargetPose dP dF dO
  have hl : s.aLockCamera = false := hlock
  have hf : s.aFollowCamera = true := hfollow
  have hc := camera_updateCameraTargetPosition normalized s N hN hNO
  rw [hl, if_neg Bool.false_ne_true, hf, if_pos rfl, followCamera_eq] at hc
  have hfocal : (s.updateCameraTargetPosition normalized N).getCameraPosition.focal
      = (followFp (followF normalized s.getCameraPosition) N s.getTargetPose).translation := by
    unfold CloudViewer.getCameraPosition
    rw [hc]
  have hpos : (s.updateCameraTargetPosition normalized N).getCameraPosition.pos
      = (followPp (followP normalized s.getCameraPosition)
          (followF normalized s.getCameraPosition) N s.getTargetPose).translation := by
    unfold CloudViewer.getCameraPosition
    rw [hc]
  refine ⟨eF, eP, hfocal, hpos, ?_, ?_⟩
  · rw [hfocal, eF]
    rfl
  · rw [hpos, eP]
    rfl

/-- Witness of C14 on a fresh viewer, which is in follow mode with the camera at
`(-1, 0, 0)` looking at the origin (a vector of length one, which normalisation leaves
as it is), the target going to `(1, 2, 3)`. -/
theorem follow_carries_camera_witness :
    CloudViewer.new.isCameraTargetFollow = true ∧ CloudViewer.new.isCameraTargetLocked = false
    ∧ (Transform.ofTranslation 1 2 3).isNull = false
    ∧ Transform.ofTranslation 1 2 3 ≠ CloudViewer.new.lastPose
    ∧ CloudViewer.new.getTargetPose.isInvertible = true
    ∧ (followP (fun v => v) CloudViewer.new.getCameraPosition).isInvertible = true
    ∧ (followF (fun v => v) CloudViewer.new.getCameraPosition).isInvertible = true
    ∧ (CloudViewer.new.updateCameraTargetPosition (fun v => v)
          (Transform.ofTranslation 1 2 3)).getCameraPosition.focal
        = ((Transform.ofTranslation 1 2 3).mul CloudViewer.new.getTargetPose.inverse).apply
            CloudViewer.new.getCameraPosition.focal
    ∧ (CloudViewer.new.updateCameraTargetPosition (fun v => v)
          (Transform.ofTranslation 1 2 3)).getCameraPosition.pos
        = ((Transform.ofTranslation 1 2 3).mul CloudViewer.new.getTargetPose.inverse).apply
            CloudViewer.new.getCameraPosition.pos :=
  have hc : CloudViewer.new.getCameraPosition = ⟨⟨-1, 0, 0⟩, ⟨0, 0, 0⟩, ⟨0, 0, 1⟩⟩ := rfl
  have ht : CloudViewer.new.getTargetPose = Transform.getIdentity := rfl
  have hO : CloudViewer.new.getTargetPose.isInvertible = true := by
    rw [ht]
    simp [Transform.isInvertible, Transform.det, Transform.getIdentity]
  have hP : (followP (fun v => v) CloudViewer.new.getCameraPosition).isInvertible = true := by
    rw [hc]
    simp [Transform.isInvertible, Transform.det, followP, followRotation, Vec3.cross, Vec3.sub]
  have hF : (followF (fun v => v) CloudViewer.new.getCameraPosition).isInvertible = true := by
    rw [hc]
    simp [Transform.isInvertible, Transform.det, followF, followRotation, Vec3.cross, Vec3.sub]
  ⟨rfl, rfl, by decide, by decide, hO, hP, hF,
   (follow_carries_camera (fun v => v) CloudViewer.new (Transform.ofTranslation 1 2 3) rfl rfl
      (by decide) (by decide) hO hP hF).2.2.2.2⟩
/-! ## The target pose -/

theorem lastPose_removeCoordinate (s : CloudViewer) (id : String) :
    (s.removeCoordinate id).lastPose = s.lastPose := by
  unfold CloudViewer.removeCoordinate
  split_ifs <;> rfl

theorem lastPose_removeFrustum (s : CloudViewer) (id : String) :
    (s.removeFrustum id).lastPose = s.lastPose := by
  unfold CloudViewer.removeFrustum
  split_ifs <;> rfl

theorem lastPose_removeText (s : CloudViewer) (id : String) :
    (s.removeText id).lastPose = s.lastPose := by
  unfold CloudViewer.removeText
  split_ifs <;> rfl

theorem lastPose_removeGraph (s : CloudViewer) (id : String) :
    (s.removeGraph id).lastPose = s.lastPose := by
  unfold CloudViewer.removeGraph
  split_ifs <;> rfl

theorem lastPose_addOrUpdateCoordinate (s : CloudViewer) (id : String) (t : Transform)
    (scale : ℚ) : (s.addOrUpdateCoordinate id t scale).lastPose = s.lastPose := by
  have h := lastPose_removeCoordinate s id
  unfold CloudViewer.addOrUpdateCoordinate
  dsimp only
  split_ifs <;> first | rfl | exact h

theorem lastPose_addOrUpdateFrustum (s : CloudViewer) (id : String) (t : Transform)
    (scale : ℚ) (c : QColor) : (s.addOrUpdateFrustum id t scale c).lastPose = s.lastPose := by
  have h := lastPose_removeFrustum s id
  unfold CloudViewer.addOrUpdateFrustum
  dsimp only
  split_ifs <;> first | rfl | exact h

theorem lastPose_addOrUpdateText (s : CloudViewer) (id text : String) (t : Transform)
    (scale : ℚ) (c : QColor) : (s.addOrUpdateText id text t scale c).lastPose = s.lastPose := by
  have h := lastPose_removeCoordinate s id
  unfold CloudViewer.addOrUpdateText
  dsimp only
  split_ifs <;> first | rfl | exact h

theorem lastPose_addCloud (s : CloudViewer) (id : String) (r : Bool) (pose : Transform)
    (rgb n : Bool) (c : QColor) : (s.addCloud id r pose rgb n c).1.lastPose = s.lastPose := by
  unfold CloudViewer.addCloud
  dsimp only
  split_ifs <;> rfl

theorem lastPose_addCloudMesh (s : CloudViewer) (id : String) (r : Bool) (pose : Transform) :
    (s.addCloudMesh id r pose).1.lastPose = s.lastPose
    ∧ (s.addCloudTextureMesh id r pose).1.lastPose = s.lastPose := by
  unfold CloudViewer.addCloudMesh CloudViewer.addCloudTextureMesh
  dsimp only
  constructor <;> split_ifs <;> rfl

theorem lastPose_updateCloudPose (s : CloudViewer) (id : String) (pose : Transform) :
    (s.updateCloudPose id pose).1.lastPose = s.lastPose := by
  unfold CloudViewer.updateCloudPose
  split
  · dsimp only
    split_ifs <;> rfl
  · rfl

theorem lastPose_addOrUpdateGraph (s : CloudViewer) (id : String) (graph : List Vec3)
    (c : QColor) : (s.addOrUpdateGraph id graph c).lastPose = s.lastPose := by
  have h := lastPose_removeGraph s id
  unfold CloudViewer.addOrUpdateGraph
  dsimp only
  split_ifs
  · rfl
  · show (CloudViewer.addCloudXYZ _ _ _ _).1.lastPose = _
    unfold CloudViewer.addCloudXYZ
    rw [lastPose_addCloud]
    exact h
  · exact h

theorem lastPose_foldl (f : CloudViewer → String → CloudViewer)
    (hf : ∀ s id, (f s id).lastPose = s.lastPose) (l : List String) (s : CloudViewer) :
    (l.foldl f s).lastPose = s.lastPose := by
  induction l generalizing s with
  | nil => rfl
  | cons id l ih => exact (ih _).trans (hf s id)

theorem lastPose_removeAll (s s1 : CloudViewer) :
    (s.removeAllCoordinates = some s1 → s1.lastPose = s.lastPose)
    ∧ (s.removeAllFrustums = some s1 → s1.lastPose = s.lastPose)
    ∧ (s.removeAllGraphs = some s1 → s1.lastPose = s.lastPose)
    ∧ (s.removeAllTexts = some s1 → s1.lastPose = s.lastPose) := by
  refine ⟨fun hs => ?_, fun hs => ?_, fun hs => ?_, fun hs => ?_⟩
  · obtain ⟨_, rfl⟩ := uassert_bind_eq_some _ _ _ hs
    exact lastPose_foldl _ lastPose_removeCoordinate _ _
  · obtain ⟨_, rfl⟩ := uassert_bind_eq_some _ _ _ hs
    exact lastPose_foldl _ lastPose_removeFrustum _ _
  · obtain ⟨_, rfl⟩ := uassert_bind_eq_some _ _ _ hs
    exact lastPose_foldl _ lastPose_removeGraph _ _
  · obtain ⟨_, rfl⟩ := uassert_bind_eq_some _ _ _ hs
    exact lastPose_foldl _ lastPose_removeText _ _

theorem lastPose_clear (s s1 : CloudViewer) (hs : s.clear = some s1) :
    s1.lastPose = s.lastPose := by
  unfold CloudViewer.clear at hs
  simp only [Option.bind_eq_bind, Option.bind_eq_some, Option.pure_def] at hs
  obtain ⟨s2, h2, s3, h3, s4, h4, s5, h5, hs⟩ := hs
  have e2 : s2.lastPose = s.lastPose := (lastPose_removeAll s.removeAllClouds s2).2.2.1 h2
  have e3 := (lastPose_removeAll _ _).1 h3
  have e4 := (lastPose_removeAll _ _).2.1 h4
  have e5 := (lastPose_removeAll _ _).2.2.2 h5
  have e7 : (s5.clearTrajectory.addOrUpdateCoordinate "reference" Transform.getIdentity
      0.2).lastPose = s.lastPose :=
    (lastPose_addOrUpdateCoordinate _ _ _ _).trans (e5.trans (e4.trans (e3.trans e2)))
  split_ifs at hs
  · rw [← Option.some.inj hs]
    exact (lastPose_addOrUpdateFrustum _ _ _ _ _).trans e7
  · rw [← Option.some.inj hs]
    exact e7

theorem lastPose_addGrid (s s1 : CloudViewer) (hs : s.addGrid = some s1) :
    s1.lastPose = s.lastPose := by
  unfold CloudViewer.addGrid at hs
  dsimp only at hs
  split_ifs at hs
  · obtain ⟨r, _, hr⟩ := Option.map_eq_some'.1 hs
    rw [← hr]
  · rw [← Option.some.inj hs]

theorem lastPose_gridSetters (s s1 : CloudViewer) (b : Bool) (n : Nat) (q : ℚ) :
    (s.setGridShown b = some s1 → s1.lastPose = s.lastPose)
    ∧ (s.setGridCellCount n = some s1 → s1.lastPose = s.lastPose)
    ∧ (s.setGridCellSize q = some s1 → s1.lastPose = s.lastPose) := by
  refine ⟨fun hs => ?_, fun hs => ?_, fun hs => ?_⟩
  · unfold CloudViewer.setGridShown at hs
    dsimp only at hs
    split_ifs at hs
    · exact (lastPose_addGrid _ _ hs).trans rfl
    · rw [← Option.some.inj hs]
      rfl
  · unfold CloudViewer.setGridCellCount at hs
    dsimp only at hs
    split_ifs at hs
    · exact (lastPose_addGrid _ _ hs).trans rfl
    · rw [← Option.some.inj hs]
    · rw [← Option.some.inj hs]
      rfl
  · unfold CloudViewer.setGridCellSize at hs
    dsimp only at hs
    split_ifs at hs
    · exact (lastPose_addGrid _ _ hs).trans rfl
    · rw [← Option.some.inj hs]
    · rw [← Option.some.inj hs]
      rfl

theorem lastPose_setFrustumShown (s : CloudViewer) (b : Bool) :
    (s.setFrustumShown b).lastPose = s.lastPose := by
  have h := lastPose_removeFrustum s "reference_frustum"
  unfold CloudViewer.setFrustumShown
  dsimp only
  split_ifs <;> first | rfl | exact h

theorem lastPose_setFrustumColor (s : CloudViewer) (c : QColor) :
    (s.setFrustumColor c).lastPose = s.lastPose := by
  unfold CloudViewer.setFrustumColor
  dsimp only
  split_ifs <;> rfl

theorem lastPose_setDefaultBackgroundColor (s : CloudViewer) (c : QColor) :
    (s.setDefaultBackgroundColor c).lastPose = s.lastPose := by
  unfold CloudViewer.setDefaultBackgroundColor
  dsimp only
  split_ifs <;> rfl

theorem lastPose_cameraModes (s : CloudViewer) (b : Bool) :
    (s.setCameraTargetLocked b).lastPose = s.lastPose
    ∧ (s.setCameraTargetFollow b).lastPose = s.lastPose
    ∧ s.setCameraFree.lastPose = s.lastPose
    ∧ (s.checkFreeCamera b).lastPose = s.lastPose := by
  unfold CloudViewer.setCameraFree CloudViewer.setCameraTargetLocked
    CloudViewer.setCameraTargetFollow CloudViewer.checkLockCamera CloudViewer.checkFollowCamera
    CloudViewer.checkFreeCamera
  cases b <;> exact ⟨rfl, rfl, rfl, rfl⟩

theorem lastPose_resetCamera (s : CloudViewer) : s.resetCamera.lastPose = s.lastPose := by
  unfold CloudViewer.resetCamera
  dsimp only
  split_ifs <;> rfl

theorem lastPose_loadSettings (s s1 : CloudViewer) (settings : QSettings) (group : String)
    (hs : s.loadSettings settings group = some s1) : s1.lastPose = s.lastPose := by
  unfold CloudViewer.loadSettings at hs
  simp only [Option.bind_eq_bind, Option.bind_eq_some, Option.pure_def] at hs
  obtain ⟨s2, h2, s3, h3, s4, h4, hs⟩ := hs
  have e2 := (lastPose_gridSetters _ _ _ 0 0).1 h2
  have e3 := (lastPose_gridSetters _ _ true _ 0).2.1 h3
  have e4 := (lastPose_gridSetters _ _ true 0 _).2.2 h4
  have e : s4.lastPose = s.lastPose := e4.trans (e3.trans e2)
  rw [← Option.some.inj hs, lastPose_setDefaultBackgroundColor]
  show (CloudViewer.setCameraLockZ _ _).lastPose = _
  show (ite _ _ _ : CloudViewer).lastPose = _
  split_ifs
  · rw [(lastPose_cameraModes _ true).2.2.1, (lastPose_cameraModes _ _).2.1,
      (lastPose_cameraModes _ _).1, lastPose_setFrustumColor]
    show (CloudViewer.setFrustumShown _ _).lastPose = _
    rw [lastPose_setFrustumShown]
    exact e
  · rw [(lastPose_cameraModes _ _).2.1, (lastPose_cameraModes _ _).1, lastPose_setFrustumColor]
    show (CloudViewer.setFrustumShown _ _).lastPose = _
    rw [lastPose_setFrustumShown]
    exact e

theorem lastPose_handleAction (s s1 : CloudViewer) (a : Action) (d : Dialog)
    (hs : s.handleAction a d = some s1) : s1.lastPose = s.lastPose := by
  cases a <;> simp only [CloudViewer.handleAction] at hs
  case aSetTrajectorySize =>
    rw [← Option.some.inj hs]
    split_ifs <;> rfl
  case aClearTrajectory => rw [← Option.some.inj hs]; rfl
  case aShowFrustum => rw [← Option.some.inj hs]; exact lastPose_setFrustumShown _ _
  case aSetFrustumScale =>
    rw [← Option.some.inj hs]
    split_ifs <;> rfl
  case aSetFrustumColor =>
    rw [← Option.some.inj hs]
    split_ifs
    · exact lastPose_setFrustumColor _ _
    · rfl
  case aResetCamera => rw [← Option.some.inj hs]; exact lastPose_resetCamera _
  case aShowGrid =>
    split_ifs at hs
    · exact lastPose_addGrid _ _ hs
    · rw [← Option.some.inj hs]; rfl
  case aSetGridCellCount =>
    split_ifs at hs
    · exact (lastPose_gridSetters _ _ true _ 0).2.1 hs
    · rw [← Option.some.inj hs]
  case aSetGridCellSize =>
    split_ifs at hs
    · exact (lastPose_gridSetters _ _ true 0 _).2.2 hs
    · rw [← Option.some.inj hs]
  case aSetBackgroundColor =>
    rw [← Option.some.inj hs]
    split_ifs
    · exact lastPose_setDefaultBackgroundColor _ _
    · rfl
  all_goals (rw [← Option.some.inj hs])
theorem lastPose_misc (s : CloudViewer) (id : String) (pose : Transform) (b : Bool) :
    (s.updateFrustumPose id pose).1.lastPose = s.lastPose
    ∧ (s.updateCoordinatePose id pose).1.lastPose = s.lastPose
    ∧ (s.setCloudVisibility id b).lastPose = s.lastPose
    ∧ s.removeOccupancyGridMap.lastPose = s.lastPose := by
  unfold CloudViewer.updateFrustumPose CloudViewer.updateCoordinatePose
    CloudViewer.setCloudVisibility CloudViewer.removeOccupancyGridMap
  dsimp only
  refine ⟨?_, ?_, ?_, ?_⟩ <;> split_ifs <;> rfl

theorem lastPose_addOccupancyGridMap (s : CloudViewer) (r : CloudViewer × Bool) (m : Mat)
    (t : Bool) (res x y o : ℚ) (hs : s.addOccupancyGridMap m t res x y o = some r) :
    r.1.lastPose = s.lastPose := by
  unfold CloudViewer.addOccupancyGridMap at hs
  simp only [Option.bind_eq_bind, Option.bind_eq_some, Option.pure_def] at hs
  obtain ⟨_, _, hs⟩ := hs
  split_ifs at hs <;> rw [← Option.some.inj hs] <;> rfl

theorem lastPose_contextMenuEvent (s s1 : CloudViewer) (a : Option Action) (d : Dialog)
    (hs : s.contextMenuEvent a d = some s1) : s1.lastPose = s.lastPose := by
  cases a with
  | none =>
    simp only [CloudViewer.contextMenuEvent] at hs
    rw [← Option.some.inj hs]
  | some a =>
    simp only [CloudViewer.contextMenuEvent] at hs
    rw [lastPose_handleAction _ _ _ _ hs]
    cases a <;> rfl

/-- An operation other than `updateCameraTargetPosition` leaves `_lastPose` as it is. -/
theorem lastPose_step (normalized : Vec3 → Vec3) (s s1 : CloudViewer) (op : Op)
    (hop : ∀ q, op ≠ Op.updateCameraTargetPosition q)
    (hs : step normalized s op = some s1) : s1.lastPose = s.lastPose := by
  cases op <;> simp only [step] at hs
  case updateCameraTargetPosition q => exact absurd rfl (hop q)
  case clear => exact lastPose_clear _ _ hs
  case loadSettings => exact lastPose_loadSettings _ _ _ _ hs
  case addOccupancyGridMap =>
    obtain ⟨r, hr, rfl⟩ := Option.map_eq_some'.1 hs
    exact lastPose_addOccupancyGridMap _ _ _ _ _ _ _ _ hr
  case removeAllCoordinates => exact (lastPose_removeAll _ _).1 hs
  case removeAllFrustums => exact (lastPose_removeAll _ _).2.1 hs
  case removeAllGraphs => exact (lastPose_removeAll _ _).2.2.1 hs
  case removeAllTexts => exact (lastPose_removeAll _ _).2.2.2 hs
  case setGridShown => exact (lastPose_gridSetters _ _ _ 0 0).1 hs
  case setGridCellCount => exact (lastPose_gridSetters _ _ true _ 0).2.1 hs
  case setGridCellSize => exact (lastPose_gridSetters _ _ true 0 _).2.2 hs
  case handleAction => exact lastPose_handleAction _ _ _ _ hs
  case contextMenuEvent => exact lastPose_contextMenuEvent _ _ _ _ hs
  case updateCloudPose => rw [← Option.some.inj hs]; exact lastPose_updateCloudPose _ _ _
  case addCloud => rw [← Option.some.inj hs]; exact lastPose_addCloud _ _ _ _ _ _ _
  case addCloudMesh => rw [← Option.some.inj hs]; exact (lastPose_addCloudMesh _ _ _ _).1
  case addCloudTextureMesh => rw [← Option.some.inj hs]; exact (lastPose_addCloudMesh _ _ _ _).2
  case removeOccupancyGridMap =>
    rw [← Option.some.inj hs]; exact (lastPose_misc _ "" Transform.null true).2.2.2
  case addOrUpdateCoordinate =>
    rw [← Option.some.inj hs]; exact lastPose_addOrUpdateCoordinate _ _ _ _
  case updateCoordinatePose => rw [← Option.some.inj hs]; exact (lastPose_misc _ _ _ true).2.1
  case removeCoordinate => rw [← Option.some.inj hs]; exact lastPose_removeCoordinate _ _
  case addOrUpdateFrustum => rw [← Option.some.inj hs]; exact lastPose_addOrUpdateFrustum _ _ _ _ _
  case updateFrustumPose => rw [← Option.some.inj hs]; exact (lastPose_misc _ _ _ true).1
  case removeFrustum => rw [← Option.some.inj hs]; exact lastPose_removeFrustum _ _
  case addOrUpdateGraph => rw [← Option.some.inj hs]; exact lastPose_addOrUpdateGraph _ _ _ _
  case removeGraph => rw [← Option.some.inj hs]; exact lastPose_removeGraph _ _
  case addOrUpdateText => rw [← Option.some.inj hs]; exact lastPose_addOrUpdateText _ _ _ _ _ _
  case removeText => rw [← Option.some.inj hs]; exact lastPose_removeText _ _
  case setFrustumShown => rw [← Option.some.inj hs]; exact lastPose_setFrustumShown _ _
  case setFrustumColor => rw [← Option.some.inj hs]; exact lastPose_setFrustumColor _ _
  case resetCamera => rw [← Option.some.inj hs]; exact lastPose_resetCamera _
  case setDefaultBackgroundColor =>
    rw [← Option.some.inj hs]; exact lastPose_setDefaultBackgroundColor _ _
  case setCloudVisibility =>
    rw [← Option.some.inj hs]; exact (lastPose_misc _ _ Transform.null _).2.2.1
  case setCameraTargetLocked => rw [← Option.some.inj hs]; exact (lastPose_cameraModes _ _).1
  case setCameraTargetFollow => rw [← Option.some.inj hs]; exact (lastPose_cameraModes _ _).2.1
  case setCameraFree => rw [← Option.some.inj hs]; exact (lastPose_cameraModes _ true).2.2.1
  all_goals (rw [← Option.some.inj hs]; rfl)

/-- C16: after updateCameraTargetPosition(p), getTargetPose() returns p when p is not
null and the identity transform when p is null; in every state reached from a freshly
constructed viewer without a call of updateCameraTargetPosition, getTargetPose()
returns the identity. -/
theorem targetPose_is_last_pose (normalized : Vec3 → Vec3) (s s0 : CloudViewer)
    (p : Transform) :
    (s.updateCameraTargetPosition normalized p).getTargetPose
        = (if p.isNull then Transform.getIdentity else p)
    ∧ (Reachable normalized (fun op => ∀ q, op ≠ Op.updateCameraTargetPosition q) s0 →
        s0.getTargetPose = Transform.getIdentity) := by
  constructor
  · rfl
  · intro hr
    have hnull : s0.lastPose = Transform.null := by
      induction hr with
      | new => rfl
      | step a a1 op _ hop hs ih => exact (lastPose_step normalized a a1 op hop hs).trans ih
    unfold CloudViewer.getTargetPose
    rw [hnull]
    rfl

/-- Witness of C16: the target pose after a move to `(1, 2, 3)` and after a null pose,
and on a viewer that displays a cloud but whose target never moved. -/
theorem targetPose_is_last_pose_witness :
    (scanViewer.updateCameraTargetPosition (fun v => v)
        (Transform.ofTranslation 1 2 3)).getTargetPose = Transform.ofTranslation 1 2 3
    ∧ (scanViewer.updateCameraTargetPosition (fun v => v) Transform.null).getTargetPose
        = Transform.getIdentity
    ∧ Reachable (fun v => v) (fun op => ∀ q, op ≠ Op.updateCameraTargetPosition q)
        staleCloudViewer
    ∧ staleCloudViewer.getTargetPose = Transform.getIdentity :=
  ⟨(targetPose_is_last_pose (fun v => v) scanViewer CloudViewer.new
      (Transform.ofTranslation 1 2 3)).1,
   (targetPose_is_last_pose (fun v => v) scanViewer CloudViewer.new Transform.null).1,
   Reachable.step _ _ Op.clearTrajectory
     (Reachable.step _ _
       (Op.addCloud "trajectory" true Transform.getIdentity false false QColor.invalid)
       Reachable.new (fun q h => Op.noConfusion h) rfl) (fun q h => Op.noConfusion h) rfl,
   (targetPose_is_last_pose (fun v => v) CloudViewer.new staleCloudViewer Transform.null).2
    (Reachable.step _ _ Op.clearTrajectory
     (Reachable.step _ _
       (Op.addCloud "trajectory" true Transform.getIdentity false false QColor.invalid)
       Reachable.new (fun q h => Op.noConfusion h) rfl) (fun q h => Op.noConfusion h) rfl)⟩
/-! ## A graph and its node cloud -/

theorem addedClouds_removeGraph (s : CloudViewer) (id : String) (hid : id ≠ "") :
    (s.removeGraph id).addedClouds
      = if id ∈ s.graphes then mapRemove (id ++ "_nodes") s.addedClouds else s.addedClouds := by
  unfold CloudViewer.removeGraph
  rw [if_neg hid]
  split_ifs <;> rfl

/-- C17: for a non-empty id of a displayed graph, after removeGraph(id) the id is not in
the graph set and id+"_nodes" is not in the displayed-cloud map; for a non-empty id,
after addOrUpdateGraph(id, g, colour) with an empty point list the id is not in the
graph set, and id+"_nodes" is a displayed cloud exactly when the id was not a
displayed graph and id+"_nodes" was a displayed cloud before the call. -/
theorem graph_removed_with_nodes (s : CloudViewer) (id : String) (color : QColor)
    (hid : id ≠ "") :
    (id ∈ s.graphes →
      id ∉ (s.removeGraph id).graphes
      ∧ (id ++ "_nodes") ∉ mapKeys (s.removeGraph id).addedClouds)
    ∧ id ∉ (s.addOrUpdateGraph id [] color).graphes
    ∧ ((id ++ "_nodes") ∈ mapKeys (s.addOrUpdateGraph id [] color).addedClouds
        ↔ id ∉ s.graphes ∧ (id ++ "_nodes") ∈ mapKeys s.addedClouds) := by
  have hg : id ∉ (s.removeGraph id).graphes :=
    fun hm => ((graphes_removeGraph s id id hid).1 hm).2 rfl
  have he : s.addOrUpdateGraph id [] color = s.removeGraph id := by
    unfold CloudViewer.addOrUpdateGraph
    rw [if_neg hid]
    rfl
  refine ⟨fun hm => ⟨hg, ?_⟩, ?_, ?_⟩
  · rw [addedClouds_removeGraph s id hid, if_pos hm, mem_mapKeys_mapRemove]
    exact fun h => h.2 rfl
  · rw [he]
    exact hg
  · rw [he, addedClouds_removeGraph s id hid]
    by_cases hm : id ∈ s.graphes
    · rw [if_pos hm, mem_mapKeys_mapRemove]
      exact ⟨fun h => absurd rfl h.2, fun h => absurd hm h.1⟩
    · rw [if_neg hm]
      exact ⟨fun h => ⟨hm, h⟩, fun h => h.2⟩

/-- Witness of C17 on a viewer that displays the graph "g". -/
theorem graph_removed_with_nodes_witness :
    "g" ≠ "" ∧ "g" ∈ graphViewer.graphes ∧ ("g" ++ "_nodes") ∈ mapKeys graphViewer.addedClouds
    ∧ "g" ∉ (graphViewer.removeGraph "g").graphes
    ∧ ("g" ++ "_nodes") ∉ mapKeys (graphViewer.removeGraph "g").addedClouds
    ∧ "g" ∉ (graphViewer.addOrUpdateGraph "g" [] QColor.gray).graphes
    ∧ (("g" ++ "_nodes") ∈ mapKeys (graphViewer.addOrUpdateGraph "g" [] QColor.gray).addedClouds
        ↔ "g" ∉ graphViewer.graphes ∧ ("g" ++ "_nodes") ∈ mapKeys graphViewer.addedClouds) :=
  ⟨by decide, by decide, by decide,
   ((graph_removed_with_nodes graphViewer "g" QColor.gray (by decide)).1 (by decide)).1,
   ((graph_removed_with_nodes graphViewer "g" QColor.gray (by decide)).1 (by decide)).2,
   (graph_removed_with_nodes graphViewer "g" QColor.gray (by decide)).2⟩

/-- Counterexample to C17 as stated: on a viewer that displays a cloud named "g_nodes"
and no graph, addOrUpdateGraph("g", empty, colour) leaves "g_nodes" a displayed cloud. -/
theorem graph_nodes_counterexample :
    Reachable (fun v => v) (fun _ => True) nodesCloudViewer
    ∧ "g" ≠ ""
    ∧ ("g" ++ "_nodes") ∈
        mapKeys (nodesCloudViewer.addOrUpdateGraph "g" [] QColor.gray).addedClouds :=
  ⟨Reachable.step _ _
      (Op.addCloud "g_nodes" true Transform.getIdentity false false QColor.invalid)
      Reachable.new trivial rfl,
   by decide, by decide⟩

/-! ## The trajectory as a window -/

theorem trimTrajectory_eq_drop (m : Nat) (tr : List Vec3) :
    CloudViewer.trimTrajectory m tr = tr.drop (tr.length - m) := by
  induction tr with
  | nil => simp [CloudViewer.trimTrajectory]
  | cons p tr ih =>
    unfold CloudViewer.trimTrajectory
    split_ifs with h
    · rw [ih]
      have hl : (p :: tr).length - m = (tr.length - m) + 1 := by
        simp only [List.length_cons] at h ⊢
        omega
      rw [hl, List.drop_succ_cons]
    · have hl : (p :: tr).length - m = 0 := by omega
      rw [hl, List.drop_zero]

/-- C18: after updateCameraTargetPosition with a non-null pose of translation p, the
trajectory is the last min(m, |tr|+1) points of tr ++ [p] when the maximum size m is
greater than 0, and tr ++ [p] when m is 0. -/
theorem trajectory_fifo_window (normalized : Vec3 → Vec3) (s : CloudViewer) (pose : Transform)
    (hn : pose.isNull = false) :
    (0 < s.maxTrajectorySize →
      (s.updateCameraTargetPosition normalized pose).trajectory
        = lastPoints (min s.maxTrajectorySize (s.trajectory.length + 1))
            (s.trajectory ++ [pose.translation]))
    ∧ (s.maxTrajectorySize = 0 →
      (s.updateCameraTargetPosition normalized pose).trajectory
        = s.trajectory ++ [pose.translation]) := by
  rw [trajectory_updateCameraTargetPosition]
  simp only [hn, Bool.false_eq_true, if_false]
  constructor
  · intro hm
    rw [if_pos hm, trimTrajectory_eq_drop]
    unfold lastPoints
    congr 1
    simp only [List.length_append, List.length_singleton]
    omega
  · intro hm
    rw [if_neg (by omega)]

/-- Witness of C18: a fresh viewer (maximum size 100) and one of maximum size 0, given
the pose at `(1, 2, 3)`. -/
theorem trajectory_fifo_window_witness :
    (Transform.ofTranslation 1 2 3).isNull = false
    ∧ (0 < CloudViewer.new.maxTrajectorySize
      ∧ (CloudViewer.new.updateCameraTargetPosition (fun v => v)
          (Transform.ofTranslation 1 2 3)).trajectory
        = lastPoints (min CloudViewer.new.maxTrajectorySize (CloudViewer.new.trajectory.length + 1))
            (CloudViewer.new.trajectory ++ [(Transform.ofTranslation 1 2 3).translation]))
    ∧ ((CloudViewer.new.setTrajectorySize 0).maxTrajectorySize = 0
      ∧ ((CloudViewer.new.setTrajectorySize 0).updateCameraTargetPosition (fun v => v)
          (Transform.ofTranslation 1 2 3)).trajectory
        = (CloudViewer.new.setTrajectorySize 0).trajectory
            ++ [(Transform.ofTranslation 1 2 3).translation]) :=
  ⟨by decide,
   ⟨by decide,
    (trajectory_fifo_window (fun v => v) CloudViewer.new (Transform.ofTranslation 1 2 3)
      (by decide)).1 (by decide)⟩,
   ⟨rfl,
    (trajectory_fifo_window (fun v => v) (CloudViewer.new.setTrajectorySize 0)
      (Transform.ofTranslation 1 2 3) (by decide)).2 rfl⟩⟩

/-! ## The grid parameters -/

/-- C19: in every state reachable from a freshly constructed viewer through
setGridCellCount, setGridCellSize, setGridShown, loadSettings and handleAction, the grid
cell count is at least 1 and the grid cell size is greater than 0; on any viewer,
setGridCellCount(0) and setGridCellSize(size) with size <= 0 return after logging one
error and change nothing else, so cell count, cell size and grid lines are unchanged. -/
theorem grid_parameters_valid (normalized : Vec3 → Vec3) (s t : CloudViewer) (size : ℚ)
    (hr : Reachable normalized (fun op => op.isGridOp = true) s) (hsize : size ≤ 0) :
    1 ≤ s.getGridCellCount ∧ 0 < s.getGridCellSize
    ∧ (∃ t1, t.setGridCellCount 0 = some t1
        ∧ t1 = t.UERROR "Cannot set grid cell count < 1, count=0"
        ∧ t1.gridCellCount = t.gridCellCount ∧ t1.gridCellSize = t.gridCellSize
        ∧ t1.gridLines = t.gridLines)
    ∧ (∃ t1, t.setGridCellSize size = some t1
        ∧ t1 = t.UERROR "Cannot set grid cell size <= 0"
        ∧ t1.gridCellCount = t.gridCellCount ∧ t1.gridCellSize = t.gridCellSize
        ∧ t1.gridLines = t.gridLines) := by
  have h := (reachable_inv normalized _ s hr).2
  refine ⟨h.1, h.2.1, ⟨_, rfl, rfl, rfl, rfl, rfl⟩, ⟨t.UERROR "Cannot set grid cell size <= 0",
    ?_, rfl, rfl, rfl, rfl⟩⟩
  unfold CloudViewer.setGridCellSize
  rw [if_neg (not_lt.2 hsize)]
/-- Witness of C19 on the viewer reached by a refused setGridCellCount(0), with the
size -1 handed to setGridCellSize. -/
theorem grid_parameters_valid_witness :
    Reachable (fun v => v) (fun op => op.isGridOp = true) refusedCountViewer
    ∧ (-1 : ℚ) ≤ 0
    ∧ 1 ≤ refusedCountViewer.getGridCellCount ∧ 0 < refusedCountViewer.getGridCellSize
    ∧ (∃ t1, refusedCountViewer.setGridCellCount 0 = some t1
        ∧ t1 = refusedCountViewer.UERROR "Cannot set grid cell count < 1, count=0"
        ∧ t1.gridCellCount = refusedCountViewer.gridCellCount
        ∧ t1.gridCellSize = refusedCountViewer.gridCellSize
        ∧ t1.gridLines = refusedCountViewer.gridLines)
    ∧ (∃ t1, refusedCountViewer.setGridCellSize (-1) = some t1
        ∧ t1 = refusedCountViewer.UERROR "Cannot set grid cell size <= 0"
        ∧ t1.gridCellCount = refusedCountViewer.gridCellCount
        ∧ t1.gridCellSize = refusedCountViewer.gridCellSize
        ∧ t1.gridLines = refusedCountViewer.gridLines) :=
  ⟨Reachable.step _ _ (Op.setGridCellCount 0) Reachable.new rfl rfl,
   by decide,
   grid_parameters_valid (fun v => v) refusedCountViewer refusedCountViewer (-1)
    (Reachable.step _ _ (Op.setGridCellCount 0) Reachable.new rfl rfl) (by decide)⟩
/-! ## The lines of the grid -/

theorem digitChar_val (k : Nat) (h : k < 10) : (Nat.digitChar k).toNat - 48 = k := by
  interval_cases k <;> rfl

theorem foldl_toDigitsCore (fuel : Nat) : ∀ (n : Nat) (ds : List Char), n < fuel →
    (Nat.toDigitsCore 10 fuel n ds).foldl (fun acc c => acc * 10 + (c.toNat - 48)) 0
      = ds.foldl (fun acc c => acc * 10 + (c.toNat - 48)) n := by
  induction fuel with
  | zero => intro n ds h; omega
  | succ fuel ih =>
    intro n ds h
    unfold Nat.toDigitsCore
    dsimp only
    split_ifs with h0
    · rw [List.foldl_cons, digitChar_val _ (Nat.mod_lt _ (by norm_num))]
      congr 1
      have := Nat.div_add_mod n 10
      omega
    · rw [ih (n / 10) _ (by omega), List.foldl_cons,
        digitChar_val _ (Nat.mod_lt _ (by norm_num))]
      congr 1
      have := Nat.div_add_mod n 10
      omega

/-- The decimal string of a natural number determines the number. -/
theorem toString_nat_injective (a b : Nat) (h : toString a = toString b) : a = b := by
  have h1 : Nat.toDigits 10 a = Nat.toDigits 10 b := by
    have : (Nat.toDigits 10 a).asString = (Nat.toDigits 10 b).asString := h
    exact congrArg String.data this
  have ha := foldl_toDigitsCore (a + 1) a [] (Nat.lt_succ_self a)
  have hb := foldl_toDigitsCore (b + 1) b [] (Nat.lt_succ_self b)
  unfold Nat.toDigits at h1
  rw [h1, hb] at ha
  simpa using ha.symm

theorem lineName_injective (a b : Nat) (h : "line" ++ toString a = "line" ++ toString b) :
    a = b := by
  apply toString_nat_injective
  have h1 := congrArg String.data h
  simp only [String.data_append] at h1
  exact String.ext (List.append_cancel_left h1)

/-- The loop of `addGrid` where every multiple of the cell size up to `half + 1` is a
`float`, so that no sum is rounded: entered at round `k` with `r` rounds to go, it draws
the lines of these rounds and leaves. -/
theorem addGridLoop_rounds (c : Int) (half : Nat) (hc : 0 < c)
    (hrep : ∀ j : Int, j.natAbs ≤ half + 1 → F32.Rep (j * c)) :
    ∀ (r k fuel : Nat) (v : Visualizer) (gl : List String),
      k + r = 2 * half + 1 → r + 1 ≤ fuel →
      CloudViewer.addGridLoop (.fin c) (.fin (-((half : Int) * c))) (.fin ((half : Int) * c))
          fuel (.fin ((k : Int) * c - (half : Int) * c)) (2 * k) (v, gl)
        = some (drawSegments v ((List.range' k r).flatMap
                  (gridRound ((c : ℚ) / 2 ^ 149) (-(half : ℚ) * ((c : ℚ) / 2 ^ 149))
                    ((half : ℚ) * ((c : ℚ) / 2 ^ 149)))),
                gl ++ ((List.range' k r).flatMap
                  (gridRound ((c : ℚ) / 2 ^ 149) (-(half : ℚ) * ((c : ℚ) / 2 ^ 149))
                    ((half : ℚ) * ((c : ℚ) / 2 ^ 149)))).map Prod.fst) := by
  intro r
  induction r with
  | zero =>
    intro k fuel v gl hk hf
    obtain ⟨fuel, rfl⟩ : ∃ f, fuel = f + 1 := ⟨fuel - 1, by omega⟩
    have hgt : ¬ ((k : Int) * c - (half : Int) * c ≤ (half : Int) * c) := by
      have hk1 : (2 * (half : Int) + 1) * c ≤ (k : Int) * c :=
        mul_le_mul_of_nonneg_right (by omega) hc.le
      have e : (2 * (half : Int) + 1) * c = 2 * ((half : Int) * c) + c := by ring
      omega
    have hgt2 : (F32.fin ((k : Int) * c - (half : Int) * c)).le (.fin ((half : Int) * c))
        = false := decide_eq_false hgt
    rw [addGridLoop_exit _ _ _ _ _ _ _ hgt2]
    simp [drawSegments]
  | succ r ih =>
    intro k fuel v gl hk hf
    obtain ⟨fuel, rfl⟩ : ∃ f, fuel = f + 1 := ⟨fuel - 1, by omega⟩
    have hle : ((k : Int) * c - (half : Int) * c ≤ (half : Int) * c) := by
      have hk1 : (k : Int) * c ≤ (2 * (half : Int)) * c :=
        mul_le_mul_of_nonneg_right (by omega) hc.le
      have e : (2 * (half : Int)) * c = 2 * ((half : Int) * c) := by ring
      omega
    have hadd : (F32.fin ((k : Int) * c - (half : Int) * c)).add (.fin c)
        = .fin (((k + 1 : Nat) : Int) * c - (half : Int) * c) := by
      show F32.round ((k : Int) * c - (half : Int) * c + c) 0 = _
      have e : (k : Int) * c - (half : Int) * c + c = ((k : Int) + 1 - (half : Int)) * c := by ring
      have e2 : ((k + 1 : Nat) : Int) * c - (half : Int) * c = ((k : Int) + 1 - (half : Int)) * c := by
        push_cast
        ring
      rw [e, e2]
      exact F32.round_of_rep (hrep _ (by omega))
    have ei : (F32.fin ((k : Int) * c - (half : Int) * c)).toRat
        = -(half : ℚ) * ((c : ℚ) / 2 ^ 149) + (k : ℚ) * ((c : ℚ) / 2 ^ 149) := by
      simp only [F32.toRat]
      push_cast
      ring
    have emin : (F32.fin (-((half : Int) * c))).toRat = -(half : ℚ) * ((c : ℚ) / 2 ^ 149) := by
      simp only [F32.toRat]
      push_cast
      ring
    have emax : (F32.fin ((half : Int) * c)).toRat = (half : ℚ) * ((c : ℚ) / 2 ^ 149) := by
      simp only [F32.toRat]
      push_cast
      ring
    have hle2 : (F32.fin ((k : Int) * c - (half : Int) * c)).le (.fin ((half : Int) * c))
        = true := decide_eq_true hle
    unfold CloudViewer.addGridLoop
    rw [if_pos hle2]
    dsimp only
    rw [hadd, ei, emin, emax, show 2 * k + 2 = 2 * (k + 1) from rfl,
      ih (k + 1) fuel _ _ (by omega) (by omega)]
    rw [List.range'_succ, List.flatMap_cons]
    simp only [gridRound, drawSegments, List.cons_append, List.nil_append, List.foldl_cons,
      List.map_cons, List.append_assoc, List.singleton_append]
    rfl

/-- What `addGrid` does on a viewer without grid lines, for a cell size `k * 2^(e-149)`
of which every multiple up to `count/2 + 1` is a `float`: it draws the lines of
`gridSegments` for half the cell count (integer division) and records their names. -/
theorem addGrid_segments (t : CloudViewer) (k e : Nat) (hg : t.gridLines = []) (hk : 0 < k)
    (hs : t.gridCellSize = (k : ℚ) * 2 ^ e / 2 ^ 149)
    (hx : (t.gridCellCount / 2 + 1) * k ≤ 2 ^ 24)
    (hr : (t.gridCellCount / 2 + 1) * k * 2 ^ e < 2 ^ 277) :
    t.addGrid = some { t with
      visualizer := drawSegments t.visualizer (gridSegments (t.gridCellCount / 2) t.gridCellSize),
      gridLines := (gridSegments (t.gridCellCount / 2) t.gridCellSize).map Prod.fst } := by
  have hp : 0 < 2 ^ e := by positivity
  have hrep : ∀ j : Int, j.natAbs ≤ t.gridCellCount / 2 + 1 →
      F32.Rep (j * ((k * 2 ^ e : Nat) : Int)) := by
    intro j hj
    have e1 : (j * ((k * 2 ^ e : Nat) : Int)).natAbs = (j.natAbs * k) * 2 ^ e := by
      rw [Int.natAbs_mul, Int.natAbs_ofNat, Nat.mul_assoc]
    have h1 : j.natAbs * k ≤ (t.gridCellCount / 2 + 1) * k := Nat.mul_le_mul_right _ hj
    have h2 : j.natAbs * k * 2 ^ e ≤ (t.gridCellCount / 2 + 1) * k * 2 ^ e :=
      Nat.mul_le_mul_right _ h1
    unfold F32.Rep F32.Exact
    rw [e1]
    exact ⟨F32.roundNat_exact _ _ (le_trans h1 hx), lt_of_le_of_lt h2 hr⟩
  have hhalf : t.gridCellCount / 2 + 1 ≤ 2 ^ 24 :=
    le_trans (Nat.le_mul_of_pos_right _ hk) hx
  have hn : t.gridCellCount < 2 ^ 31 := by omega
  have hdiv : Int.tdiv (CloudViewer.toInt32 t.gridCellCount) 2
      = ((t.gridCellCount / 2 : Nat) : Int) := by
    rw [toInt32_of_lt _ hn]
    rfl
  have hsz : t.gridCellSize = (((k * 2 ^ e : Nat) : Int) : ℚ) / 2 ^ 149 := by
    rw [hs]
    push_cast
    rfl
  have hC : F32.ofRat t.gridCellSize = .fin ((k * 2 ^ e : Nat) : Int) := by
    have h1 := hrep 1 (by rw [show (1 : Int).natAbs = 1 from rfl]; omega)
    rw [one_mul] at h1
    rw [hs, show (k : ℚ) * 2 ^ e = ((k * 2 ^ e : Nat) : ℚ) from by push_cast; rfl,
      F32.ofRat_units]
    exact F32.round_of_rep h1
  have hM : (F32.ofInt ((t.gridCellCount / 2 : Nat) : Int)).mul (.fin ((k * 2 ^ e : Nat) : Int))
      = .fin (((t.gridCellCount / 2 : Nat) : Int) * ((k * 2 ^ e : Nat) : Int)) := by
    rw [F32.mul_ofInt _ (by omega)]
    exact F32.round_of_rep (hrep _ (by rw [Int.natAbs_ofNat]; omega))
  have hcpos : (0 : Int) < ((k * 2 ^ e : Nat) : Int) := by
    have : 0 < k * 2 ^ e := Nat.mul_pos hk hp
    exact_mod_cast this
  have hfuel : (2 * (t.gridCellCount / 2) + 1) + 1 ≤
      CloudViewer.addGridFuel (.fin (((t.gridCellCount / 2 : Nat) : Int)
        * ((k * 2 ^ e : Nat) : Int))) := by
    show _ ≤ 2 * (((t.gridCellCount / 2 : Nat) : Int) * ((k * 2 ^ e : Nat) : Int)).toNat + 2
    have h1 : (((t.gridCellCount / 2 : Nat) : Int) * ((k * 2 ^ e : Nat) : Int)).toNat
        = t.gridCellCount / 2 * (k * 2 ^ e) := by
      rw [← Int.natCast_mul, Int.toNat_natCast]
    have h2 : t.gridCellCount / 2 * 1 ≤ t.gridCellCount / 2 * (k * 2 ^ e) :=
      Nat.mul_le_mul_left _ (Nat.mul_pos hk hp)
    omega
  have hloop := addGridLoop_rounds ((k * 2 ^ e : Nat) : Int) (t.gridCellCount / 2) hcpos hrep
    (2 * (t.gridCellCount / 2) + 1) 0 _ t.visualizer t.gridLines (by omega) hfuel
  rw [show ((0 : Nat) : Int) * ((k * 2 ^ e : Nat) : Int)
      - ((t.gridCellCount / 2 : Nat) : Int) * ((k * 2 ^ e : Nat) : Int)
      = -(((t.gridCellCount / 2 : Nat) : Int) * ((k * 2 ^ e : Nat) : Int)) from by
        push_cast
        ring, Nat.mul_zero] at hloop
  unfold CloudViewer.addGrid
  rw [if_pos hg]
  dsimp only
  rw [F32.mul_neg_arg, hdiv, hC, hM]
  show Option.map _ (CloudViewer.addGridLoop _ (.fin (-_)) _ _ (.fin (-_)) _ _) = _
  rw [hloop, hg, ← hsz]
  simp only [Option.map_some', List.nil_append, gridSegments, List.range_eq_range']

theorem names_gridRounds (cellSize min max : ℚ) (r : Nat) : ∀ k : Nat,
    ((List.range' k r).flatMap (gridRound cellSize min max)).map Prod.fst
      = (List.range' (2 * k) (2 * r)).map (fun j => "line" ++ toString (j + 1)) := by
  induction r with
  | zero => intro k; rfl
  | succ r ih =>
    intro k
    rw [List.range'_succ, List.flatMap_cons, List.map_append, ih (k + 1),
      show 2 * (r + 1) = (2 * r + 1) + 1 from rfl, List.range'_succ, List.range'_succ]
    rfl

theorem names_gridSegments (half : Nat) (cellSize : ℚ) :
    (gridSegments half cellSize).map Prod.fst
      = (List.range (2 * (2 * half + 1))).map (fun j => "line" ++ toString (j + 1)) := by
  unfold gridSegments
  rw [List.range_eq_range', names_gridRounds, List.range_eq_range']

theorem nodup_lineNames (n : Nat) :
    ((List.range n).map (fun j => "line" ++ toString (j + 1))).Nodup := by
  apply List.Nodup.map _ (List.nodup_range n)
  intro a b h
  have := lineName_injective _ _ h
  omega

/-- C20: on a viewer without grid lines, for an even cell count n and a cell size
s = k * 2^(e-149) (k >= 1 and e >= 0 whole numbers) with (n/2 + 1) * k <= 2^24 and
(n/2 + 1) * s < 2^128, so that every multiple of s up to n/2 + 1 is a `float` and no sum
of the loop is rounded, addGrid returns after handing to the renderer, and recording by
name, the lines of a grid of n by n cells centred on the origin: n + 1 lines over each
axis, 2 * (n + 1) in all, named "line1", "line2", ... (pairwise distinct), each from
-n*s/2 to n*s/2. -/
theorem addGrid_lines (t : CloudViewer) (k e : Nat) (hg : t.gridLines = [])
    (heven : t.gridCellCount % 2 = 0) (hk : 0 < k)
    (hs : t.gridCellSize = (k : ℚ) * 2 ^ e / 2 ^ 149)
    (hx : (t.gridCellCount / 2 + 1) * k ≤ 2 ^ 24)
    (hr : (t.gridCellCount / 2 + 1) * k * 2 ^ e < 2 ^ 277) :
    ∃ t1, t.addGrid = some t1
      ∧ t1.visualizer
          = drawSegments t.visualizer (gridSegments (t.gridCellCount / 2) t.gridCellSize)
      ∧ t1.gridLines = (gridSegments (t.gridCellCount / 2) t.gridCellSize).map Prod.fst
      ∧ t1.gridLines = (List.range (2 * (t.gridCellCount + 1))).map
          (fun j => "line" ++ toString (j + 1))
      ∧ t1.gridLines.length = 2 * (t.gridCellCount + 1)
      ∧ t1.gridLines.Nodup
      ∧ 2 * (t.gridCellCount / 2) + 1 = t.gridCellCount + 1
      ∧ ((t.gridCellCount / 2 : Nat) : ℚ) * t.gridCellSize
          = (t.gridCellCount : ℚ) * t.gridCellSize / 2 := by
  have h2 : 2 * (t.gridCellCount / 2) = t.gridCellCount := by omega
  have hnames : (gridSegments (t.gridCellCount / 2) t.gridCellSize).map Prod.fst
      = (List.range (2 * (t.gridCellCount + 1))).map (fun j => "line" ++ toString (j + 1)) := by
    rw [names_gridSegments, h2]
  refine ⟨_, addGrid_segments t k e hg hk hs hx hr, rfl, rfl, hnames, ?_, ?_, by omega, ?_⟩
  · show ((gridSegments (t.gridCellCount / 2) t.gridCellSize).map Prod.fst).length = _
    rw [hnames, List.length_map, List.length_range]
  · show ((gridSegments (t.gridCellCount / 2) t.gridCellSize).map Prod.fst).Nodup
    rw [hnames]
    exact nodup_lineNames _
  · have h3 : (2 : ℚ) * ((t.gridCellCount / 2 : Nat) : ℚ) = (t.gridCellCount : ℚ) := by
      exact_mod_cast h2
    rw [← h3]
    ring

theorem new_gridCellSize : CloudViewer.new.gridCellSize = ((1 : Nat) : ℚ) * 2 ^ 149 / 2 ^ 149 := by
  show (1 : ℚ) = ((1 : Nat) : ℚ) * 2 ^ 149 / 2 ^ 149
  norm_num

/-- Witness of C20 on a fresh viewer: 50 cells of size 1 = 1 * 2^(149-149). -/
theorem addGrid_lines_witness :
    CloudViewer.new.gridLines = [] ∧ CloudViewer.new.gridCellCount % 2 = 0 ∧ 0 < 1
    ∧ CloudViewer.new.gridCellSize = ((1 : Nat) : ℚ) * 2 ^ 149 / 2 ^ 149
    ∧ (CloudViewer.new.gridCellCount / 2 + 1) * 1 ≤ 2 ^ 24
    ∧ (CloudViewer.new.gridCellCount / 2 + 1) * 1 * 2 ^ 149 < 2 ^ 277
    ∧ ∃ t1, CloudViewer.new.addGrid = some t1
      ∧ t1.visualizer = drawSegments CloudViewer.new.visualizer
          (gridSegments (CloudViewer.new.gridCellCount / 2) CloudViewer.new.gridCellSize)
      ∧ t1.gridLines
          = (gridSegments (CloudViewer.new.gridCellCount / 2) CloudViewer.new.gridCellSize).map
              Prod.fst
      ∧ t1.gridLines = (List.range (2 * (CloudViewer.new.gridCellCount + 1))).map
          (fun j => "line" ++ toString (j + 1))
      ∧ t1.gridLines.length = 2 * (CloudViewer.new.gridCellCount + 1)
      ∧ t1.gridLines.Nodup
      ∧ 2 * (CloudViewer.new.gridCellCount / 2) + 1 = CloudViewer.new.gridCellCount + 1
      ∧ ((CloudViewer.new.gridCellCount / 2 : Nat) : ℚ) * CloudViewer.new.gridCellSize
          = (CloudViewer.new.gridCellCount : ℚ) * CloudViewer.new.gridCellSize / 2 :=
  ⟨by decide, by decide, by decide, new_gridCellSize, by decide, by decide!,
   addGrid_lines CloudViewer.new 1 149 (by decide) (by decide) (by decide) new_gridCellSize
    (by decide) (by decide!)⟩

theorem oneCellViewer_gridCellSize :
    oneCellViewer.gridCellSize = ((1 : Nat) : ℚ) * 2 ^ 149 / 2 ^ 149 :=
  new_gridCellSize

theorem driftViewer_lines :
    driftViewer.addGrid.map (fun s => s.gridLines.length) = some 20 := by
  decide!

/-- Counterexample to C20 as stated.  With cell count 1 and cell size 1, addGrid on a
viewer without grid lines registers two lines, not 2 * (1 + 1): the count is halved as
an `int`.  With cell count 10 and cell size 0.7, it registers 20 lines, not
2 * (10 + 1): the `float` counter of the loop, ten times raised by 0.7 with rounding,
is above `max` where the exact sum would equal it. -/
theorem addGrid_lines_counterexample :
    (CloudViewer.new.setGridCellCount 1 = some oneCellViewer
      ∧ oneCellViewer.gridLines = [] ∧ oneCellViewer.gridCellCount = 1
      ∧ oneCellViewer.gridCellSize = 1
      ∧ ∃ t1, oneCellViewer.addGrid = some t1 ∧ t1.gridLines = ["line1", "line2"]
        ∧ t1.gridLines.length ≠ 2 * (1 + 1))
    ∧ ((CloudViewer.new.setGridCellCount 10).bind (fun s => s.setGridCellSize (7 / 10))
          = some driftViewer
      ∧ driftViewer.gridLines = [] ∧ driftViewer.gridCellCount = 10
      ∧ driftViewer.gridCellSize = 7 / 10
      ∧ ∃ t1, driftViewer.addGrid = some t1 ∧ t1.gridLines.length = 20
        ∧ t1.gridLines.length ≠ 2 * (10 + 1)) := by
  refine ⟨⟨rfl, rfl, rfl, rfl, _, addGrid_segments oneCellViewer 1 149 rfl (by decide)
    oneCellViewer_gridCellSize (by decide) (by decide!), ?_, ?_⟩, ?_, rfl, rfl, rfl, ?_⟩
  · rfl
  · decide
  · decide!
  · obtain ⟨t1, h1, h2⟩ := Option.map_eq_some'.1 driftViewer_lines
    exact ⟨t1, h1, h2, by rw [h2]; decide⟩

/-! ## The grid through the operations -/

theorem gridInv_of_fields (a b : CloudViewer) (h : gridFields a = gridFields b)
    (hb : GridInv b) : GridInv a := by
  simp only [gridFields, Prod.mk.injEq] at h
  unfold GridInv GridLinesInv CloudViewer.isGridShown at hb ⊢
  rw [h.1, h.2.1, h.2.2.1, h.2.2.2]
  exact hb

theorem gridFields_removeCoordinate (s : CloudViewer) (id : String) :
    gridFields (s.removeCoordinate id) = gridFields s := by
  unfold CloudViewer.removeCoordinate
  split_ifs <;> rfl

theorem gridFields_removeFrustum (s : CloudViewer) (id : String) :
    gridFields (s.removeFrustum id) = gridFields s := by
  unfold CloudViewer.removeFrustum
  split_ifs <;> rfl

theorem gridFields_removeText (s : CloudViewer) (id : String) :
    gridFields (s.removeText id) = gridFields s := by
  unfold CloudViewer.removeText
  split_ifs <;> rfl

theorem gridFields_removeGraph (s : CloudViewer) (id : String) :
    gridFields (s.removeGraph id) = gridFields s := by
  unfold CloudViewer.removeGraph
  split_ifs <;> rfl

theorem gridFields_addOrUpdateCoordinate (s : CloudViewer) (id : String) (t : Transform)
    (scale : ℚ) : gridFields (s.addOrUpdateCoordinate id t scale) = gridFields s := by
  have h := gridFields_removeCoordinate s id
  unfold CloudViewer.addOrUpdateCoordinate
  dsimp only
  split_ifs <;> first | rfl | exact h

theorem gridFields_addOrUpdateFrustum (s : CloudViewer) (id : String) (t : Transform)
    (scale : ℚ) (c : QColor) : gridFields (s.addOrUpdateFrustum id t scale c) = gridFields s := by
  have h := gridFields_removeFrustum s id
  unfold CloudViewer.addOrUpdateFrustum
  dsimp only
  split_ifs <;> first | rfl | exact h

theorem gridFields_addOrUpdateText (s : CloudViewer) (id text : String) (t : Transform)
    (scale : ℚ) (c : QColor) : gridFields (s.addOrUpdateText id text t scale c) = gridFields s := by
  have h := gridFields_removeCoordinate s id
  unfold CloudViewer.addOrUpdateText
  dsimp only
  split_ifs <;> first | rfl | exact h

theorem gridFields_addCloud (s : CloudViewer) (id : String) (r : Bool) (pose : Transform)
    (rgb n : Bool) (c : QColor) : gridFields (s.addCloud id r pose rgb n c).1 = gridFields s := by
  unfold CloudViewer.addCloud
  dsimp only
  split_ifs <;> rfl

theorem gridFields_addCloudMesh (s : CloudViewer) (id : String) (r : Bool) (pose : Transform) :
    gridFields (s.addCloudMesh id r pose).1 = gridFields s
    ∧ gridFields (s.addCloudTextureMesh id r pose).1 = gridFields s := by
  unfold CloudViewer.addCloudMesh CloudViewer.addCloudTextureMesh
  dsimp only
  constructor <;> split_ifs <;> rfl

theorem gridFields_updateCloudPose (s : CloudViewer) (id : String) (pose : Transform) :
    gridFields (s.updateCloudPose id pose).1 = gridFields s := by
  unfold CloudViewer.updateCloudPose
  split
  · dsimp only
    split_ifs <;> rfl
  · rfl

theorem gridFields_addOrUpdateGraph (s : CloudViewer) (id : String) (graph : List Vec3)
    (c : QColor) : gridFields (s.addOrUpdateGraph id graph c) = gridFields s := by
  have h := gridFields_removeGraph s id
  unfold CloudViewer.addOrUpdateGraph
  dsimp only
  split_ifs
  · rfl
  · show gridFields (CloudViewer.addCloudXYZ _ _ _ _).1 = _
    unfold CloudViewer.addCloudXYZ
    rw [gridFields_addCloud]
    exact h
  · exact h

theorem gridFields_foldl (f : CloudViewer → String → CloudViewer)
    (hf : ∀ s id, gridFields (f s id) = gridFields s) (l : List String) (s : CloudViewer) :
    gridFields (l.foldl f s) = gridFields s := by
  induction l generalizing s with
  | nil => rfl
  | cons id l ih => exact (ih _).trans (hf s id)

theorem gridFields_removeAll (s s1 : CloudViewer) :
    (s.removeAllCoordinates = some s1 → gridFields s1 = gridFields s)
    ∧ (s.removeAllFrustums = some s1 → gridFields s1 = gridFields s)
    ∧ (s.removeAllGraphs = some s1 → gridFields s1 = gridFields s)
    ∧ (s.removeAllTexts = some s1 → gridFields s1 = gridFields s) := by
  refine ⟨fun hs => ?_, fun hs => ?_, fun hs => ?_, fun hs => ?_⟩
  · obtain ⟨_, rfl⟩ := uassert_bind_eq_some _ _ _ hs
    exact gridFields_foldl _ gridFields_removeCoordinate _ _
  · obtain ⟨_, rfl⟩ := uassert_bind_eq_some _ _ _ hs
    exact gridFields_foldl _ gridFields_removeFrustum _ _
  · obtain ⟨_, rfl⟩ := uassert_bind_eq_some _ _ _ hs
    exact gridFields_foldl _ gridFields_removeGraph _ _
  · obtain ⟨_, rfl⟩ := uassert_bind_eq_some _ _ _ hs
    exact gridFields_foldl _ gridFields_removeText _ _

theorem gridFields_clear (s s1 : CloudViewer) (hs : s.clear = some s1) :
    gridFields s1 = gridFields s := by
  unfold CloudViewer.clear at hs
  simp only [Option.bind_eq_bind, Option.bind_eq_some, Option.pure_def] at hs
  obtain ⟨s2, h2, s3, h3, s4, h4, s5, h5, hs⟩ := hs
  have e2 : gridFields s2 = gridFields s := (gridFields_removeAll s.removeAllClouds s2).2.2.1 h2
  have e3 := (gridFields_removeAll _ _).1 h3
  have e4 := (gridFields_removeAll _ _).2.1 h4
  have e5 := (gridFields_removeAll _ _).2.2.2 h5
  have e7 : gridFields (s5.clearTrajectory.addOrUpdateCoordinate "reference" Transform.getIdentity
      0.2) = gridFields s :=
    (gridFields_addOrUpdateCoordinate _ _ _ _).trans (e5.trans (e4.trans (e3.trans e2)))
  split_ifs at hs
  · rw [← Option.some.inj hs]
    exact (gridFields_addOrUpdateFrustum _ _ _ _ _).trans e7
  · rw [← Option.some.inj hs]
    exact e7

theorem gridFields_setFrustumShown (s : CloudViewer) (b : Bool) :
    gridFields (s.setFrustumShown b) = gridFields s := by
  have h := gridFields_removeFrustum s "reference_frustum"
  unfold CloudViewer.setFrustumShown
  dsimp only
  split_ifs <;> first | rfl | exact h

theorem gridFields_setFrustumColor (s : CloudViewer) (c : QColor) :
    gridFields (s.setFrustumColor c) = gridFields s := by
  unfold CloudViewer.setFrustumColor
  dsimp only
  split_ifs <;> rfl

theorem gridFields_setDefaultBackgroundColor (s : CloudViewer) (c : QColor) :
    gridFields (s.setDefaultBackgroundColor c) = gridFields s := by
  unfold CloudViewer.setDefaultBackgroundColor
  dsimp only
  split_ifs <;> rfl

theorem gridFields_cameraModes (s : CloudViewer) (b : Bool) :
    gridFields (s.setCameraTargetLocked b) = gridFields s
    ∧ gridFields (s.setCameraTargetFollow b) = gridFields s
    ∧ gridFields s.setCameraFree = gridFields s
    ∧ gridFields (s.checkFreeCamera b) = gridFields s := by
  unfold CloudViewer.setCameraFree CloudViewer.setCameraTargetLocked
    CloudViewer.setCameraTargetFollow CloudViewer.checkLockCamera CloudViewer.checkFollowCamera
    CloudViewer.checkFreeCamera
  cases b <;> exact ⟨rfl, rfl, rfl, rfl⟩

theorem gridFields_resetCamera (s : CloudViewer) : gridFields s.resetCamera = gridFields s := by
  unfold CloudViewer.resetCamera
  dsimp only
  split_ifs <;> rfl

theorem gridFields_misc (s : CloudViewer) (id : String) (pose : Transform) (b : Bool) :
    gridFields (s.updateFrustumPose id pose).1 = gridFields s
    ∧ gridFields (s.updateCoordinatePose id pose).1 = gridFields s
    ∧ gridFields (s.setCloudVisibility id b) = gridFields s
    ∧ gridFields s.removeOccupancyGridMap = gridFields s := by
  unfold CloudViewer.updateFrustumPose CloudViewer.updateCoordinatePose
    CloudViewer.setCloudVisibility CloudViewer.removeOccupancyGridMap
  dsimp only
  refine ⟨?_, ?_, ?_, ?_⟩ <;> split_ifs <;> rfl

theorem gridFields_addOccupancyGridMap (s : CloudViewer) (r : CloudViewer × Bool) (m : Mat)
    (t : Bool) (res x y o : ℚ) (hs : s.addOccupancyGridMap m t res x y o = some r) :
    gridFields r.1 = gridFields s := by
  unfold CloudViewer.addOccupancyGridMap at hs
  simp only [Option.bind_eq_bind, Option.bind_eq_some, Option.pure_def] at hs
  obtain ⟨_, _, hs⟩ := hs
  split_ifs at hs <;> rw [← Option.some.inj hs] <;> rfl


/-- An `addGrid` that returns on a viewer without grid lines leaves no line, when its
loop is not entered, or two lines at least. -/
theorem addGrid_length_ne_one (s s1 : CloudViewer) (hs : s.addGrid = some s1)
    (hg : s.gridLines = []) : s1.gridLines.length ≠ 1 := by
  unfold CloudViewer.addGrid at hs
  rw [if_pos hg] at hs
  dsimp only at hs
  obtain ⟨r, hr, rfl⟩ := Option.map_eq_some'.1 hs
  show r.2.length ≠ 1
  generalize (F32.ofInt (Int.tdiv (CloudViewer.toInt32 s.gridCellCount) 2)).mul
    (F32.ofRat s.gridCellSize) = M at hr
  generalize (F32.ofInt (Int.tdiv (CloudViewer.toInt32 s.gridCellCount) 2)).neg.mul
    (F32.ofRat s.gridCellSize) = N at hr
  cases hle : N.le M
  · obtain ⟨f, hf⟩ : ∃ f, CloudViewer.addGridFuel M = f + 1 := by
      cases M <;> exact ⟨_, rfl⟩
    rw [hf, addGridLoop_exit _ _ _ _ _ _ _ hle] at hr
    rw [← Option.some.inj hr, hg]
    exact (show ([] : List String).length ≠ 1 from by decide)
  · have h2 := addGridLoop_two_lines _ _ _ _ _ _ _ _ _ hle hr
    omega

theorem gridInv_addGrid (s s1 : CloudViewer) (hs : s.addGrid = some s1)
    (hi : 0 < s.gridCellSize) (hw : GridLinesInv s) : GridInv s1 := by
  have hc : s1.gridCellCount = s.gridCellCount ∧ s1.gridCellSize = s.gridCellSize := by
    obtain ⟨v, g, e⟩ := addGrid_eq_some s s1 hs
    rw [e]
    exact ⟨rfl, rfl⟩
  by_cases hg : s.gridLines = []
  · refine ⟨⟨?_, addGrid_length_ne_one s s1 hs hg⟩, fun _ hf => ?_⟩
    · rw [hc.1]
      exact hw.1
    · rw [hc.2] at hf
      exact addGrid_two_lines s s1 hs hi hf hw.1 hg
  · unfold CloudViewer.addGrid at hs
    rw [if_neg hg] at hs
    rw [← Option.some.inj hs]
    have h1 := hw.2
    have h0 : s.gridLines.length ≠ 0 := fun e => hg (List.length_eq_zero.1 e)
    exact ⟨hw, fun _ _ => by omega⟩

theorem gridInv_setGridShown (s s1 : CloudViewer) (shown : Bool)
    (hs : s.setGridShown shown = some s1) (hi : Inv s) (hw : GridLinesInv s) : GridInv s1 := by
  unfold CloudViewer.setGridShown at hs
  dsimp only at hs
  split_ifs at hs with hb
  · exact gridInv_addGrid _ _ hs hi.2.2.1 hw
  · rw [← Option.some.inj hs]
    refine ⟨⟨hw.1, (show ([] : List String).length ≠ 1 from by decide)⟩, fun h _ => ?_⟩
    exact absurd h hb

theorem gridInv_setGridCellCount (s s1 : CloudViewer) (count : Nat)
    (hs : s.setGridCellCount count = some s1) (hc : count < 2 ^ 31) (hi : Inv s)
    (hg : GridInv s) : GridInv s1 := by
  unfold CloudViewer.setGridCellCount at hs
  dsimp only at hs
  split_ifs at hs with h0 hshown
  · exact gridInv_addGrid _ _ hs hi.2.2.1 ⟨hc, (show ([] : List String).length ≠ 1 from by decide)⟩
  · rw [← Option.some.inj hs]
    exact ⟨⟨hc, hg.1.2⟩, fun h _ => absurd h hshown⟩
  · rw [← Option.some.inj hs]
    exact hg

theorem gridInv_setGridCellSize (s s1 : CloudViewer) (size : ℚ)
    (hs : s.setGridCellSize size = some s1) (hg : GridInv s) : GridInv s1 := by
  unfold CloudViewer.setGridCellSize at hs
  dsimp only at hs
  split_ifs at hs with h0 hshown
  · exact gridInv_addGrid _ _ hs h0 ⟨hg.1.1, (show ([] : List String).length ≠ 1 from by decide)⟩
  · rw [← Option.some.inj hs]
    exact ⟨hg.1, fun h _ => absurd h hshown⟩
  · rw [← Option.some.inj hs]
    exact hg

theorem value_toUInt_lt (settings : QSettings) (group key : String) (c : Nat)
    (h0 : (settings.value group key (.uint 0)).toUInt < 2 ^ 31) (hc : c < 2 ^ 31) :
    (settings.value group key (.uint c)).toUInt < 2 ^ 31 := by
  unfold QSettings.value at h0 ⊢
  cases hf : mapFind (QSettings.fullKey group key) settings with
  | none => exact hc
  | some v =>
    rw [hf] at h0
    exact h0

theorem gridInv_loadSettings (s s1 : CloudViewer) (settings : QSettings) (group : String)
    (hs : s.loadSettings settings group = some s1)
    (hc : (settings.value group "grid_cell_count" (.uint 0)).toUInt < 2 ^ 31)
    (hi : Inv s) (hg : GridInv s) : GridInv s1 := by
  unfold CloudViewer.loadSettings at hs
  simp only [Option.bind_eq_bind, Option.bind_eq_some, Option.pure_def] at hs
  obtain ⟨s2, h2, s3, h3, s4, h4, hs⟩ := hs
  have i2 := inv_setGridShown _ _ _ h2 (show Inv (s.setCameraPosition _ _ _ _ _ _ _ _ _) from hi)
  have g2 := gridInv_setGridShown _ _ _ h2
    (show Inv (s.setCameraPosition _ _ _ _ _ _ _ _ _) from hi) hg.1
  have i3 := inv_setGridCellCount _ _ _ h3 i2
  have g3 := gridInv_setGridCellCount _ _ _ h3
    (value_toUInt_lt settings group "grid_cell_count" _ hc g2.1.1) i2 g2
  have g4 := gridInv_setGridCellSize _ _ _ h4 g3
  rw [← Option.some.inj hs]
  refine gridInv_of_fields _ s4 ?_ g4
  rw [gridFields_setDefaultBackgroundColor]
  show gridFields (ite _ _ _ : CloudViewer) = _
  split_ifs
  · rw [(gridFields_cameraModes _ true).2.2.1, (gridFields_cameraModes _ _).2.1,
      (gridFields_cameraModes _ _).1, gridFields_setFrustumColor]
    show gridFields (CloudViewer.setFrustumShown _ _) = _
    rw [gridFields_setFrustumShown]
    rfl
  · rw [(gridFields_cameraModes _ _).2.1, (gridFields_cameraModes _ _).1,
      gridFields_setFrustumColor]
    show gridFields (CloudViewer.setFrustumShown _ _) = _
    rw [gridFields_setFrustumShown]
    rfl

theorem getInt_toNat_lt (d : Dialog) : (d.getInt 1 10000).toNat < 2 ^ 31 := by
  unfold Dialog.getInt
  have h1 : max (1 : Int) (min 10000 d.intValue) ≤ 10000 :=
    max_le (by norm_num) (min_le_left _ _)
  omega

/-- The handler of the menu keeps the invariant of the grid; for the action "Show grid"
it restores it from `GridLinesInv` alone. -/
theorem gridInv_handleAction (s s1 : CloudViewer) (a : Action) (d : Dialog)
    (hs : s.handleAction a d = some s1) (hi : Inv s) (hw : GridLinesInv s)
    (hg : a ≠ Action.aShowGrid → GridInv s) : GridInv s1 := by
  cases a <;> simp only [CloudViewer.handleAction] at hs
  case aShowGrid =>
    split_ifs at hs with hb
    · exact gridInv_addGrid _ _ hs hi.2.2.1 hw
    · rw [← Option.some.inj hs]
      exact ⟨⟨hw.1, (show ([] : List String).length ≠ 1 from by decide)⟩,
        fun h _ => absurd h hb⟩
  case aSetGridCellCount =>
    split_ifs at hs
    · exact gridInv_setGridCellCount _ _ _ hs (getInt_toNat_lt d) hi (hg (by decide))
    · rw [← Option.some.inj hs]
      exact hg (by decide)
  case aSetGridCellSize =>
    split_ifs at hs
    · exact gridInv_setGridCellSize _ _ _ hs (hg (by decide))
    · rw [← Option.some.inj hs]
      exact hg (by decide)
  case aSetTrajectorySize =>
    rw [← Option.some.inj hs]
    split_ifs
    · exact gridInv_of_fields _ s rfl (hg (by decide))
    · exact hg (by decide)
  case aClearTrajectory =>
    rw [← Option.some.inj hs]
    exact gridInv_of_fields _ s rfl (hg (by decide))
  case aShowFrustum =>
    rw [← Option.some.inj hs]
    exact gridInv_of_fields _ s (gridFields_setFrustumShown _ _) (hg (by decide))
  case aSetFrustumScale =>
    rw [← Option.some.inj hs]
    split_ifs
    · exact gridInv_of_fields _ s rfl (hg (by decide))
    · exact hg (by decide)
  case aSetFrustumColor =>
    rw [← Option.some.inj hs]
    split_ifs
    · exact gridInv_of_fields _ s (gridFields_setFrustumColor _ _) (hg (by decide))
    · exact hg (by decide)
  case aResetCamera =>
    rw [← Option.some.inj hs]
    exact gridInv_of_fields _ s (gridFields_resetCamera _) (hg (by decide))
  case aSetBackgroundColor =>
    rw [← Option.some.inj hs]
    split_ifs
    · exact gridInv_of_fields _ s (gridFields_setDefaultBackgroundColor _ _) (hg (by decide))
    · exact hg (by decide)
  all_goals
    rw [← Option.some.inj hs]
    exact hg (by decide)

theorem gridInv_contextMenuEvent (s s1 : CloudViewer) (a : Option Action) (d : Dialog)
    (hs : s.contextMenuEvent a d = some s1) (hi : Inv s) (hg : GridInv s) : GridInv s1 := by
  cases a with
  | none =>
    simp only [CloudViewer.contextMenuEvent] at hs
    rw [← Option.some.inj hs]
    exact hg
  | some a =>
    simp only [CloudViewer.contextMenuEvent] at hs
    apply gridInv_handleAction _ _ _ _ hs (inv_trigger s a hi)
    · cases a <;> exact hg.1
    · intro ha
      cases a <;> first
        | exact absurd rfl ha
        | exact gridInv_of_fields _ s rfl hg

theorem gridFields_updateCameraTargetPosition (normalized : Vec3 → Vec3) (s : CloudViewer)
    (pose : Transform) :
    gridFields (s.updateCameraTargetPosition normalized pose) = gridFields s := by
  have h1 : ∀ (a : CloudViewer) (p : Transform), gridFields (a.setLastPose p) = gridFields a :=
    fun _ _ => rfl
  have h2 : ∀ (a : CloudViewer) (c : Camera), gridFields (a.setActiveCamera c) = gridFields a :=
    fun _ _ => rfl
  have h3 : ∀ (a : CloudViewer) (p : Vec3), gridFields (a.appendTrajectory p) = gridFields a :=
    fun _ _ => rfl
  have h4 : ∀ (a : CloudViewer) (p : Transform), gridFields (a.moveReference p) = gridFields a := by
    intro a p
    unfold CloudViewer.moveReference
    dsimp only
    split_ifs
    · rw [gridFields_addOrUpdateFrustum]
      exact (gridFields_misc a "reference" p true).2.1
    · exact (gridFields_misc a "reference" p true).2.1
    · rw [gridFields_addOrUpdateFrustum, gridFields_addOrUpdateCoordinate]
    · rw [gridFields_addOrUpdateCoordinate]
  unfold CloudViewer.updateCameraTargetPosition
  dsimp only
  rw [h1]
  split_ifs
  · rw [h2, h4, h1, h3]
  · rw [h2, h4, h3]
  · rw [h3]
  · rfl

/-- One returning operation that hands over no cell count of `2^31` or more keeps the
invariant of the grid. -/
theorem gridInv_step (normalized : Vec3 → Vec3) (s s1 : CloudViewer) (op : Op)
    (hop : op.countBelow = true) (hs : step normalized s op = some s1) (hi : Inv s)
    (hg : GridInv s) : GridInv s1 := by
  cases op <;> simp only [step] at hs
  case setGridShown => exact gridInv_setGridShown _ _ _ hs hi hg.1
  case setGridCellCount =>
    exact gridInv_setGridCellCount _ _ _ hs (of_decide_eq_true hop) hi hg
  case setGridCellSize => exact gridInv_setGridCellSize _ _ _ hs hg
  case loadSettings => exact gridInv_loadSettings _ _ _ _ hs (of_decide_eq_true hop) hi hg
  case handleAction => exact gridInv_handleAction _ _ _ _ hs hi hg.1 (fun _ => hg)
  case contextMenuEvent => exact gridInv_contextMenuEvent _ _ _ _ hs hi hg
  case clear => exact gridInv_of_fields _ s (gridFields_clear _ _ hs) hg
  case addOccupancyGridMap =>
    obtain ⟨r, hr, rfl⟩ := Option.map_eq_some'.1 hs
    exact gridInv_of_fields _ s (gridFields_addOccupancyGridMap _ _ _ _ _ _ _ _ hr) hg
  case removeAllCoordinates => exact gridInv_of_fields _ s ((gridFields_removeAll _ _).1 hs) hg
  case removeAllFrustums => exact gridInv_of_fields _ s ((gridFields_removeAll _ _).2.1 hs) hg
  case removeAllGraphs => exact gridInv_of_fields _ s ((gridFields_removeAll _ _).2.2.1 hs) hg
  case removeAllTexts => exact gridInv_of_fields _ s ((gridFields_removeAll _ _).2.2.2 hs) hg
  case updateCloudPose =>
    rw [← Option.some.inj hs]
    exact gridInv_of_fields _ s (gridFields_updateCloudPose _ _ _) hg
  case addCloud =>
    rw [← Option.some.inj hs]
    exact gridInv_of_fields _ s (gridFields_addCloud _ _ _ _ _ _ _) hg
  case addCloudMesh =>
    rw [← Option.some.inj hs]
    exact gridInv_of_fields _ s (gridFields_addCloudMesh _ _ _ _).1 hg
  case addCloudTextureMesh =>
    rw [← Option.some.inj hs]
    exact gridInv_of_fields _ s (gridFields_addCloudMesh _ _ _ _).2 hg
  case removeOccupancyGridMap =>
    rw [← Option.some.inj hs]
    exact gridInv_of_fields _ s (gridFields_misc _ "" Transform.null true).2.2.2 hg
  case addOrUpdateCoordinate =>
    rw [← Option.some.inj hs]
    exact gridInv_of_fields _ s (gridFields_addOrUpdateCoordinate _ _ _ _) hg
  case updateCoordinatePose =>
    rw [← Option.some.inj hs]
    exact gridInv_of_fields _ s (gridFields_misc _ _ _ true).2.1 hg
  case removeCoordinate =>
    rw [← Option.some.inj hs]
    exact gridInv_of_fields _ s (gridFields_removeCoordinate _ _) hg
  case addOrUpdateFrustum =>
    rw [← Option.some.inj hs]
    exact gridInv_of_fields _ s (gridFields_addOrUpdateFrustum _ _ _ _ _) hg
  case updateFrustumPose =>
    rw [← Option.some.inj hs]
    exact gridInv_of_fields _ s (gridFields_misc _ _ _ true).1 hg
  case removeFrustum =>
    rw [← Option.some.inj hs]
    exact gridInv_of_fields _ s (gridFields_removeFrustum _ _) hg
  case addOrUpdateGraph =>
    rw [← Option.some.inj hs]
    exact gridInv_of_fields _ s (gridFields_addOrUpdateGraph _ _ _ _) hg
  case removeGraph =>
    rw [← Option.some.inj hs]
    exact gridInv_of_fields _ s (gridFields_removeGraph _ _) hg
  case addOrUpdateText =>
    rw [← Option.some.inj hs]
    exact gridInv_of_fields _ s (gridFields_addOrUpdateText _ _ _ _ _ _) hg
  case removeText =>
    rw [← Option.some.inj hs]
    exact gridInv_of_fields _ s (gridFields_removeText _ _) hg
  case setFrustumShown =>
    rw [← Option.some.inj hs]
    exact gridInv_of_fields _ s (gridFields_setFrustumShown _ _) hg
  case setFrustumColor =>
    rw [← Option.some.inj hs]
    exact gridInv_of_fields _ s (gridFields_setFrustumColor _ _) hg
  case resetCamera =>
    rw [← Option.some.inj hs]
    exact gridInv_of_fields _ s (gridFields_resetCamera _) hg
  case setDefaultBackgroundColor =>
    rw [← Option.some.inj hs]
    exact gridInv_of_fields _ s (gridFields_setDefaultBackgroundColor _ _) hg
  case setCloudVisibility =>
    rw [← Option.some.inj hs]
    exact gridInv_of_fields _ s (gridFields_misc _ _ Transform.null _).2.2.1 hg
  case setCameraTargetLocked =>
    rw [← Option.some.inj hs]
    exact gridInv_of_fields _ s (gridFields_cameraModes _ _).1 hg
  case setCameraTargetFollow =>
    rw [← Option.some.inj hs]
    exact gridInv_of_fields _ s (gridFields_cameraModes _ _).2.1 hg
  case setCameraFree =>
    rw [← Option.some.inj hs]
    exact gridInv_of_fields _ s (gridFields_cameraModes _ true).2.2.1 hg
  case updateCameraTargetPosition =>
    rw [← Option.some.inj hs]
    exact gridInv_of_fields _ s (gridFields_updateCameraTargetPosition _ _ _) hg
  all_goals
    rw [← Option.some.inj hs]
    exact gridInv_of_fields _ s rfl hg

theorem gridInv_new : GridInv CloudViewer.new :=
  ⟨⟨by decide, by decide⟩, fun h _ => absurd h (by decide)⟩

theorem reachable_gridInv (normalized : Vec3 → Vec3) (s : CloudViewer)
    (hr : Reachable normalized (fun op => op.countBelow = true) s) : GridInv s := by
  induction hr with
  | new => exact gridInv_new
  | step a a1 op hra hop hs ih =>
    exact gridInv_step normalized a a1 op hop hs (reachable_inv normalized _ a hra) ih
theorem setGridShown_new : CloudViewer.new.setGridShown true = some shownGridViewer := by
  have h := addGrid_segments { CloudViewer.new with aShowGrid := true } 1 149 rfl (by decide)
    new_gridCellSize (by decide) (by decide!)
  unfold CloudViewer.setGridShown
  dsimp only
  rw [if_pos rfl, h]
  rfl

theorem setGridCellCount_hugeCount :
    step (fun v => v) CloudViewer.new (Op.setGridCellCount (2 ^ 31)) = some hugeCountViewer :=
  rfl

theorem setGridShown_hugeCount :
    hugeCountViewer.setGridShown true = some shownEmptyGridViewer := by
  have hle : ((F32.ofInt (Int.tdiv (CloudViewer.toInt32 shownEmptyGridViewer.gridCellCount) 2)
      ).neg.mul (F32.ofRat shownEmptyGridViewer.gridCellSize)).le
      ((F32.ofInt (Int.tdiv (CloudViewer.toInt32 shownEmptyGridViewer.gridCellCount) 2)).mul
        (F32.ofRat shownEmptyGridViewer.gridCellSize)) = false := by
    decide!
  obtain ⟨f, hf⟩ : ∃ f, CloudViewer.addGridFuel
      ((F32.ofInt (Int.tdiv (CloudViewer.toInt32 shownEmptyGridViewer.gridCellCount) 2)).mul
        (F32.ofRat shownEmptyGridViewer.gridCellSize)) = f + 1 := by
    generalize (F32.ofInt (Int.tdiv (CloudViewer.toInt32 shownEmptyGridViewer.gridCellCount)
      2)).mul (F32.ofRat shownEmptyGridViewer.gridCellSize) = M
    cases M <;> exact ⟨_, rfl⟩
  unfold CloudViewer.setGridShown
  dsimp only
  rw [if_pos rfl]
  show shownEmptyGridViewer.addGrid = _
  unfold CloudViewer.addGrid
  rw [if_pos (show shownEmptyGridViewer.gridLines = [] from rfl)]
  dsimp only
  rw [hf, addGridLoop_exit _ _ _ _ _ _ _ hle]
  rfl

/-- Where the first round of the loop leaves the counter at `min`, `addGrid` does not
return on a viewer without grid lines. -/
theorem addGrid_none_of_stall (s : CloudViewer) (hg : s.gridLines = [])
    (h1 : (gridMax s.gridCellCount s.gridCellSize).neg.le
      (gridMax s.gridCellCount s.gridCellSize) = true)
    (h2 : (gridMax s.gridCellCount s.gridCellSize).neg.add (F32.ofRat s.gridCellSize)
      = (gridMax s.gridCellCount s.gridCellSize).neg) :
    s.addGrid = none := by
  unfold CloudViewer.addGrid
  rw [if_pos hg]
  dsimp only
  rw [F32.mul_neg_arg]
  show Option.map _ (CloudViewer.addGridLoop (F32.ofRat s.gridCellSize)
    (gridMax s.gridCellCount s.gridCellSize).neg (gridMax s.gridCellCount s.gridCellSize) _
    (gridMax s.gridCellCount s.gridCellSize).neg 0 _) = none
  rw [addGridLoop_stall _ _ _ _ h1 h2]
  rfl

theorem setGridCellCount_stallCount :
    step (fun v => v) CloudViewer.new (Op.setGridCellCount (2 ^ 26)) = some stallCountViewer :=
  rfl

theorem stall_of_count :
    (gridMax (2 ^ 26) 1).neg.le (gridMax (2 ^ 26) 1) = true
    ∧ (gridMax (2 ^ 26) 1).neg.add (F32.ofRat 1) = (gridMax (2 ^ 26) 1).neg := by
  decide!

theorem stall_of_size :
    gridMax 50 (3 * 10 ^ 38) = .posInf
    ∧ (gridMax 50 (3 * 10 ^ 38)).neg.le (gridMax 50 (3 * 10 ^ 38)) = true
    ∧ (gridMax 50 (3 * 10 ^ 38)).neg.add (F32.ofRat (3 * 10 ^ 38))
        = (gridMax 50 (3 * 10 ^ 38)).neg := by
  decide!

theorem ofRat_one : F32.ofRat 1 = .fin (2 ^ 149) := by
  decide!

theorem gridMax_size_one (count : Nat) (hn : count ≤ 2 ^ 25 - 3) :
    gridMax count 1 = .fin (((count / 2 : Nat) : Int) * 2 ^ 149) := by
  have e : ((count / 2 : Nat) : Int) * 2 ^ 149 = ((count / 2 * 2 ^ 149 : Nat) : Int) := by
    push_cast
    rfl
  have h1 : count / 2 * 2 ^ 149 ≤ 2 ^ 24 * 2 ^ 149 := Nat.mul_le_mul_right _ (by omega)
  have h2 : (2 : Nat) ^ 24 * 2 ^ 149 < 2 ^ 277 := by
    rw [← pow_add]
    exact Nat.pow_lt_pow_right (show 1 < 2 from by decide) (show 24 + 149 < 277 from by decide)
  rw [gridMax_of_count count 1 (2 ^ 149) hn ofRat_one, e]
  exact F32.round_of_rep (F32.rep_mul_pow _ 149 (by omega) (by omega))

theorem gridEndsAt_of_count (count : Nat) (size : ℚ) (c m : Int) (hn : count ≤ 2 ^ 25 - 3)
    (hc : 0 < c) (hC : F32.ofRat size = .fin c) (hM : gridMax count size = .fin m) :
    GridEndsAt count size := by
  intro t h1 h2
  exact addGrid_ends_of_count t c m (by rw [h1]; exact hn) hc (by rw [h2]; exact hC)
    (by rw [h1, h2]; exact hM)

/-- C21: for a cell count of at most 2^25 - 3 and a cell size that is a positive `float`
for which max = float(count/2) * cellSize is finite, the loop of addGrid terminates
(addGrid returns); and in every state reached without handing a cell count of 2^31 or
more to setGridCellCount or, through the key "grid_cell_count", to loadSettings, when
the cell size is not infinite as a `float`, a loop that terminates has run at least once
when there were no grid lines, leaving at least two, and a shown grid has at least two
lines. -/
theorem addGrid_loop_terminates (normalized : Vec3 → Vec3) (s : CloudViewer) :
    (∀ c m : Int, s.gridCellCount ≤ 2 ^ 25 - 3 → 0 < c → F32.ofRat s.gridCellSize = .fin c →
        gridMax s.gridCellCount s.gridCellSize = .fin m → ∃ s1, s.addGrid = some s1)
    ∧ (Reachable normalized (fun op => op.countBelow = true) s →
        (∀ s1, s.addGrid = some s1 → s.gridLines = [] →
          F32.ofRat s.gridCellSize ≠ .posInf → 2 ≤ s1.gridLines.length)
        ∧ (s.isGridShown = true → F32.ofRat s.gridCellSize ≠ .posInf →
            2 ≤ s.gridLines.length)) := by
  constructor
  · intro c m hn hc hC hM
    obtain ⟨v, g, h⟩ := addGrid_ends_of_count s c m hn hc hC hM
    exact ⟨_, h⟩
  · intro hr
    have hg := reachable_gridInv normalized s hr
    have hi := reachable_inv normalized _ s hr
    exact ⟨fun s1 h1 h0 hf => addGrid_two_lines s s1 h1 hi.2.2.1 hf hg.1.1 h0, hg.2⟩

theorem shownGridViewer_max :
    F32.ofRat shownGridViewer.gridCellSize = .fin (2 ^ 149)
    ∧ gridMax shownGridViewer.gridCellCount shownGridViewer.gridCellSize
        = .fin (25 * 2 ^ 149)
    ∧ F32.ofRat shownGridViewer.gridCellSize ≠ .posInf := by
  decide!

/-- Witness of C21 on a fresh viewer after setGridShown(true), with 50 cells of size 1:
addGrid returns, and the shown grid has at least two lines. -/
theorem addGrid_loop_terminates_witness :
    Reachable (fun v => v) (fun op => op.countBelow = true) shownGridViewer
    ∧ shownGridViewer.isGridShown = true
    ∧ shownGridViewer.gridCellCount ≤ 2 ^ 25 - 3
    ∧ (0 : Int) < 2 ^ 149
    ∧ F32.ofRat shownGridViewer.gridCellSize = .fin (2 ^ 149)
    ∧ gridMax shownGridViewer.gridCellCount shownGridViewer.gridCellSize = .fin (25 * 2 ^ 149)
    ∧ F32.ofRat shownGridViewer.gridCellSize ≠ .posInf
    ∧ (∃ s1, shownGridViewer.addGrid = some s1)
    ∧ 2 ≤ shownGridViewer.gridLines.length :=
  ⟨Reachable.step _ _ (Op.setGridShown true) Reachable.new rfl setGridShown_new,
   rfl, by decide, by positivity, shownGridViewer_max.1, shownGridViewer_max.2.1,
   shownGridViewer_max.2.2,
   (addGrid_loop_terminates (fun v => v) shownGridViewer).1 (2 ^ 149) (25 * 2 ^ 149)
    (by decide) (by positivity) shownGridViewer_max.1 shownGridViewer_max.2.1,
   ((addGrid_loop_terminates (fun v => v) shownGridViewer).2
    (Reachable.step _ _ (Op.setGridShown true) Reachable.new rfl setGridShown_new)).2 rfl
    shownGridViewer_max.2.2⟩

/-- Counterexample to C21 as stated, in three states that the public setters reach from
a fresh viewer.  After setGridCellCount(2^26), with cell size 1, the first sum
min + cellSize is rounded back to min: the loop of addGrid never leaves, whatever the
fuel, and setGridShown(true) does not return.  After setGridCellSize(3e38), with cell
count 50, max overflows to infinity and min + cellSize stays at minus infinity:
setGridShown(true) does not return.  After setGridCellCount(2^31) and
setGridShown(true), both of which return, the grid is shown and has no line: converted
to `int` the count is negative, and the loop of addGrid does not run. -/
theorem addGrid_loop_counterexample :
    (Reachable (fun v => v) (fun _ => True) stallCountViewer
      ∧ CloudViewer.new.setGridCellCount (2 ^ 26) = some stallCountViewer
      ∧ stallCountViewer.gridCellSize = 1
      ∧ (∀ (fuel id : Nat) (st : Visualizer × List String),
          CloudViewer.addGridLoop (F32.ofRat 1) (gridMax (2 ^ 26) 1).neg (gridMax (2 ^ 26) 1)
            fuel (gridMax (2 ^ 26) 1).neg id st = none)
      ∧ stallCountViewer.setGridShown true = none)
    ∧ (Reachable (fun v => v) (fun _ => True) hugeSizeViewer
      ∧ CloudViewer.new.setGridCellSize (3 * 10 ^ 38) = some hugeSizeViewer
      ∧ hugeSizeViewer.gridCellCount = 50
      ∧ gridMax 50 (3 * 10 ^ 38) = .posInf
      ∧ hugeSizeViewer.setGridShown true = none)
    ∧ (Reachable (fun v => v) (fun _ => True) shownEmptyGridViewer
      ∧ CloudViewer.new.setGridCellCount (2 ^ 31) = some hugeCountViewer
      ∧ hugeCountViewer.setGridShown true = some shownEmptyGridViewer
      ∧ shownEmptyGridViewer.isGridShown = true
      ∧ shownEmptyGridViewer.gridLines = []
      ∧ ¬ (2 ≤ shownEmptyGridViewer.gridLines.length)) := by
  have hsize : CloudViewer.new.setGridCellSize (3 * 10 ^ 38) = some hugeSizeViewer := by
    unfold CloudViewer.setGridCellSize
    rw [if_pos (by norm_num)]
    rfl
  refine ⟨⟨Reachable.step _ _ (Op.setGridCellCount (2 ^ 26)) Reachable.new trivial
      setGridCellCount_stallCount, setGridCellCount_stallCount,
    rfl, addGridLoop_stall _ _ _ _ stall_of_count.1 stall_of_count.2, ?_⟩,
    ⟨Reachable.step _ _ (Op.setGridCellSize (3 * 10 ^ 38)) Reachable.new trivial hsize,
      hsize, rfl, stall_of_size.1, ?_⟩,
    ⟨Reachable.step _ _ (Op.setGridShown true)
      (Reachable.step _ _ (Op.setGridCellCount (2 ^ 31)) Reachable.new trivial
        setGridCellCount_hugeCount) trivial
      setGridShown_hugeCount,
      setGridCellCount_hugeCount, setGridShown_hugeCount, rfl, rfl, by decide⟩⟩
  · unfold CloudViewer.setGridShown
    dsimp only
    rw [if_pos rfl]
    exact addGrid_none_of_stall _ rfl stall_of_count.1 stall_of_count.2
  · unfold CloudViewer.setGridShown
    dsimp only
    rw [if_pos rfl]
    exact addGrid_none_of_stall _ rfl stall_of_size.2.1 stall_of_size.2.2

/-! ## Settings round trip -/

/-- C3: for every state A a viewer can reach: whenever loading into a freshly
constructed viewer the settings written by saveSettings on A returns, the loaded viewer
has the same isGridShown, getGridCellCount, getGridCellSize, isTrajectoryShown,
getTrajectorySize, isFrustumShown, getFrustumScale, getFrustumColor and
getDefaultBackgroundColor as A; and the load returns when the grid of A is hidden, and
when the cell count of A is at most 2^25 - 3, its cell size is a positive `float` and
max = float(count/2) * cellSize is finite. -/
theorem settings_roundtrip (normalized : Vec3 → Vec3) (A : CloudViewer) (settings : QSettings)
    (group : String) (hA : Reachable normalized (fun _ => True) A) :
    (∀ B, CloudViewer.new.loadSettings (A.saveSettings settings group) group = some B →
      B.isGridShown = A.isGridShown
      ∧ B.getGridCellCount = A.getGridCellCount
      ∧ B.getGridCellSize = A.getGridCellSize
      ∧ B.isTrajectoryShown = A.isTrajectoryShown
      ∧ B.getTrajectorySize = A.getTrajectorySize
      ∧ B.isFrustumShown = A.isFrustumShown
      ∧ B.getFrustumScale = A.getFrustumScale
      ∧ B.getFrustumColor = A.getFrustumColor
      ∧ B.getDefaultBackgroundColor = A.getDefaultBackgroundColor)
    ∧ ((A.isGridShown = false
        ∨ (A.getGridCellCount ≤ 2 ^ 25 - 3
          ∧ ∃ c m : Int, 0 < c ∧ F32.ofRat A.getGridCellSize = .fin c
            ∧ gridMax A.getGridCellCount A.getGridCellSize = .fin m)) →
      ∃ B, CloudViewer.new.loadSettings (A.saveSettings settings group) group = some B) := by
  have hinv := (reachable_inv normalized _ A hA).2
  have hv := value_saveSettings A settings group
  have hcolor : (if (!A.getFrustumColor.isValid) = true then QColor.gray else A.getFrustumColor)
      = A.getFrustumColor := by
    have hc : A.getFrustumColor.isValid = true := hinv.2.2
    rw [hc]
    rfl
  constructor
  · intro B hB
    have hopt := loadSettings_displayOptions CloudViewer.new B
      (A.saveSettings settings group) group
      A.isGridShown A.getGridCellCount A.getGridCellSize A.isTrajectoryShown A.getTrajectorySize
      A.isFrustumShown A.getFrustumScale A.getFrustumColor A.getDefaultBackgroundColor
      hinv.1 hinv.2.1
      (fun d => (hv d).1) (fun d => (hv d).2.1) (fun d => (hv d).2.2.1)
      (fun d => (hv d).2.2.2.1) (fun d => (hv d).2.2.2.2.1) (fun d => (hv d).2.2.2.2.2.1)
      (fun d => (hv d).2.2.2.2.2.2.1) (fun d => (hv d).2.2.2.2.2.2.2.1)
      (fun d => (hv d).2.2.2.2.2.2.2.2) hB
    rw [hcolor] at hopt
    simp only [CloudViewer.displayOptions, Prod.mk.injEq] at hopt
    exact hopt
  · intro hcond
    have hshown : A.isGridShown = true → A.getGridCellCount ≤ 2 ^ 25 - 3
        ∧ ∃ c m : Int, 0 < c ∧ F32.ofRat A.getGridCellSize = .fin c
          ∧ gridMax A.getGridCellCount A.getGridCellSize = .fin m := by
      intro hb
      rcases hcond with h | h
      · rw [hb] at h
        exact absurd h (by decide)
      · exact h
    apply loadSettings_some CloudViewer.new (A.saveSettings settings group) group
      A.isGridShown A.getGridCellCount A.getGridCellSize hinv.1 hinv.2.1
      (fun d => (hv d).1) (fun d => (hv d).2.1) (fun d => (hv d).2.2.1)
    · intro _
      exact gridEndsAt_of_count 50 1 (2 ^ 149) _ (by decide) (by positivity) ofRat_one
        (gridMax_size_one 50 (by decide))
    · intro hb
      exact gridEndsAt_of_count _ 1 (2 ^ 149) _ (hshown hb).1 (by positivity) ofRat_one
        (gridMax_size_one _ (hshown hb).1)
    · intro hb
      obtain ⟨hn, c, m, hc, hC, hM⟩ := hshown hb
      exact gridEndsAt_of_count _ _ c m hn hc hC hM

/-- Witness of C3 on the state reached from a fresh viewer by setGridShown(true), whose
grid of 50 cells of size 1 is shown: the load returns, with the display options of the
state. -/
theorem settings_roundtrip_witness :
    Reachable (fun v => v) (fun _ => True) shownGridViewer
    ∧ shownGridViewer.isGridShown = true
    ∧ shownGridViewer.getGridCellCount ≤ 2 ^ 25 - 3
    ∧ (∃ c m : Int, 0 < c ∧ F32.ofRat shownGridViewer.getGridCellSize = .fin c
        ∧ gridMax shownGridViewer.getGridCellCount shownGridViewer.getGridCellSize = .fin m)
    ∧ ∃ B, CloudViewer.new.loadSettings (shownGridViewer.saveSettings [] "") "" = some B
      ∧ B.isGridShown = shownGridViewer.isGridShown
      ∧ B.getGridCellCount = shownGridViewer.getGridCellCount
      ∧ B.getGridCellSize = shownGridViewer.getGridCellSize
      ∧ B.isTrajectoryShown = shownGridViewer.isTrajectoryShown
      ∧ B.getTrajectorySize = shownGridViewer.getTrajectorySize
      ∧ B.isFrustumShown = shownGridViewer.isFrustumShown
      ∧ B.getFrustumScale = shownGridViewer.getFrustumScale
      ∧ B.getFrustumColor = shownGridViewer.getFrustumColor
      ∧ B.getDefaultBackgroundColor = shownGridViewer.getDefaultBackgroundColor :=
  ⟨Reachable.step _ _ (Op.setGridShown true) Reachable.new trivial setGridShown_new,
   rfl, by decide,
   ⟨2 ^ 149, 25 * 2 ^ 149, by positivity, shownGridViewer_max.1, shownGridViewer_max.2.1⟩,
   Exists.elim
    ((settings_roundtrip (fun v => v) shownGridViewer [] ""
      (Reachable.step _ _ (Op.setGridShown true) Reachable.new trivial setGridShown_new)).2
      (Or.inr ⟨by decide,
        ⟨2 ^ 149, 25 * 2 ^ 149, by positivity, shownGridViewer_max.1, shownGridViewer_max.2.1⟩⟩))
    (fun B hB => ⟨B, hB,
      (settings_roundtrip (fun v => v) shownGridViewer [] ""
        (Reachable.step _ _ (Op.setGridShown true) Reachable.new trivial setGridShown_new)).1
        B hB⟩)⟩

theorem wideGridViewer_max :
    F32.ofRat (5 / 4) = .fin (5 * 2 ^ 147)
    ∧ gridMax (50331648) (5 / 4) = .fin (15 * 2 ^ 170)
    ∧ 2 ^ F32.log2 ((15 * 2 ^ 170 + 5 * 2 ^ 147 : Int)).natAbs
        < (5 * 2 ^ 147 : Int).natAbs * 2 ^ 24 := by
  decide!

theorem stall_of_wide_count :
    (gridMax (50331648) 1).neg.le (gridMax (50331648) 1) = true
    ∧ (gridMax (50331648) 1).neg.add (F32.ofRat 1) = (gridMax (50331648) 1).neg := by
  decide!

/-- Counterexample to C3 as stated: a viewer reaches, by setGridCellSize(1.25),
setGridCellCount(50331648), which is 3 * 2^24, and setGridShown(true), all of which
return, a state A whose saved settings a fresh viewer does not load to the end.  The fresh viewer shows its
grid, then sets the cell count to 50331648 while its cell size is still 1: in the loop
of addGrid the first sum min + cellSize is rounded back to min, so that the loop never
leaves, whatever the fuel. -/
theorem settings_roundtrip_counterexample :
    ∃ A, Reachable (fun v => v) (fun _ => True) A
      ∧ A.isGridShown = true ∧ A.getGridCellCount = 50331648 ∧ A.getGridCellSize = 5 / 4
      ∧ CloudViewer.new.loadSettings (A.saveSettings [] "") "" = none
      ∧ ∀ (fuel id : Nat) (st : Visualizer × List String),
          CloudViewer.addGridLoop (F32.ofRat 1) (gridMax (50331648) 1).neg
            (gridMax (50331648) 1) fuel (gridMax (50331648) 1).neg id st = none := by
  obtain ⟨v, g, hA⟩ := addGrid_ends { wideGridViewer with aShowGrid := true } (5 * 2 ^ 147)
    (15 * 2 ^ 170) (by positivity) wideGridViewer_max.1 wideGridViewer_max.2.1
    wideGridViewer_max.2.2
  have hsize : CloudViewer.new.setGridCellSize (5 / 4)
      = some { CloudViewer.new with gridCellSize := 5 / 4 } := by
    unfold CloudViewer.setGridCellSize
    rw [if_pos (by norm_num)]
    rfl
  have hcount : ({ CloudViewer.new with gridCellSize := 5 / 4 } : CloudViewer).setGridCellCount
      (50331648) = some wideGridViewer := rfl
  have hshown : wideGridViewer.setGridShown true
      = some { wideGridViewer with aShowGrid := true, visualizer := v, gridLines := g } := by
    unfold CloudViewer.setGridShown
    dsimp only
    rw [if_pos rfl]
    exact hA
  refine ⟨{ wideGridViewer with aShowGrid := true, visualizer := v, gridLines := g },
    Reachable.step _ _ (Op.setGridShown true)
      (Reachable.step _ _ (Op.setGridCellCount (50331648))
        (Reachable.step _ _ (Op.setGridCellSize (5 / 4)) Reachable.new trivial hsize)
        trivial hcount) trivial hshown,
    rfl, rfl, rfl, ?_, addGridLoop_stall _ _ _ _ stall_of_wide_count.1 stall_of_wide_count.2⟩
  have hv := value_saveSettings
    ({ wideGridViewer with aShowGrid := true, visualizer := v, gridLines := g } : CloudViewer)
    [] ""
  have tb : ∀ b, (QVariant.bool b).toBool = b := fun _ => rfl
  have tu : ∀ k, (QVariant.uint k).toUInt = k := fun _ => rfl
  unfold CloudViewer.loadSettings
  simp only [(hv _).1, (hv _).2.1, tb, tu, Option.bind_eq_bind]
  generalize hg : CloudViewer.new.setCameraPosition _ _ _ _ _ _ _ _ _ = s1
  have c1 : s1.gridCellCount = 50 ∧ s1.gridCellSize = 1 := by
    rw [← hg]
    exact ⟨rfl, rfl⟩
  obtain ⟨v2, l2, e2⟩ := setGridShown_some s1 true (fun _ => by
    rw [c1.1, c1.2]
    exact gridEndsAt_of_count 50 1 (2 ^ 149) _ (by decide) (by positivity) ofRat_one
      (gridMax_size_one 50 (by decide)))
  have e3 : ({ s1 with aShowGrid := true, visualizer := v2, gridLines := l2 } :
      CloudViewer).setGridCellCount (50331648) = none := by
    unfold CloudViewer.setGridCellCount
    dsimp only
    rw [if_pos (by decide), if_pos rfl]
    apply addGrid_none_of_stall _ rfl
    · show (gridMax (50331648) s1.gridCellSize).neg.le _ = true
      rw [c1.2]
      exact stall_of_wide_count.1
    · show (gridMax (50331648) s1.gridCellSize).neg.add (F32.ofRat s1.gridCellSize) = _
      rw [c1.2]
      exact stall_of_wide_count.2
  have e2b : s1.setGridShown
      ({ wideGridViewer with aShowGrid := true, visualizer := v, gridLines := g } :
        CloudViewer).isGridShown
      = some { s1 with aShowGrid := true, visualizer := v2, gridLines := l2 } := e2
  have e3b : ({ s1 with aShowGrid := true, visualizer := v2, gridLines := l2 } :
      CloudViewer).setGridCellCount
      ({ wideGridViewer with aShowGrid := true, visualizer := v, gridLines := g } :
        CloudViewer).getGridCellCount = none := e3
  rw [e2b, Option.some_bind, e3b]
  rfl

/-! ## The frustum wireframe -/

/-- C23: every entry of frustum_indices is a valid index into the 5 frustum vertices
(also into the 5 points that addOrUpdateFrustum hands to the renderer), each of the 8
edges of the pyramid is a segment of the polyline, and every segment of the polyline
between consecutive indices is an edge of the pyramid. -/
theorem frustum_wireframe_well_formed (transform : Transform) (scale : ℚ) :
    CloudViewer.frustum_vertices.length / 3 = 5
    ∧ (CloudViewer.frustumPoints transform scale).length = 5
    ∧ (∀ i ∈ CloudViewer.frustum_indices, i < 5)
    ∧ (∀ e ∈ pyramidEdges,
        ∃ g ∈ polylineSegments CloudViewer.frustum_indices, sameEdge g e = true)
    ∧ (∀ g ∈ polylineSegments CloudViewer.frustum_indices,
        ∃ e ∈ pyramidEdges, sameEdge g e = true) := by
  refine ⟨rfl, ?_, by decide, by decide, by decide⟩
  simp [CloudViewer.frustumPoints, CloudViewer.frustum_vertices]

/-! ## The background colour -/

/-- C24: after setDefaultBackgroundColor(n) the default colour is n, and the current
colour is n if it was equal to the default before the call and is unchanged otherwise;
setBackgroundColor sets the current colour and leaves the default colour as it is. -/
theorem background_follows_default (s : CloudViewer) (n : QColor) :
    (s.setDefaultBackgroundColor n).getDefaultBackgroundColor = n
    ∧ (s.getBackgroundColor = s.getDefaultBackgroundColor →
        (s.setDefaultBackgroundColor n).getBackgroundColor = n)
    ∧ (s.getBackgroundColor ≠ s.getDefaultBackgroundColor →
        (s.setDefaultBackgroundColor n).getBackgroundColor = s.getBackgroundColor)
    ∧ (s.setBackgroundColor n).getDefaultBackgroundColor = s.getDefaultBackgroundColor
    ∧ (s.setBackgroundColor n).getBackgroundColor = n := by
  refine ⟨rfl, ?_, ?_, rfl, rfl⟩
  · intro h
    have h1 : s.currentBgColor = s.defaultBgColor := h
    show (if s.currentBgColor = s.defaultBgColor then s.setBackgroundColor n
      else s).currentBgColor = n
    rw [if_pos h1]
    rfl
  · intro h
    have h1 : ¬ s.currentBgColor = s.defaultBgColor := h
    show (if s.currentBgColor = s.defaultBgColor then s.setBackgroundColor n
      else s).currentBgColor = s.currentBgColor
    rw [if_neg h1]

/-- Witness of C24: on a fresh viewer (current and default colour black) the current
colour follows the new default; after setBackgroundColor(gray) it does not. -/
theorem background_follows_default_witness :
    CloudViewer.new.getBackgroundColor = CloudViewer.new.getDefaultBackgroundColor
    ∧ (CloudViewer.new.setDefaultBackgroundColor (QColor.rgb 255 255 255)).getBackgroundColor
        = QColor.rgb 255 255 255
    ∧ (CloudViewer.new.setBackgroundColor QColor.gray).getBackgroundColor
        ≠ (CloudViewer.new.setBackgroundColor QColor.gray).getDefaultBackgroundColor
    ∧ ((CloudViewer.new.setBackgroundColor QColor.gray).setDefaultBackgroundColor
          (QColor.rgb 255 255 255)).getBackgroundColor
        = (CloudViewer.new.setBackgroundColor QColor.gray).getBackgroundColor :=
  ⟨rfl,
   (background_follows_default CloudViewer.new (QColor.rgb 255 255 255)).2.1 rfl,
   by decide,
   (background_follows_default (CloudViewer.new.setBackgroundColor QColor.gray)
      (QColor.rgb 255 255 255)).2.2.1 (by decide)⟩

/-! ## The colour handler index and the opacity of the occupancy grid, at concrete inputs -/

theorem uassert_bind_some_eq {α : Type} (c : Bool) (f : Unit → Option α) (h : c = true) :
    (UASSERT c).bind f = f () := by
  subst h
  rfl


/-- C22 at the failing input: the cloud "c" with rgb and normals has nine colour
handlers and the handler of index 8 selected; replacing it by a cloud with normals and
without rgb registers eight handlers (indices 0 to 7), and the chain of tests of addCloud
keeps the previous index, so that updateColorHandlerIndex is called with 8. -/
theorem colorHandlerIndex_failing_input :
    ninthHandlerViewer.visualizer.getColorHandlerIndex "c" = 8
    ∧ CloudViewer.addCloudColorIndex 8 false true false = some 8
    ∧ registeredColorHandlers false true = 8
    ∧ (mapFind "c" (ninthHandlerViewer.addCloud "c" true Transform.getIdentity false true
        QColor.invalid).1.visualizer.clouds).map (fun a => a.colorHandlers) = some 8
    ∧ ¬ (8 < registeredColorHandlers false true) := by
  refine ⟨rfl, rfl, rfl, rfl, by decide⟩

/-- Whatever opacity is asked for, the "map" actor that `addOccupancyGridMap` leaves
for a map of positive size has the opacity 0.7 of line 687. -/
theorem occupancyGrid_opacity_fixed (s : CloudViewer) (r : CloudViewer × Bool) (m : Mat)
    (textured : Bool) (res xMin yMin opacity : ℚ)
    (hs : s.addOccupancyGridMap m textured res xMin yMin opacity = some r)
    (hx : (m.cols : ℚ) * res > 0 ∧ (m.rows : ℚ) * res > 0) :
    (mapFind "map" r.1.visualizer.clouds).map (fun a => a.opacity) = some 0.7 := by
  unfold CloudViewer.addOccupancyGridMap at hs
  simp only [Option.bind_eq_bind, Option.bind_eq_some, Option.pure_def] at hs
  obtain ⟨_, _, hs⟩ := hs
  generalize (if "map" ∉ mapKeys s.visualizer.shapes then s.visualizer.removeShape "map"
      else s.visualizer) = v1 at hs
  rw [if_pos hx] at hs
  split_ifs at hs with hin
  rw [← Option.some.inj hs]
  unfold CloudViewer.setCloudOpacity
  dsimp only
  rw [mapFind_mapUpdate, if_pos rfl]
  have hk : "map" ∈ mapKeys (mapUpdate "map"
      (fun a : CloudActor => { a with lighting := false }) (v1.addMesh textured "map").1.clouds) := by
    rw [mapKeys_mapUpdate]
    exact hin
  cases hf : mapFind "map" (mapUpdate "map"
      (fun a : CloudActor => { a with lighting := false }) (v1.addMesh textured "map").1.clouds) with
  | none =>
    have := (mapFind_isSome_iff "map" _).2 hk
    rw [hf] at this
    exact absurd this (by simp)
  | some a =>
    simp only [Option.map_some', Option.some.injEq]
    split_ifs with ho
    · rfl
    · exact not_not.1 ho

/-- With a single-channel 8-bit map and an accepted texture, `addOccupancyGridMap`
returns. -/
theorem addOccupancyGridMap_some (s : CloudViewer) (m : Mat) (res xMin yMin opacity : ℚ)
    (hm : m.channels = 1 ∧ m.type = 0) :
    ∃ r, s.addOccupancyGridMap m true res xMin yMin opacity = some r := by
  unfold CloudViewer.addOccupancyGridMap
  simp only [Option.bind_eq_bind, Option.pure_def]
  rw [uassert_bind_some_eq _ _ (decide_eq_true hm)]
  generalize (if "map" ∉ mapKeys s.visualizer.shapes then s.visualizer.removeShape "map"
      else s.visualizer) = v1
  split_ifs with hx hin
  · exact ⟨_, rfl⟩
  · exfalso
    apply hin
    by_cases h1 : "map" ∈ mapKeys v1.clouds
    · unfold Visualizer.addMesh
      rw [if_pos h1]
      exact h1
    · unfold Visualizer.addMesh
      rw [if_neg h1, if_pos rfl]
      show "map" ∈ mapKeys (("map", _) :: _)
      rw [mapKeys_cons]
      exact List.mem_cons_self _ _
  · exact ⟨_, rfl⟩

/-- C25 at the failing input: a 1x1 single-channel 8-bit map with resolution 1 is added
on a fresh viewer with the requested opacity 1; the call returns and the opacity of the
"map" actor of the renderer is 0.7. -/
theorem occupancyGrid_opacity_failing_input :
    ∃ r, CloudViewer.new.addOccupancyGridMap ⟨1, 1, 1, 0⟩ true 1 0 0 1 = some r
      ∧ (mapFind "map" r.1.visualizer.clouds).map (fun a => a.opacity) = some 0.7
      ∧ (0.7 : ℚ) ≠ 1 := by
  obtain ⟨r, hr⟩ := addOccupancyGridMap_some CloudViewer.new ⟨1, 1, 1, 0⟩ 1 0 0 1 ⟨rfl, rfl⟩
  exact ⟨r, hr, occupancyGrid_opacity_fixed _ _ _ _ _ _ _ _ hr (by norm_num), by norm_num⟩

/-! ## Rotation about an axis -/

theorem Vector3.ext_components {K : Type} (a b : Vector3 K) (hx : a.x = b.x) (hy : a.y = b.y)
    (hz : a.z = b.z) : a = b := by
  cases a
  cases b
  simp only [Vector3.mk.injEq]
  exact ⟨hx, hy, hz⟩

/-- With a unit axis `a` and `d = p - (a . p) a` of length `n`, the result of
`rotatePointAroundAxe` is `d cos + (a x d) sin + (a . p) a`. -/
theorem rotatePointAroundAxe_formula {K : Type} [Field K]
    (normalized : Vector3 K → Vector3 K) (norm : Vector3 K → K) (cos sin : K → K)
    (p a : Vector3 K) (angle n : K) (ha : a.dot a = 1)
    (hn : n * n = (p.sub (a.smul (a.dot p))).dot (p.sub (a.smul (a.dot p))))
    (hn0 : n ≠ 0)
    (hx : normalized (p.sub (a.smul (a.dot p))) = (p.sub (a.smul (a.dot p))).smul n⁻¹)
    (hm : norm ⟨n, 0, 0⟩ = n) :
    rotatePointAroundAxe normalized norm cos sin p a angle
      = (((p.sub (a.smul (a.dot p))).smul (cos angle)).add
          ((a.cross (p.sub (a.smul (a.dot p)))).smul (sin angle))).add (a.smul (a.dot p)) := by
  have had : a.dot (p.sub (a.smul (a.dot p))) = 0 := by
    obtain ⟨px, py, pz⟩ := p
    obtain ⟨ax, ay, az⟩ := a
    simp only [Vector3.dot, Vector3.sub, Vector3.smul] at ha ⊢
    linear_combination (-(ax * px + ay * py + az * pz)) * ha
  have hnd : (⟨(normalized (p.sub (a.smul (a.dot p)))).dot (p.sub (a.smul (a.dot p))),
      (a.cross (normalized (p.sub (a.smul (a.dot p))))).dot (p.sub (a.smul (a.dot p))),
      a.dot (p.sub (a.smul (a.dot p)))⟩ : Vector3 K) = ⟨n, 0, 0⟩ := by
    rw [hx, had]
    generalize p.sub (a.smul (a.dot p)) = d at hn
    obtain ⟨dx, dy, dz⟩ := d
    obtain ⟨ax, ay, az⟩ := a
    simp only [Vector3.dot, Vector3.smul, Vector3.cross, Vector3.mk.injEq] at hn ⊢
    refine ⟨?_, ?_, trivial⟩
    · field_simp
      linear_combination -hn
    · ring
  unfold rotatePointAroundAxe
  dsimp only
  rw [hnd, hm, hx, had]
  generalize p.sub (a.smul (a.dot p)) = d
  generalize a.dot p = t
  obtain ⟨dx, dy, dz⟩ := d
  obtain ⟨ax, ay, az⟩ := a
  simp only [Vector3.smul, Vector3.add, Vector3.cross, Vector3.mk.injEq]
  refine ⟨?_, ?_, ?_⟩ <;> field_simp <;> ring

/-- A vector `d cos + (a x d) sin + t a`, with `a` of unit length and `d` perpendicular
to `a`, has the component `t` along `a`, and its part perpendicular to `a` has the
squared length `(cos^2 + sin^2) |d|^2`. -/
theorem rotated_about_axis {K : Type} [Field K] (a d : Vector3 K) (t c s : K)
    (ha : a.dot a = 1) (had : a.dot d = 0) :
    a.dot (((d.smul c).add ((a.cross d).smul s)).add (a.smul t)) = t
    ∧ ((((d.smul c).add ((a.cross d).smul s)).add (a.smul t)).sub (a.smul t)).dot
        ((((d.smul c).add ((a.cross d).smul s)).add (a.smul t)).sub (a.smul t))
      = (c * c + s * s) * d.dot d := by
  obtain ⟨dx, dy, dz⟩ := d
  obtain ⟨ax, ay, az⟩ := a
  simp only [Vector3.dot, Vector3.smul, Vector3.add, Vector3.sub, Vector3.cross] at ha had ⊢
  constructor
  · linear_combination c * had + t * ha
  · linear_combination (s * s * (dx * dx + dy * dy + dz * dz)) * ha
      - (s * s * (ax * dx + ay * dy + az * dz)) * had

theorem dot_self_pos (d : Vector3 ℝ) (h : d ≠ ⟨0, 0, 0⟩) : 0 < d.dot d := by
  obtain ⟨dx, dy, dz⟩ := d
  simp only [Vector3.dot]
  by_contra hle
  have h0 : dx * dx + dy * dy + dz * dz = 0 :=
    le_antisymm (not_lt.1 hle)
      (add_nonneg (add_nonneg (mul_self_nonneg dx) (mul_self_nonneg dy)) (mul_self_nonneg dz))
  have hx : dx = 0 := by nlinarith [mul_self_nonneg dx, mul_self_nonneg dy, mul_self_nonneg dz]
  have hy : dy = 0 := by nlinarith [mul_self_nonneg dx, mul_self_nonneg dy, mul_self_nonneg dz]
  have hz : dz = 0 := by nlinarith [mul_self_nonneg dx, mul_self_nonneg dy, mul_self_nonneg dz]
  exact h (by rw [hx, hy, hz])

/-- Over the reals, with the real square root, cosine and sine, the result of
`rotatePointAroundAxe` for a unit axis and a point off the axis is
`d cos + (a x d) sin + (a . p) a`, where `d` is the part of the point perpendicular to
the axis. -/
theorem rotatePointAroundAxe_real (p a : Vector3 ℝ) (angle : ℝ) (ha : a.dot a = 1)
    (hp : Vector3.offAxis a p ≠ ⟨0, 0, 0⟩) :
    rotatePointAroundAxe (Vector3.normalized Real.sqrt) (Vector3.norm Real.sqrt) Real.cos
        Real.sin p a angle
      = (((Vector3.offAxis a p).smul (Real.cos angle)).add
          ((a.cross (Vector3.offAxis a p)).smul (Real.sin angle))).add (a.smul (a.dot p)) := by
  have hdd := dot_self_pos _ hp
  apply rotatePointAroundAxe_formula _ _ _ _ p a angle
    (Real.sqrt ((Vector3.offAxis a p).dot (Vector3.offAxis a p))) ha
  · exact Real.mul_self_sqrt hdd.le
  · exact (Real.sqrt_pos.2 hdd).ne'
  · rfl
  · show Real.sqrt (Vector3.dot _ _) = _
    simp only [Vector3.dot, mul_zero, add_zero]
    exact Real.sqrt_mul_self (Real.sqrt_nonneg _)

/-- C26: over the reals, for every axis a of unit length, every point p that is not on
the axis and every angle, the result r of rotatePointAroundAxe has the same component
along the axis (a . r = a . p) and the same distance from the axis
(|r - (a . r) a| = |p - (a . p) a|), and for the angle 0 the result is p itself. -/
theorem rotatePointAroundAxe_is_rotation (p a : Vector3 ℝ) (angle : ℝ) (ha : a.dot a = 1)
    (hp : Vector3.offAxis a p ≠ ⟨0, 0, 0⟩) :
    a.dot (rotatePointAroundAxe (Vector3.normalized Real.sqrt) (Vector3.norm Real.sqrt)
        Real.cos Real.sin p a angle) = a.dot p
    ∧ Vector3.norm Real.sqrt (Vector3.offAxis a
          (rotatePointAroundAxe (Vector3.normalized Real.sqrt) (Vector3.norm Real.sqrt)
            Real.cos Real.sin p a angle))
        = Vector3.norm Real.sqrt (Vector3.offAxis a p)
    ∧ rotatePointAroundAxe (Vector3.normalized Real.sqrt) (Vector3.norm Real.sqrt)
        Real.cos Real.sin p a 0 = p := by
  have had : a.dot (Vector3.offAxis a p) = 0 := by
    obtain ⟨px, py, pz⟩ := p
    obtain ⟨ax, ay, az⟩ := a
    simp only [Vector3.offAxis, Vector3.dot, Vector3.sub, Vector3.smul] at ha ⊢
    linear_combination (-(ax * px + ay * py + az * pz)) * ha
  have hr := rotated_about_axis a (Vector3.offAxis a p) (a.dot p) (Real.cos angle)
    (Real.sin angle) ha had
  have hcs : Real.cos angle * Real.cos angle + Real.sin angle * Real.sin angle = 1 := by
    have := Real.cos_sq_add_sin_sq angle
    nlinarith [this]
  refine ⟨?_, ?_, ?_⟩
  · rw [rotatePointAroundAxe_real p a angle ha hp]
    exact hr.1
  · rw [rotatePointAroundAxe_real p a angle ha hp]
    unfold Vector3.norm
    congr 1
    show (Vector3.sub _ (a.smul (a.dot _))).dot (Vector3.sub _ (a.smul (a.dot _))) = _
    rw [hr.1, hr.2, hcs, one_mul]
  · rw [rotatePointAroundAxe_real p a 0 ha hp, Real.cos_zero, Real.sin_zero]
    obtain ⟨px, py, pz⟩ := p
    obtain ⟨ax, ay, az⟩ := a
    simp only [Vector3.offAxis, Vector3.dot, Vector3.sub, Vector3.smul, Vector3.add,
      Vector3.cross, Vector3.mk.injEq]
    refine ⟨?_, ?_, ?_⟩ <;> ring

/-- Witness of C26: the axis `(0, 0, 1)`, the point `(3, 4, 5)` and the angle 1. -/
theorem rotatePointAroundAxe_is_rotation_witness :
    (⟨0, 0, 1⟩ : Vector3 ℝ).dot ⟨0, 0, 1⟩ = 1
    ∧ Vector3.offAxis (⟨0, 0, 1⟩ : Vector3 ℝ) ⟨3, 4, 5⟩ ≠ ⟨0, 0, 0⟩
    ∧ (⟨0, 0, 1⟩ : Vector3 ℝ).dot (rotatePointAroundAxe (Vector3.normalized Real.sqrt)
        (Vector3.norm Real.sqrt) Real.cos Real.sin ⟨3, 4, 5⟩ ⟨0, 0, 1⟩ 1)
        = (⟨0, 0, 1⟩ : Vector3 ℝ).dot ⟨3, 4, 5⟩
    ∧ Vector3.norm Real.sqrt (Vector3.offAxis ⟨0, 0, 1⟩
          (rotatePointAroundAxe (Vector3.normalized Real.sqrt) (Vector3.norm Real.sqrt)
            Real.cos Real.sin ⟨3, 4, 5⟩ ⟨0, 0, 1⟩ 1))
        = Vector3.norm Real.sqrt (Vector3.offAxis (⟨0, 0, 1⟩ : Vector3 ℝ) ⟨3, 4, 5⟩)
    ∧ rotatePointAroundAxe (Vector3.normalized Real.sqrt) (Vector3.norm Real.sqrt)
        Real.cos Real.sin (⟨3, 4, 5⟩ : Vector3 ℝ) ⟨0, 0, 1⟩ 0 = ⟨3, 4, 5⟩ :=
  have ha : (⟨0, 0, 1⟩ : Vector3 ℝ).dot ⟨0, 0, 1⟩ = 1 := by
    simp [Vector3.dot]
  have hp : Vector3.offAxis (⟨0, 0, 1⟩ : Vector3 ℝ) ⟨3, 4, 5⟩ ≠ ⟨0, 0, 0⟩ := by
    intro h
    have hx := congrArg Vector3.x h
    simp [Vector3.offAxis, Vector3.sub, Vector3.smul, Vector3.dot] at hx
  ⟨ha, hp, rotatePointAroundAxe_is_rotation ⟨3, 4, 5⟩ ⟨0, 0, 1⟩ 1 ha hp⟩

/-- The function run on rationals: the point `(3, 4, 5)` about the axis `(0, 0, 1)` by
the angle of cosine 3/5 and sine 4/5, the library functions replaced by their values at
the arguments that occur (norm 5). -/
theorem rotatePointAroundAxe_sample :
    rotatePointAroundAxe (fun v : Vector3 ℚ => v.smul (1 / 5)) (fun _ => 5) (fun _ => 3 / 5)
      (fun _ => 4 / 5) ⟨3, 4, 5⟩ ⟨0, 0, 1⟩ 1 = ⟨-7 / 5, 24 / 5, 5⟩ := by
  simp only [rotatePointAroundAxe, Vector3.dot, Vector3.smul, Vector3.sub, Vector3.add,
    Vector3.cross, Vector3.mk.injEq]
  norm_num

end Rtabmap
